import Mathlib

/-!
# Building geometry: generation and collision queries

A shallow embedding of `src/src/building_geom.cpp` (3DWorld building generator).

Conventions of the embedding:

* `float` values are exact rationals (`ℚ`): every statement below is about the
  arithmetic the code writes down, not about IEEE rounding.
* `d[dim][dir]` of a `cube_t` is `c.d dim dir` with `dim : Nat` (0 = x, 1 = y, 2 = z) and
  `dir : Bool` (`false` = low side, `true` = high side); a `bool dim` of the source is mapped
  to an axis with `Bool.toNat`.
* Random draws are inputs: either explicit arguments or results of the operations of an
  abstract generator (`RandOps`).
* A failed `assert` is `none`.
-/

namespace Building

/-! ## Geometry primitives -/

/-- A `point` / `vector3d` of the source. -/
structure point where
  x : ℚ
  y : ℚ
  z : ℚ
deriving DecidableEq, Repr

/-- Component access `p[i]`. -/
def point.get (p : point) (i : Nat) : ℚ :=
  match i with
  | 0 => p.x
  | 1 => p.y
  | _ => p.z

/-- An axis-aligned box `cube_t`: the six entries of `d[3][2]`. -/
structure cube_t where
  x1 : ℚ
  x2 : ℚ
  y1 : ℚ
  y2 : ℚ
  z1 : ℚ
  z2 : ℚ
deriving DecidableEq, Repr

/-- Read access `c.d[dim][dir]`. -/
def cube_t.d (c : cube_t) (dim : Nat) (dir : Bool) : ℚ :=
  match dim, dir with
  | 0, false => c.x1
  | 0, true => c.x2
  | 1, false => c.y1
  | 1, true => c.y2
  | _, false => c.z1
  | _, true => c.z2

/-- Write access `c.d[dim][dir] = v`. -/
def cube_t.set (c : cube_t) (dim : Nat) (dir : Bool) (v : ℚ) : cube_t :=
  match dim, dir with
  | 0, false => { c with x1 := v }
  | 0, true => { c with x2 := v }
  | 1, false => { c with y1 := v }
  | 1, true => { c with y2 := v }
  | _, false => { c with z1 := v }
  | _, true => { c with z2 := v }

/-- Modelled from the spec: `cube_t::get_llc` (declared in a header that is not under `src/`),
the lower-left corner of the box. -/
def cube_t.get_llc (c : cube_t) : point := ⟨c.x1, c.y1, c.z1⟩

/-- Modelled from the spec: `cube_t::get_size` (header not under `src/`), the extents of the box. -/
def cube_t.get_size (c : cube_t) : point := ⟨c.x2 - c.x1, c.y2 - c.y1, c.z2 - c.z1⟩

/-- Modelled from the spec: `cube_t::get_cube_center` (header not under `src/`). -/
def cube_t.get_cube_center (c : cube_t) : point :=
  ⟨(c.x1 + c.x2) / 2, (c.y1 + c.y2) / 2, (c.z1 + c.z2) / 2⟩

/-- Extent accessors `dx()`, `dy()`, `dz()` (header not under `src/`). -/
def cube_t.dx (c : cube_t) : ℚ := c.x2 - c.x1

/-- Extent along y. -/
def cube_t.dy (c : cube_t) : ℚ := c.y2 - c.y1

/-- Extent along z. -/
def cube_t.dz (c : cube_t) : ℚ := c.z2 - c.z1

/-- Modelled from the spec: `cube_t::is_strictly_normalized` (header not under `src/`):
"strictly positive extents in all three axes". -/
def cube_t.is_strictly_normalized (c : cube_t) : Prop :=
  c.x1 < c.x2 ∧ c.y1 < c.y2 ∧ c.z1 < c.z2

instance (c : cube_t) : Decidable c.is_strictly_normalized := by
  unfold cube_t.is_strictly_normalized; infer_instance

/-- Modelled from the spec: `cube_t::union_with_cube` (header not under `src/`): the tightest
box enclosing both. -/
def cube_t.union_with_cube (c o : cube_t) : cube_t :=
  ⟨min c.x1 o.x1, max c.x2 o.x2, min c.y1 o.y1, max c.y2 o.y2, min c.z1 o.z1, max c.z2 o.z2⟩

/-- Modelled from the spec: `cube_t::union_with_pt` (header not under `src/`). -/
def cube_t.union_with_pt (c : cube_t) (p : point) : cube_t :=
  ⟨min c.x1 p.x, max c.x2 p.x, min c.y1 p.y, max c.y2 p.y, min c.z1 p.z, max c.z2 p.z⟩

/-- Modelled from the spec: `cube_t::set_from_point` (header not under `src/`). -/
def cube_t.set_from_point (p : point) : cube_t := ⟨p.x, p.x, p.y, p.y, p.z, p.z⟩

/-- Modelled from the spec: `cube_t::contains_cube` (header not under `src/`): closed containment
of `o` in `c` on all three axes. -/
def cube_t.contains_cube (c o : cube_t) : Prop :=
  c.x1 ≤ o.x1 ∧ o.x2 ≤ c.x2 ∧ c.y1 ≤ o.y1 ∧ o.y2 ≤ c.y2 ∧ c.z1 ≤ o.z1 ∧ o.z2 ≤ c.z2

instance (c o : cube_t) : Decidable (c.contains_cube o) := by
  unfold cube_t.contains_cube; infer_instance

/-- Modelled from the spec: `cube_t::contains_cube_xy` (header not under `src/`). -/
def cube_t.contains_cube_xy (c o : cube_t) : Prop :=
  c.x1 ≤ o.x1 ∧ o.x2 ≤ c.x2 ∧ c.y1 ≤ o.y1 ∧ o.y2 ≤ c.y2

instance (c o : cube_t) : Decidable (c.contains_cube_xy o) := by
  unfold cube_t.contains_cube_xy; infer_instance

/-- Modelled from the spec: `cube_t::contains_pt` (header not under `src/`): closed containment
of a point. -/
def cube_t.contains_pt (c : cube_t) (p : point) : Prop :=
  c.x1 ≤ p.x ∧ p.x ≤ c.x2 ∧ c.y1 ≤ p.y ∧ p.y ≤ c.y2 ∧ c.z1 ≤ p.z ∧ p.z ≤ c.z2

instance (c : cube_t) (p : point) : Decidable (c.contains_pt p) := by
  unfold cube_t.contains_pt; infer_instance

/-- The open interiors of two boxes meet: on every axis the overlap has positive length. -/
def cube_t.interiors_overlap (a b : cube_t) : Prop :=
  max a.x1 b.x1 < min a.x2 b.x2 ∧ max a.y1 b.y1 < min a.y2 b.y2 ∧ max a.z1 b.z1 < min a.z2 b.z2

instance (a b : cube_t) : Decidable (a.interiors_overlap b) := by
  unfold cube_t.interiors_overlap; infer_instance

/-! ## `calc_bcube_from_parts` (lines 414-418) -/

/-- The loop of `calc_bcube_from_parts`: `bcube = parts[0]`, then union with every later part.
The `assert(!parts.empty())` is the `none` case. -/
def calc_bcube_from_parts (parts : List cube_t) : Option cube_t :=
  match parts with
  | [] => none
  | p :: ps => some (ps.foldl cube_t.union_with_cube p)

/-! ## `building_t::split_in_xy` (lines 18-66) -/

/-- Lines 27-65 of `split_in_xy`, after the random draws `shape`, `dim`, `dir`, `div`, `s1`,
`s2` have been made: `parts.resize(start+num, seed_cube)` followed by the 9-way switch.
`default: assert(0)` is `none`. -/
def split_in_xy_body (parts : List cube_t) (seed_cube : cube_t) (shape : Nat) (dim dir : Bool)
    (div s1 s2 : ℚ) : Option (List cube_t) :=
  let llc := seed_cube.get_llc
  let sz := seed_cube.get_size
  let dm := dim.toNat
  let od := (!dim).toNat
  let dpos := llc.get dm + div * sz.get dm
  let spos1 := llc.get od + s1 * sz.get od
  let spos2 := llc.get od + s2 * sz.get od
  -- parts[start+0].d[dim][dir] = dpos; parts[start+1].d[dim][!dir] = dpos;
  let p0 := seed_cube.set dm dir dpos
  let p1 := seed_cube.set dm (!dir) dpos
  let p2 := seed_cube
  match shape with
  | 0 => some (parts ++ [p0, p1.set od false spos1])
  | 1 => some (parts ++ [p0, p1.set od false spos2])
  | 2 => some (parts ++ [p0, p1.set od true spos1])
  | 3 => some (parts ++ [p0, p1.set od true spos2])
  | 4 | 5 => some (parts ++ [p0, (p1.set od false spos1).set od true spos2])
  | 6 =>
    some (parts ++ [p0, p1.set od true spos1, (p2.set dm (!dir) dpos).set od false spos2])
  | 7 =>
    let dpos2 := llc.get dm + (1 - div) * sz.get dm
    some (parts ++ [p0, ((p1.set dm dir dpos2).set od false spos1).set od true spos2,
      p2.set dm (!dir) dpos2])
  | 8 =>
    let dpos2 := llc.get dm + (1 - div) * sz.get dm
    some (parts ++ [(p0.set od false spos1).set od true spos2, p1.set dm dir dpos2,
      ((p2.set od false spos1).set od true spos2).set dm (!dir) dpos2])
  | _ => none


/-! ## `building_t::adjust_part_zvals_for_floor_spacing` (lines 420-428) -/

/-- Modelled from the spec: `round_fp` (declared in a header that is not under `src/`): rounding
to the nearest integer, written as the truncation of `val + 0.5` (positive `val`) or `val - 0.5`
(otherwise). -/
def round_fp (val : ℚ) : ℤ :=
  if val > 0 then ⌊val + 1 / 2⌋ else ⌈val - 1 / 2⌉

/-- The body of `adjust_part_zvals_for_floor_spacing`. `exact_mult` is the compile-time constant
`EXACT_MULT_FLOOR_HEIGHT` (defined outside `src/`), `floor_spacing` is
`get_material().get_floor_spacing()`. The failed `assert` is `none`. -/
def adjust_part_zvals_for_floor_spacing (exact_mult : Bool) (floor_spacing : ℚ) (c : cube_t) :
    Option cube_t :=
  if !exact_mult then some c
  else
    let dz := c.dz
    if dz > 0 ∧ floor_spacing > 0 then
      let num_floors : ℚ := dz / floor_spacing
      let targ_num_floors : ℤ := max 1 (round_fp num_floors)
      some { c with z2 := c.z2 + floor_spacing * ((targ_num_floors : ℚ) - num_floors) }
    else none

/-! ## Interior helpers (lines 921-981) -/

/-- The function `remove_section_from_cube`: `c` is cut at `[v1, v2]` along axis `xy`; the result
is the pair (new `c`, `c2`). The failed `assert` is `none`. -/
def remove_section_from_cube (c : cube_t) (v1 v2 : ℚ) (xy : Bool) : Option (cube_t × cube_t) :=
  if v1 > c.d xy.toNat false ∧ v1 < v2 ∧ v2 < c.d xy.toNat true then
    let c2 := c
    some (c.set xy.toNat true v1, c2.set xy.toNat false v2)
  else none

/-- The function `calc_num_floors`. The conversion of the `int` returned by `round_fp` to
`unsigned` is the reduction modulo `2^32`; either failed `assert` is `none`. -/
def calc_num_floors (c : cube_t) (window_vspacing floor_thickness : ℚ) : Option Nat :=
  let z_span := c.dz - floor_thickness
  if z_span > 0 then
    let num_floors : Nat := (round_fp (z_span / window_vspacing) % 4294967296).toNat
    if num_floors ≤ 100 then some num_floors else none
  else none

/-! ## Floor and ceiling slabs of `gen_interior` (lines 1169-1180) -/

/-- The loop `for (f = 0; f <= num_floors; ++f, z += window_vspacing)` of `gen_interior`:
`k` is the number of iterations left, `f` the loop counter, `z` the running boundary height.
Returns the extended `(ceilings, floors)`. -/
def gen_interior_slab_loop (p : cube_t) (num_floors : Nat) (window_vspacing fc_thick : ℚ) :
    Nat → Nat → ℚ → List cube_t × List cube_t → List cube_t × List cube_t
  | 0, _, _, acc => acc
  | k + 1, f, z, (ceilings, floors) =>
    let ceilings1 :=
      if f > 0 then ceilings ++ [{ p with z1 := z - fc_thick, z2 := z }] else ceilings
    let floors1 :=
      if f < num_floors then floors ++ [{ p with z1 := z, z2 := z + fc_thick }] else floors
    gen_interior_slab_loop p num_floors window_vspacing fc_thick k (f + 1) (z + window_vspacing)
      (ceilings1, floors1)

/-- What one iteration of the per-part loop of `gen_interior` does to
`(interior->ceilings, interior->floors)`: lines 1007-1008 (`calc_num_floors`, skip the part when
it has no floor) and lines 1172-1180 (the slab loop). The walls and rooms generated in between
(lines 1010-1168) are written to other containers. -/
def gen_interior_part_slabs (p : cube_t) (window_vspacing : ℚ)
    (slabs : List cube_t × List cube_t) : Option (List cube_t × List cube_t) :=
  let floor_thickness := (1 / 10) * window_vspacing
  let fc_thick := (1 / 2) * floor_thickness
  match calc_num_floors p window_vspacing floor_thickness with
  | none => none
  | some 0 => some slabs
  | some num_floors =>
    some (gen_interior_slab_loop p num_floors window_vspacing fc_thick (num_floors + 1) 0 p.z1
      slabs)

/-- Two boxes have z-intervals whose open interiors meet. -/
def cube_t.z_overlap (a b : cube_t) : Prop := max a.z1 b.z1 < min a.z2 b.z2

instance (a b : cube_t) : Decidable (a.z_overlap b) := by
  unfold cube_t.z_overlap; infer_instance

/-! ## Rotation about the footprint centre -/

/-- Modelled from the spec: `do_xy_rotate` (declared in a header that is not under `src/`):
the rotation of `pos` about `center` in the XY plane by the angle whose sine and cosine are
`rot_sin` and `rot_cos`; `z` is left alone. -/
def do_xy_rotate (rot_sin rot_cos : ℚ) (center pos : point) : point :=
  let x := pos.x - center.x
  let y := pos.y - center.y
  { pos with x := x * rot_cos - y * rot_sin + center.x, y := y * rot_cos + x * rot_sin + center.y }

/-! ## The building record -/

/-- Vector sum `a + b`. -/
def point.add (a b : point) : point := ⟨a.x + b.x, a.y + b.y, a.z + b.z⟩

/-- Vector difference `a - b`. -/
def point.sub (a b : point) : point := ⟨a.x - b.x, a.y - b.y, a.z - b.z⟩

/-- Scaling `s * a`. -/
def point.smul (s : ℚ) (a : point) : point := ⟨s * a.x, s * a.y, s * a.z⟩

/-- The constant `plus_z`. -/
def plus_z : point := ⟨0, 0, 1⟩

/-- The constant `all_zeros`. -/
def all_zeros : point := ⟨0, 0, 0⟩

/-- Translation of a box, `c + xlate`. -/
def cube_t.xlate (c : cube_t) (v : point) : cube_t :=
  ⟨c.x1 + v.x, c.x2 + v.x, c.y1 + v.y, c.y2 + v.y, c.z1 + v.z, c.z2 + v.z⟩

/-- Modelled from the spec: `cube_t::contains_pt_xy` (header not under `src/`). -/
def cube_t.contains_pt_xy (c : cube_t) (p : point) : Prop :=
  c.x1 ≤ p.x ∧ p.x ≤ c.x2 ∧ c.y1 ≤ p.y ∧ p.y ≤ c.y2

instance (c : cube_t) (p : point) : Decidable (c.contains_pt_xy p) := by
  unfold cube_t.contains_pt_xy; infer_instance

/-- A `tquad_with_ix_t`: a triangle or quad (`npts` is the length of `pts`) with its type tag. -/
structure tquad_with_ix_t where
  pts : List point
  type : Nat
deriving DecidableEq, Repr

/-- The fields of `building_mat_t` that the generator reads. `floor_spacing` and `window_tx`
stand for `get_floor_spacing()` and `get_window_tx()`. -/
structure building_mat_t where
  max_rot_angle : ℚ
  round_prob : ℚ
  cube_prob : ℚ
  min_sides : Nat
  max_sides : Nat
  min_fsa : ℚ
  max_fsa : ℚ
  min_asf : ℚ
  max_asf : ℚ
  asf_prob : ℚ
  min_levels : Nat
  max_levels : Nat
  min_level_height : ℚ
  split_prob : ℚ
  no_city : Bool
  add_windows : Bool
  floor_spacing : ℚ
  window_tx : ℚ
deriving DecidableEq, Repr

/-- The interior of a building: `walls[0]`, `walls[1]`, floors, ceilings, rooms and the cubes of
`room_geom` when it is allocated. -/
structure building_interior_t where
  walls0 : List cube_t
  walls1 : List cube_t
  floors : List cube_t
  ceilings : List cube_t
  rooms : List cube_t
  room_geom : Option (List cube_t)
deriving DecidableEq, Repr

/-- The fields of `building_t` used by `building_geom.cpp`. `mat` is the material that
`get_material()` looks up for the building. -/
structure building_t where
  bcube : cube_t
  parts : List cube_t
  details : List cube_t
  roof_tquads : List tquad_with_ix_t
  doors : List tquad_with_ix_t
  interior : Option building_interior_t
  num_sides : Nat
  rot_sin : ℚ
  rot_cos : ℚ
  flat_side_amt : ℚ
  alt_step_factor : ℚ
  start_angle : ℚ
  half_offset : Bool
  is_house : Bool
  has_chimney : Bool
  has_antenna : Bool
  hallway_dim : Nat
  door_sides : List Nat
  detail_color : ℚ
  ao_bcz2 : ℚ
  mat : building_mat_t
deriving DecidableEq, Repr

/-- Everything `building_geom.cpp` uses that is declared outside `src/`: compile-time constants,
global parameters, inline predicates of `building_t` and geometric helper functions. They are
parameters of the embedding; theorems hold for every choice of them unless they say otherwise. -/
structure Env where
  EXACT_MULT_FLOOR_HEIGHT : Bool
  ADD_BUILDING_INTERIORS : Bool
  MAX_CYLIN_SIDES : Nat
  TWO_PI : ℚ
  world_mode_inf_terrain : Bool
  windows_enabled : Bool
  window_width_fract : ℚ
  wall_split_thresh : ℚ
  force_dim_oob : Nat
  get_door_height : building_t → ℚ
  is_valid : building_t → Bool
  is_rotated : building_t → Bool
  is_cube : building_t → Bool
  is_simple_cube : building_t → Bool
  use_cylinder_coll : building_t → Bool
  sqrt : ℚ → ℚ
  sin : ℚ → ℚ
  cos : ℚ → ℚ
  fract : ℚ → ℚ
  clip_low_high : ℚ → ℚ → ℚ × ℚ
  calc_poly_pts : building_t → cube_t → List point
  point_in_polygon_2d : ℚ → ℚ → List point → Nat → Bool
  get_poly_norm : List point → point
  dot_product_ptv : point → point → point → ℚ
  sphere_poly_intersect : List point → Nat → point → point → ℚ → ℚ → Bool
  dist_xy_less_than : point → point → ℚ → Bool
  sphere_cube_intersect : point → ℚ → cube_t → point → Bool → Bool → Bool
  sphere_cube_int_update_pos :
    point → ℚ → cube_t → point → Bool → Bool → Option point → Bool × point × Option point
  tquad_get_norm : tquad_with_ix_t → point
  check_line_clip : point → point → cube_t → Bool
  get_line_clip : point → point → cube_t → Option (ℚ × ℚ)
  line_poly_intersect : point → point → List point → Nat → point → Option ℚ
  line_int_cylinder : point → point → point → point → ℚ → ℚ → Bool → Option ℚ
  point_in_ellipse : point → point → ℚ → ℚ → Bool
  point_in_ellipse_risq : point → point → ℚ → ℚ → Bool
  cube_intersects : cube_t → cube_t → Bool

/-! ## `building_t::test_coll_with_sides` (lines 143-172) -/

/-- The four corners of the side quad `S` (lines 152-155): the polygon points `S` and `S+1`
(mod `num_sides`), each at the z-values `part.d[2][d^e]`. -/
def side_quad_pts (points : List point) (num_sides : Nat) (part : cube_t) (S : Nat) :
    List point :=
  let p0 := points.getD (S % num_sides) all_zeros
  let p1 := points.getD ((S + 1) % num_sides) all_zeros
  [⟨p0.x, p0.y, part.z1⟩, ⟨p0.x, p0.y, part.z2⟩, ⟨p1.x, p1.y, part.z2⟩, ⟨p1.x, p1.y, part.z1⟩]

/-- The loop over the sides in `test_coll_with_sides` (lines 151-163), for the side indices in
the list, on the state `(pos, *cnorm, updated)`. -/
def test_coll_sides_loop (env : Env) (points : List point) (num_sides : Nat) (radius : ℚ)
    (part : cube_t) : List Nat → point × Option point × Bool → point × Option point × Bool
  | [], st => st
  | S :: rest, (pos, cnorm, updated) =>
    let quad_pts := side_quad_pts points num_sides part S
    let normal := env.get_poly_norm quad_pts
    let rdist := env.dot_product_ptv normal pos (quad_pts.getD 0 all_zeros)
    if rdist < 0 ∨ rdist ≥ radius then
      test_coll_sides_loop env points num_sides radius part rest (pos, cnorm, updated)
    else if !env.sphere_poly_intersect quad_pts 4 pos normal rdist radius then
      test_coll_sides_loop env points num_sides radius part rest (pos, cnorm, updated)
    else
      test_coll_sides_loop env points num_sides radius part rest
        (pos.add (point.smul (radius - rdist) normal), cnorm.map (fun _ => normal), true)

/-- The function `test_coll_with_sides`: returns the result flag, the new `pos` and the new
`*cnorm` (`none` when the pointer is null). -/
def test_coll_with_sides (env : Env) (b : building_t) (pos p_last : point) (radius : ℚ)
    (part : cube_t) (cnorm : Option point) : Bool × point × Option point :=
  let points := env.calc_poly_pts b part
  let (pos1, cnorm1, updated) :=
    test_coll_sides_loop env points b.num_sides radius part (List.range b.num_sides)
      (pos, cnorm, false)
  if updated then (true, pos1, cnorm1)
  else if max pos1.z p_last.z > part.z2 ∧
      env.point_in_polygon_2d pos1.x pos1.y points b.num_sides = true then
    (true, { pos1 with z := part.z2 + radius }, cnorm1.map (fun _ => plus_z))
  else (false, pos1, cnorm1)

/-! ## `building_t::check_sphere_coll` (lines 174-274) -/

/-- The function `check_sphere_coll_interior`: walls of both axes (z skipped), then floors unless
`xy_only`, then the room cubes. Returns `(had_coll, pos, *cnorm)`. The `assert(interior)` is
discharged by the argument. -/
def check_sphere_coll_interior (env : Env) (interior : building_interior_t) (pos p_last xlate : point)
    (radius : ℚ) (xy_only : Bool) (cnorm : Option point) : Bool × point × Option point :=
  let step (skip_z : Bool) (st : Bool × point × Option point) (c : cube_t) :
      Bool × point × Option point :=
    let r := env.sphere_cube_int_update_pos st.2.1 radius (c.xlate xlate) p_last true skip_z st.2.2
    (st.1 || r.1, r.2.1, r.2.2)
  let st0 : Bool × point × Option point := (false, pos, cnorm)
  let st1 := interior.walls0.foldl (step true) st0
  let st2 := interior.walls1.foldl (step true) st1
  let st3 := if !xy_only then interior.floors.foldl (step xy_only) st2 else st2
  match interior.room_geom with
  | some cubes => cubes.foldl (step true) st3
  | none => st3

/-- The local state of `check_sphere_coll` while it scans the geometry. -/
structure sphere_coll_state where
  pos2 : point
  had_coll : Bool
  is_interior : Bool
  cnorm : Option point

/-- The loop over the parts in `check_sphere_coll` (lines 190-225). -/
def check_sphere_coll_parts (env : Env) (b : building_t) (p_last2 xlate : point) (radius : ℚ)
    (xy_only check_interior : Bool) : List cube_t → sphere_coll_state → sphere_coll_state
  | [], st => st
  | i :: rest, st =>
    let next := check_sphere_coll_parts env b p_last2 xlate radius xy_only check_interior rest
    if xy_only = true ∧ i.z1 > b.bcube.z1 then st
    else if xy_only = false ∧
        (st.pos2.z + radius < i.z1 + xlate.z ∨ st.pos2.z - radius > i.z2 + xlate.z) then next st
    else if radius = 0 ∧
        ¬ (if xy_only then i.contains_pt_xy st.pos2 else i.contains_pt st.pos2) then next st
    else if env.use_cylinder_coll b then
      let cc := i.get_cube_center.add xlate
      let crx := (1 / 2) * i.dx
      let cry := (1 / 2) * i.dy
      let r_sum := radius + max crx cry
      if !env.dist_xy_less_than st.pos2 cc r_sum then next st
      else if |crx - cry| < radius then
        if p_last2.z > i.z2 + xlate.z ∧ env.dist_xy_less_than st.pos2 cc (max crx cry) = true then
          next { st with pos2 := { st.pos2 with z := i.z2 + radius }
                         cnorm := st.cnorm.map (fun _ => plus_z)
                         had_coll := true }
        else
          let dx := st.pos2.x - cc.x
          let dy := st.pos2.y - cc.y
          let mult := r_sum / env.sqrt (dx * dx + dy * dy)
          let m := env.sqrt (dx * dx + dy * dy + 0 * 0)
          next { st with pos2 := { st.pos2 with x := cc.x + mult * dx, y := cc.y + mult * dy }
                         cnorm := st.cnorm.map (fun _ => ⟨dx / m, dy / m, 0 / m⟩)
                         had_coll := true }
      else
        let r := test_coll_with_sides env b st.pos2 p_last2 radius (i.xlate xlate) st.cnorm
        next { st with pos2 := r.2.1, cnorm := r.2.2, had_coll := st.had_coll || r.1 }
    else if b.num_sides ≠ 4 then
      let r := test_coll_with_sides env b st.pos2 p_last2 radius (i.xlate xlate) st.cnorm
      next { st with pos2 := r.2.1, cnorm := r.2.2, had_coll := st.had_coll || r.1 }
    else
      let r := env.sphere_cube_int_update_pos st.pos2 radius (i.xlate xlate) p_last2 true xy_only
        st.cnorm
      if r.1 then
        next { pos2 := r.2.1, cnorm := r.2.2, had_coll := true,
               is_interior := if check_interior = true ∧ b.interior.isSome then true
                              else st.is_interior }
      else next { st with pos2 := r.2.1, cnorm := r.2.2 }

/-- The loop over the detail boxes in `check_sphere_coll` (lines 227-229). -/
def check_sphere_coll_details (env : Env) (p_last2 xlate : point) (radius : ℚ) (xy_only : Bool)
    (details : List cube_t) (st : sphere_coll_state) : sphere_coll_state :=
  details.foldl (fun st i =>
    let r := env.sphere_cube_int_update_pos st.pos2 radius (i.xlate xlate) p_last2 true xy_only
      st.cnorm
    { st with pos2 := r.2.1, cnorm := r.2.2, had_coll := if r.1 then true else st.had_coll }) st

/-- The loop over the roof polygons in `check_sphere_coll` (lines 230-241); it stops at the first
colliding polygon. -/
def check_sphere_coll_roof (env : Env) (xlate : point) (radius : ℚ) :
    List tquad_with_ix_t → sphere_coll_state → sphere_coll_state
  | [], st => st
  | i :: rest, st =>
    let pos_xlate := st.pos2.sub xlate
    let normal := env.tquad_get_norm i
    let rdist := env.dot_product_ptv normal pos_xlate (i.pts.getD 0 all_zeros)
    if |rdist| < radius ∧
        env.sphere_poly_intersect i.pts i.pts.length pos_xlate normal rdist radius = true then
      { st with pos2 := st.pos2.add (point.smul (radius - rdist) normal)
                had_coll := true
                cnorm := st.cnorm.map
                  (fun _ => point.smul (if normal.z < 0 then -1 else 1) normal) }
    else check_sphere_coll_roof env xlate radius rest st

/-- The function `check_sphere_coll`. The result is the returned flag, the final value of the
in-out argument `pos` and the final value of `*cnorm_ptr` (`none` for a null pointer). -/
def check_sphere_coll (env : Env) (b : building_t) (pos p_last xlate : point) (radius : ℚ)
    (xy_only : Bool) (cnorm_ptr : Option point) (check_interior : Bool) :
    Bool × point × Option point :=
  if !env.is_valid b then (false, pos, cnorm_ptr)
  else if radius > 0 ∧
      env.sphere_cube_intersect pos radius (b.bcube.xlate xlate) p_last true xy_only = false then
    (false, pos, cnorm_ptr)
  else
    let center := if env.is_rotated b then b.bcube.get_cube_center.add xlate else all_zeros
    let pos2 := if env.is_rotated b then do_xy_rotate (-b.rot_sin) b.rot_cos center pos else pos
    let p_last2 :=
      if env.is_rotated b then do_xy_rotate (-b.rot_sin) b.rot_cos center p_last else p_last
    let st0 : sphere_coll_state :=
      { pos2 := pos2, had_coll := false, is_interior := false, cnorm := cnorm_ptr }
    let st1 := check_sphere_coll_parts env b p_last2 xlate radius xy_only check_interior b.parts st0
    let st2 :=
      if !xy_only then
        check_sphere_coll_roof env xlate radius b.roof_tquads
          (check_sphere_coll_details env p_last2 xlate radius xy_only b.details st1)
      else st1
    -- line 243: the interior re-test runs on the caller's `pos` and `p_last`
    let r : Bool × point × Option point :=
      match st2.is_interior, b.interior with
      | true, some interior =>
        check_sphere_coll_interior env interior pos p_last xlate radius xy_only st2.cnorm
      | _, _ => (st2.had_coll, pos, st2.cnorm)
    if !r.1 then (false, r.2.1, r.2.2)
    else
      let pos3 := if env.is_rotated b then do_xy_rotate b.rot_sin b.rot_cos center st2.pos2
        else st2.pos2
      let cnorm3 :=
        if env.is_rotated b then r.2.2.map (do_xy_rotate b.rot_sin b.rot_cos all_zeros) else r.2.2
      (r.1, pos3, cnorm3)

/-! ## Random sources -/

/-- The random sources of the generator. `R` is the state of a `rand_gen_t`, `G` the state of the
process-wide generators behind the C library `rand()` and the global `rand_uniform`. All of them
are declared outside `src/`; every operation returns its result and the next state. -/
structure RandOps (R G : Type) where
  set_state : ℤ → ℤ → R
  rand : R → Nat × R
  rand_bool : R → Bool × R
  rand_uniform : ℚ → ℚ → R → ℚ × R
  rand_probability : ℚ → R → Bool × R
  c_rand : G → Nat × G
  g_rand_uniform : ℚ → ℚ → G → ℚ × G

/-- The range contract of the uniform draws: a draw from `[lo, hi]` with `lo <= hi` lies in
`[lo, hi]`. -/
def RandOps.in_range {R G : Type} (ops : RandOps R G) : Prop :=
  (∀ lo hi r, lo ≤ hi → lo ≤ (ops.rand_uniform lo hi r).1 ∧ (ops.rand_uniform lo hi r).1 ≤ hi) ∧
  (∀ lo hi g, lo ≤ hi → lo ≤ (ops.g_rand_uniform lo hi g).1 ∧ (ops.g_rand_uniform lo hi g).1 ≤ hi)

/-! ## More box and list helpers -/

/-- Modelled from the spec: `cube_t::normalize` (header not under `src/`): on every axis the two
bounds are put in increasing order. -/
def cube_t.normalize (c : cube_t) : cube_t :=
  ⟨min c.x1 c.x2, max c.x1 c.x2, min c.y1 c.y2, max c.y1 c.y2, min c.z1 c.z2, max c.z1 c.z2⟩

/-- Modelled from the spec: `cube_t::expand_by(vector3d)` (header not under `src/`): every axis
grows by the given amount on both sides. -/
def cube_t.expand_by (c : cube_t) (v : point) : cube_t :=
  ⟨c.x1 - v.x, c.x2 + v.x, c.y1 - v.y, c.y2 + v.y, c.z1 - v.z, c.z2 + v.z⟩

/-- Modelled from the spec: `cube_t::get_volume` (header not under `src/`). -/
def cube_t.get_volume (c : cube_t) : ℚ := c.dx * c.dy * c.dz

/-- The box with all entries zero (a default-constructed `cube_t`). -/
def cube_t.zero : cube_t := ⟨0, 0, 0, 0, 0, 0⟩

/-- The call `v.resize(n)` / `v.resize(n, dflt)` of `std::vector`. -/
def vec_resize {α : Type} (v : List α) (n : Nat) (dflt : α) : List α :=
  v.take n ++ List.replicate (n - v.length) dflt

/-- The element `v.back()`; `dflt` when the vector is empty. -/
def vec_back {α : Type} (v : List α) (dflt : α) : α := v.getLastD dflt

/-- Modelled from the spec: `tquad_t::update_bcube` (header not under `src/`), the "bounding-box
extension step": the box is extended to enclose every vertex of the polygon. -/
def tquad_with_ix_t.update_bcube (t : tquad_with_ix_t) (c : cube_t) : cube_t :=
  t.pts.foldl cube_t.union_with_pt c

/-- A point lies in a box (closed). -/
def tquad_with_ix_t.inside (t : tquad_with_ix_t) (c : cube_t) : Prop :=
  ∀ q ∈ t.pts, c.contains_pt q

/-- The tags of `tquad_with_ix_t` (enumeration declared outside `src/`). -/
def TYPE_ROOF : Nat := 0

/-- Tag of a gable wall triangle. -/
def TYPE_WALL : Nat := 1

/-- Tag of a chimney cap. -/
def TYPE_CCAP : Nat := 2

/-- Tag of a house door. -/
def TYPE_HDOOR : Nat := 3

/-- Tag of a building door. -/
def TYPE_BDOOR : Nat := 4

/-! ## `building_t::gen_rotation` (lines 68-85) -/

/-- The function `gen_rotation`. -/
def gen_rotation {R G : Type} (env : Env) (ops : RandOps R G) (b : building_t) (rgen : R) :
    building_t × R :=
  let max_rot_angle := b.mat.max_rot_angle
  if max_rot_angle = 0 then (b, rgen)
  else
    let (rot_angle, rgen1) := ops.rand_uniform 0 max_rot_angle rgen
    let rot_sin := env.sin rot_angle
    let rot_cos := env.cos rot_angle
    let bc := b.bcube
    let center := bc.get_cube_center
    let corner (i : Nat) : point :=
      do_xy_rotate rot_sin rot_cos center
        ⟨bc.d 0 (i % 2 == 1), bc.d 1 (i / 2 == 1), bc.d 2 (i % 2 == 1)⟩
    let bcube1 :=
      (((cube_t.set_from_point (corner 0)).union_with_pt (corner 1)).union_with_pt
        (corner 2)).union_with_pt (corner 3)
    ({ b with rot_sin := rot_sin, rot_cos := rot_cos, parts := [bc], bcube := bcube1 }, rgen1)

/-! ## Roof and detail generation (lines 825-916) -/

/-- The function `add_roof_to_bcube`. -/
def add_roof_to_bcube (b : building_t) : building_t :=
  { b with bcube := b.roof_tquads.foldl (fun c t => t.update_bcube c) b.bcube }

/-- The function `gen_grayscale_detail_color`. -/
def gen_grayscale_detail_color {R G : Type} (ops : RandOps R G) (b : building_t) (rgen : R)
    (imin imax : ℚ) : building_t × R :=
  let (cscale, rgen1) := ops.rand_uniform imin imax rgen
  ({ b with detail_color := cscale }, rgen1)

/-- The function `gen_sloped_roof`. The failed `assert(!parts.empty())` is `none`. -/
def gen_sloped_roof {R G : Type} (env : Env) (ops : RandOps R G) (b : building_t) (rgen : R) :
    Option (building_t × R) :=
  if b.parts = [] then none
  else if !env.is_simple_cube b then some (b, rgen)
  else
    let top := vec_back b.parts cube_t.zero
    let (peak_height, rgen1) := ops.rand_uniform (1 / 5) (1 / 2) rgen
    let wmin := min top.dx top.dy
    let z1 := top.z2
    let z2 := z1 + peak_height * wmin
    let x1 := top.x1
    let y1 := top.y1
    let x2 := top.x2
    let y2 := top.y2
    let pts : List point :=
      [⟨x1, y1, z1⟩, ⟨x1, y2, z1⟩, ⟨x2, y2, z1⟩, ⟨x2, y1, z1⟩,
        ⟨(1 / 2) * (x1 + x2), (1 / 2) * (y1 + y2), z2⟩]
    let (d1, rgen2) := ops.rand_uniform 0 (4 / 5) rgen1
    let tquads : List tquad_with_ix_t :=
      if d1 < 1 / 5 then
        let ixs : List (List Nat) := [[1, 0, 4], [3, 2, 4], [0, 3, 4], [2, 1, 4]]
        let old := vec_resize b.roof_tquads 4 ⟨[], 0⟩
        (List.zip old ixs).map
          (fun (t, ix) => { t with pts := ix.map (fun k => pts.getD k all_zeros) })
      else
        let center := point.smul (1 - d1) (pts.getD 4 all_zeros)
        let pts2 : List point :=
          (pts.take 4) ++ (pts.take 4).map (fun q => (point.smul d1 q).add center)
        let ixs : List (List Nat) :=
          [[4, 7, 6, 5], [0, 4, 5, 1], [3, 2, 6, 7], [0, 3, 7, 4], [2, 1, 5, 6]]
        let old := vec_resize b.roof_tquads 5 ⟨[], 0⟩
        (List.zip old ixs).map
          (fun (t, ix) => { t with pts := ix.map (fun k => pts2.getD k all_zeros) })
    let b1 := add_roof_to_bcube { b with roof_tquads := tquads }
    some (gen_grayscale_detail_color ops b1 rgen2 (2 / 5) (4 / 5))

/-- The function `check_part_contains_pt_xy` (lines 96-102). -/
def check_part_contains_pt_xy (env : Env) (b : building_t) (part : cube_t) (pt : point) : Bool :=
  if ¬ part.contains_pt_xy pt then false
  else if env.is_simple_cube b then true
  else
    let points := env.calc_poly_pts b part
    env.point_in_polygon_2d pt.x pt.y points points.length

/-- The `while (1)` loop of `gen_details` (lines 844-856) that draws the footprint of one
rooftop block until it fits; `fuel` bounds the number of draws, `none` when it runs out. -/
def gen_details_place_block {R G : Type} (env : Env) (ops : RandOps R G) (b : building_t)
    (rbc : cube_t) (xy_sz : ℚ) : Nat → R → Option (cube_t × R)
  | 0, _ => none
  | fuel + 1, rgen =>
    let (px, rgen1) := ops.rand_uniform rbc.x1 rbc.x2 rgen
    let (py, rgen2) := ops.rand_uniform rbc.y1 rbc.y2 rgen1
    let (ex, rgen3) := ops.rand_uniform (1 / 100) (8 / 100) rgen2
    let (ey, rgen4) := ops.rand_uniform (1 / 100) (6 / 100) rgen3
    let c := (cube_t.set_from_point ⟨px, py, 0⟩).expand_by ⟨xy_sz * ex, xy_sz * ey, 0⟩
    if ¬ rbc.contains_cube_xy c then gen_details_place_block env ops b rbc xy_sz fuel rgen4
    else if env.is_simple_cube b then some (c, rgen4)
    else
      let corners : List point :=
        [⟨c.x1, c.y1, 0⟩, ⟨c.x2, c.y1, 0⟩, ⟨c.x1, c.y2, 0⟩, ⟨c.x2, c.y2, 0⟩]
      if corners.all (fun pt => check_part_contains_pt_xy env b rbc pt) then some (c, rgen4)
      else gen_details_place_block env ops b rbc xy_sz fuel rgen4

/-- The loop over the rooftop blocks of `gen_details` (lines 840-859): `k` blocks are still to
be placed, the placed ones are accumulated in `acc`. -/
def gen_details_blocks {R G : Type} (env : Env) (ops : RandOps R G) (b : building_t)
    (top rbc : cube_t) (xy_sz height_scale : ℚ) (fuel : Nat) :
    Nat → List cube_t → R → Option (List cube_t × R)
  | 0, acc, rgen => some (acc, rgen)
  | k + 1, acc, rgen =>
    let (h, rgen1) := ops.rand_uniform 1 4 rgen
    let height := height_scale * h
    match gen_details_place_block env ops b rbc xy_sz fuel rgen1 with
    | none => none
    | some (c, rgen2) =>
      gen_details_blocks env ops b top rbc xy_sz height_scale fuel k
        (acc ++ [{ c with z1 := top.z2, z2 := top.z2 + height }]) rgen2

/-- The antenna of `gen_details` (lines 862-868), built over the top part. -/
def gen_details_antenna {R G : Type} (ops : RandOps R G) (top bcube : cube_t) (rgen : R) :
    cube_t × R :=
  let (u, r1) := ops.rand_uniform 1 2 rgen
  let radius := (3 / 1000) * u * (top.dx + top.dy)
  let (v, r2) := ops.rand_uniform (1 / 4) (1 / 2) r1
  let height := v * top.dz
  let antenna0 := (cube_t.set_from_point top.get_cube_center).expand_by ⟨radius, radius, 0⟩
  ({ antenna0 with z1 := top.z2, z2 := bcube.z2 + height }, r2)

/-- Line 870 of `gen_details`: `max_eq(bcube.z2(), i->z2())` for every detail box. -/
def extend_bcube_z2 (bcube : cube_t) (details : List cube_t) : cube_t :=
  details.foldl (fun c i => { c with z2 := max c.z2 i.z2 }) bcube

/-- The function `gen_details`. The failed `assert(!parts.empty())` is `none`, and so is an
exhausted `fuel` in the placement loop. -/
def gen_details {R G : Type} (env : Env) (ops : RandOps R G) (b : building_t) (fuel : Nat)
    (rgen : R) : Option (building_t × R) :=
  let (num_blocks, rgen1) :=
    if b.roof_tquads = [] then ((ops.rand rgen).1 % 9, (ops.rand rgen).2) else (0, rgen)
  let (ra, rgen2) := ops.rand rgen1
  let has_antenna : Bool := ra % 2 == 1
  let details0 := vec_resize b.details (num_blocks + has_antenna.toNat) cube_t.zero
  if b.parts = [] then none
  else if details0 = [] then some ({ b with has_antenna := has_antenna, details := details0 }, rgen2)
  else
    let top := vec_back b.parts cube_t.zero
    let blocks : Option (List cube_t × R) :=
      if num_blocks > 0 then
        let sz := top.get_size
        let xy_sz := env.sqrt (sz.x * sz.x + sz.y * sz.y)
        let height_scale := (35 / 10000) * (top.dz + b.bcube.dz)
        gen_details_blocks env ops b top top xy_sz height_scale fuel num_blocks [] rgen2
      else some ([], rgen2)
    match blocks with
    | none => none
    | some (placed, rgen3) =>
      let details1 := placed ++ details0.drop placed.length
      let (details2, rgen4) :=
        if has_antenna then
          (details1.dropLast ++ [(gen_details_antenna ops top b.bcube rgen3).1],
            (gen_details_antenna ops top b.bcube rgen3).2)
        else (details1, rgen3)
      let b1 :=
        { b with has_antenna := has_antenna, details := details2
                 bcube := extend_bcube_z2 b.bcube details2 }
      if b.roof_tquads = [] then some (gen_grayscale_detail_color ops b1 rgen4 (1 / 5) (3 / 5))
      else some (b1, rgen4)

/-! ## `building_t::split_in_xy`: the draws (lines 21-26) -/

/-- The function `split_in_xy`: the shape code comes from the C library `rand()`, the other
draws from `rgen`. -/
def split_in_xy {R G : Type} (ops : RandOps R G) (b : building_t) (seed_cube : cube_t)
    (rgen : R) (g : G) : Option (building_t × R × G) :=
  let (cr, g1) := ops.c_rand g
  let shape := cr % 9
  let is_hp : Bool := shape ≥ 7
  let (dim, rgen1) := ops.rand_bool rgen
  let (dir, rgen2) := if is_hp then (true, rgen1) else ops.rand_bool rgen1
  let (div, rgen3) :=
    if is_hp then ops.rand_uniform (2 / 10) (4 / 10) rgen2
    else ops.rand_uniform (3 / 10) (7 / 10) rgen2
  let (s1, rgen4) := ops.rand_uniform (2 / 10) (4 / 10) rgen3
  let (s2, rgen5) := ops.rand_uniform (6 / 10) (8 / 10) rgen4
  match split_in_xy_body b.parts seed_cube shape dim dir div s1 s2 with
  | none => none
  | some parts1 => some ({ b with parts := parts1 }, rgen5, g1)

/-! ## Doors and peaked roofs (lines 568-590, 737-823) -/

/-- Component update `p[i] = v`. -/
def point.set (p : point) (i : Nat) (v : ℚ) : point :=
  match i with
  | 0 => { p with x := v }
  | 1 => { p with y := v }
  | _ => { p with z := v }

/-- The function `get_largest_xy_dim`. -/
def get_largest_xy_dim (c : cube_t) : Bool := c.dy > c.dx

/-- The function `place_door`. The generator is used only when the position is computed and the
door is not centred. -/
def place_door {R G : Type} (ops : RandOps R G) (b : building_t) (base : cube_t) (dim dir : Bool)
    (door_height door_center door_pos door_center_shift width_scale : ℚ) (rgen : R) :
    cube_t × R :=
  let (door_center1, door_pos1, rgen1) :=
    if door_center = 0 then
      let centered : Bool := door_center_shift = 0 ∨ b.hallway_dim = dim.toNat
      let (offset, r1) :=
        if centered then ((1 / 2 : ℚ), rgen)
        else ops.rand_uniform (1 / 2 - door_center_shift) (1 / 2 + door_center_shift) rgen
      (offset * base.d (!dim).toNat false + (1 - offset) * base.d (!dim).toNat true,
        base.d dim.toNat dir, r1)
    else (door_center, door_pos, rgen)
  let door_half_width := (1 / 2) * width_scale * door_height
  let door_shift := (if b.is_house then (5 / 1000 : ℚ) else 1 / 1000) * base.dz
  let door0 : cube_t := { cube_t.zero with z1 := base.z1, z2 := base.z1 + door_height }
  let door1 := door0.set dim.toNat (!dir) (door_pos1 + door_shift * (if dir then 1 else -1))
  let door2 := door1.set dim.toNat dir (door1.d dim.toNat (!dir))
  let door3 := door2.set (!dim).toNat false (door_center1 - door_half_width)
  let door4 := door3.set (!dim).toNat true (door_center1 + door_half_width)
  (door4, rgen1)

/-- The function `add_door`. The failed `assert` is `none`. -/
def add_door (b : building_t) (c : cube_t) (part_ix : Nat) (dim dir for_building : Bool) :
    Option building_t :=
  let sz := c.get_size
  if sz.get dim.toNat = 0 ∧ sz.get (!dim).toNat > 0 ∧ sz.z > 0 then
    let od := (!dim).toNat
    let dv := c.d dim.toNat false + (1 / 100) * sz.get od * (if dir then 1 else -1)
    let mk (z : ℚ) (o : ℚ) : point := ((all_zeros.set 2 z).set od o).set dim.toNat dv
    let p0 := mk c.z1 (c.d od dir)
    let p1 := mk c.z1 (c.d od (!dir))
    let p2 := mk c.z2 (c.d od (!dir))
    let p3 := mk c.z2 (c.d od dir)
    let pts := if dim = false then [p1, p0, p3, p2] else [p0, p1, p2, p3]
    let door : tquad_with_ix_t := ⟨pts, if for_building then TYPE_BDOOR else TYPE_HDOOR⟩
    let door_sides1 :=
      if part_ix < 4 then
        b.door_sides.set part_ix ((b.door_sides.getD part_ix 0) ||| (1 <<< (2 * dim.toNat + dir.toNat)))
      else b.door_sides
    some { b with doors := b.doors ++ [door], door_sides := door_sides1 }
  else none

/-- The function `gen_peaked_roof`: returns the building with the new roof polygons and
`roof_dz`. -/
def gen_peaked_roof (b : building_t) (top : cube_t) (peak_height : ℚ) (dim : Bool) :
    building_t × ℚ :=
  let width := if dim then top.dx else top.dy
  let roof_dz := min (peak_height * width) top.dz
  let z1 := top.z2
  let z2 := z1 + roof_dz
  let x1 := top.x1
  let y1 := top.y1
  let x2 := top.x2
  let y2 := top.y2
  let p4 : point := if dim = false then ⟨x1, (1 / 2) * (y1 + y2), z2⟩ else ⟨(1 / 2) * (x1 + x2), y1, z2⟩
  let p5 : point := if dim = false then ⟨x2, (1 / 2) * (y1 + y2), z2⟩ else ⟨(1 / 2) * (x1 + x2), y2, z2⟩
  let pts : List point := [⟨x1, y1, z1⟩, ⟨x1, y2, z1⟩, ⟨x2, y2, z1⟩, ⟨x2, y1, z1⟩, p4, p5]
  let qixs : List (List Nat) :=
    if dim = false then [[0, 3, 5, 4], [4, 5, 2, 1]] else [[0, 4, 5, 1], [4, 3, 2, 5]]
  let quads : List tquad_with_ix_t :=
    qixs.map (fun ix => ⟨ix.map (fun k => pts.getD k all_zeros), TYPE_ROOF⟩)
  let tixs : List (List Nat) :=
    if dim = false then [[1, 0, 4], [3, 2, 5]] else [[0, 3, 4], [2, 1, 5]]
  let occluded (n : Bool) : Bool :=
    b.parts.any (fun p =>
      decide (p.d dim.toNat (!n) = top.d dim.toNat n ∧ p.z1 ≤ z1 ∧ p.z2 ≥ z2 ∧
        p.d (!dim).toNat false ≤ top.d (!dim).toNat false ∧
        p.d (!dim).toNat true ≥ top.d (!dim).toNat true))
  let tri (n : Bool) : List tquad_with_ix_t :=
    if occluded n then []
    else [⟨(tixs.getD n.toNat []).map (fun k => pts.getD k all_zeros), TYPE_WALL⟩]
  ({ b with roof_tquads := b.roof_tquads ++ quads ++ tri false ++ tri true }, roof_dz)

/-- The inner loop over the four sides in `gen_building_doors_if_needed` (lines 812-820) for the
part `bp` of index `part_ix`. Returns whether a door was placed. -/
def gen_building_doors_sides {R G : Type} (ops : RandOps R G) (bp : cube_t) (part_ix : Nat)
    (pref_dim pref_dir : Bool) (door_height wscale : ℚ) :
    List Nat → building_t × List Bool × R → Option (Bool × building_t × List Bool × R)
  | [], st => some (false, st)
  | n :: rest, (b, used, rgen) =>
    let dim := xor pref_dim (n / 2 == 1)
    let dir := xor pref_dir (n % 2 == 1)
    if bp.d dim.toNat dir ≠ b.bcube.d dim.toNat dir then
      gen_building_doors_sides ops bp part_ix pref_dim pref_dir door_height wscale rest
        (b, used, rgen)
    else if used.getD (2 * dim.toNat + dir.toNat) false then
      gen_building_doors_sides ops bp part_ix pref_dim pref_dir door_height wscale rest
        (b, used, rgen)
    else
      let used1 := used.set (2 * dim.toNat + dir.toNat) true
      let (door, rgen1) := place_door ops b bp dim dir door_height 0 0 (1 / 10) wscale rgen
      match add_door b door part_ix dim dir true with
      | none => none
      | some b1 => some (true, b1, used1, rgen1)

/-- The loop over the parts in `gen_building_doors_if_needed` (lines 807-821); `part_ix` is the
index of the head of the list. It stops when a door has been placed. -/
def gen_building_doors_parts {R G : Type} (ops : RandOps R G) (has_windows : Bool)
    (pref_dim pref_dir : Bool) (door_height wscale : ℚ) :
    List cube_t → Nat → building_t × List Bool × R → Option (building_t × List Bool × R)
  | [], _, st => some st
  | bp :: rest, part_ix, (b, used, rgen) =>
    if has_windows = true ∧ part_ix ≥ 4 then some (b, used, rgen)
    else if bp.z1 > b.bcube.z1 then some (b, used, rgen)
    else
      match gen_building_doors_sides ops bp part_ix pref_dim pref_dir door_height wscale
          [0, 1, 2, 3] (b, used, rgen) with
      | none => none
      | some (true, st) => some st
      | some (false, st) =>
        gen_building_doors_parts ops has_windows pref_dim pref_dir door_height wscale rest
          (part_ix + 1) st

/-- The loop `for (num = 0; num < num_doors; ++num)` of `gen_building_doors_if_needed`. -/
def gen_building_doors_loop {R G : Type} (ops : RandOps R G) (has_windows : Bool)
    (pref_dim pref_dir : Bool) (door_height wscale : ℚ) :
    Nat → building_t × List Bool × R → Option (building_t × List Bool × R)
  | 0, st => some st
  | k + 1, (b, used, rgen) =>
    match gen_building_doors_parts ops has_windows pref_dim pref_dir door_height wscale b.parts 0
        (b, used, rgen) with
    | none => none
    | some st => gen_building_doors_loop ops has_windows pref_dim pref_dir door_height wscale k st

/-- The function `gen_building_doors_if_needed`. -/
def gen_building_doors_if_needed {R G : Type} (env : Env) (ops : RandOps R G) (b : building_t)
    (rgen : R) : Option (building_t × R) :=
  if !env.is_cube b then some (b, rgen)
  else if b.parts = [] then none
  else
    let door_height := (11 / 10) * env.get_door_height b
    let wscale : ℚ := 7 / 10
    if b.hallway_dim < 2 then
      let hd : Bool := b.hallway_dim == 1
      let front := b.parts.headD cube_t.zero
      let (door0, rgen1) := place_door ops b front hd false door_height 0 0 0 wscale rgen
      match add_door b door0 0 hd false true with
      | none => none
      | some b1 =>
        let (door1, rgen2) := place_door ops b1 front hd true door_height 0 0 0 wscale rgen1
        match add_door b1 door1 0 hd true true with
        | none => none
        | some b2 => some (b2, rgen2)
    else
      let (pref_dim, rgen1) := ops.rand_bool rgen
      let (pref_dir, rgen2) := ops.rand_bool rgen1
      let has_windows := b.mat.add_windows
      let (rn, rgen3) := ops.rand rgen2
      let num_doors := 1 + rn % (if has_windows then 3 else 4)
      match gen_building_doors_loop ops has_windows pref_dim pref_dir door_height wscale num_doors
          (b, [false, false, false, false], rgen3) with
      | none => none
      | some (b1, _, rgen4) => some (b1, rgen4)

/-! ## Interior generation (lines 927-1220) -/

/-- The function `cube_rand_side_pos`. Either failed `assert` is `none`. -/
def cube_rand_side_pos {R G : Type} (ops : RandOps R G) (c : cube_t) (dim : Nat)
    (min_dist_param min_dist_abs : ℚ) (rgen : R) : Option (ℚ × R) :=
  if dim < 3 ∧ min_dist_param < 1 / 2 then
    let lo := c.d dim false
    let hi := c.d dim true
    let delta := hi - lo
    let gap := max min_dist_abs (min_dist_param * delta)
    some (ops.rand_uniform (lo + gap) (hi - gap) rgen)
  else none

/-- The function `building_t::get_num_windows_on_side`. The failed `assert` is `none`. -/
def get_num_windows_on_side (env : Env) (b : building_t) (xy1 xy2 : ℚ) : Option ℤ :=
  if xy1 < xy2 then
    let tscale := 2 * b.mat.window_tx
    let (t0, t1) := env.clip_low_high (tscale * xy1) (tscale * xy2)
    some (round_fp (t1 - t0))
  else none

/-- The function `create_wall`. -/
def create_wall (wall : cube_t) (dim : Bool) (wall_pos fc_thick wall_half_thick wall_edge_spacing : ℚ) :
    cube_t :=
  let w1 := { wall with z1 := wall.z1 + fc_thick, z2 := wall.z2 - fc_thick }
  let w2 := (w1.set dim.toNat false (wall_pos - wall_half_thick)).set dim.toNat true
    (wall_pos + wall_half_thick)
  (w2.set (!dim).toNat false (w2.d (!dim).toNat false + wall_edge_spacing)).set (!dim).toNat true
    (w2.d (!dim).toNat true - wall_edge_spacing)

/-- The function `is_val_inside_window`. -/
def is_val_inside_window (env : Env) (c : cube_t) (dim : Bool) (val window_spacing window_border : ℚ) :
    Bool :=
  let uv := env.fract ((val - c.d dim.toNat false) / window_spacing)
  uv > window_border ∧ uv < 1 - window_border

/-- A `split_cube_t`: a box with the forbidden doorway intervals `door_lo[dim][dir]`,
`door_hi[dim][dir]`, stored at index `2*dim + dir`. -/
structure split_cube_t where
  cube : cube_t
  door_lo : List ℚ
  door_hi : List ℚ
deriving DecidableEq, Repr

/-- The constructor `split_cube_t(cube_t const &c)`. -/
def split_cube_t.of (c : cube_t) : split_cube_t := ⟨c, [0, 0, 0, 0], [0, 0, 0, 0]⟩

/-- The method `split_cube_t::bad_pos`. -/
def split_cube_t.bad_pos (c : split_cube_t) (val : ℚ) (dim : Bool) : Bool :=
  [false, true].any (fun d =>
    let lo := c.door_lo.getD (2 * dim.toNat + d.toNat) 0
    let hi := c.door_hi.getD (2 * dim.toNat + d.toNat) 0
    decide (lo < hi ∧ val > lo ∧ val < hi))

/-- The lengths derived from the floor spacing at the top of `gen_interior` (lines 994-998). -/
structure interior_dims where
  window_vspacing : ℚ
  floor_thickness : ℚ
  fc_thick : ℚ
  doorway_width : ℚ
  doorway_hwidth : ℚ
  wall_thick : ℚ
  wall_half_thick : ℚ
  wall_edge_spacing : ℚ
  min_wall_len : ℚ
  window_border : ℚ

/-- Lines 994-998 of `gen_interior`. -/
def interior_dims.of (env : Env) (b : building_t) : interior_dims :=
  let window_vspacing := b.mat.floor_spacing
  let floor_thickness := (1 / 10) * window_vspacing
  let doorway_width := (1 / 2) * window_vspacing
  let wall_thick := (1 / 2) * floor_thickness
  { window_vspacing := window_vspacing
    floor_thickness := floor_thickness
    fc_thick := (1 / 2) * floor_thickness
    doorway_width := doorway_width
    doorway_hwidth := (1 / 2) * doorway_width
    wall_thick := wall_thick
    wall_half_thick := (1 / 2) * wall_thick
    wall_edge_spacing := (5 / 100) * wall_thick
    min_wall_len := 4 * doorway_width
    window_border := (1 / 2) * (1 - env.window_width_fract) }

/-- The wall list `interior->walls[d]`. -/
def building_interior_t.walls (i : building_interior_t) (d : Bool) : List cube_t :=
  if d then i.walls1 else i.walls0

/-- Replace the wall list `interior->walls[d]`. -/
def building_interior_t.set_walls (i : building_interior_t) (d : Bool) (w : List cube_t) :
    building_interior_t :=
  if d then { i with walls1 := w } else { i with walls0 := w }

/-- The call `interior->walls[d].push_back(w)`. -/
def building_interior_t.push_wall (i : building_interior_t) (d : Bool) (w : cube_t) :
    building_interior_t :=
  i.set_walls d (i.walls d ++ [w])

/-- The working state of `gen_interior`: the interior under construction, the cached
`hallway_dim`, the bit masks `wall_seps_placed[dim][dir]` (index `2*dim + dir`), the flag
`has_hallway_with_rooms` and the generator. -/
structure interior_state (R : Type) where
  interior : building_interior_t
  hallway_dim : Nat
  wall_seps_placed : List Nat
  has_hallway_with_rooms : Bool
  rgen : R

/-- The coordinates `hall_wall_pos[d]` of the two hall walls (line 1027): each is `room_width`
inside the part along `min_dim`. -/
def hall_wall_pos (p : cube_t) (min_dim : Bool) (room_width : ℚ) (d : Bool) : ℚ :=
  if d then p.d min_dim.toNat true - room_width else p.d min_dim.toNat false + room_width

/-- The walls of the hallway layout (lines 1028-1056) appended to `room_walls0` and
`hall_walls0`: the `num_rooms - 1` pairs of walls between the rooms with the hall walls that
face them, and the half-length hall walls at both ends. -/
def gen_interior_hallway_walls (k : interior_dims) (p : cube_t) (min_dim : Bool)
    (num_rooms : ℤ) (partial_room : Bool) (room_len room_width hwall_extend : ℚ)
    (room_walls0 hall_walls0 : List cube_t) : List cube_t × List cube_t :=
  let md := min_dim.toNat
  let od := (!min_dim).toNat
  let wall_pos := p.d od false + room_len
  let rwall0 := create_wall p (!min_dim) wall_pos k.fc_thick k.wall_half_thick
    k.wall_edge_spacing
  let sgn (e : Bool) : ℚ := if e then 1 else -1
  -- the walls between the rooms and the hall walls that face them (lines 1034-1045)
  let wall_step (acc : cube_t × List cube_t × List cube_t) (i : Nat) :
      cube_t × List cube_t × List cube_t :=
    let rwall := acc.1
    let one (d : Bool) : cube_t × cube_t :=
      let rw := rwall.set md (!d) (hall_wall_pos p min_dim room_width d)
      let h1 := (rw.set md false
        (hall_wall_pos p min_dim room_width d + sgn false * k.wall_half_thick)).set md true
        (hall_wall_pos p min_dim room_width d + sgn true * k.wall_half_thick)
      let h2 := (h1.set od false (h1.d od false + sgn false * hwall_extend)).set od true
        (h1.d od true + sgn true * hwall_extend)
      let h3 :=
        if partial_room = true ∧ (i : ℤ) + 2 = num_rooms then
          h2.set od true (h2.d od true - (3 / 2) * k.doorway_width)
        else h2
      (rw, h3)
    let rwall1 := (rwall.set od false (rwall.d od false + room_len)).set od true
      (rwall.d od true + room_len)
    (rwall1, acc.2.1 ++ [(one false).1, (one true).1], acc.2.2 ++ [(one false).2, (one true).2])
  let (rwall, room_walls, hall_walls) :=
    (List.range (num_rooms - 1).toNat).foldl wall_step (rwall0, room_walls0, hall_walls0)
  -- the half-length hall walls at both ends (lines 1046-1056)
  let end_walls (s : Bool) : List cube_t :=
    let hwall_len := if partial_room = true ∧ s = true then k.doorway_width else hwall_extend
    let h1 := rwall.set od s (p.d od s + (if s then -1 else 1) * k.wall_edge_spacing)
    let h2 := h1.set od (!s) (h1.d od s + (if s then -1 else 1) * hwall_len)
    [false, true].map (fun d =>
      (h2.set md false (hall_wall_pos p min_dim room_width d + sgn false * k.wall_half_thick)).set
        md true (hall_wall_pos p min_dim room_width d + sgn true * k.wall_half_thick))
  (room_walls, hall_walls ++ end_walls false ++ end_walls true)

/-- The two rooms of one iteration of the room loop of the hallway layout (lines 1063-1068):
the room of the row `d = 0` and the room of the row `d = 1`, from `pos` to `next_pos`. -/
def gen_interior_hallway_room (p : cube_t) (min_dim : Bool) (room_width pos next_pos : ℚ)
    (d : Bool) : cube_t :=
  ((p.set min_dim.toNat (!d) (hall_wall_pos p min_dim room_width d)).set (!min_dim).toNat false
    pos).set (!min_dim).toNat true next_pos

/-- The room loop of the hallway layout (lines 1060-1070): `n` iterations are still to run,
`pos` is where the next pair of rooms starts, `rooms` is `interior->rooms`. -/
def gen_interior_hallway_rooms (p : cube_t) (min_dim : Bool) (room_len room_width : ℚ) :
    Nat → ℚ → List cube_t → List cube_t
  | 0, _, rooms => rooms
  | n + 1, pos, rooms =>
    let next_pos := min (p.d (!min_dim).toNat true) (pos + room_len)
    gen_interior_hallway_rooms p min_dim room_len room_width n next_pos
      (rooms ++ [gen_interior_hallway_room p min_dim room_width pos next_pos false,
        gen_interior_hallway_room p min_dim room_width pos next_pos true])

/-- Line 1019 of `gen_interior`: `windows_per_room`, one or two windows per room. -/
def hallway_windows_per_room (num_windows : ℤ) : ℤ := if num_windows > 5 then 2 else 1

/-- Line 1020 of `gen_interior`: `num_rooms`, the integer quotient
`(num_windows + windows_per_room - 1) / windows_per_room` (truncating division). -/
def hallway_num_rooms (num_windows : ℤ) : ℤ :=
  Int.tdiv (num_windows + hallway_windows_per_room num_windows - 1)
    (hallway_windows_per_room num_windows)

/-- Line 1023 of `gen_interior`: `room_len`, the window spacing along the hallway times the
number of windows per room. -/
def hallway_room_len (p : cube_t) (min_dim : Bool) (num_windows : ℤ) : ℚ :=
  p.get_size.get (!min_dim).toNat / (num_windows : ℚ) * (hallway_windows_per_room num_windows : ℚ)

/-- Line 1024 of `gen_interior`: `hall_width`, one window width for an odd orthogonal window
count and two for an even one. -/
def hallway_hall_width (p : cube_t) (min_dim : Bool) (num_windows_od : ℤ) : ℚ :=
  (if num_windows_od % 2 = 1 then (1 : ℚ) else 2) * p.get_size.get min_dim.toNat
    / (num_windows_od : ℚ)

/-- Line 1025 of `gen_interior`: `room_width`, half of what the hall leaves of the width. -/
def hallway_room_width (p : cube_t) (min_dim : Bool) (num_windows_od : ℤ) : ℚ :=
  (1 / 2) * (p.get_size.get min_dim.toNat - hallway_hall_width p min_dim num_windows_od)

/-- The hallway layout of one part (lines 1015-1078). The failed `assert` of the sanity check on
`num_rooms` (or of `get_num_windows_on_side`) is `none`. -/
def gen_interior_hallway {R : Type} (env : Env) (b : building_t) (k : interior_dims) (p : cube_t)
    (min_dim : Bool) (st : interior_state R) : Option (interior_state R) :=
  let md := min_dim.toNat
  let od := (!min_dim).toNat
  match get_num_windows_on_side env b (p.d od false) (p.d od true),
      get_num_windows_on_side env b (p.d md false) (p.d md true) with
  | some num_windows, some num_windows_od =>
    let windows_per_room := hallway_windows_per_room num_windows
    let num_rooms := hallway_num_rooms num_windows
    let partial_room : Bool := Int.tmod num_windows windows_per_room ≠ 0
    if num_rooms ≥ 0 ∧ num_rooms < 1000 then
      let room_len := hallway_room_len p min_dim num_windows
      let room_width := hallway_room_width p min_dim num_windows_od
      let hwall_extend := (1 / 2) * (room_len - k.doorway_width - k.wall_thick)
      let walls := gen_interior_hallway_walls k p min_dim num_rooms partial_room room_len
        room_width hwall_extend (st.interior.walls (!min_dim)) (st.interior.walls min_dim)
      let rooms := gen_interior_hallway_rooms p min_dim room_len room_width num_rooms.toNat
        (p.d od false) st.interior.rooms
      let int1 := (st.interior.set_walls (!min_dim) walls.1).set_walls min_dim walls.2
      some { st with interior := { int1 with rooms := rooms }
                     hallway_dim := (!min_dim).toNat
                     has_hallway_with_rooms := true }
    else none
  | _, _ => none

/-- The 20-try loop choosing the split coordinate (lines 1104-1109). Returns the last drawn
`wall_pos`, whether it is valid, and the generator. A failed `assert` is `none`. -/
def gen_interior_choose_wall_pos {R G : Type} (env : Env) (ops : RandOps R G) (k : interior_dims)
    (p : cube_t) (c : split_cube_t) (wall_dim on_edge : Bool) (window_hspacing : ℚ) :
    Nat → ℚ → R → Option (ℚ × Bool × R)
  | 0, wall_pos, rgen => some (wall_pos, false, rgen)
  | n + 1, _, rgen =>
    match cube_rand_side_pos ops c.cube wall_dim.toNat (1 / 4) (k.doorway_width + k.wall_thick)
        rgen with
    | none => none
    | some (wall_pos, rgen1) =>
      if on_edge = true ∧
          is_val_inside_window env p wall_dim wall_pos window_hspacing k.window_border = true then
        gen_interior_choose_wall_pos env ops k p c wall_dim on_edge window_hspacing n wall_pos rgen1
      else if c.bad_pos wall_pos wall_dim then
        gen_interior_choose_wall_pos env ops k p c wall_dim on_edge window_hspacing n wall_pos rgen1
      else some (wall_pos, true, rgen1)

/-- The working state of the T-junction scan: the region `c` (its forbidden intervals are
updated), the scratch boxes `wall2` and `wall3`, the interior and the separator bit masks. -/
structure tjunction_state where
  c : split_cube_t
  wall2 : cube_t
  wall3 : cube_t
  interior : building_interior_t
  wall_seps_placed : List Nat

/-- One iteration of the loop `for (s = 0; s < 2; ++s)` of the T-junction scan (lines
1136-1145): a doorway is cut into `wall3` on the side `!s` of `wall_pos` when there is space.
The failed `assert` of `remove_section_from_cube` is `none`. -/
def gen_interior_tjunction_door (k : interior_dims) (wall_dim : Bool) (wall_pos : ℚ)
    (dir s : Bool) (a : tjunction_state) : Option tjunction_state :=
  let wd := wall_dim.toNat
  if |a.wall3.d wd (!s) - wall_pos| > (3 / 2) * k.doorway_width then
    let doorway_pos := (1 / 2) * (wall_pos + a.wall3.d wd (!s))
    let lo_pos := doorway_pos - k.doorway_hwidth
    let hi_pos := doorway_pos + k.doorway_hwidth
    match remove_section_from_cube a.wall3 lo_pos hi_pos wall_dim with
    | none => none
    | some (w3, w2b) =>
      some { a with
        wall3 := w3
        wall2 := w2b
        interior := a.interior.push_wall (!wall_dim) w2b
        c := { a.c with
          door_lo := a.c.door_lo.set (2 * wd + dir.toNat) (lo_pos - k.wall_half_thick)
          door_hi := a.c.door_hi.set (2 * wd + dir.toNat) (hi_pos + k.wall_half_thick) } }
  else some a

/-- One `(p2, dir)` iteration of the T-junction scan (lines 1122-1148). `part_ix` and `ix2` are
the indices of the part being partitioned and of `p2`. A failed `assert` is `none`. -/
def gen_interior_tjunction_step (k : interior_dims) (part_ix ix2 : Nat) (p2 : cube_t)
    (wall_dim : Bool) (wall_pos : ℚ) (dir : Bool) (st : tjunction_state) :
    Option tjunction_state :=
  let wd := wall_dim.toNat
  let od := (!wall_dim).toNat
  let c := st.c.cube
  let part_mask := (1 <<< part_ix) % 4294967296
  let part_mask2 := (1 <<< ix2) % 4294967296
  let val := c.d od dir
  if ix2 = part_ix then some st
  else if p2.d od (!dir) ≠ val then some st
  else if p2.z1 ≥ c.z2 ∨ p2.z2 ≤ c.z1 then some st
  else if p2.d wd false ≥ wall_pos ∨ p2.d wd true ≤ wall_pos then some st
  else if (st.wall_seps_placed.getD (2 * wd + (!dir).toNat) 0) &&& part_mask2 ≠ 0 then some st
  else
    let w0 := { st.wall3 with z1 := max c.z1 p2.z1 + k.fc_thick, z2 := min c.z2 p2.z2 - k.fc_thick }
    let w1 := (w0.set wd false (max (c.d wd false) (p2.d wd false) + k.wall_edge_spacing)).set wd
      true (min (c.d wd true) (p2.d wd true) - k.wall_edge_spacing)
    let w2 := (w1.set od dir val).set od (!dir) (val + (if dir then -1 else 1) * k.wall_thick)
    match gen_interior_tjunction_door k wall_dim wall_pos dir false { st with wall3 := w2 } with
    | none => none
    | some a0 =>
      match gen_interior_tjunction_door k wall_dim wall_pos dir true a0 with
      | none => none
      | some a =>
        let seps1 := a.wall_seps_placed.set (2 * wd + dir.toNat)
          ((a.wall_seps_placed.getD (2 * wd + dir.toNat) 0) ||| part_mask)
        let seps2 := seps1.set (2 * wd + (!dir).toNat)
          ((seps1.getD (2 * wd + (!dir).toNat) 0) ||| part_mask2)
        some { a with interior := a.interior.push_wall (!wall_dim) a.wall3
                      wall_seps_placed := seps2 }

/-- The loop over all parts `p2` of the T-junction scan (lines 1118-1150); `ix2` is the index of
the head of the list. -/
def gen_interior_tjunctions (k : interior_dims) (part_ix : Nat) (wall_dim : Bool) (wall_pos : ℚ) :
    List cube_t → Nat → tjunction_state → Option tjunction_state
  | [], _, st => some st
  | p2 :: rest, ix2, st =>
    match gen_interior_tjunction_step k part_ix ix2 p2 wall_dim wall_pos false st with
    | none => none
    | some st1 =>
      match gen_interior_tjunction_step k part_ix ix2 p2 wall_dim wall_pos true st1 with
      | none => none
      | some st2 => gen_interior_tjunctions k part_ix wall_dim wall_pos rest (ix2 + 1) st2

/-- The choice of the split axis `wall_dim` for a region of size `csz` (lines 1095-1098): the
axis and the generator after the possible draw. -/
def gen_interior_wall_dim {R G : Type} (ops : RandOps R G) (k : interior_dims) (c : split_cube_t)
    (rgen : R) : Bool × R :=
  let csz := c.cube.get_size
  if csz.y > k.min_wall_len ∧ csz.x > (5 / 4) * csz.y then (false, rgen)
  else if csz.x > k.min_wall_len ∧ csz.y > (5 / 4) * csz.x then (true, rgen)
  else ops.rand_bool rgen

/-- The body of the work-stack loop (lines 1092-1166) for the popped region `c`, the rest of
the stack `to_split` (its top at the head) and the state `st`: the new stack and state. A
failed `assert` is `none`. -/
def gen_interior_split_step {R G : Type} (env : Env) (ops : RandOps R G) (b : building_t)
    (k : interior_dims) (p : cube_t) (part_ix : Nat) (window_hspacing : Bool → ℚ)
    (c : split_cube_t) (to_split : List split_cube_t) (st : interior_state R) :
    Option (List split_cube_t × interior_state R) :=
  let csz := c.cube.get_size
  let wall_dim := (gen_interior_wall_dim ops k c st.rgen).1
  let rgen1 := (gen_interior_wall_dim ops k c st.rgen).2
  if min csz.x csz.y < k.min_wall_len then some (to_split, { st with rgen := rgen1 })
  else
    let wd := wall_dim.toNat
    let on_edge : Bool := c.cube.d wd false = p.d wd false ∨ c.cube.d wd true = p.d wd true
    match gen_interior_choose_wall_pos env ops k p c wall_dim on_edge (window_hspacing wall_dim)
        20 0 rgen1 with
    | none => none
    | some (_, false, rgen2) =>
      some (to_split,
        { st with rgen := rgen2, interior := { st.interior with rooms := st.interior.rooms ++ [c.cube] } })
    | some (wall_pos, true, rgen2) =>
      let wall := create_wall c.cube wall_dim wall_pos k.fc_thick k.wall_half_thick
        k.wall_edge_spacing
      match gen_interior_tjunctions k part_ix wall_dim wall_pos b.parts 0
          ⟨c, cube_t.zero, cube_t.zero, st.interior, st.wall_seps_placed⟩ with
      | none => none
      | some tj =>
        let c1 := tj.c
        match cube_rand_side_pos ops c1.cube (!wall_dim).toNat (1 / 4) k.doorway_width rgen2 with
        | none => none
        | some (doorway_pos, rgen3) =>
          let lo_pos := doorway_pos - k.doorway_hwidth
          let hi_pos := doorway_pos + k.doorway_hwidth
          match remove_section_from_cube wall lo_pos hi_pos (!wall_dim) with
          | none => none
          | some (wall_lo, wall_hi) =>
            let int1 := (tj.interior.push_wall wall_dim wall_lo).push_wall wall_dim wall_hi
            if csz.get wd > max env.wall_split_thresh 1 * k.min_wall_len then
              let sub (d : Bool) : split_cube_t :=
                { cube := c1.cube.set wd d (wall_lo.d wd (!d))
                  door_lo := c1.door_lo.set (2 * (!wall_dim).toNat + d.toNat)
                    (lo_pos - k.wall_half_thick)
                  door_hi := c1.door_hi.set (2 * (!wall_dim).toNat + d.toNat)
                    (hi_pos + k.wall_half_thick) }
              some (sub true :: sub false :: to_split,
                { st with rgen := rgen3, interior := int1, wall_seps_placed := tj.wall_seps_placed })
            else
              some (to_split,
                { st with rgen := rgen3
                          interior := { int1 with rooms := int1.rooms ++ [c1.cube] }
                          wall_seps_placed := tj.wall_seps_placed })

/-- The work-stack loop of the recursive partition (lines 1091-1167) for the part `p` of index
`part_ix`; `to_split` is the stack with its top at the head. `fuel` bounds the number of popped
regions; `none` when it runs out or an `assert` fails. -/
def gen_interior_split_loop {R G : Type} (env : Env) (ops : RandOps R G) (b : building_t)
    (k : interior_dims) (p : cube_t) (part_ix : Nat) (window_hspacing : Bool → ℚ) :
    Nat → List split_cube_t → interior_state R → Option (interior_state R)
  | _, [], st => some st
  | 0, _ :: _, _ => none
  | fuel + 1, c :: to_split, st =>
    match gen_interior_split_step env ops b k p part_ix window_hspacing c to_split st with
    | none => none
    | some (to_split1, st1) =>
      gen_interior_split_loop env ops b k p part_ix window_hspacing fuel to_split1 st1

/-- The recursive-partition branch for one part (lines 1081-1167). -/
def gen_interior_partition {R G : Type} (env : Env) (ops : RandOps R G) (b : building_t)
    (k : interior_dims) (p : cube_t) (part_ix : Nat) (fuel : Nat) (st : interior_state R) :
    Option (interior_state R) :=
  let psz := p.get_size
  match get_num_windows_on_side env b p.x1 p.x2, get_num_windows_on_side env b p.y1 p.y2 with
  | some nw0, some nw1 =>
    let window_hspacing (d : Bool) : ℚ := if d then psz.y / (nw1 : ℚ) else psz.x / (nw0 : ℚ)
    gen_interior_split_loop env ops b k p part_ix window_hspacing fuel [split_cube_t.of p] st
  | _, _ => none

/-- The test of a candidate doorway against the perpendicular walls (lines 1203-1206): some
perpendicular wall overlaps the doorway and crosses the wall. -/
def doorway_blocked (k : interior_dims) (d : Bool) (wall : cube_t) (lo_pos hi_pos : ℚ)
    (perp_walls : List cube_t) : Bool :=
  perp_walls.any (fun p =>
    decide (¬ (p.d (!d).toNat true < lo_pos - k.wall_thick ∨
        p.d (!d).toNat false > hi_pos + k.wall_thick) ∧
      (p.d d.toNat true > wall.d d.toNat false - k.wall_thick ∧
        p.d d.toNat false < wall.d d.toNat true + k.wall_thick)))

/-- The 4-try loop of the post-pass (lines 1198-1213): returns the two fragments of the wall when
a doorway could be cut. A failed `assert` is `none`. -/
def gen_interior_extra_door_tries {R G : Type} (ops : RandOps R G) (k : interior_dims) (d : Bool)
    (wall : cube_t) (perp_walls : List cube_t) : Nat → R → Option (Option (cube_t × cube_t) × R)
  | 0, rgen => some (none, rgen)
  | n + 1, rgen =>
    match cube_rand_side_pos ops wall (!d).toNat (1 / 4) k.doorway_width rgen with
    | none => none
    | some (doorway_pos, rgen1) =>
      let lo_pos := doorway_pos - k.doorway_hwidth
      let hi_pos := doorway_pos + k.doorway_hwidth
      if doorway_blocked k d wall lo_pos hi_pos perp_walls then
        gen_interior_extra_door_tries ops k d wall perp_walls n rgen1
      else
        match remove_section_from_cube wall lo_pos hi_pos (!d) with
        | none => none
        | some frag => some (some frag, rgen1)

/-- The loop `for (nsplits = 0; nsplits < 4; ++nsplits)` of the post-pass for the wall of index
`w` (lines 1191-1215). -/
def gen_interior_extra_door_splits {R G : Type} (ops : RandOps R G) (k : interior_dims) (d : Bool)
    (perp_walls : List cube_t) (w : Nat) : Nat → List cube_t × R → Option (List cube_t × R)
  | 0, st => some st
  | n + 1, (walls, rgen) =>
    let wall := walls.getD w cube_t.zero
    let len := wall.d (!d).toNat true - wall.d (!d).toNat false
    if len < (3 / 2) * k.min_wall_len then some (walls, rgen)
    else
      match gen_interior_extra_door_tries ops k d wall perp_walls 4 rgen with
      | none => none
      | some (none, rgen1) => some (walls, rgen1)
      | some (some (wall_lo, wall_hi), rgen1) =>
        gen_interior_extra_door_splits ops k d perp_walls w n (walls.set w wall_lo ++ [wall_hi], rgen1)

/-- The loop `for (w = 0; w < walls.size(); ++w)` of the post-pass (line 1190); the vector grows
while it is scanned, `fuel` bounds the number of walls visited. -/
def gen_interior_extra_doors {R G : Type} (ops : RandOps R G) (k : interior_dims) (d : Bool)
    (perp_walls : List cube_t) : Nat → Nat → List cube_t × R → Option (List cube_t × R)
  | fuel, w, (walls, rgen) =>
    if w ≥ walls.length then some (walls, rgen)
    else
      match fuel with
      | 0 => none
      | fuel1 + 1 =>
        match gen_interior_extra_door_splits ops k d perp_walls w 4 (walls, rgen) with
        | none => none
        | some st => gen_interior_extra_doors ops k d perp_walls fuel1 (w + 1) st

/-- The loop over the parts of `gen_interior` (lines 1005-1181); `ix` is the index of the head
of the list in `parts`. -/
def gen_interior_parts {R G : Type} (env : Env) (ops : RandOps R G) (b : building_t)
    (k : interior_dims) (fuel : Nat) : List cube_t → Nat → interior_state R →
    Option (interior_state R)
  | [], _, st => some st
  | p :: rest, ix, st =>
    if b.is_house = true ∧ ix > 1 then some st
    else
      match (calc_num_floors p k.window_vspacing k.floor_thickness : Option Nat) with
      | none => none
      | some num_floors =>
        if num_floors = 0 then gen_interior_parts env ops b k fuel rest (ix + 1) st
        else
          let psz := p.get_size
          let min_dim : Bool := decide (psz.y < psz.x)
          let cube_width : ℚ := psz.get min_dim.toNat
          let last_at_level : Bool :=
            (b.parts.get? (ix + 1)).elim true (fun q => decide (q.z1 > p.z1))
          let walls : Option (interior_state R) :=
            if b.is_house = false ∧ last_at_level = true ∧ cube_width > 4 * k.min_wall_len then
              gen_interior_hallway env b k p min_dim st
            else gen_interior_partition env ops b k p ix fuel st
          match walls with
          | none => none
          | some st1 =>
            let slabs := gen_interior_slab_loop p num_floors k.window_vspacing k.fc_thick
              (num_floors + 1) 0 p.z1 (st1.interior.ceilings, st1.interior.floors)
            gen_interior_parts env ops b k fuel rest (ix + 1)
              { st1 with interior := { st1.interior with ceilings := slabs.1, floors := slabs.2 } }

/-- The function `gen_interior`. It writes `interior` and `hallway_dim` only. `fuel` bounds the
work-stack loop and the post-pass; `none` when it runs out or an `assert` fails. The call of
`gen_room_details` at the end returns at once (line 1225). -/
def gen_interior {R G : Type} (env : Env) (ops : RandOps R G) (b : building_t) (fuel : Nat)
    (rgen : R) : Option (building_t × R) :=
  if !env.ADD_BUILDING_INTERIORS then some (b, rgen)
  else if !env.world_mode_inf_terrain then some (b, rgen)
  else if !env.windows_enabled then some (b, rgen)
  else if !env.is_cube b then some (b, rgen)
  else if !b.mat.add_windows then some (b, rgen)
  else
    let k := interior_dims.of env b
    let st0 : interior_state R :=
      { interior := ⟨[], [], [], [], [], none⟩
        hallway_dim := b.hallway_dim
        wall_seps_placed := [0, 0, 0, 0]
        has_hallway_with_rooms := false
        rgen := rgen }
    match gen_interior_parts env ops b k fuel
        (b.parts.take (b.parts.length - b.has_chimney.toNat)) 0 st0 with
    | none => none
    | some st1 =>
      let post : Option (building_interior_t × R) :=
        if !st1.has_hallway_with_rooms then
          match gen_interior_extra_doors ops k false st1.interior.walls1 fuel 0
              (st1.interior.walls0, st1.rgen) with
          | none => none
          | some (walls0, rgen1) =>
            match gen_interior_extra_doors ops k true walls0 fuel 0 (st1.interior.walls1, rgen1) with
            | none => none
            | some (walls1, rgen2) =>
              some ({ st1.interior with walls0 := walls0, walls1 := walls1 }, rgen2)
        else some (st1.interior, st1.rgen)
      match post with
      | none => none
      | some (interior, rgen3) =>
        some ({ b with interior := some interior, hallway_dim := st1.hallway_dim }, rgen3)

/-! ## `building_t::gen_house` (lines 591-735) -/

/-- The chimney of `gen_house` (lines 694-732). -/
def gen_house_chimney {R G : Type} (ops : RandOps R G) (b : building_t) (two_parts : Bool)
    (force_dim : Nat → Nat) (roof_dz : Nat → ℚ) (rgen : R) : building_t × R :=
  let (part_ix, rgen1) :=
    if two_parts then
      let v0 := (b.parts.getD 0 cube_t.zero).get_volume
      let v1 := (b.parts.getD 1 cube_t.zero).get_volume
      if v0 > 2 * v1 then (0, rgen)
      else if v1 > 2 * v0 then (1, rgen)
      else ((ops.rand_bool rgen).1.toNat, (ops.rand_bool rgen).2)
    else (0, rgen)
  let fdim := force_dim part_ix
  let part := b.parts.getD part_ix cube_t.zero
  let dim : Bool := if fdim < 2 then fdim == 1 else get_largest_xy_dim part
  let (dir0, rgen2) := ops.rand_bool rgen1
  let dir : Bool :=
    if two_parts = true ∧ part.d dim.toNat dir0 ≠ b.bcube.d dim.toNat dir0 then !dir0 else dir0
  let dm := dim.toNat
  let od := (!dim).toNat
  let sz1 := part.d od true - part.d od false
  let sz2 := part.d od true - part.d od false
  let (r3, rgen3) := ops.rand rgen2
  let (shift, rgen4) :=
    if r3 % 3 ≠ 0 then
      let (u, ra) := ops.rand_uniform (1 / 10) (1 / 4) rgen3
      let (neg, rb) := ops.rand_bool ra
      (if neg then -(sz1 * u) else sz1 * u, rb)
    else (0, rgen3)
  let center := (1 / 2) * (part.d od false + part.d od true) + shift
  let c1 := part.set dm (!dir) (part.d dm dir + (if dir then -(3 / 100) else 3 / 100) * (sz1 + sz2))
  let c2 := c1.set dm dir (c1.d dm dir + (if dir then -(1 / 100) else 1 / 100) * sz2)
  let c3 := (c2.set od false (center - (5 / 100) * sz1)).set od true (center + (5 / 100) * sz1)
  let (h, rgen5) := ops.rand_uniform (5 / 4) (3 / 2) rgen4
  let c : cube_t := { c3 with z1 := c3.z2, z2 := c3.z2 + (h * roof_dz part_ix - (2 / 5) * |shift|) }
  let cap : tquad_with_ix_t :=
    ⟨[⟨c.x1, c.y1, c.z2⟩, ⟨c.x2, c.y1, c.z2⟩, ⟨c.x2, c.y2, c.z2⟩, ⟨c.x1, c.y2, c.z2⟩], TYPE_CCAP⟩
  ({ b with parts := b.parts ++ [c], roof_tquads := b.roof_tquads ++ [cap], has_chimney := true },
    rgen5)

/-- The roofs of `gen_house` (lines 689-693): a peaked roof for every part of index below `n`.
Returns the building and the array `roof_dz`. -/
def gen_house_roofs (b : building_t) (force_dim : Nat → Nat) (peak_height : ℚ) :
    Nat → building_t × (Nat → ℚ)
  | 0 => (b, fun _ => 0)
  | ix + 1 =>
    let (b1, roof_dz) := gen_house_roofs b force_dim peak_height ix
    let part := b1.parts.getD ix cube_t.zero
    let fdim := force_dim ix
    let dim : Bool := if fdim < 2 then fdim == 1 else get_largest_xy_dim part
    let (b2, dz) := gen_peaked_roof b1 part peak_height dim
    (b2, fun j => if j = ix then dz else roof_dz j)

/-- The result of the multi-part section of `gen_house` (lines 607-679). -/
structure house_parts (R G : Type) where
  b : building_t
  force_dim : Nat → Nat
  skip_last_roof : Bool
  door_height : ℚ
  door_center : ℚ
  door_pos : ℚ
  door_dir : Bool
  door_part : Nat
  rgen : R
  g : G

/-- The draws of lines 612-631 of `gen_house`: `dim`, `dir2`, the two shrink amounts, the height
change of the second part and the two generator states. Type 1 is the L-shape, type 2 the
two-part house. -/
def gen_house_part_draws {R G : Type} (ops : RandOps R G) (base : cube_t) (type : Nat)
    (rgen2 : R) (g : G) : Bool × Bool × ℚ × ℚ × ℚ × R × G :=
  if type = 1 then
    let (dir2, ra) := ops.rand_bool rgen2
    let (dim, rb) := ops.rand_bool ra
    let (u, rc) := ops.rand_uniform (4 / 10) (6 / 10) rb
    let sh := u * (if dir2 then -1 else 1)
    let (dh, ga) := ops.g_rand_uniform (-(1 / 10)) (1 / 2) g
    (dim, dir2, if dir2 then 0 else sh, if dir2 then sh else 0, max 0 dh, rc, ga)
  else if type = 2 then
    let dim := get_largest_xy_dim base
    let (dh, ga) := ops.g_rand_uniform (1 / 10) (1 / 2) g
    let (b0, ra) := ops.rand_bool rgen2
    let (s0, rb) := if b0 then ops.rand_uniform (20 / 100) (35 / 100) ra else (0, ra)
    let (b1, rc) := ops.rand_bool rb
    let (s1, rd) := if b1 then ops.rand_uniform (20 / 100) (35 / 100) rc else (0, rc)
    (dim, false, s0 * 1, s1 * (-1), dh, rd, ga)
  else (false, false, 0, 0, 0, rgen2, g)

/-- The porch or garage/shed of an L-shaped house (lines 640-679 of `gen_house`), entered when
`detail_type != 0`: the extra parts, `skip_last_roof`, the door centre, position and part, the
door height and the generator. -/
def gen_house_detail {R G : Type} (ops : RandOps R G) (base part1 pre_shrunk_p1 : cube_t)
    (dim dir dir2 : Bool) (detail_type : Nat) (gen_door door_dim door_dir : Bool)
    (door_height0 : ℚ) (rgen5 : R) : List cube_t × Bool × ℚ × ℚ × Nat × ℚ × R :=
  let dm := dim.toNat
  let od := (!dim).toNat
  let c0 := pre_shrunk_p1.set od (!dir2) (part1.d od dir2)
  let (u1, ra) := ops.rand_uniform (4 / 10) (6 / 10) rgen5
  let dist1 := (c0.d od (!dir2) - base.d od dir2) * u1
  let (u2, rb) := ops.rand_uniform (4 / 10) (6 / 10) ra
  let dist2 := (c0.d dm (!dir) - base.d dm dir) * u2
  let (u3, rc) := ops.rand_uniform (55 / 100) (70 / 100) rb
  let height := u3 * part1.dz
  let (door_center, door_pos, door_part, door_height) : ℚ × ℚ × Nat × ℚ :=
    if gen_door then
      ((1 / 2) * (c0.d (!door_dim).toNat false + c0.d (!door_dim).toNat true +
          (if door_dim = dim then dist1 else dist2)),
        c0.d door_dim.toNat (!door_dir), if door_dim = dim then 0 else 1,
        min door_height0 ((95 / 100) * height))
    else (0, 0, 0, door_height0)
  let (extra, skip_last_roof) : List cube_t × Bool :=
    if detail_type = 1 then
      let width := (5 / 100) * (|dist1| + |dist2|)
      let c1 := c0.set od dir2 (c0.d od dir2 + dist1)
      let c2 := c1.set dm dir (c1.d dm dir + dist2)
      let c3 := c2.set od (!dir2) (c2.d od (!dir2) - (1 / 1000) * dist1)
      let c4 := c3.set dm (!dir) (c3.d dm (!dir) - (1 / 1000) * dist2)
      let c5 := { c4 with z1 := c4.z1 + height }
      let porch_roof := { c5 with z2 := c5.z1 + (5 / 100) * part1.dz }
      let c6 := { porch_roof with z2 := porch_roof.z1 }
      let c7 := { c6 with z1 := pre_shrunk_p1.z1 }
      let c8 := c7.set od (!dir2) (c7.d od dir2 + (if dir2 then -1 else 1) * width)
      let c9 := c8.set dm (!dir) (c8.d dm dir + (if dir then -1 else 1) * width)
      ([porch_roof, c9], true)
    else if detail_type = 2 then
      let c1 := c0.set od dir2 (base.d od dir2)
      let c2 := c1.set dm dir (base.d dm dir)
      let c3 := c2.set od (!dir2) (c2.d od (!dir2) - dist1)
      let c4 := c3.set dm (!dir) (c3.d dm (!dir) - dist2)
      ([{ c4 with z2 := c4.z1 + min (min c4.dx c4.dy) height }], false)
    else ([c0], false)
  (extra, skip_last_roof, door_center, door_pos, door_part, door_height, rc)

/-- The multi-part section of `gen_house` (lines 607-679), entered when `type != 0`; on entry
`parts` is `[base]`. A failed `assert` is `none`. -/
def gen_house_two_parts {R G : Type} (env : Env) (ops : RandOps R G) (b : building_t)
    (base : cube_t) (type : Nat) (gen_door door_dim : Bool) (door_height0 : ℚ) (rgen : R) (g : G) :
    Option (house_parts R G) :=
  let (dir, rgen1) := ops.rand_bool rgen
  let (sp, rgen2) := ops.rand_uniform (4 / 10) (6 / 10) rgen1
  let split := sp * (if dir then -1 else 1)
  let (dim, dir2, shrink0, shrink1, delta_height, rgen3, g1) :=
    gen_house_part_draws ops base type rgen2 g
  let dm := dim.toNat
  let od := (!dim).toNat
  let sz := base.get_size
  let part0 := base.set dm dir (base.d dm dir + split * sz.get dm)
  let part1a := base.set dm (!dir) (part0.d dm dir)
  let pre_shrunk_p1 := part1a
  let part1b := (part1a.set od false (part1a.d od false + shrink0 * sz.get od)).set od true
    (part1a.d od true + shrink1 * sz.get od)
  let part1c := { part1b with z2 := part1b.z2 - delta_height * part1b.dz }
  let part1o : Option cube_t :=
    if env.ADD_BUILDING_INTERIORS then
      adjust_part_zvals_for_floor_spacing env.EXACT_MULT_FLOOR_HEIGHT b.mat.floor_spacing part1c
    else some part1c
  match part1o with
  | none => none
  | some part1 =>
    let (fb, rgen4) := if type = 1 then ops.rand_bool rgen3 else (false, rgen3)
    let force_dim : Nat → Nat :=
      if type = 1 ∧ fb = true then
        fun i => if i = 0 then (!dim).toNat else if i = 1 then dim.toNat else env.force_dim_oob
      else if type = 2 then
        fun i => if i = 0 then dim.toNat else if i = 1 then dim.toNat else env.force_dim_oob
      else fun i => if i = 0 then 2 else if i = 1 then 0 else env.force_dim_oob
    let (detail_type, rgen5) :=
      if type = 1 then ((ops.rand rgen4).1 % 3, (ops.rand rgen4).2) else (0, rgen4)
    let door_dir0 : Bool := if door_dim = dim then dir else dir2
    let door_dir : Bool := if door_dim = dim ∧ detail_type = 0 then !door_dir0 else door_dir0
    if detail_type ≠ 0 then
      let (extra, skip_last_roof, door_center, door_pos, door_part, door_height, rc) :=
        gen_house_detail ops base part1 pre_shrunk_p1 dim dir dir2 detail_type gen_door door_dim
          door_dir door_height0 rgen5
      let parts := [part0, part1] ++ extra
      match calc_bcube_from_parts parts with
      | none => none
      | some bcube =>
        some ⟨{ b with parts := parts, bcube := bcube }, force_dim, skip_last_roof, door_height,
          door_center, door_pos, door_dir, door_part, rc, g1⟩
    else
      let parts := [part0, part1]
      match calc_bcube_from_parts parts with
      | none => none
      | some bcube =>
        some ⟨{ b with parts := parts, bcube := bcube }, force_dim, false, door_height0, 0, 0,
          door_dir, 0, rgen5, g1⟩

/-- The part layout of `gen_house` (lines 600-681): the single-part house, or the result of the
multi-part section; `b1` is the building with `parts = [base]`. -/
def gen_house_layout {R G : Type} (env : Env) (ops : RandOps R G) (b1 : building_t)
    (base : cube_t) (type : Nat) (door_dim : Bool) (rgen2 : R) (g : G) :
    Option (house_parts R G) :=
  let gen_door := env.windows_enabled
  if type ≠ 0 then
    gen_house_two_parts env ops b1 base type gen_door door_dim (env.get_door_height b1) rgen2 g
  else if gen_door then
    some ⟨b1, fun i => if i = 0 then 2 else if i = 1 then 0 else env.force_dim_oob, false,
      env.get_door_height b1, 0, 0, (ops.rand_bool rgen2).1, 0, (ops.rand_bool rgen2).2, g⟩
  else
    some ⟨b1, fun i => if i = 0 then 2 else if i = 1 then 0 else env.force_dim_oob, false,
      env.get_door_height b1, 0, 0, false, 0, rgen2, g⟩

/-- The door of `gen_house` (lines 683-687). -/
def gen_house_door {R G : Type} (env : Env) (ops : RandOps R G) (b2 : building_t)
    (h : house_parts R G) (door_dim : Bool) (rgen3 : R) : Option (building_t × R) :=
  if env.windows_enabled then
    let (door, r) := place_door ops b2 (b2.parts.getD h.door_part cube_t.zero) door_dim
      h.door_dir h.door_height h.door_center h.door_pos (1 / 4) (1 / 2) rgen3
    match add_door b2 door h.door_part door_dim h.door_dir false with
    | none => none
    | some b3 => some (b3, r)
  else some (b2, rgen3)

/-- The roofs, the chimney, the bounding-box update and the detail colour of `gen_house`
(lines 688-734). -/
def gen_house_top {R G : Type} (ops : RandOps R G) (b3 : building_t) (h : house_parts R G)
    (two_parts : Bool) (rgen4 : R) : building_t × R :=
  let (peak_height, rgen5) := ops.rand_uniform (15 / 100) (1 / 2) rgen4
  let (b4, roof_dz) :=
    gen_house_roofs b3 h.force_dim peak_height (b3.parts.length - h.skip_last_roof.toNat)
  let (rc, rgen6) := ops.rand rgen5
  let (b5, rgen7) :=
    if rc % 3 ≠ 0 then gen_house_chimney ops b4 two_parts h.force_dim roof_dz rgen6
    else (b4, rgen6)
  gen_grayscale_detail_color ops (add_roof_to_bcube b5) rgen7 (2 / 5) (4 / 5)

/-- The function `gen_house`. A failed `assert` is `none`. -/
def gen_house {R G : Type} (env : Env) (ops : RandOps R G) (b : building_t) (base : cube_t)
    (fuel : Nat) (rgen : R) (g : G) : Option (building_t × R × G) :=
  if b.parts ≠ [] then none
  else
    let (t, rgen1) := ops.rand rgen
    let type := t % 3
    let two_parts : Bool := type ≠ 0
    let b1 := { b with num_sides := 4, parts := [base] }
    let (door_dim, rgen2) := ops.rand_bool rgen1
    match gen_house_layout env ops b1 base type door_dim rgen2 g with
    | none => none
    | some h =>
      match gen_interior env ops h.b fuel h.rgen with
      | none => none
      | some (b2, rgen3) =>
        match gen_house_door env ops b2 h door_dim rgen3 with
        | none => none
        | some (b3, rgen4) =>
          let (b6, rgen8) := gen_house_top ops b3 h two_parts rgen4
          some (b6, rgen8, h.g)

/-! ## `building_t::gen_geometry` (lines 430-566) -/

/-- The result of the shape and level draws of `gen_geometry` (lines 447-474). -/
structure shape_draws (R : Type) where
  b : building_t
  was_cube : Bool
  num_levels : Nat
  do_split : Bool
  rgen : R

/-- Lines 448-453 of `gen_geometry`: the number of sides (cylinder, cube or N-gon). -/
def gen_geometry_num_sides {R G : Type} (env : Env) (ops : RandOps R G) (mat : building_mat_t)
    (rgen : R) : Nat × R :=
  let (round, rgen1) := ops.rand_probability mat.round_prob rgen
  if round then (env.MAX_CYLIN_SIDES, rgen1)
  else
    let (cube, ra) := ops.rand_probability mat.cube_prob rgen1
    if cube then (4, ra)
    else if mat.min_sides ≠ mat.max_sides then
      let (rn, rb) := ops.rand ra
      (mat.min_sides + rn % (1 + ((mat.max_sides : ℤ) - (mat.min_sides : ℤ)).natAbs), rb)
    else (mat.min_sides, ra)

/-- Lines 456-459 of `gen_geometry`: the flat-side amount and the start angle. -/
def gen_geometry_flat_side {R G : Type} (env : Env) (ops : RandOps R G) (b : building_t)
    (rgen : R) : building_t × R :=
  if b.num_sides ≥ 6 ∧ b.mat.max_fsa > 0 then
    let (u, ra) := ops.rand_uniform b.mat.min_fsa b.mat.max_fsa rgen
    let fsa := max 0 (min (45 / 100) u)
    if fsa > 0 ∧ b.rot_sin = 0 then
      let (sa, rb) := ops.rand_uniform 0 env.TWO_PI ra
      ({ b with flat_side_amt := fsa, start_angle := sa }, rb)
    else ({ b with flat_side_amt := fsa }, ra)
  else (b, rgen)

/-- Lines 460-464 of `gen_geometry`: the alternating-step factor, which doubles the number of
sides. -/
def gen_geometry_alt_step {R G : Type} (ops : RandOps R G) (b : building_t) (rgen : R) :
    building_t × R :=
  if (b.num_sides = 3 ∨ b.num_sides = 4 ∨ b.num_sides = 6) ∧ b.mat.max_asf > 0 then
    let (pa, ra) := ops.rand_probability b.mat.asf_prob rgen
    if pa then
      let (u, rb) := ops.rand_uniform b.mat.min_asf b.mat.max_asf ra
      let asf := max 0 (min (99 / 100) u)
      ({ b with alt_step_factor := asf
                half_offset := if asf > 0 ∧ b.num_sides % 2 = 0 then true else b.half_offset
                num_sides := if asf > 0 then b.num_sides * 2 else b.num_sides }, rb)
    else (b, ra)
  else (b, rgen)

/-- Lines 467-473 of `gen_geometry`: the number of levels. -/
def gen_geometry_num_levels {R G : Type} (ops : RandOps R G) (b : building_t) (was_cube : Bool)
    (rgen : R) : Nat × R :=
  let mat := b.mat
  let (num_levels0, rgen1) : Nat × R :=
    if mat.min_levels < mat.max_levels then
      let (go, ra) := if was_cube then (true, rgen) else ops.rand_bool rgen
      if go then
        let (rn, rb) := ops.rand ra
        (mat.min_levels + rn % (mat.max_levels - mat.min_levels + 1), rb)
      else (mat.min_levels, ra)
    else (mat.min_levels, rgen)
  let num_levels1 :=
    if mat.min_level_height > 0 then
      max mat.min_levels (min num_levels0 (⌊b.bcube.get_size.z / mat.min_level_height⌋).toNat)
    else num_levels0
  (max num_levels1 1, rgen1)

/-- Lines 447-474 of `gen_geometry`: the shape class, the flat-side and alternating-step
factors, the number of levels and the split flag. -/
def gen_geometry_shape {R G : Type} (env : Env) (ops : RandOps R G) (b : building_t) (rgen : R) :
    shape_draws R :=
  let (num_sides0, rgen2) := gen_geometry_num_sides env ops b.mat rgen
  let b1 := { b with num_sides := num_sides0 }
  let was_cube := env.is_cube b1
  let (b2, rgen3) := gen_geometry_flat_side env ops b1 rgen2
  let (b3, rgen4) := gen_geometry_alt_step ops b2 rgen3
  let (num_levels, rgen5) := gen_geometry_num_levels ops b3 was_cube rgen4
  let (do_split, rgen6) : Bool × R :=
    if num_levels < 4 ∧ env.is_cube b3 = true then ops.rand_probability b3.mat.split_prob rgen5
    else (false, rgen5)
  ⟨b3, was_cube, num_levels, do_split, rgen6⟩

/-- The 10-attempt loop of the overlapping-levels branch (lines 503-512) for the level box `bc`;
`prev` are the earlier levels. The failed `assert(bc.is_strictly_normalized())` is `none`. -/
def gen_geometry_overlap_tries {R G : Type} (ops : RandOps R G) (base : cube_t) (sz : point)
    (min_edge_mode : ℚ) (prev : List cube_t) : Nat → cube_t → R → Option (cube_t × R)
  | 0, bc, rgen => some (bc, rgen)
  | n + 1, bc, rgen =>
    let (u1, r1) := ops.rand_uniform (-(2 / 10)) (45 / 100) rgen
    let (u2, r2) := ops.rand_uniform (-(2 / 10)) (45 / 100) r1
    let (u3, r3) := ops.rand_uniform (-(2 / 10)) (45 / 100) r2
    let (u4, r4) := ops.rand_uniform (-(2 / 10)) (45 / 100) r3
    let bc1 : cube_t :=
      { bc with x1 := base.x1 + max u1 min_edge_mode * sz.x
                x2 := base.x2 - max u2 min_edge_mode * sz.x
                y1 := base.y1 + max u3 min_edge_mode * sz.y
                y2 := base.y2 - max u4 min_edge_mode * sz.y }
    if ¬ bc1.is_strictly_normalized then none
    else if prev.any (fun q => decide (bc1.contains_cube q)) then
      gen_geometry_overlap_tries ops base sz min_edge_mode prev n bc1 r4
    else some (bc1, r4)

/-- The loop over the levels of the overlapping-levels branch (lines 495-513): `k` levels are
still to be generated, `done` are the generated ones. -/
def gen_geometry_overlap_levels {R G : Type} (env : Env) (ops : RandOps R G) (mat : building_mat_t)
    (base : cube_t) (dz : ℚ) : Nat → List cube_t → R → Option (List cube_t × R)
  | 0, done, rgen => some (done, rgen)
  | k + 1, done, rgen =>
    let i := done.length
    let bc0 : cube_t := { cube_t.zero with z1 := base.z1, z2 := base.z1 + ((i : ℚ) + 1) * dz }
    let (bc1, rgen1) : cube_t × R :=
      if i > 0 then
        let (u, r) := ops.rand_uniform (-(1 / 2)) (1 / 2) rgen
        ({ bc0 with z2 := min (bc0.z2 + dz * u) base.z2 }, r)
      else (bc0, rgen)
    match adjust_part_zvals_for_floor_spacing env.EXACT_MULT_FLOOR_HEIGHT mat.floor_spacing bc1 with
    | none => none
    | some bc2 =>
      let min_edge_mode : ℚ := if mat.no_city then (4 / 100) * (i : ℚ) else 0
      match gen_geometry_overlap_tries ops base base.get_size min_edge_mode done 10 bc2 rgen1 with
      | none => none
      | some (bc3, rgen2) =>
        gen_geometry_overlap_levels env ops mat base dz k (done ++ [bc3]) rgen2

/-- The footprint of one level of the shrinking stack along the axis `d` (lines 528-539): the two
edges of `prev` are shifted inwards and a shift that leaves less than `min_edge_len` is
reverted. Returns the pair (low edge, high edge). -/
def gen_geometry_shrink_axis {R G : Type} (ops : RandOps R G) (shift_mult : ℚ) (prev_lo prev_hi : ℚ)
    (min_edge_len : ℚ) (rgen : R) : (ℚ × ℚ) × R :=
  let len := prev_hi - prev_lo
  let (inv, r1) := ops.rand_bool rgen
  let (n0, r2) := ops.rand r1
  let (delta0, r3) : ℚ × R :=
    if n0 % 4 ≠ 0 then
      ((shift_mult * (ops.rand_uniform (1 / 10) (4 / 10) r2).1), (ops.rand_uniform (1 / 10) (4 / 10) r2).2)
    else (0, r2)
  let lo0 := prev_lo + delta0 * len
  let (n1, r4) := ops.rand r3
  let (delta1, r5) : ℚ × R :=
    if n1 % 4 ≠ 0 then
      ((shift_mult * (ops.rand_uniform (1 / 10) (4 / 10) r4).1), (ops.rand_uniform (1 / 10) (4 / 10) r4).2)
    else (0, r4)
  let hi0 := prev_hi + (-delta1) * len
  -- for E = 0, 1: e = (E != 0) ^ inv; revert edge e when the width is under min_edge_len
  let revert (e : Bool) (lh : ℚ × ℚ) : ℚ × ℚ :=
    if lh.2 - lh.1 < min_edge_len then (if e then (lh.1, prev_hi) else (prev_lo, lh.2)) else lh
  (revert (xor true inv) (revert (xor false inv) (lo0, hi0)), r5)

/-- The footprint and bottom of one level of the shrinking stack (lines 522-542): level 0 is the
base, every other level is derived from the previous level `prev`. -/
def gen_geometry_shrink_level {R G : Type} (ops : RandOps R G) (bcube base : cube_t)
    (was_cube : Bool) (prev : Option cube_t) (rgen : R) : cube_t × R :=
  match prev with
  | none => (base, rgen)
  | some prev =>
    let shift_mult : ℚ := if was_cube then 1 else 1 / 2
    let (x, r1) := gen_geometry_shrink_axis ops shift_mult prev.x1 prev.x2
      ((2 / 10) / shift_mult * (bcube.x2 - bcube.x1)) rgen
    let (y, r2) := gen_geometry_shrink_axis ops shift_mult prev.y1 prev.y2
      ((2 / 10) / shift_mult * (bcube.y2 - bcube.y1)) r1
    ({ cube_t.zero with x1 := x.1, x2 := x.2, y1 := y.1, y2 := y.2, z1 := prev.z2 }, r2)

/-- The loop over the levels of the shrinking stack (lines 520-545): `k` levels are still to be
generated, `done` are the generated ones. -/
def gen_geometry_shrink_levels {R G : Type} (ops : RandOps R G) (bcube base : cube_t)
    (was_cube : Bool) (dz : ℚ) : Nat → List cube_t → R → List cube_t × R
  | 0, done, rgen => (done, rgen)
  | k + 1, done, rgen =>
    let (bc, rgen1) := gen_geometry_shrink_level ops bcube base was_cube done.getLast? rgen
    let bc1 := ({ bc with z2 := bc.z1 + dz }).normalize
    gen_geometry_shrink_levels ops bcube base was_cube dz k (done ++ [bc1]) rgen1

/-- The z jitter of the shrinking stack (lines 546-551): `lower` are the finished levels, `cur`
the level `i-1` and `upper` the levels from `i` on. A failed `assert` is `none`. -/
def gen_geometry_jitter {R G : Type} (env : Env) (ops : RandOps R G) (mat : building_mat_t)
    (dz : ℚ) : List cube_t → cube_t → List cube_t → R → Option (List cube_t × cube_t × R)
  | lower, cur, [], rgen => some (lower, cur, rgen)
  | lower, cur, nxt :: upper, rgen =>
    let (ddz, rgen1) := ops.rand_uniform (-(35 / 100) * dz) ((35 / 100) * dz) rgen
    match adjust_part_zvals_for_floor_spacing env.EXACT_MULT_FLOOR_HEIGHT mat.floor_spacing
        { cur with z2 := cur.z2 + ddz } with
    | none => none
    | some cur1 =>
      gen_geometry_jitter env ops mat dz (lower ++ [cur1]) { nxt with z1 := cur1.z2 } upper rgen1

/-- The roof and details of a building without split (lines 480-481 and 561-562). -/
def gen_geometry_roof_details {R G : Type} (env : Env) (ops : RandOps R G) (b : building_t)
    (with_details : Bool) (fuel : Nat) (rgen : R) : Option (building_t × R) :=
  let (rn, rgen1) := ops.rand rgen
  let roofed : Option (building_t × R) :=
    if rn % 4 ≠ 0 then gen_sloped_roof env ops b rgen1 else some (b, rgen1)
  match roofed with
  | none => none
  | some (b1, rgen2) => if with_details then gen_details env ops b1 fuel rgen2 else some (b1, rgen2)

/-- The common tail of the non-house paths: `gen_interior` followed by
`gen_building_doors_if_needed`. -/
def gen_geometry_finish {R G : Type} (env : Env) (ops : RandOps R G) (b : building_t) (fuel : Nat)
    (rgen : R) (g : G) : Option (building_t × G) :=
  match gen_interior env ops b fuel rgen with
  | none => none
  | some (b1, rgen1) =>
    match gen_building_doors_if_needed env ops b1 rgen1 with
    | none => none
    | some (b2, _) => some (b2, g)

/-- The base box of `gen_geometry` (lines 433-434): the part list after the adjustment of its
first element, and `parts.empty() ? bcube : parts.back()`. -/
def gen_geometry_base (env : Env) (b : building_t) : Option cube_t :=
  match b.parts with
  | [] => some b.bcube
  | p :: ps =>
    match adjust_part_zvals_for_floor_spacing env.EXACT_MULT_FLOOR_HEIGHT b.mat.floor_spacing p with
    | none => none
    | some p1 => some (vec_back (p1 :: ps) cube_t.zero)

/-- The function `gen_geometry`. `g` is the state of the process-wide random generators, `fuel`
bounds the unbounded loops of `gen_details` and `gen_interior`. A failed `assert` or exhausted
fuel is `none`. -/
def gen_geometry {R G : Type} (env : Env) (ops : RandOps R G) (b : building_t)
    (rseed1 rseed2 : ℤ) (fuel : Nat) (g : G) : Option (building_t × G) :=
  if !env.is_valid b then some (b, g)
  else
    match gen_geometry_base env b with
    | none => none
    | some base =>
      if ¬ base.is_strictly_normalized then none
      else
        let b0 :=
          { b with parts := [], details := [], roof_tquads := [], doors := [], interior := none
                   ao_bcz2 := b.bcube.z2 }
        let rgen := ops.set_state (123 + rseed1) (345 * rseed2)
        if b0.is_house then
          match gen_house env ops b0 base fuel rgen g with
          | none => none
          | some (b1, _, g1) => some (b1, g1)
        else
          let sh := gen_geometry_shape env ops b0 rgen
          let mat := b0.mat
          if sh.num_levels = 1 then
            let built : Option (building_t × R × G) :=
              if sh.do_split then split_in_xy ops sh.b base sh.rgen g
              else
                match gen_geometry_roof_details env ops { sh.b with parts := [base] } true fuel
                    sh.rgen with
                | none => none
                | some (b1, r1) => some (b1, r1, g)
            match built with
            | none => none
            | some (b1, r1, g1) => gen_geometry_finish env ops b1 fuel r1 g1
          else
            let height := base.dz
            let dz := height / (sh.num_levels : ℚ)
            if ¬ height > 0 then none
            else
              let (overlap, rgen1) : Bool × R :=
                if !sh.do_split then
                  (decide ((ops.rand sh.rgen).1 % 4 < (if sh.was_cube then 2 else 3)),
                    (ops.rand sh.rgen).2)
                else (false, sh.rgen)
              if overlap then
                match gen_geometry_overlap_levels env ops mat base dz sh.num_levels [] rgen1 with
                | none => none
                | some (parts, rgen2) =>
                  match calc_bcube_from_parts parts with
                  | none => none
                  | some bcube =>
                    match gen_details env ops { sh.b with parts := parts, bcube := bcube } fuel
                        rgen2 with
                    | none => none
                    | some (b1, rgen3) => gen_geometry_finish env ops b1 fuel rgen3 g
              else
                let (levels, rgen2) :=
                  gen_geometry_shrink_levels ops sh.b.bcube base sh.was_cube dz sh.num_levels []
                    rgen1
                match levels with
                | [] => none
                | first :: upper =>
                  match gen_geometry_jitter env ops mat dz [] first upper rgen2 with
                  | none => none
                  | some (lower, last0, rgen3) =>
                    match adjust_part_zvals_for_floor_spacing env.EXACT_MULT_FLOOR_HEIGHT
                        mat.floor_spacing last0 with
                    | none => none
                    | some last =>
                      let bcube1 := { sh.b.bcube with z2 := max sh.b.bcube.z2 last.z2 }
                      let b1 := { sh.b with parts := lower ++ [last], bcube := bcube1 }
                      let built : Option (building_t × R × G) :=
                        if sh.do_split then
                          split_in_xy ops { b1 with parts := lower } last rgen3 g
                        else
                          match gen_geometry_roof_details env ops b1
                              (decide (sh.num_levels ≤ 3)) fuel rgen3 with
                          | none => none
                          | some (b2, r2) => some (b2, r2, g)
                      match built with
                      | none => none
                      | some (b2, r2, g2) => gen_geometry_finish env ops b2 fuel r2 g2

/-! ## Instances for evaluating the model on concrete inputs -/

/-- A scripted random source: `set_state` installs the script, every draw consumes its head
(0 when the script is exhausted). A uniform draw maps the head `n` to the point
`(n mod 101)/100` of the way from `lo` to `hi`. -/
def script_ops (script : List Nat) : RandOps (List Nat) (List Nat) where
  set_state := fun _ _ => script
  rand := fun r => (r.headD 0, r.tail)
  rand_bool := fun r => (r.headD 0 % 2 == 1, r.tail)
  rand_uniform := fun lo hi r => (lo + (hi - lo) * (((r.headD 0 % 101 : Nat) : ℚ) / 100), r.tail)
  rand_probability := fun p r => (decide ((((r.headD 0 % 100 : Nat) : ℚ) / 100) < p), r.tail)
  c_rand := fun g => (g.headD 0, g.tail)
  g_rand_uniform := fun lo hi g => (lo + (hi - lo) * (((g.headD 0 % 101 : Nat) : ℚ) / 100), g.tail)

/-- An instance of the external declarations for concrete evaluation. The inline predicates of
`building_t` follow the meaning the source gives them (a building is valid when its bounding box
is not all zeros, rotated when `rot_sin != 0`, a cube when `num_sides == 4`); `sin` and `cos`
return the given pair; the broad-phase test compares the distance from the sphere centre to the
box with the radius; two boxes intersect when they overlap with positive length on all three
axes; the helpers that the evaluated paths do not reach have trivial values. -/
def demo_env (sin_val cos_val : ℚ) (windows : Bool) : Env where
  EXACT_MULT_FLOOR_HEIGHT := true
  ADD_BUILDING_INTERIORS := true
  MAX_CYLIN_SIDES := 36
  TWO_PI := 6283 / 1000
  world_mode_inf_terrain := true
  windows_enabled := windows
  window_width_fract := 1 / 2
  wall_split_thresh := 4
  force_dim_oob := 2
  get_door_height := fun b => (1 / 2) * b.mat.floor_spacing
  is_valid := fun b => decide (b.bcube ≠ cube_t.zero)
  is_rotated := fun b => decide (b.rot_sin ≠ 0)
  is_cube := fun b => b.num_sides == 4
  is_simple_cube := fun b =>
    b.num_sides == 4 && !b.half_offset && decide (b.flat_side_amt = 0 ∧ b.alt_step_factor = 0)
  use_cylinder_coll := fun b => decide (b.num_sides > 8 ∧ b.flat_side_amt = 0)
  sqrt := fun q => ((Nat.sqrt (q.num.toNat * q.den) : Nat) : ℚ) / (q.den : ℚ)
  sin := fun _ => sin_val
  cos := fun _ => cos_val
  fract := fun q => q - (⌊q⌋ : ℚ)
  clip_low_high := fun a c => (a, c)
  calc_poly_pts := fun _ c => [⟨c.x1, c.y1, 0⟩, ⟨c.x2, c.y1, 0⟩, ⟨c.x2, c.y2, 0⟩, ⟨c.x1, c.y2, 0⟩]
  point_in_polygon_2d := fun _ _ _ _ => false
  get_poly_norm := fun _ => plus_z
  dot_product_ptv := fun v a c => v.x * (a.x - c.x) + v.y * (a.y - c.y) + v.z * (a.z - c.z)
  sphere_poly_intersect := fun _ _ _ _ _ _ => false
  dist_xy_less_than := fun a c r =>
    decide ((a.x - c.x) * (a.x - c.x) + (a.y - c.y) * (a.y - c.y) < r * r)
  sphere_cube_intersect := fun pos radius cube _ _ skip_z =>
    let ex := max (cube.x1 - pos.x) (max 0 (pos.x - cube.x2))
    let ey := max (cube.y1 - pos.y) (max 0 (pos.y - cube.y2))
    let ez := if skip_z then 0 else max (cube.z1 - pos.z) (max 0 (pos.z - cube.z2))
    decide (ex * ex + ey * ey + ez * ez < radius * radius)
  sphere_cube_int_update_pos := fun pos _ _ _ _ _ cnorm => (false, pos, cnorm)
  tquad_get_norm := fun _ => plus_z
  check_line_clip := fun _ _ _ => false
  get_line_clip := fun _ _ _ => none
  line_poly_intersect := fun _ _ _ _ _ => none
  line_int_cylinder := fun _ _ _ _ _ _ _ => none
  point_in_ellipse := fun _ _ _ _ => false
  point_in_ellipse_risq := fun _ _ _ _ => false
  cube_intersects := fun a c =>
    decide (a.x1 < c.x2 ∧ c.x1 < a.x2 ∧ a.y1 < c.y2 ∧ c.y1 < a.y2 ∧ a.z1 < c.z2 ∧ c.z1 < a.z2)

/-- A material for concrete evaluation: cuboid buildings with one level, no split, floor
spacing 3. -/
def demo_mat : building_mat_t where
  max_rot_angle := 1
  round_prob := 0
  cube_prob := 1
  min_sides := 4
  max_sides := 4
  min_fsa := 0
  max_fsa := 0
  min_asf := 0
  max_asf := 0
  asf_prob := 0
  min_levels := 1
  max_levels := 1
  min_level_height := 0
  split_prob := 0
  no_city := false
  add_windows := true
  floor_spacing := 3
  window_tx := 1

/-- A freshly constructed building with the given bounding box: no geometry, not rotated. -/
def demo_building (bcube : cube_t) : building_t where
  bcube := bcube
  parts := []
  details := []
  roof_tquads := []
  doors := []
  interior := none
  num_sides := 4
  rot_sin := 0
  rot_cos := 1
  flat_side_amt := 0
  alt_step_factor := 0
  start_angle := 0
  half_offset := false
  is_house := false
  has_chimney := false
  has_antenna := false
  hallway_dim := 2
  door_sides := [0, 0, 0, 0]
  detail_color := 0
  ao_bcz2 := 0
  mat := demo_mat

/-! ## Properties stated about the generated geometry -/

/-- The building `b2` has the bounding box, parts, details, roof polygons and antenna flag
of `b`. -/
def building_t.same_geometry (b b2 : building_t) : Prop :=
  b2.bcube = b.bcube ∧ b2.parts = b.parts ∧ b2.details = b.details ∧
    b2.roof_tquads = b.roof_tquads ∧ b2.has_antenna = b.has_antenna

/-- The bounding box contains every part (closed containment on all three axes). -/
def building_t.encloses_parts (b : building_t) : Prop :=
  ∀ p ∈ b.parts, b.bcube.contains_cube p

/-- A material for concrete evaluation: five-sided buildings with one level. -/
def demo_ngon_mat : building_mat_t :=
  { demo_mat with cube_prob := 0, min_sides := 5, max_sides := 5 }

/-- A freshly constructed five-sided building with the given bounding box. -/
def demo_ngon_building (bcube : cube_t) : building_t :=
  { demo_building bcube with mat := demo_ngon_mat }

/-! ## The shrinking stack of `gen_geometry` as one function (lines 488-552) -/

/-- The levels of the shrinking stack as `gen_geometry` computes them (lines 488-490 and
520-552): the `assert(height > 0)`, the loop over the levels, the z jitter with its snapping of
the levels `0 .. num_levels-2` and the snapping of the last level. Returns the levels below the
last one, the last level and the generator. A failed `assert` is `none`. -/
def gen_geometry_stack {R G : Type} (env : Env) (ops : RandOps R G) (mat : building_mat_t)
    (bcube base : cube_t) (was_cube : Bool) (num_levels : Nat) (rgen : R) :
    Option (List cube_t × cube_t × R) :=
  let height := base.dz
  let dz := height / (num_levels : ℚ)
  if ¬ height > 0 then none
  else
    match (gen_geometry_shrink_levels ops bcube base was_cube dz num_levels [] rgen).1 with
    | [] => none
    | first :: upper =>
      match gen_geometry_jitter env ops mat dz [] first upper
          (gen_geometry_shrink_levels ops bcube base was_cube dz num_levels [] rgen).2 with
      | none => none
      | some (lower, last0, rgen3) =>
        match adjust_part_zvals_for_floor_spacing env.EXACT_MULT_FLOOR_HEIGHT mat.floor_spacing
            last0 with
        | none => none
        | some last => some (lower, last, rgen3)

/-- The height of a box is a positive whole number of floor spacings `S`. -/
def cube_t.whole_floors (c : cube_t) (S : ℚ) : Prop :=
  ∃ k : Nat, 1 ≤ k ∧ c.dz = (k : ℚ) * S

/-! ## `building_t::check_line_coll` (lines 276-369) -/

/-- Modelled from the spec: `vector3d::mag` (header not under `src/`), the Euclidean length,
through the square root of the environment. -/
def point.mag (env : Env) (v : point) : ℚ := env.sqrt (v.x * v.x + v.y * v.y + v.z * v.z)

/-- The iterative refinement of the hit on an ellipse (lines 307-310) for the remaining `n`
iterations, on the state `(hit, tmin, t_step)`. -/
def check_line_coll_ellipse_steps (env : Env) (p1r delta cc : point) (rx_inv_sq ry_inv_sq : ℚ) :
    Nat → Bool × ℚ × ℚ → Bool × ℚ × ℚ
  | 0, st => st
  | n + 1, (hit, tmin, t_step) =>
    let inside := env.point_in_ellipse_risq (p1r.add (point.smul tmin delta)) cc rx_inv_sq ry_inv_sq
    let hit1 := if inside then true else hit
    let tmin1 := if inside then tmin - t_step else tmin + t_step
    let t_step1 := if hit1 then t_step * (1 / 2) else t_step
    check_line_coll_ellipse_steps env p1r delta cc rx_inv_sq ry_inv_sq n (hit1, tmin1, t_step1)

/-- The vertical-cylinder branch of the part test of `check_line_coll` (lines 291-315): the new
`t` when the part is hit. -/
def check_line_coll_cylinder (env : Env) (p1r p2r : point) (vert occlusion_only : Bool)
    (part : cube_t) (t : ℚ) : Option ℚ :=
  let cc := part.get_cube_center
  let csz := part.get_size
  if vert then
    if !env.point_in_ellipse p1r cc ((1 / 2) * csz.x) ((1 / 2) * csz.y) then none
    else
      let tmin := (part.z2 - p1r.z) / (p2r.z - p1r.z)
      if tmin ≥ 0 ∧ tmin < t then some tmin else none
  else
    let radius := (1 / 2) * (if occlusion_only then min csz.x csz.y else max csz.x csz.y)
    let cp1 : point := ⟨cc.x, cc.y, part.z1⟩
    let cp2 : point := ⟨cc.x, cc.y, part.z2⟩
    match env.line_int_cylinder p1r p2r cp1 cp2 radius radius true with
    | none => none
    | some tmin =>
      if tmin > t then none
      else if occlusion_only = false ∧ csz.x ≠ csz.y then
        let delta := p2r.sub p1r
        let rx_inv_sq := 1 / ((1 / 4) * csz.x * csz.x)
        let ry_inv_sq := 1 / ((1 / 4) * csz.y * csz.y)
        let t_step := (1 / 10) * max csz.x csz.y / delta.mag env
        let (hit, tmin1, _) :=
          check_line_coll_ellipse_steps env p1r delta cc rx_inv_sq ry_inv_sq 10
            (false, tmin, t_step)
        if hit then some tmin1 else none
      else some tmin

/-- The loop over the sides of an N-gon part in `check_line_coll` (lines 328-334), on the state
`(t, hit)`. -/
def check_line_coll_sides (env : Env) (p1r p2r : point) (points : List point) (num_sides : Nat)
    (part : cube_t) : List Nat → ℚ × Bool → ℚ × Bool
  | [], st => st
  | S :: rest, (t, hit) =>
    let quad_pts := side_quad_pts points num_sides part S
    match env.line_poly_intersect p1r p2r quad_pts 4 (env.get_poly_norm quad_pts) with
    | some tmin =>
      if tmin < t then check_line_coll_sides env p1r p2r points num_sides part rest (tmin, true)
      else check_line_coll_sides env p1r p2r points num_sides part rest (t, hit)
    | none => check_line_coll_sides env p1r p2r points num_sides part rest (t, hit)

/-- The N-gon branch of the part test of `check_line_coll` (lines 317-336): the new `t` when the
part is hit. -/
def check_line_coll_ngon (env : Env) (b : building_t) (p1r p2r : point) (vert : Bool)
    (part : cube_t) (t : ℚ) : Option ℚ :=
  let points := env.calc_poly_pts b part
  let tz := (part.z2 - p1r.z) / (p2r.z - p1r.z)
  let (t1, hit1) : ℚ × Bool :=
    if tz ≥ 0 ∧ tz < t then
      let xval := p1r.x + tz * (p2r.x - p1r.x)
      let yval := p1r.y + tz * (p2r.y - p1r.y)
      if env.point_in_polygon_2d xval yval points points.length then (tz, true) else (t, false)
    else (t, false)
  let (t2, hit2) :=
    if !vert then
      check_line_coll_sides env p1r p2r points b.num_sides part (List.range b.num_sides)
        (t1, hit1)
    else (t1, hit1)
  if hit2 then some t2 else none

/-- The test of one part in `check_line_coll` (lines 288-337): the new `t` when the part is hit
(`hit` is set exactly when `t` is assigned). -/
def check_line_coll_part (env : Env) (b : building_t) (p1r p2r : point) (pzmin pzmax : ℚ)
    (vert occlusion_only : Bool) (part : cube_t) (t : ℚ) : Option ℚ :=
  if pzmin > part.z2 ∨ pzmax < part.z1 then none
  else if env.use_cylinder_coll b then
    check_line_coll_cylinder env p1r p2r vert occlusion_only part t
  else if b.num_sides ≠ 4 then check_line_coll_ngon env b p1r p2r vert part t
  else
    match env.get_line_clip p1r p2r part with
    | some (tmin, _) => if tmin < t then some tmin else none
    | none => none

/-- The loop over the parts in `check_line_coll` (lines 288-347), on the state `(t, coll)`. The
first component of the result is the value of an early `return`. -/
def check_line_coll_parts (env : Env) (b : building_t) (p1 p2 p1r p2r : point)
    (pzmin pzmax : ℚ) (vert occlusion_only ret_any_pt : Bool) :
    List cube_t → ℚ × Nat → Option Nat × ℚ × Nat
  | [], st => (none, st)
  | part :: rest, (t, coll) =>
    match check_line_coll_part env b p1r p2r pzmin pzmax vert occlusion_only part t with
    | none =>
      check_line_coll_parts env b p1 p2 p1r p2r pzmin pzmax vert occlusion_only ret_any_pt rest
        (t, coll)
    | some t1 =>
      if occlusion_only then (some 1, t1, coll)
      else
        let coll1 : Nat :=
          if vert then 2
          else
            let zval := p1.z + t1 * (p2.z - p1.z)
            if |zval - part.z2| < (1 / 10000) * part.dz then 2 else 1
        if ret_any_pt then (some coll1, t1, coll1)
        else
          check_line_coll_parts env b p1 p2 p1r p2r pzmin pzmax vert occlusion_only ret_any_pt
            rest (t1, coll1)

/-- The loop over the detail boxes in `check_line_coll` (lines 350-352). -/
def check_line_coll_details (env : Env) (p1r p2r : point) (details : List cube_t)
    (st : ℚ × Nat) : ℚ × Nat :=
  details.foldl (fun st i =>
    match env.get_line_clip p1r p2r i with
    | some (tmin, _) => if tmin < st.1 then (tmin, 3) else st
    | none => st) st

/-- The loop over the roof polygons in `check_line_coll` (lines 354-356). -/
def check_line_coll_roof (env : Env) (p1r p2r : point) (roof : List tquad_with_ix_t)
    (st : ℚ × Nat) : ℚ × Nat :=
  roof.foldl (fun st i =>
    match env.line_poly_intersect p1r p2r i.pts i.pts.length (env.tquad_get_norm i) with
    | some tmin => if tmin < st.1 then (tmin, 2) else st
    | none => st) st

/-- The function `check_line_coll`: the returned collision kind (0 none, 1 side, 2 roof,
3 details) and the final value of the in-out argument `t`. The helpers that write `tmin` return
it as an option; `tmin` is read only after a helper has succeeded. The divisions are those of
the source; a zero divisor, which gives an infinity or NaN in floating point, gives 0 here. -/
def check_line_coll (env : Env) (b : building_t) (p1 p2 xlate : point) (t : ℚ)
    (occlusion_only ret_any_pt no_coll_pt : Bool) : Nat × ℚ :=
  if !env.check_line_clip (p1.sub xlate) (p2.sub xlate) b.bcube then (0, t)
  else
    let center := b.bcube.get_cube_center.add xlate
    let p1r0 := if env.is_rotated b then do_xy_rotate (-b.rot_sin) b.rot_cos center p1 else p1
    let p2r0 := if env.is_rotated b then do_xy_rotate (-b.rot_sin) b.rot_cos center p2 else p2
    let p1r := p1r0.sub xlate
    let p2r := p2r0.sub xlate
    let pzmin := min p1r.z p2r.z
    let pzmax := max p1r.z p2r.z
    let vert : Bool := p1r.x = p2r.x ∧ p1r.y = p2r.y
    match check_line_coll_parts env b p1 p2 p1r p2r pzmin pzmax vert occlusion_only ret_any_pt
        b.parts (t, 0) with
    | (some r, t1, _) => (r, t1)
    | (none, t1, coll1) =>
      if occlusion_only then (0, t1)
      else
        let st2 := check_line_coll_details env p1r p2r b.details (t1, coll1)
        let st3 :=
          if no_coll_pt = false ∨ vert = false then
            check_line_coll_roof env p1r p2r b.roof_tquads st2
          else st2
        (st3.2, st3.1)

/-! ## `building_t::check_point_or_cylin_contained` (lines 372-412) -/

/-- Modelled from the spec: `cube_t::expand_by(float)` (header not under `src/`), the
"expanded-box test": the box grows by the amount on both sides of every axis. -/
def cube_t.expand_by_val (c : cube_t) (v : ℚ) : cube_t :=
  ⟨c.x1 - v, c.x2 + v, c.y1 - v, c.y2 + v, c.z1 - v, c.z2 + v⟩

/-- The polygon of an N-gon part expanded by `xy_radius` (lines 392-398): every point moves
away from the centre of the part by `xy_radius` in the XY plane. -/
def expand_poly_pts (env : Env) (part : cube_t) (xy_radius : ℚ) (points : List point) :
    List point :=
  let center := part.get_cube_center
  points.map (fun p =>
    let dir : point := { p.sub center with z := 0 }
    p.add (point.smul (xy_radius / dir.mag env) dir))

/-- The test of one part in `check_point_or_cylin_contained` (lines 380-409): whether the
function returns 1 at this part. -/
def check_point_or_cylin_part (env : Env) (b : building_t) (pr : point) (xy_radius : ℚ)
    (part : cube_t) : Bool :=
  if pr.z > part.z2 ∨ pr.z < part.z1 then false
  else if env.use_cylinder_coll b then
    let cc := part.get_cube_center
    let csz := part.get_size
    let dx := cc.x - pr.x
    let dy := cc.y - pr.y
    let rx := (1 / 2) * csz.x + xy_radius
    let ry := (1 / 2) * csz.y + xy_radius
    if dx * dx / (rx * rx) + dy * dy / (ry * ry) > 1 then false else true
  else if b.num_sides ≠ 4 then
    let points0 := env.calc_poly_pts b part
    let points := if xy_radius > 0 then expand_poly_pts env part xy_radius points0 else points0
    env.point_in_polygon_2d pr.x pr.y points points.length
  else if xy_radius > 0 then decide ((part.expand_by_val xy_radius).contains_pt pr)
  else decide (part.contains_pt pr)

/-- The function `check_point_or_cylin_contained`. -/
def check_point_or_cylin_contained (env : Env) (b : building_t) (pos : point) (xy_radius : ℚ) :
    Bool :=
  if xy_radius = 0 ∧ ¬ b.bcube.contains_pt pos then false
  else
    let pr :=
      if env.is_rotated b then do_xy_rotate (-b.rot_sin) b.rot_cos b.bcube.get_cube_center pos
      else pos
    b.parts.any (fun part => check_point_or_cylin_part env b pr xy_radius part)

/-! ## Instances for the line and point queries -/

/-- The parameter range on which the coordinate `a + t * (b - a)` of a segment lies in
`[lo, hi]`, cut to `[0, 1]`; `none` when the range is empty. -/
def segment_axis_range (a b lo hi : ℚ) : Option (ℚ × ℚ) :=
  if a = b then (if lo ≤ a ∧ a ≤ hi then some (0, 1) else none)
  else
    let t1 := (lo - a) / (b - a)
    let t2 := (hi - a) / (b - a)
    let tlo := max 0 (min t1 t2)
    let thi := min 1 (max t1 t2)
    if tlo ≤ thi then some (tlo, thi) else none

/-- A segment meets a box: the three per-axis parameter ranges have a common point. -/
def segment_meets_cube (p1 p2 : point) (c : cube_t) : Bool :=
  match segment_axis_range p1.x p2.x c.x1 c.x2, segment_axis_range p1.y p2.y c.y1 c.y2,
    segment_axis_range p1.z p2.z c.z1 c.z2 with
  | some rx, some ry, some rz => decide (max rx.1 (max ry.1 rz.1) ≤ min rx.2 (min ry.2 rz.2))
  | _, _, _ => false

/-- An instance of the external declarations for line queries on cylinders: `demo_env` with the
bounding-box clip test computed per axis and the ellipse membership test given by the ellipse
equation. -/
def demo_line_env : Env :=
  { demo_env 0 1 false with
    check_line_clip := segment_meets_cube
    point_in_ellipse := fun p c rx ry =>
      decide ((p.x - c.x) * (p.x - c.x) / (rx * rx) + (p.y - c.y) * (p.y - c.y) / (ry * ry) ≤ 1) }

/-- A cylindrical building (36 sides) with the single part `c`, which is also its bounding
box. -/
def demo_cylinder (c : cube_t) : building_t :=
  { demo_building c with parts := [c], num_sides := 36 }

/-! ## Properties stated about doors -/

/-- A building door quad on the side `(dim, dir)` of the box `base`: four corners in the plane
at `shift * base.dz + 0.01 * width` beyond the face `base.d[dim][dir]`, on the z levels
`base.z1` and `base.z1 + door_height`. -/
def tquad_with_ix_t.door_on_side (q : tquad_with_ix_t) (base : cube_t) (dim dir : Bool)
    (shift width door_height : ℚ) : Prop :=
  q.type = TYPE_BDOOR ∧ q.pts.length = 4 ∧
    ∀ p ∈ q.pts,
      p.get dim.toNat
        = base.d dim.toNat dir + (if dir then 1 else -1) * (shift * base.dz + (1 / 100) * width) ∧
      (p.z = base.z1 ∨ p.z = base.z1 + door_height)

/-- The corners of the quad lie at `center - width / 2` and `center + width / 2` along the
axis `od`. -/
def tquad_with_ix_t.spans (q : tquad_with_ix_t) (od : Nat) (center width : ℚ) : Prop :=
  ∀ p ∈ q.pts, p.get od = center - width / 2 ∨ p.get od = center + width / 2

/-- A building with the single part `[0,10] x [0,10] x [0,5]` and the hallway along x. -/
def demo_hallway_building : building_t :=
  { demo_building ⟨0, 10, 0, 10, 0, 5⟩ with parts := [⟨0, 10, 0, 10, 0, 5⟩], hallway_dim := 0 }

/-- A building with the single part `[0,10] x [0,10] x [0,5]` and no hallway. -/
def demo_part_building : building_t :=
  { demo_building ⟨0, 10, 0, 10, 0, 5⟩ with parts := [⟨0, 10, 0, 10, 0, 5⟩] }

/-- A door placed by the loop of `gen_building_doors_if_needed`: the index of the part, the side
`(dim, dir)` and the quad appended to `doors`. -/
structure door_placement where
  part_ix : Nat
  dim : Bool
  dir : Bool
  quad : tquad_with_ix_t

/-- No two placements on the same side `(dim, dir)`; every placement is on a part of the
building that is not above the ground level of the bounding box, on a face of the part that
coincides with the face of the bounding box on that side, with index below 4 when windows are
enabled, and its quad is a door on that side of the part. -/
def door_placements_ok (b0 : building_t) (has_windows : Bool) (door_height width : ℚ)
    (pls : List door_placement) : Prop :=
  pls.Pairwise (fun a c => ¬ (a.dim = c.dim ∧ a.dir = c.dir)) ∧
    ∀ pl ∈ pls, ∃ bp : cube_t,
      b0.parts.get? pl.part_ix = some bp ∧ ¬ bp.z1 > b0.bcube.z1 ∧
      bp.d pl.dim.toNat pl.dir = b0.bcube.d pl.dim.toNat pl.dir ∧
      (has_windows = true → pl.part_ix < 4) ∧
      pl.quad.door_on_side bp pl.dim pl.dir
        (if b0.is_house then (5 / 1000 : ℚ) else 1 / 1000) width door_height

/-- The invariant of the door loops: the state `(b, used)` was reached from `b0` by the
placements `pls`. -/
def doors_inv (b0 b : building_t) (used : List Bool) (has_windows : Bool)
    (door_height width : ℚ) (pls : List door_placement) : Prop :=
  b.bcube = b0.bcube ∧ b.parts = b0.parts ∧ b.is_house = b0.is_house ∧
    b.doors = b0.doors ++ pls.map door_placement.quad ∧ used.length = 4 ∧
    (∀ pl ∈ pls, used.getD (2 * pl.dim.toNat + pl.dir.toNat) false = true) ∧
    door_placements_ok b0 has_windows door_height width pls

/-! ## Properties stated about roof quads -/

/-- The four points lie in one plane: the scalar triple product of the three edges from `a`
vanishes. -/
def coplanar (a b c d : point) : Prop :=
  (b.x - a.x) * ((c.y - a.y) * (d.z - a.z) - (c.z - a.z) * (d.y - a.y))
    - (b.y - a.y) * ((c.x - a.x) * (d.z - a.z) - (c.z - a.z) * (d.x - a.x))
    + (b.z - a.z) * ((c.x - a.x) * (d.y - a.y) - (c.y - a.y) * (d.x - a.x)) = 0

/-- The polygon is a quad whose four corners lie in one plane. -/
def tquad_with_ix_t.planar (q : tquad_with_ix_t) : Prop :=
  match q.pts with
  | [a, b, c, d] => coplanar a b c d
  | _ => False

/-- The quad lies over the point `(x, y)` of the plane: `(x, y)` is a convex combination of the
xy positions of its four corners. -/
def tquad_with_ix_t.over_xy (q : tquad_with_ix_t) (x y : ℚ) : Prop :=
  ∃ (p0 p1 p2 p3 : point) (a0 a1 a2 a3 : ℚ),
    q.pts = [p0, p1, p2, p3] ∧ 0 ≤ a0 ∧ 0 ≤ a1 ∧ 0 ≤ a2 ∧ 0 ≤ a3 ∧ a0 + a1 + a2 + a3 = 1 ∧
    x = a0 * p0.x + a1 * p1.x + a2 * p2.x + a3 * p3.x ∧
    y = a0 * p0.y + a1 * p1.y + a2 * p2.y + a3 * p3.y

/-- A freshly constructed house with the bounding box `[0,10] x [0,10] x [0,10]`. -/
def demo_house : building_t :=
  { demo_building ⟨0, 10, 0, 10, 0, 10⟩ with is_house := true }

/-! ## Properties and instances for the later claims -/

/-- The gable end `n` of a peaked roof of height `roof_dz` on `top` with ridge axis `dim` is
occluded: some part of the building has its opposite face at `top.d[dim][n]`, covers the
z-range of the gable and the range of `top` along the other horizontal axis. -/
def gable_occluded (b : building_t) (top : cube_t) (roof_dz : ℚ) (dim n : Bool) : Prop :=
  ∃ p ∈ b.parts,
    p.d dim.toNat (!n) = top.d dim.toNat n ∧ p.z1 ≤ top.z2 ∧ p.z2 ≥ top.z2 + roof_dz ∧
    p.d (!dim).toNat false ≤ top.d (!dim).toNat false ∧
    p.d (!dim).toNat true ≥ top.d (!dim).toNat true

/-- The polygon is a wall triangle in the plane `coordinate[dim] = top.d[dim][n]`. -/
def tquad_with_ix_t.is_gable (t : tquad_with_ix_t) (top : cube_t) (dim n : Bool) : Prop :=
  t.type = TYPE_WALL ∧ t.pts.length = 3 ∧ ∀ p ∈ t.pts, p.get dim.toNat = top.d dim.toNat n

/-- The corner `i` of `gen_rotation` (lines 81-82): the corner
`(bc.d[0][i&1], bc.d[1][i>>1], bc.d[2][i&1])` of the box, rotated about the centre of the box. -/
def gen_rotation_corner (rot_sin rot_cos : ℚ) (bc : cube_t) (i : Nat) : point :=
  do_xy_rotate rot_sin rot_cos bc.get_cube_center
    ⟨bc.d 0 (i % 2 == 1), bc.d 1 (i / 2 == 1), bc.d 2 (i % 2 == 1)⟩

/-- The parameter range of a segment inside a box: the common part of the three per-axis
ranges, `none` when the segment misses the box. -/
def segment_clip (p1 p2 : point) (c : cube_t) : Option (ℚ × ℚ) :=
  match segment_axis_range p1.x p2.x c.x1 c.x2, segment_axis_range p1.y p2.y c.y1 c.y2,
    segment_axis_range p1.z p2.z c.z1 c.z2 with
  | some rx, some ry, some rz =>
    if max rx.1 (max ry.1 rz.1) ≤ min rx.2 (min ry.2 rz.2) then
      some (max rx.1 (max ry.1 rz.1), min rx.2 (min ry.2 rz.2))
    else none
  | _, _, _ => none

/-- An instance of the external declarations for line queries on boxes: `demo_line_env` with
the clipped parameter range of the segment computed per axis. -/
def demo_clip_env : Env :=
  { demo_line_env with get_line_clip := segment_clip }

/-- A stand-in for the external helper `sphere_cube_int_update_pos`: a sphere whose centre is
within `radius` of the box in x and y (and in z unless `skip_z`) collides and is pushed out
through the high x face; the normal becomes `+x`. -/
def sphere_push_out_x (pos : point) (radius : ℚ) (c : cube_t) (_p_last : point)
    (_check_int skip_z : Bool) (cnorm : Option point) : Bool × point × Option point :=
  if c.x1 - radius < pos.x ∧ pos.x < c.x2 + radius ∧ c.y1 - radius < pos.y ∧
      pos.y < c.y2 + radius ∧
      (skip_z = true ∨ (c.z1 - radius < pos.z ∧ pos.z < c.z2 + radius)) then
    (true, { pos with x := c.x2 + radius }, cnorm.map (fun _ => ⟨1, 0, 0⟩))
  else (false, pos, cnorm)

/-- An instance of the external declarations for sphere queries on boxes. -/
def demo_sphere_env : Env :=
  { demo_env 0 1 false with sphere_cube_int_update_pos := sphere_push_out_x }

/-- The building with the single part `[0,10] x [0,10] x [0,5]` and an interior that consists
of the wall `[4,5] x [0,10] x [0,5]`. -/
def demo_interior_building : building_t :=
  { demo_part_building with
    interior := some ⟨[⟨4, 5, 0, 10, 0, 5⟩], [], [], [], [], none⟩ }

/-- The relations between the lengths of `gen_interior` (lines 994-998) that the partition
relies on; they hold for `interior_dims.of` when the floor spacing is positive. -/
def interior_dims.consistent (k : interior_dims) : Prop :=
  0 < k.doorway_width ∧ k.doorway_hwidth = 1 / 2 * k.doorway_width ∧
  0 ≤ k.wall_edge_spacing ∧ k.wall_edge_spacing ≤ 1 / 4 * k.doorway_width ∧
  0 ≤ k.wall_thick ∧ 0 ≤ k.wall_half_thick ∧
  2 * (k.doorway_width + k.wall_thick) ≤ k.min_wall_len ∧
  4 * k.doorway_width ≤ k.min_wall_len

/-- The number of whole lengths `delta` in the sum of the two horizontal sides of a region. -/
def split_cube_t.rank (delta : ℚ) (c : split_cube_t) : Nat :=
  ⌊(c.cube.get_size.x + c.cube.get_size.y) / delta⌋.toNat

/-- A bound on the number of regions the work-stack loop still pops: a region of rank `r`
counts `3 ^ r`. -/
def split_stack_weight (delta : ℚ) (to_split : List split_cube_t) : Nat :=
  (to_split.map (fun c => 3 ^ c.rank delta)).sum

/-! ## Instances for the interior partition -/

/-- A building with the single part `[0,4] x [0,10] x [0,3]`, narrower than the minimum wall
length `6` of the floor spacing `3`. -/
def demo_narrow_building : building_t :=
  { demo_building ⟨0, 4, 0, 10, 0, 3⟩ with parts := [⟨0, 4, 0, 10, 0, 3⟩] }

/-- A building with the single part `[0,40] x [0,8] x [0,3]`: one storey of the floor spacing
`3`, long enough along x to be split twice. -/
def demo_long_building : building_t :=
  { demo_building ⟨0, 40, 0, 8, 0, 3⟩ with parts := [⟨0, 40, 0, 8, 0, 3⟩] }

/-- The state of `gen_interior` before the first part: an empty interior, no separator
placed. -/
def demo_interior_state (rgen : List Nat) : interior_state (List Nat) :=
  { interior := ⟨[], [], [], [], [], none⟩
    hallway_dim := 2
    wall_seps_placed := [0, 0, 0, 0]
    has_hallway_with_rooms := false
    rgen := rgen }

/-! ## `building_t::check_bcube_overlap_xy` (lines 86-141) -/

/-- Modelled from the spec: `cube_t::expand_by_xy(vector3d)` (header not under `src/`): the box
grows by the x and y components of the vector on both sides of the x and y axes. -/
def cube_t.expand_by_xy (c : cube_t) (v : point) : cube_t :=
  ⟨c.x1 - v.x, c.x2 + v.x, c.y1 - v.y, c.y2 + v.y, c.z1, c.z2⟩

/-- Modelled from the spec: the constructor `cube_t(point const *pts, unsigned npts)` (header
not under `src/`): the bounding box of the points. -/
def cube_t.of_points (pts : List point) : cube_t :=
  match pts with
  | [] => cube_t.zero
  | p :: ps => ps.foldl cube_t.union_with_pt (cube_t.set_from_point p)

/-- The nine test points `pts[0..8]` of `check_bcube_overlap_xy_one_dir` (lines 111-128) for the
part `p1` of the other building `b`, in the local frame of the building `a`, together with the
box `c_exp_rot` around the four corners. -/
def check_bcube_overlap_xy_pts (a b : building_t) (expand_rel expand_abs : ℚ) (p1 : cube_t) :
    cube_t × List point :=
  let center1 := b.bcube.get_cube_center
  let center2 := a.bcube.get_cube_center
  let pt0 : point :=
    if b.parts.length = 1 then center1
    else do_xy_rotate b.rot_sin b.rot_cos center1 p1.get_cube_center
  let c_exp := p1.expand_by_xy
    ((point.smul expand_rel p1.get_size).add ⟨expand_abs, expand_abs, expand_abs⟩)
  -- i = 0..3: (d[0][i&1], d[1][i>>1], 0) rotated into global space
  let corner (i : Nat) : point :=
    do_xy_rotate b.rot_sin b.rot_cos center1
      ⟨c_exp.d 0 (decide (i % 2 = 1)), c_exp.d 1 (decide (i / 2 = 1)), 0⟩
  let inv (p : point) : point := do_xy_rotate (-a.rot_sin) a.rot_cos center2 p
  let q0 := inv pt0
  let q1 := inv (corner 0)
  let q2 := inv (corner 1)
  let q3 := inv (corner 2)
  let q4 := inv (corner 3)
  let c_exp_rot := cube_t.of_points [q1, q2, q3, q4]
  (c_exp_rot,
    [q0, q1, q2, q3, q4, point.smul (1 / 2) (q1.add q3), point.smul (1 / 2) (q2.add q4),
      point.smul (1 / 2) (q1.add q2), point.smul (1 / 2) (q3.add q4)])

/-- The function `check_bcube_overlap_xy_one_dir` (lines 104-141), called on the building `a`
with the other building `b`: whether a test point of a part of `b` lies in a part of `a`. -/
def check_bcube_overlap_xy_one_dir (env : Env) (a b : building_t) (expand_rel expand_abs : ℚ) :
    Bool :=
  b.parts.any (fun p1 =>
    a.parts.any (fun p2 =>
      decide ((check_bcube_overlap_xy_pts a b expand_rel expand_abs p1).1.contains_pt_xy
          p2.get_cube_center) ||
        (check_bcube_overlap_xy_pts a b expand_rel expand_abs p1).2.any
          (fun pt => check_part_contains_pt_xy env a p2 pt)))

/-- The function `check_bcube_overlap_xy` (lines 86-92), called on the building `a` with the
other building `b`. -/
def check_bcube_overlap_xy (env : Env) (a b : building_t) (expand_rel expand_abs : ℚ) : Bool :=
  if expand_rel = 0 ∧ expand_abs = 0 ∧ env.cube_intersects a.bcube b.bcube = false then false
  else if env.is_rotated a = false ∧ env.is_rotated b = false then true
  else if b.bcube.contains_pt_xy a.bcube.get_cube_center ∨
      a.bcube.contains_pt_xy b.bcube.get_cube_center then true
  else check_bcube_overlap_xy_one_dir env a b expand_rel expand_abs ||
    check_bcube_overlap_xy_one_dir env b a expand_rel expand_abs

/-- A material of buildings outside the city (`no_city`) with 14 levels, floor spacing 3. -/
def demo_no_city_mat : building_mat_t :=
  { demo_mat with no_city := true, min_levels := 14, max_levels := 14 }

/-! ## The separator masks of the T-junction scan -/

/-- The test `wall_seps_placed[wall_dim][dir] & (1 << ix)` of the T-junction scan (line 1128)
on the masks `seps`: a separator is recorded for the part of index `ix`. -/
def wall_sep_placed (seps : List Nat) (wall_dim dir : Bool) (ix : Nat) : Prop :=
  seps.getD (2 * wall_dim.toNat + dir.toNat) 0 &&& ((1 <<< ix) % 4294967296) ≠ 0

instance (seps : List Nat) (wall_dim dir : Bool) (ix : Nat) :
    Decidable (wall_sep_placed seps wall_dim dir ix) := by
  unfold wall_sep_placed; infer_instance

/-- Every separator recorded in the masks `s1` is recorded in the masks `s2`. -/
def wall_seps_le (s1 s2 : List Nat) : Prop :=
  ∀ (wall_dim dir : Bool) (ix : Nat), wall_sep_placed s1 wall_dim dir ix →
    wall_sep_placed s2 wall_dim dir ix

/-! ## The rows of rooms of the hallway layout -/

/-- The coordinate along the hallway where the pair of rooms `i` of the hallway layout starts:
`i` room lengths from the low end of the part, clamped to its high end (the values of the
variable `pos` of lines 1060-1070). -/
def hallway_room_pos (p : cube_t) (min_dim : Bool) (room_len : ℚ) (i : Nat) : ℚ :=
  min (p.d (!min_dim).toNat true) (p.d (!min_dim).toNat false + (i : ℚ) * room_len)

/-! # Theorems -/

/-! ### Linear interpolation facts used for the split positions -/

theorem lerp_gt {a b t : ℚ} (hab : a < b) (ht : 0 < t) : a < a + t * (b - a) := by
  have : 0 < t * (b - a) := mul_pos ht (by linarith)
  linarith

theorem lerp_lt {a b t : ℚ} (hab : a < b) (ht : t < 1) : a + t * (b - a) < b := by
  have : 0 < (1 - t) * (b - a) := mul_pos (by linarith) (by linarith)
  nlinarith

theorem lerp_mono {a b s t : ℚ} (hab : a < b) (hst : s < t) :
    a + s * (b - a) < a + t * (b - a) := by
  have : 0 < (t - s) * (b - a) := mul_pos (by linarith) (by linarith)
  nlinarith

/-! ### C1: bounding box of the split -/

/-- C1: for every strictly normalized seed box, shape code below 9, axis `dim`, side `dir` and
fractions `0 < div < 1`, `0 < s1 < s2 < 1`, `split_in_xy` appends 2 boxes (3 for codes 6-8) whose
bounding box, computed as `calc_bcube_from_parts` does, is the seed box. -/
theorem split_in_xy_bcube_eq_seed (parts : List cube_t) (seed : cube_t) (shape : Nat)
    (dim dir : Bool) (div s1 s2 : ℚ) (hn : seed.is_strictly_normalized) (hshape : shape < 9)
    (hdir : 7 ≤ shape → dir = true) (hdiv0 : 0 < div) (hdiv1 : div < 1)
    (hs1 : 0 < s1) (hs12 : s1 < s2) (hs2 : s2 < 1) :
    ∃ new, split_in_xy_body parts seed shape dim dir div s1 s2 = some (parts ++ new) ∧
      new.length = (if 6 ≤ shape then 3 else 2) ∧
      calc_bcube_from_parts new = some seed := by
  obtain ⟨x1, x2, y1, y2, z1, z2⟩ := seed
  obtain ⟨hx, hy, hz⟩ := hn
  simp only at hx hy hz
  have hxx := hx.le
  have hyy := hy.le
  have e1 := (lerp_gt hx hdiv0).le
  have e2 := (lerp_lt hx hdiv1).le
  have e3 := (lerp_gt hy hdiv0).le
  have e4 := (lerp_lt hy hdiv1).le
  have e5 := (lerp_gt hx hs1).le
  have e6 := (lerp_lt hx (lt_trans hs12 hs2)).le
  have e7 := (lerp_gt hx (lt_trans hs1 hs12)).le
  have e8 := (lerp_lt hx hs2).le
  have e9 := (lerp_gt hy hs1).le
  have e10 := (lerp_lt hy (lt_trans hs12 hs2)).le
  have e11 := (lerp_gt hy (lt_trans hs1 hs12)).le
  have e12 := (lerp_lt hy hs2).le
  have e13 := (lerp_gt hx (show 0 < 1 - div by linarith)).le
  have e14 := (lerp_lt hx (show 1 - div < 1 by linarith)).le
  have e15 := (lerp_gt hy (show 0 < 1 - div by linarith)).le
  have e16 := (lerp_lt hy (show 1 - div < 1 by linarith)).le
  interval_cases shape <;> cases dim <;> cases dir <;>
    simp at hdir <;>
    refine ⟨_, rfl, rfl, ?_⟩ <;>
    simp only [calc_bcube_from_parts, List.foldl, cube_t.union_with_cube, cube_t.set,
      cube_t.get_llc, cube_t.get_size, point.get, Bool.toNat, cond, Bool.not_false,
      Bool.not_true] <;>
    simp only [Option.some.injEq, cube_t.mk.injEq, min_self, max_self, min_eq_left, min_eq_right,
      max_eq_left, max_eq_right, hxx, hyy, e1, e2, e3, e4, e5, e6, e7, e8, e9, e10, e11, e12, e13,
      e14, e15, e16, and_self, max_le_iff, le_min_iff, and_true, true_and]

/-- Witness of C1 at the seed box `[0,10]x[0,10]x[0,8]`, shape 7 (H). -/
theorem split_in_xy_bcube_eq_seed_witness :
    ∃ new, split_in_xy_body [] ⟨0, 10, 0, 10, 0, 8⟩ 7 false true (3 / 10) (1 / 4) (7 / 10)
        = some ([] ++ new) ∧
      new.length = (if 6 ≤ 7 then 3 else 2) ∧
      calc_bcube_from_parts new = some ⟨0, 10, 0, 10, 0, 8⟩ :=
  split_in_xy_bcube_eq_seed [] ⟨0, 10, 0, 10, 0, 8⟩ 7 false true (3 / 10) (1 / 4) (7 / 10)
    (by norm_num [cube_t.is_strictly_normalized]) (by norm_num) (by simp) (by norm_num)
    (by norm_num) (by norm_num) (by norm_num) (by norm_num)

/-! ### C2: the split boxes are normalized and do not overlap -/

set_option maxHeartbeats 1000000 in
/-- C2: under the same assumptions, with `div < 1/2` for the H and + shapes, every box appended
by `split_in_xy` is strictly normalized and no two of them have overlapping interiors. -/
theorem split_in_xy_normalized_disjoint (parts : List cube_t) (seed : cube_t) (shape : Nat)
    (dim dir : Bool) (div s1 s2 : ℚ) (hn : seed.is_strictly_normalized) (hshape : shape < 9)
    (hdir : 7 ≤ shape → dir = true) (hdiv0 : 0 < div) (hdiv1 : div < 1)
    (hhp : 7 ≤ shape → div < 1 / 2) (hs1 : 0 < s1) (hs12 : s1 < s2) (hs2 : s2 < 1) :
    ∃ new, split_in_xy_body parts seed shape dim dir div s1 s2 = some (parts ++ new) ∧
      (∀ c ∈ new, c.is_strictly_normalized) ∧
      new.Pairwise (fun a b => ¬ a.interiors_overlap b) := by
  obtain ⟨x1, x2, y1, y2, z1, z2⟩ := seed
  obtain ⟨hx, hy, hz⟩ := hn
  simp only at hx hy hz
  have hdx0 := lerp_gt hx hdiv0
  have hdx1 := lerp_lt hx hdiv1
  have hdy0 := lerp_gt hy hdiv0
  have hdy1 := lerp_lt hy hdiv1
  have hx10 := lerp_gt hx hs1
  have hx21 := lerp_lt hx hs2
  have hx11 := lerp_lt hx (lt_trans hs12 hs2)
  have hx20 := lerp_gt hx (lt_trans hs1 hs12)
  have hy11 := lerp_lt hy (lt_trans hs12 hs2)
  have hy20 := lerp_gt hy (lt_trans hs1 hs12)
  have hy10 := lerp_gt hy hs1
  have hy21 := lerp_lt hy hs2
  have hx12 := lerp_mono hx hs12
  have hy12 := lerp_mono hy hs12
  have hex : 7 ≤ shape → x1 + div * (x2 - x1) < x1 + (1 - div) * (x2 - x1) :=
    fun h => lerp_mono hx (by have := hhp h; linarith)
  have hey : 7 ≤ shape → y1 + div * (y2 - y1) < y1 + (1 - div) * (y2 - y1) :=
    fun h => lerp_mono hy (by have := hhp h; linarith)
  have hex1 := lerp_lt hx (show 1 - div < 1 by linarith)
  have hey1 := lerp_lt hy (show 1 - div < 1 by linarith)
  interval_cases shape <;> cases dim <;> cases dir <;>
    simp at hdir <;>
    (try (have hex2 := hex (Nat.le_of_ble_eq_true rfl)
          have hey2 := hey (Nat.le_of_ble_eq_true rfl))) <;>
    refine ⟨_, rfl, ?_, ?_⟩ <;>
    simp only [cube_t.set, cube_t.get_llc, cube_t.get_size, point.get, Bool.toNat, cond,
      Bool.not_false, Bool.not_true, List.mem_cons, List.mem_singleton, List.not_mem_nil,
      or_false, forall_eq_or_imp, forall_eq, List.pairwise_cons, List.Pairwise.nil, and_true,
      cube_t.is_strictly_normalized, cube_t.interiors_overlap, max_lt_iff, lt_min_iff,
      IsEmpty.forall_iff, implies_true, and_assoc] <;>
    (repeat' apply And.intro) <;>
    first
      | assumption
      | (rintro ⟨h1, h2, h3, h4, h5, h6, h7, h8, -⟩; linarith)

/-- Witness of C2 at the seed box `[0,10]x[0,10]x[0,8]`, shape 8 (+). -/
theorem split_in_xy_normalized_disjoint_witness :
    ∃ new, split_in_xy_body [] ⟨0, 10, 0, 10, 0, 8⟩ 8 true true (3 / 10) (1 / 4) (7 / 10)
        = some ([] ++ new) ∧
      (∀ c ∈ new, c.is_strictly_normalized) ∧
      new.Pairwise (fun a b => ¬ a.interiors_overlap b) :=
  split_in_xy_normalized_disjoint [] ⟨0, 10, 0, 10, 0, 8⟩ 8 true true (3 / 10) (1 / 4) (7 / 10)
    (by norm_num [cube_t.is_strictly_normalized]) (by norm_num) (by simp) (by norm_num)
    (by norm_num) (by norm_num) (by norm_num) (by norm_num) (by norm_num)

/-! ### C3: the L-shape scenario -/

/-- C3: the seed box `[0,0,0]-[10,10,8]` with shape code 0, `dim = x`, `dir = +`, `div = 0.3`,
`s1 = 0.25`, `s2 = 0.7` gives exactly two parts, `x ∈ [0,3], y ∈ [0,10], z ∈ [0,8]` and
`x ∈ [3,10], y ∈ [2.5,10], z ∈ [0,8]`; part 0 ends along x where part 1 starts (no gap), and
every point the two parts have in common lies in the plane `x = 3`. -/
theorem split_in_xy_L_scenario :
    split_in_xy_body [] ⟨0, 10, 0, 10, 0, 8⟩ 0 false true (3 / 10) (1 / 4) (7 / 10)
        = some [⟨0, 3, 0, 10, 0, 8⟩, ⟨3, 10, 5 / 2, 10, 0, 8⟩] ∧
      (⟨0, 3, 0, 10, 0, 8⟩ : cube_t).x2 = (⟨3, 10, 5 / 2, 10, 0, 8⟩ : cube_t).x1 ∧
      (∀ q : point, (⟨0, 3, 0, 10, 0, 8⟩ : cube_t).contains_pt q →
        (⟨3, 10, 5 / 2, 10, 0, 8⟩ : cube_t).contains_pt q → q.x = 3) ∧
      ¬ (⟨0, 3, 0, 10, 0, 8⟩ : cube_t).interiors_overlap ⟨3, 10, 5 / 2, 10, 0, 8⟩ := by
  refine ⟨?_, rfl, ?_, ?_⟩
  · simp only [split_in_xy_body, cube_t.set, cube_t.get_llc, cube_t.get_size, point.get,
      Bool.toNat, cond, Bool.not_false, Bool.not_true, List.nil_append, Option.some.injEq,
      List.cons.injEq, cube_t.mk.injEq, and_true]
    norm_num
  · intro q h0 h1
    simp only [cube_t.contains_pt] at h0 h1
    linarith [h0.2.1, h1.1]
  · simp only [cube_t.interiors_overlap]
    norm_num

/-! ### C4: snapping a box height to a multiple of the floor spacing -/

/-- C4: with the exact-multiple feature enabled, for every box of height `dz > 0` and floor
spacing `S > 0`, `adjust_part_zvals_for_floor_spacing` returns a box with the same `z1` and the
same x/y extents whose height is exactly `max(1, round(dz/S)) * S`. -/
theorem adjust_part_zvals_exact_multiple (c : cube_t) (S : ℚ) (hdz : 0 < c.dz) (hS : 0 < S) :
    ∃ c2, adjust_part_zvals_for_floor_spacing true S c = some c2 ∧
      c2.z1 = c.z1 ∧ c2.x1 = c.x1 ∧ c2.x2 = c.x2 ∧ c2.y1 = c.y1 ∧ c2.y2 = c.y2 ∧
      c2.dz = ((max 1 (round_fp (c.dz / S)) : ℤ) : ℚ) * S := by
  refine ⟨{ c with z2 := c.z2 + S * (((max 1 (round_fp (c.dz / S)) : ℤ) : ℚ) - c.dz / S) },
    ?_, rfl, rfl, rfl, rfl, rfl, ?_⟩
  · simp only [adjust_part_zvals_for_floor_spacing, Bool.not_true, Bool.false_eq_true,
      if_false, gt_iff_lt, hdz, hS, and_self, if_true]
  · generalize ((max 1 (round_fp (c.dz / S)) : ℤ) : ℚ) = m
    simp only [cube_t.dz]
    field_simp
    ring

/-- Witness of C4: a box of height 10 with floor spacing 3. -/
theorem adjust_part_zvals_exact_multiple_witness :
    ∃ c2, adjust_part_zvals_for_floor_spacing true 3 ⟨0, 1, 0, 1, 0, 10⟩ = some c2 ∧
      c2.z1 = (⟨0, 1, 0, 1, 0, 10⟩ : cube_t).z1 ∧ c2.x1 = (⟨0, 1, 0, 1, 0, 10⟩ : cube_t).x1 ∧
      c2.x2 = (⟨0, 1, 0, 1, 0, 10⟩ : cube_t).x2 ∧ c2.y1 = (⟨0, 1, 0, 1, 0, 10⟩ : cube_t).y1 ∧
      c2.y2 = (⟨0, 1, 0, 1, 0, 10⟩ : cube_t).y2 ∧
      c2.dz = ((max 1 (round_fp ((⟨0, 1, 0, 1, 0, 10⟩ : cube_t).dz / 3)) : ℤ) : ℚ) * 3 :=
  adjust_part_zvals_exact_multiple ⟨0, 1, 0, 1, 0, 10⟩ 3 (by norm_num [cube_t.dz]) (by norm_num)

/-! ### C5, C6: floor and ceiling slabs -/

theorem round_fp_nonneg {v : ℚ} (hv : 0 < v) : 0 ≤ round_fp v := by
  simp only [round_fp, gt_iff_lt, hv, if_true]
  exact Int.floor_nonneg.mpr (by linarith)

theorem gen_interior_slab_loop_tail (p : cube_t) (n : Nat) (S fc : ℚ) :
    ∀ (k f : Nat) (z : ℚ) (cs fs : List cube_t), 0 < f → f + k = n + 1 → z = p.z1 + f * S →
      gen_interior_slab_loop p n S fc k f z (cs, fs) =
        (cs ++ (List.range' f k).map
            (fun (i : Nat) => { p with z1 := p.z1 + (i : ℚ) * S - fc, z2 := p.z1 + (i : ℚ) * S }),
          fs ++ (List.range' f (k - 1)).map
            (fun (i : Nat) => { p with z1 := p.z1 + (i : ℚ) * S, z2 := p.z1 + (i : ℚ) * S + fc })) := by
  intro k
  induction k with
  | zero => intro f z cs fs _ _ _; simp [gen_interior_slab_loop]
  | succ k ih =>
    intro f z cs fs hf hk hz
    have hz2 : z + S = p.z1 + ((f + 1 : Nat) : ℚ) * S := by
      rw [hz]; push_cast; ring
    rw [gen_interior_slab_loop]
    simp only [hf, if_true]
    rcases Nat.eq_zero_or_pos k with hk0 | hkpos
    · subst hk0
      have hfn : ¬ f < n := by omega
      simp [hfn, gen_interior_slab_loop, hz]
    · have hfn : f < n := by omega
      simp only [hfn, if_true]
      rw [ih (f + 1) (z + S) _ _ (Nat.succ_pos f) (by omega) hz2]
      obtain ⟨j, rfl⟩ : ∃ j, k = j + 1 := ⟨k - 1, by omega⟩
      simp [List.range'_succ, hz]

theorem gen_interior_slab_loop_eq (p : cube_t) (n : Nat) (S fc : ℚ) (cs fs : List cube_t) :
    gen_interior_slab_loop p n S fc (n + 1) 0 p.z1 (cs, fs) =
      (cs ++ (List.range' 1 n).map
          (fun (i : Nat) => { p with z1 := p.z1 + (i : ℚ) * S - fc, z2 := p.z1 + (i : ℚ) * S }),
        fs ++ (List.range' 0 n).map
          (fun (i : Nat) => { p with z1 := p.z1 + (i : ℚ) * S, z2 := p.z1 + (i : ℚ) * S + fc })) := by
  rw [gen_interior_slab_loop]
  simp only [lt_self_iff_false, if_false]
  rcases Nat.eq_zero_or_pos n with hn0 | hnpos
  · subst hn0
    simp [gen_interior_slab_loop]
  · simp only [hnpos, if_true]
    rw [gen_interior_slab_loop_tail p n S fc n 1 (p.z1 + S) _ _ Nat.one_pos (by omega)
      (by push_cast; ring)]
    obtain ⟨j, rfl⟩ : ∃ j, n = j + 1 := ⟨n - 1, by omega⟩
    simp [List.range'_succ]

/-- Counterexample to C5 as stated: a part of height 201 with floor spacing 1 (slab thickness
0.1) is higher than the slab thickness, but `calc_num_floors` does not return
`round((H-T)/S) = 201`: its sanity check `num_floors <= 100` fails, and no slab is emitted. -/
theorem calc_num_floors_sanity_check_fails :
    (1 / 10 : ℚ) * 1 < (⟨0, 1, 0, 1, 0, 201⟩ : cube_t).dz ∧
      round_fp (((⟨0, 1, 0, 1, 0, 201⟩ : cube_t).dz - (1 / 10) * 1) / 1) = 201 ∧
      calc_num_floors ⟨0, 1, 0, 1, 0, 201⟩ 1 ((1 / 10) * 1) = none ∧
      gen_interior_part_slabs ⟨0, 1, 0, 1, 0, 201⟩ 1 ([], []) = none := by
  have hr : round_fp (((⟨0, 1, 0, 1, 0, 201⟩ : cube_t).dz - (1 / 10) * 1) / 1) = 201 := by
    simp only [round_fp, cube_t.dz]
    norm_num
  have hc : calc_num_floors ⟨0, 1, 0, 1, 0, 201⟩ 1 ((1 / 10) * 1) = none := by
    simp only [calc_num_floors, hr]
    norm_num [cube_t.dz]
  refine ⟨by norm_num [cube_t.dz], hr, hc, ?_⟩
  simp only [gen_interior_part_slabs, hc]

/-- C5 (amended): for floor spacing `S > 0`, slab thickness `T = 0.1*S` and a part of height
`H > T` with `round((H-T)/S) <= 100`, `calc_num_floors` returns `n = round((H-T)/S)` and the part's
iteration of `gen_interior` appends exactly `n` ceiling slabs and `n` floor slabs: the floors sit
on the boundaries `z1 + f*S` for `f = 0..n-1`, the ceilings hang under the boundaries
`f = 1..n`, so boundary 0 gets only a floor, boundary `n` only a ceiling, the others both. -/
theorem gen_interior_slab_count (p : cube_t) (S : ℚ) (cs fs : List cube_t) (hS : 0 < S)
    (hH : (1 / 10) * S < p.dz) (hn : round_fp ((p.dz - (1 / 10) * S) / S) ≤ 100) :
    ∃ n : Nat, (n : ℤ) = round_fp ((p.dz - (1 / 10) * S) / S) ∧
      calc_num_floors p S ((1 / 10) * S) = some n ∧
      ∃ ceilings floors, gen_interior_part_slabs p S (cs, fs) = some (cs ++ ceilings, fs ++ floors) ∧
        ceilings.length = n ∧ floors.length = n ∧
        ceilings = (List.range n).map (fun (f : Nat) =>
          { p with z1 := p.z1 + ((f : ℚ) + 1) * S - (1 / 2) * ((1 / 10) * S),
                   z2 := p.z1 + ((f : ℚ) + 1) * S }) ∧
        floors = (List.range n).map (fun (f : Nat) =>
          { p with z1 := p.z1 + (f : ℚ) * S,
                   z2 := p.z1 + (f : ℚ) * S + (1 / 2) * ((1 / 10) * S) }) := by
  have hpos : 0 < (p.dz - (1 / 10) * S) / S := div_pos (by linarith) hS
  have h0 := round_fp_nonneg hpos
  set r := round_fp ((p.dz - (1 / 10) * S) / S) with hr
  obtain ⟨n, hnr⟩ := Int.eq_ofNat_of_zero_le h0
  have hn100 : n ≤ 100 := by omega
  have hcalc : calc_num_floors p S ((1 / 10) * S) = some n := by
    have hmod : (r % 4294967296).toNat = n := by
      rw [hnr, Int.emod_eq_of_lt (by omega) (by omega)]
      simp
    have hz : p.dz - (1 / 10) * S > 0 := by linarith
    simp only [calc_num_floors, hz, if_true, ← hr, hmod, hn100]
  refine ⟨n, hnr.symm, hcalc, _, _, ?_, ?_, ?_, rfl, rfl⟩
  · simp only [gen_interior_part_slabs, hcalc]
    cases n with
    | zero => simp
    | succ k =>
      simp only
      rw [gen_interior_slab_loop_eq, List.range'_eq_map_range, List.range'_eq_map_range]
      simp [Function.comp_def, add_comm]
  · simp
  · simp

/-- Witness of C5 (amended): a part of height 10 with floor spacing 3. -/
theorem gen_interior_slab_count_witness :
    ∃ n : Nat, (n : ℤ) = round_fp (((⟨0, 1, 0, 1, 0, 10⟩ : cube_t).dz - (1 / 10) * 3) / 3) ∧
      calc_num_floors ⟨0, 1, 0, 1, 0, 10⟩ 3 ((1 / 10) * 3) = some n ∧
      ∃ ceilings floors,
        gen_interior_part_slabs ⟨0, 1, 0, 1, 0, 10⟩ 3 ([], []) = some ([] ++ ceilings, [] ++ floors) ∧
        ceilings.length = n ∧ floors.length = n ∧
        ceilings = (List.range n).map (fun (f : Nat) =>
          { (⟨0, 1, 0, 1, 0, 10⟩ : cube_t) with
              z1 := (⟨0, 1, 0, 1, 0, 10⟩ : cube_t).z1 + ((f : ℚ) + 1) * 3 - (1 / 2) * ((1 / 10) * 3),
              z2 := (⟨0, 1, 0, 1, 0, 10⟩ : cube_t).z1 + ((f : ℚ) + 1) * 3 }) ∧
        floors = (List.range n).map (fun (f : Nat) =>
          { (⟨0, 1, 0, 1, 0, 10⟩ : cube_t) with
              z1 := (⟨0, 1, 0, 1, 0, 10⟩ : cube_t).z1 + (f : ℚ) * 3,
              z2 := (⟨0, 1, 0, 1, 0, 10⟩ : cube_t).z1 + (f : ℚ) * 3 + (1 / 2) * ((1 / 10) * 3) }) :=
  gen_interior_slab_count ⟨0, 1, 0, 1, 0, 10⟩ 3 [] [] (by norm_num) (by norm_num [cube_t.dz])
    (by norm_num [round_fp, cube_t.dz])

/-! ### C6: slabs of one part do not overlap in z -/

theorem slab_index_gap {i j : Nat} {S : ℚ} (hS : 0 < S) (hij : i < j) :
    (i : ℚ) * S + S ≤ (j : ℚ) * S := by
  have h1 : ((i : ℚ) + 1) ≤ (j : ℚ) := by exact_mod_cast hij
  nlinarith

theorem slabs_pairwise_no_z_overlap (p : cube_t) (S : ℚ) (hS : 0 < S) (n : Nat) :
    (((List.range' 1 n).map
        (fun (i : Nat) => { p with z1 := p.z1 + (i : ℚ) * S - (1 / 2) * ((1 / 10) * S),
                                                            z2 := p.z1 + (i : ℚ) * S })) ++
      ((List.range' 0 n).map
        (fun (i : Nat) => { p with z1 := p.z1 + (i : ℚ) * S,
                                                            z2 := p.z1 + (i : ℚ) * S + (1 / 2) * ((1 / 10) * S) }))).Pairwise
      (fun a b : cube_t => ¬ a.z_overlap b) := by
  rw [List.pairwise_append]
  refine ⟨?_, ?_, ?_⟩
  · rw [List.pairwise_map]
    refine List.Pairwise.imp ?_ (List.pairwise_lt_range' 1 n)
    intro i j hij
    have := slab_index_gap hS hij
    intro h
    simp only [cube_t.z_overlap, max_lt_iff, lt_min_iff, and_assoc] at h
    obtain ⟨h1, h2, h3, h4⟩ := h
    linarith
  · rw [List.pairwise_map]
    refine List.Pairwise.imp ?_ (List.pairwise_lt_range' 0 n)
    intro i j hij
    have := slab_index_gap hS hij
    intro h
    simp only [cube_t.z_overlap, max_lt_iff, lt_min_iff, and_assoc] at h
    obtain ⟨h1, h2, h3, h4⟩ := h
    linarith
  · intro a ha b hb
    simp only [List.mem_map, List.mem_range'_1] at ha hb
    obtain ⟨i, _, rfl⟩ := ha
    obtain ⟨j, _, rfl⟩ := hb
    intro h
    simp only [cube_t.z_overlap, max_lt_iff, lt_min_iff, and_assoc] at h
    obtain ⟨h1, h2, h3, h4⟩ := h
    rcases Nat.lt_or_ge j i with hji | hij
    · have := slab_index_gap hS hji
      linarith
    · have h5 : (i : ℚ) ≤ (j : ℚ) := by exact_mod_cast hij
      have h6 : (i : ℚ) * S ≤ (j : ℚ) * S := mul_le_mul_of_nonneg_right h5 hS.le
      linarith

/-- C6: for floor spacing `S > 0` the floor and ceiling slabs emitted for one part never overlap
in z. For every floor count `n` the slab loop of `gen_interior` (run on empty containers) yields
slabs whose open z-intervals are pairwise disjoint, and so do the slabs of any part for which
the part's iteration of `gen_interior` completes. -/
theorem gen_interior_slabs_no_z_overlap (p : cube_t) (S : ℚ) (hS : 0 < S) :
    (∀ n : Nat,
      ((gen_interior_slab_loop p n S ((1 / 2) * ((1 / 10) * S)) (n + 1) 0 p.z1 ([], [])).1 ++
        (gen_interior_slab_loop p n S ((1 / 2) * ((1 / 10) * S)) (n + 1) 0 p.z1 ([], [])).2).Pairwise
        (fun a b => ¬ a.z_overlap b)) ∧
    (∀ ceilings floors, gen_interior_part_slabs p S ([], []) = some (ceilings, floors) →
      (ceilings ++ floors).Pairwise (fun a b => ¬ a.z_overlap b)) := by
  have hloop : ∀ n : Nat,
      ((gen_interior_slab_loop p n S ((1 / 2) * ((1 / 10) * S)) (n + 1) 0 p.z1 ([], [])).1 ++
        (gen_interior_slab_loop p n S ((1 / 2) * ((1 / 10) * S)) (n + 1) 0 p.z1 ([], [])).2).Pairwise
        (fun a b => ¬ a.z_overlap b) := by
    intro n
    rw [gen_interior_slab_loop_eq]
    simpa using slabs_pairwise_no_z_overlap p S hS n
  refine ⟨hloop, ?_⟩
  intro ceilings floors h
  cases hc : calc_num_floors p S ((1 / 10) * S) with
  | none => simp only [gen_interior_part_slabs, hc] at h; exact absurd h (by simp)
  | some n =>
    cases n with
    | zero =>
      simp only [gen_interior_part_slabs, hc, Option.some.injEq, Prod.mk.injEq] at h
      obtain ⟨rfl, rfl⟩ := h
      simp
    | succ k =>
      simp only [gen_interior_part_slabs, hc, Option.some.injEq] at h
      have := hloop (k + 1)
      rw [h] at this
      exact this

/-- Witness of C6: a part of height 10 with floor spacing 3. -/
theorem gen_interior_slabs_no_z_overlap_witness :
    (∀ n : Nat,
      ((gen_interior_slab_loop ⟨0, 1, 0, 1, 0, 10⟩ n 3 ((1 / 2) * ((1 / 10) * 3)) (n + 1) 0
          (⟨0, 1, 0, 1, 0, 10⟩ : cube_t).z1 ([], [])).1 ++
        (gen_interior_slab_loop ⟨0, 1, 0, 1, 0, 10⟩ n 3 ((1 / 2) * ((1 / 10) * 3)) (n + 1) 0
          (⟨0, 1, 0, 1, 0, 10⟩ : cube_t).z1 ([], [])).2).Pairwise
        (fun a b => ¬ a.z_overlap b)) ∧
    (∀ ceilings floors,
      gen_interior_part_slabs ⟨0, 1, 0, 1, 0, 10⟩ 3 ([], []) = some (ceilings, floors) →
      (ceilings ++ floors).Pairwise (fun a b => ¬ a.z_overlap b)) :=
  gen_interior_slabs_no_z_overlap ⟨0, 1, 0, 1, 0, 10⟩ 3 (by norm_num)

/-! ### C7: cutting a doorway out of a wall -/

/-- C7: for every wall box `c`, axis `xy` and cut interval with `c.lo < v1 < v2 < c.hi` along that
axis, `remove_section_from_cube` returns exactly two fragments, `[c.lo, v1]` and `[v2, c.hi]`
along `xy`, with all other coordinates those of `c`; each fragment is strictly shorter than `c`
and the two lengths plus the gap `v2 - v1` add up to the length of `c`. -/
theorem remove_section_from_cube_fragments (c : cube_t) (v1 v2 : ℚ) (xy : Bool)
    (h1 : c.d xy.toNat false < v1) (h12 : v1 < v2) (h2 : v2 < c.d xy.toNat true) :
    ∃ lo hi, remove_section_from_cube c v1 v2 xy = some (lo, hi) ∧
      lo.d xy.toNat false = c.d xy.toNat false ∧ lo.d xy.toNat true = v1 ∧
      hi.d xy.toNat false = v2 ∧ hi.d xy.toNat true = c.d xy.toNat true ∧
      (∀ dim e, dim < 3 → dim ≠ xy.toNat → lo.d dim e = c.d dim e ∧ hi.d dim e = c.d dim e) ∧
      lo.d xy.toNat true - lo.d xy.toNat false < c.d xy.toNat true - c.d xy.toNat false ∧
      hi.d xy.toNat true - hi.d xy.toNat false < c.d xy.toNat true - c.d xy.toNat false ∧
      (lo.d xy.toNat true - lo.d xy.toNat false) + (v2 - v1)
        + (hi.d xy.toNat true - hi.d xy.toNat false)
        = c.d xy.toNat true - c.d xy.toNat false := by
  refine ⟨c.set xy.toNat true v1, c.set xy.toNat false v2, ?_, ?_⟩
  · simp only [remove_section_from_cube, gt_iff_lt, h1, h12, h2, and_self, if_true]
  · cases xy <;> simp only [Bool.toNat, cond] at h1 h2 ⊢ <;>
      simp only [cube_t.d] at h1 h2 <;>
      refine ⟨rfl, rfl, rfl, rfl, ?_, ?_, ?_, ?_⟩ <;>
      first
        | (simp only [cube_t.d, cube_t.set]; linarith)
        | (intro dim e hd hne; interval_cases dim <;> cases e <;>
            first | exact absurd rfl hne | exact ⟨rfl, rfl⟩)

/-- Witness of C7: a wall spanning `x ∈ [0,10]` cut at `[4,6]`. -/
theorem remove_section_from_cube_fragments_witness :
    ∃ lo hi, remove_section_from_cube ⟨0, 10, 0, 1, 0, 3⟩ 4 6 false = some (lo, hi) ∧
      lo.d false.toNat false = (⟨0, 10, 0, 1, 0, 3⟩ : cube_t).d false.toNat false ∧
      lo.d false.toNat true = 4 ∧
      hi.d false.toNat false = 6 ∧
      hi.d false.toNat true = (⟨0, 10, 0, 1, 0, 3⟩ : cube_t).d false.toNat true ∧
      (∀ dim e, dim < 3 → dim ≠ false.toNat →
        lo.d dim e = (⟨0, 10, 0, 1, 0, 3⟩ : cube_t).d dim e ∧
        hi.d dim e = (⟨0, 10, 0, 1, 0, 3⟩ : cube_t).d dim e) ∧
      lo.d false.toNat true - lo.d false.toNat false
        < (⟨0, 10, 0, 1, 0, 3⟩ : cube_t).d false.toNat true
          - (⟨0, 10, 0, 1, 0, 3⟩ : cube_t).d false.toNat false ∧
      hi.d false.toNat true - hi.d false.toNat false
        < (⟨0, 10, 0, 1, 0, 3⟩ : cube_t).d false.toNat true
          - (⟨0, 10, 0, 1, 0, 3⟩ : cube_t).d false.toNat false ∧
      (lo.d false.toNat true - lo.d false.toNat false) + (6 - 4)
        + (hi.d false.toNat true - hi.d false.toNat false)
        = (⟨0, 10, 0, 1, 0, 3⟩ : cube_t).d false.toNat true
          - (⟨0, 10, 0, 1, 0, 3⟩ : cube_t).d false.toNat false :=
  remove_section_from_cube_fragments ⟨0, 10, 0, 1, 0, 3⟩ 4 6 false
    (by norm_num [cube_t.d]) (by norm_num) (by norm_num [cube_t.d])

/-! ### C8: rotation round trip -/

/-- C8: for every point `q`, centre `c` and pair `(s, k)` with `s*s + k*k = 1`, rotating `q` into
the local frame with `do_xy_rotate(-s, k, c, .)` and back with `do_xy_rotate(s, k, c, .)`
returns `q`. -/
theorem do_xy_rotate_round_trip (s k : ℚ) (c q : point) (h : s * s + k * k = 1) :
    do_xy_rotate s k c (do_xy_rotate (-s) k c q) = q := by
  obtain ⟨qx, qy, qz⟩ := q
  simp only [do_xy_rotate, point.mk.injEq, and_true]
  constructor
  · linear_combination (qx - c.x) * h
  · linear_combination (qy - c.y) * h

/-- Witness of C8: the rotation with sine 3/5 and cosine 4/5. -/
theorem do_xy_rotate_round_trip_witness :
    do_xy_rotate (3 / 5) (4 / 5) ⟨5, 1, 0⟩ (do_xy_rotate (-(3 / 5)) (4 / 5) ⟨5, 1, 0⟩ ⟨7, 2, 9⟩)
      = ⟨7, 2, 9⟩ :=
  do_xy_rotate_round_trip (3 / 5) (4 / 5) ⟨5, 1, 0⟩ ⟨7, 2, 9⟩ (by norm_num)

/-! ### C9: the broad-phase rejection of the sphere query -/

/-- C9: for every building, position, previous position, offset and radius `> 0`, when the
broad-phase sphere/box test against the bounding box translated by `xlate` fails,
`check_sphere_coll` returns `false` and leaves `pos` and the contact normal as they were. -/
theorem check_sphere_coll_broad_phase_miss (env : Env) (b : building_t) (pos p_last xlate : point)
    (radius : ℚ) (xy_only check_interior : Bool) (cnorm_ptr : Option point) (hr : 0 < radius)
    (hmiss : env.sphere_cube_intersect pos radius (b.bcube.xlate xlate) p_last true xy_only
      = false) :
    check_sphere_coll env b pos p_last xlate radius xy_only cnorm_ptr check_interior
      = (false, pos, cnorm_ptr) := by
  unfold check_sphere_coll
  by_cases hv : env.is_valid b = true
  · simp [hv, hr, hmiss]
  · simp [hv]

/-- Witness of C9: a sphere of radius 1 at distance 5 from the box `[0,10]x[0,2]x[0,3]`. -/
theorem check_sphere_coll_broad_phase_miss_witness :
    check_sphere_coll (demo_env 0 1 false)
        { demo_building ⟨0, 10, 0, 2, 0, 3⟩ with parts := [⟨0, 10, 0, 2, 0, 3⟩] }
        ⟨15, 1, 1⟩ ⟨16, 1, 1⟩ ⟨0, 0, 0⟩ 1 false (some ⟨1, 0, 0⟩) true
      = (false, ⟨15, 1, 1⟩, some ⟨1, 0, 0⟩) :=
  check_sphere_coll_broad_phase_miss (demo_env 0 1 false)
    { demo_building ⟨0, 10, 0, 2, 0, 3⟩ with parts := [⟨0, 10, 0, 2, 0, 3⟩] }
    ⟨15, 1, 1⟩ ⟨16, 1, 1⟩ ⟨0, 0, 0⟩ 1 false true (some ⟨1, 0, 0⟩) (by norm_num)
    (by norm_num [demo_env, demo_building, cube_t.xlate])


/-! ### Evaluation of the demo instances -/

theorem demo_env_is_valid (s c : ℚ) (w : Bool) (b : building_t) :
    (demo_env s c w).is_valid b = decide (b.bcube ≠ cube_t.zero) := rfl

theorem demo_env_is_cube (s c : ℚ) (w : Bool) (b : building_t) :
    (demo_env s c w).is_cube b = (b.num_sides == 4) := rfl

theorem demo_env_exact (s c : ℚ) (w : Bool) : (demo_env s c w).EXACT_MULT_FLOOR_HEIGHT = true := rfl

theorem demo_env_interiors (s c : ℚ) (w : Bool) : (demo_env s c w).ADD_BUILDING_INTERIORS = true := rfl

theorem demo_env_inf_terrain (s c : ℚ) (w : Bool) : (demo_env s c w).world_mode_inf_terrain = true := rfl

theorem demo_env_windows (s c : ℚ) (w : Bool) : (demo_env s c w).windows_enabled = w := rfl

theorem demo_env_door_height (s c : ℚ) (w : Bool) (b : building_t) :
    (demo_env s c w).get_door_height b = (1 / 2) * b.mat.floor_spacing := rfl

theorem script_ops_set_state (l : List Nat) (a c : ℤ) : (script_ops l).set_state a c = l := rfl

theorem script_ops_rand (l r : List Nat) : (script_ops l).rand r = (r.headD 0, r.tail) := rfl

theorem script_ops_rand_bool (l r : List Nat) :
    (script_ops l).rand_bool r = (r.headD 0 % 2 == 1, r.tail) := rfl

theorem script_ops_rand_uniform (l r : List Nat) (lo hi : ℚ) :
    (script_ops l).rand_uniform lo hi r
      = (lo + (hi - lo) * (((r.headD 0 % 101 : Nat) : ℚ) / 100), r.tail) := rfl

theorem script_ops_c_rand (l g : List Nat) : (script_ops l).c_rand g = (g.headD 0, g.tail) := rfl

/-! ### C10: what the bounding box contains after `gen_geometry` -/

theorem same_geometry_refl (b : building_t) : b.same_geometry b :=
  ⟨rfl, rfl, rfl, rfl, rfl⟩

theorem same_geometry_trans {a b c : building_t} (h1 : a.same_geometry b)
    (h2 : b.same_geometry c) : a.same_geometry c := by
  obtain ⟨a1, a2, a3, a4, a5⟩ := h1
  obtain ⟨b1, b2, b3, b4, b5⟩ := h2
  exact ⟨b1.trans a1, b2.trans a2, b3.trans a3, b4.trans a4, b5.trans a5⟩

theorem gen_interior_same_geometry {R G : Type} (env : Env) (ops : RandOps R G) (b b2 : building_t)
    (fuel : Nat) (rgen r2 : R) (h : gen_interior env ops b fuel rgen = some (b2, r2)) :
    b.same_geometry b2 := by
  unfold gen_interior at h
  split_ifs at h
  all_goals first
    | (simp only [Option.some.injEq, Prod.mk.injEq] at h; obtain ⟨rfl, _⟩ := h
       exact same_geometry_refl _)
    | skip
  simp only at h
  split at h
  · exact absurd h (by simp)
  · split at h
    · exact absurd h (by simp)
    · simp only [Option.some.injEq, Prod.mk.injEq] at h
      obtain ⟨rfl, _⟩ := h
      exact ⟨rfl, rfl, rfl, rfl, rfl⟩

theorem add_door_same_geometry (b b2 : building_t) (c : cube_t) (part_ix : Nat)
    (dim dir fb : Bool) (h : add_door b c part_ix dim dir fb = some b2) : b.same_geometry b2 := by
  unfold add_door at h
  simp only at h
  split_ifs at h
  all_goals
    simp only [Option.some.injEq] at h
    subst h
    exact ⟨rfl, rfl, rfl, rfl, rfl⟩

theorem gen_building_doors_sides_same_geometry {R G : Type} (ops : RandOps R G) (bp : cube_t)
    (part_ix : Nat) (pref_dim pref_dir : Bool) (door_height wscale : ℚ) :
    ∀ (l : List Nat) (b : building_t) (used : List Bool) (rgen : R) (placed : Bool)
      (b2 : building_t) (used2 : List Bool) (r2 : R),
      gen_building_doors_sides ops bp part_ix pref_dim pref_dir door_height wscale l
          (b, used, rgen) = some (placed, b2, used2, r2) → b.same_geometry b2 := by
  intro l
  induction l with
  | nil =>
    intro b used rgen placed b2 used2 r2 h
    simp only [gen_building_doors_sides, Option.some.injEq, Prod.mk.injEq] at h
    obtain ⟨_, rfl, _⟩ := h
    exact same_geometry_refl _
  | cons n rest ih =>
    intro b used rgen placed b2 used2 r2 h
    simp only [gen_building_doors_sides] at h
    split_ifs at h
    · exact ih _ _ _ _ _ _ _ h
    · exact ih _ _ _ _ _ _ _ h
    · split at h
      · exact absurd h (by simp)
      · rename_i b1 hadd
        simp only [Option.some.injEq, Prod.mk.injEq] at h
        obtain ⟨_, rfl, _⟩ := h
        exact add_door_same_geometry _ _ _ _ _ _ _ hadd

theorem gen_building_doors_parts_same_geometry {R G : Type} (ops : RandOps R G)
    (has_windows pref_dim pref_dir : Bool) (door_height wscale : ℚ) :
    ∀ (l : List cube_t) (ix : Nat) (b : building_t) (used : List Bool) (rgen : R)
      (b2 : building_t) (used2 : List Bool) (r2 : R),
      gen_building_doors_parts ops has_windows pref_dim pref_dir door_height wscale l ix
          (b, used, rgen) = some (b2, used2, r2) → b.same_geometry b2 := by
  intro l
  induction l with
  | nil =>
    intro ix b used rgen b2 used2 r2 h
    simp only [gen_building_doors_parts, Option.some.injEq, Prod.mk.injEq] at h
    obtain ⟨rfl, _⟩ := h
    exact same_geometry_refl _
  | cons bp rest ih =>
    intro ix b used rgen b2 used2 r2 h
    simp only [gen_building_doors_parts] at h
    split_ifs at h
    · simp only [Option.some.injEq, Prod.mk.injEq] at h
      obtain ⟨rfl, _⟩ := h
      exact same_geometry_refl _
    · simp only [Option.some.injEq, Prod.mk.injEq] at h
      obtain ⟨rfl, _⟩ := h
      exact same_geometry_refl _
    · split at h
      · exact absurd h (by simp)
      · rename_i st hs
        obtain ⟨b1, u1, r1⟩ := st
        simp only [Option.some.injEq, Prod.mk.injEq] at h
        obtain ⟨rfl, _⟩ := h
        exact gen_building_doors_sides_same_geometry ops _ _ _ _ _ _ _ _ _ _ _ _ _ _ hs
      · rename_i st hs
        obtain ⟨b1, u1, r1⟩ := st
        exact same_geometry_trans
          (gen_building_doors_sides_same_geometry ops _ _ _ _ _ _ _ _ _ _ _ _ _ _ hs)
          (ih _ _ _ _ _ _ _ h)

theorem gen_building_doors_loop_same_geometry {R G : Type} (ops : RandOps R G)
    (has_windows pref_dim pref_dir : Bool) (door_height wscale : ℚ) :
    ∀ (k : Nat) (b : building_t) (used : List Bool) (rgen : R)
      (b2 : building_t) (used2 : List Bool) (r2 : R),
      gen_building_doors_loop ops has_windows pref_dim pref_dir door_height wscale k
          (b, used, rgen) = some (b2, used2, r2) → b.same_geometry b2 := by
  intro k
  induction k with
  | zero =>
    intro b used rgen b2 used2 r2 h
    simp only [gen_building_doors_loop, Option.some.injEq, Prod.mk.injEq] at h
    obtain ⟨rfl, _⟩ := h
    exact same_geometry_refl _
  | succ k ih =>
    intro b used rgen b2 used2 r2 h
    simp only [gen_building_doors_loop] at h
    split at h
    · exact absurd h (by simp)
    · rename_i st hs
      obtain ⟨b1, u1, r1⟩ := st
      exact same_geometry_trans
        (gen_building_doors_parts_same_geometry ops _ _ _ _ _ _ _ _ _ _ _ _ _ hs)
        (ih _ _ _ _ _ _ h)

theorem gen_building_doors_same_geometry {R G : Type} (env : Env) (ops : RandOps R G)
    (b b2 : building_t) (rgen r2 : R)
    (h : gen_building_doors_if_needed env ops b rgen = some (b2, r2)) : b.same_geometry b2 := by
  unfold gen_building_doors_if_needed at h
  split_ifs at h
  · simp only [Option.some.injEq, Prod.mk.injEq] at h
    obtain ⟨rfl, _⟩ := h
    exact same_geometry_refl _
  · simp only at h
    split at h
    · exact absurd h (by simp)
    · rename_i b1 h1
      split at h
      · exact absurd h (by simp)
      · rename_i b3 h3
        simp only [Option.some.injEq, Prod.mk.injEq] at h
        obtain ⟨rfl, _⟩ := h
        exact same_geometry_trans (add_door_same_geometry _ _ _ _ _ _ _ h1)
          (add_door_same_geometry _ _ _ _ _ _ _ h3)
  · simp only at h
    split at h
    · exact absurd h (by simp)
    · rename_i b1 u1 r1 hs
      simp only [Option.some.injEq, Prod.mk.injEq] at h
      obtain ⟨rfl, _⟩ := h
      exact gen_building_doors_loop_same_geometry ops _ _ _ _ _ _ _ _ _ _ _ _ hs

theorem gen_geometry_finish_same_geometry {R G : Type} (env : Env) (ops : RandOps R G)
    (b b2 : building_t) (fuel : Nat) (rgen : R) (g g2 : G)
    (h : gen_geometry_finish env ops b fuel rgen g = some (b2, g2)) : b.same_geometry b2 := by
  unfold gen_geometry_finish at h
  split at h
  · exact absurd h (by simp)
  · rename_i b1 r1 h1
    split at h
    · exact absurd h (by simp)
    · rename_i b3 r3 h3
      simp only [Option.some.injEq, Prod.mk.injEq] at h
      obtain ⟨rfl, _⟩ := h
      exact same_geometry_trans (gen_interior_same_geometry _ _ _ _ _ _ _ h1)
        (gen_building_doors_same_geometry _ _ _ _ _ _ h3)

/-! ### Containment facts for boxes, roofs and details -/

theorem contains_cube_refl (a : cube_t) : a.contains_cube a :=
  ⟨le_refl _, le_refl _, le_refl _, le_refl _, le_refl _, le_refl _⟩

theorem contains_pt_of_contains_cube {a b : cube_t} {q : point} (h1 : a.contains_cube b)
    (h2 : b.contains_pt q) : a.contains_pt q := by
  obtain ⟨a1, a2, a3, a4, a5, a6⟩ := h1
  obtain ⟨b1, b2, b3, b4, b5, b6⟩ := h2
  exact ⟨a1.trans b1, b2.trans a2, a3.trans b3, b4.trans a4, a5.trans b5, b6.trans a6⟩

theorem gen_details_antenna_z1 {R G : Type} (ops : RandOps R G) (top bcube : cube_t) (rgen : R) :
    (gen_details_antenna ops top bcube rgen).1.z1 = top.z2 := rfl

theorem adjust_part_zvals_spec (flag : Bool) (S : ℚ) (c c2 : cube_t)
    (h : adjust_part_zvals_for_floor_spacing flag S c = some c2) :
    c2.x1 = c.x1 ∧ c2.x2 = c.x2 ∧ c2.y1 = c.y1 ∧ c2.y2 = c.y2 ∧ c2.z1 = c.z1 ∧
      (flag = true → c2.z1 < c2.z2) ∧ (flag = false → c2 = c) := by
  unfold adjust_part_zvals_for_floor_spacing at h
  cases flag with
  | false =>
    simp only [Bool.not_false, if_true, Option.some.injEq] at h
    subst h
    exact ⟨rfl, rfl, rfl, rfl, rfl, by simp, fun _ => rfl⟩
  | true =>
    simp only [Bool.not_true, Bool.false_eq_true, if_false] at h
    split_ifs at h with hc
    simp only [Option.some.injEq] at h
    subst h
    refine ⟨rfl, rfl, rfl, rfl, rfl, ?_, by simp⟩
    intro _
    obtain ⟨hdz, hS⟩ := hc
    simp only [cube_t.dz] at hdz ⊢
    have hm : (1 : ℚ) ≤ ((max 1 (round_fp ((c.z2 - c.z1) / S)) : ℤ) : ℚ) := by
      exact_mod_cast le_max_left 1 _
    generalize ((max 1 (round_fp ((c.z2 - c.z1) / S)) : ℤ) : ℚ) = m at hm
    have e : c.z2 + S * (m - (c.z2 - c.z1) / S) = c.z1 + m * S := by
      field_simp
      ring
    rw [e]
    have : 0 < m * S := mul_pos (by linarith) hS
    linarith

theorem normalize_z_of_pos (c : cube_t) (z dz : ℚ) (hdz : 0 < dz) :
    (({ c with z1 := z, z2 := z + dz } : cube_t).normalize).z1 = z ∧
      (({ c with z1 := z, z2 := z + dz } : cube_t).normalize).z2 = z + dz := by
  simp only [cube_t.normalize]
  exact ⟨min_eq_left (by linarith), max_eq_right (by linarith)⟩

theorem gen_peaked_roof_frame (b : building_t) (top : cube_t) (ph : ℚ) (dim : Bool) :
    (gen_peaked_roof b top ph dim).1.bcube = b.bcube ∧
      (gen_peaked_roof b top ph dim).1.parts = b.parts ∧
      (gen_peaked_roof b top ph dim).1.details = b.details ∧
      (gen_peaked_roof b top ph dim).1.has_antenna = b.has_antenna :=
  ⟨rfl, rfl, rfl, rfl⟩

theorem gen_house_roofs_frame (b : building_t) (fd : Nat → Nat) (ph : ℚ) :
    ∀ n : Nat, (gen_house_roofs b fd ph n).1.bcube = b.bcube ∧
      (gen_house_roofs b fd ph n).1.parts = b.parts ∧
      (gen_house_roofs b fd ph n).1.details = b.details ∧
      (gen_house_roofs b fd ph n).1.has_antenna = b.has_antenna := by
  intro n
  induction n with
  | zero => exact ⟨rfl, rfl, rfl, rfl⟩
  | succ n ih =>
    simp only [gen_house_roofs]
    obtain ⟨h1, h2, h3, h4⟩ := gen_peaked_roof_frame (gen_house_roofs b fd ph n).1
      ((gen_house_roofs b fd ph n).1.parts.getD n cube_t.zero) ph
      (if fd n < 2 then fd n == 1
        else get_largest_xy_dim ((gen_house_roofs b fd ph n).1.parts.getD n cube_t.zero))
    exact ⟨h1.trans ih.1, h2.trans ih.2.1, h3.trans ih.2.2.1, h4.trans ih.2.2.2⟩

theorem ite_eq_some_cases {α : Type} {c : Prop} [Decidable c] {a b : Option α} {x : α}
    (h : (if c then a else b) = some x) : a = some x ∨ b = some x := by
  split_ifs at h
  · exact Or.inl h
  · exact Or.inr h

theorem set_xy_z1 (c : cube_t) (dim dir : Bool) (v : ℚ) :
    (c.set dim.toNat dir v).z1 = c.z1 := by
  cases dim <;> cases dir <;> rfl

theorem set_xy_z2 (c : cube_t) (dim dir : Bool) (v : ℚ) :
    (c.set dim.toNat dir v).z2 = c.z2 := by
  cases dim <;> cases dir <;> rfl

theorem ite_none_eq_some {α : Type} {c : Prop} [Decidable c] {b : Option α} {x : α}
    (h : (if c then none else b) = some x) : ¬ c ∧ b = some x := by
  split_ifs at h with hc
  exact ⟨hc, h⟩

theorem script_ops_in_range (l : List Nat) : (script_ops l).in_range := by
  have key : ∀ (lo hi : ℚ) (n : Nat), lo ≤ hi →
      lo ≤ lo + (hi - lo) * (((n % 101 : Nat) : ℚ) / 100) ∧
        lo + (hi - lo) * (((n % 101 : Nat) : ℚ) / 100) ≤ hi := by
    intro lo hi n h
    have h0 : (0 : ℚ) ≤ ((n % 101 : Nat) : ℚ) / 100 := by positivity
    have h1 : ((n % 101 : Nat) : ℚ) / 100 ≤ 1 := by
      have : n % 101 ≤ 100 := by omega
      have : ((n % 101 : Nat) : ℚ) ≤ 100 := by exact_mod_cast this
      rw [div_le_one (by norm_num)]
      exact this
    constructor
    · nlinarith
    · nlinarith
  exact ⟨fun lo hi r h => key lo hi _ h, fun lo hi g h => key lo hi _ h⟩

theorem gen_geometry_base_fresh (env : Env) (b : building_t) (h : b.parts = []) :
    gen_geometry_base env b = some b.bcube := by
  simp [gen_geometry_base, h]

theorem adjust_part_zvals_height (S : ℚ) (c c2 : cube_t)
    (h : adjust_part_zvals_for_floor_spacing true S c = some c2) :
    0 < S ∧ 0 < c.dz ∧ c2.z1 = c.z1 ∧
      c2.z2 = c.z1 + ((max 1 (round_fp (c.dz / S)) : ℤ) : ℚ) * S := by
  unfold adjust_part_zvals_for_floor_spacing at h
  simp only [Bool.not_true, Bool.false_eq_true, if_false] at h
  split_ifs at h with hc
  simp only [Option.some.injEq] at h
  subst h
  obtain ⟨hdz, hS⟩ := hc
  refine ⟨hS, hdz, rfl, ?_⟩
  generalize ((max 1 (round_fp (c.dz / S)) : ℤ) : ℚ) = m
  simp only [cube_t.dz]
  field_simp
  ring

theorem adjust_part_zvals_whole_floors (S : ℚ) (c c2 : cube_t)
    (h : adjust_part_zvals_for_floor_spacing true S c = some c2) : c2.whole_floors S := by
  obtain ⟨-, -, h1, h2⟩ := adjust_part_zvals_height S c c2 h
  refine ⟨(max 1 (round_fp (c.dz / S))).toNat, ?_, ?_⟩
  · have : (1 : ℤ) ≤ max 1 (round_fp (c.dz / S)) := le_max_left _ _
    omega
  · have hk : ((max 1 (round_fp (c.dz / S))).toNat : ℤ) = max 1 (round_fp (c.dz / S)) :=
      Int.toNat_of_nonneg (le_trans (by norm_num) (le_max_left 1 _))
    have hk2 : (((max 1 (round_fp (c.dz / S))).toNat : ℕ) : ℚ)
        = ((max 1 (round_fp (c.dz / S)) : ℤ) : ℚ) := by
      exact_mod_cast hk
    rw [hk2]
    simp only [cube_t.dz, h1, h2]
    ring

theorem round_fp_gt {x : ℚ} (hx : 0 < x) : x - 1 / 2 < (round_fp x : ℚ) := by
  unfold round_fp
  rw [if_pos hx]
  have := Int.lt_floor_add_one (x + 1 / 2)
  linarith

theorem gen_geometry_shrink_levels_z {R G : Type} (ops : RandOps R G) (bcube base : cube_t)
    (was_cube : Bool) (dz : ℚ) (hdz : 0 < dz) :
    ∀ (k : Nat) (done : List cube_t) (rgen : R),
      done.map (fun c => (c.z1, c.z2))
        = (List.range' 0 done.length).map
            (fun (i : Nat) => (base.z1 + (i : ℚ) * dz, base.z1 + ((i : ℚ) + 1) * dz)) →
      (gen_geometry_shrink_levels ops bcube base was_cube dz k done rgen).1.map
          (fun c => (c.z1, c.z2))
        = (List.range' 0 (done.length + k)).map
            (fun (i : Nat) => (base.z1 + (i : ℚ) * dz, base.z1 + ((i : ℚ) + 1) * dz)) := by
  intro k
  induction k with
  | zero =>
    intro done rgen hz
    simpa [gen_geometry_shrink_levels] using hz
  | succ k ih =>
    intro done rgen hz
    simp only [gen_geometry_shrink_levels]
    have key : (gen_geometry_shrink_level ops bcube base was_cube done.getLast? rgen).1.z1
        = base.z1 + (done.length : ℚ) * dz := by
      cases hl : done.getLast? with
      | none =>
        have : done = [] := List.getLast?_eq_none_iff.mp hl
        subst this
        simp [gen_geometry_shrink_level]
      | some prev =>
        obtain ⟨ys, rfl⟩ := List.getLast?_eq_some_iff.mp hl
        have hzprev : prev.z2 = base.z1 + ((ys.length : ℚ) + 1) * dz := by
          simp only [List.map_append, List.map_cons, List.map_nil, List.length_append,
            List.length_singleton, List.range'_concat, zero_add, one_mul] at hz
          have := List.append_inj_right' hz (by simp)
          simp only [List.cons.injEq, Prod.mk.injEq, and_true] at this
          exact this.2
        simp only [gen_geometry_shrink_level, List.length_append, List.length_singleton]
        rw [hzprev]
        push_cast
        ring
    generalize gen_geometry_shrink_level ops bcube base was_cube done.getLast? rgen = bcr at key ⊢
    obtain ⟨bc, r⟩ := bcr
    simp only at key ⊢
    have hnz := normalize_z_of_pos bc bc.z1 dz hdz
    have hz2 : (done ++ [({ bc with z2 := bc.z1 + dz } : cube_t).normalize]).map
          (fun c => (c.z1, c.z2))
        = (List.range' 0 (done ++ [({ bc with z2 := bc.z1 + dz } : cube_t).normalize]).length).map
            (fun (i : Nat) => (base.z1 + (i : ℚ) * dz, base.z1 + ((i : ℚ) + 1) * dz)) := by
      simp only [List.map_append, List.map_cons, List.map_nil, List.length_append,
        List.length_singleton, List.range'_concat, zero_add, hz, one_mul]
      congr 1
      simp only [List.cons.injEq, Prod.mk.injEq, and_true]
      have e1 : (({ bc with z2 := bc.z1 + dz } : cube_t).normalize).z1 = bc.z1 := hnz.1
      have e2 : (({ bc with z2 := bc.z1 + dz } : cube_t).normalize).z2 = bc.z1 + dz := hnz.2
      rw [e1, e2, key]
      constructor
      · ring
      · ring
    have := ih _ r hz2
    simp only [List.length_append, List.length_singleton] at this
    have e : done.length + 1 + k = done.length + (k + 1) := by omega
    rw [e] at this
    exact this

theorem gen_geometry_jitter_chain {R G : Type} (env : Env) (ops : RandOps R G)
    (mat : building_mat_t) (dz z0 : ℚ) :
    ∀ (upper lower : List cube_t) (cur : cube_t) (rgen : R) (lower2 : List cube_t)
      (last0 : cube_t) (r2 : R),
      gen_geometry_jitter env ops mat dz lower cur upper rgen = some (lower2, last0, r2) →
      (env.EXACT_MULT_FLOOR_HEIGHT = true → ∀ c ∈ lower, c.whole_floors mat.floor_spacing) →
      (lower.map cube_t.dz).sum = cur.z1 - z0 →
      (env.EXACT_MULT_FLOOR_HEIGHT = true → ∀ c ∈ lower2, c.whole_floors mat.floor_spacing) ∧
        (lower2.map cube_t.dz).sum = last0.z1 - z0 ∧
        ((cur :: upper).map cube_t.z2).getLast? = some last0.z2 ∧
        lower2.length = lower.length + upper.length := by
  intro upper
  induction upper with
  | nil =>
    intro lower cur rgen lower2 last0 r2 h hl hs
    simp only [gen_geometry_jitter, Option.some.injEq, Prod.mk.injEq] at h
    obtain ⟨rfl, rfl, -⟩ := h
    exact ⟨hl, hs, rfl, rfl⟩
  | cons nxt upper ih =>
    intro lower cur rgen lower2 last0 r2 h hl hs
    simp only [gen_geometry_jitter] at h
    split at h
    · exact absurd h (by simp)
    rename_i cur1 hadj
    obtain ⟨-, -, -, -, a5, -, -⟩ := adjust_part_zvals_spec _ _ _ _ hadj
    simp only at a5
    obtain ⟨i1, i2, i3, i4⟩ := ih (lower ++ [cur1]) { nxt with z1 := cur1.z2 } _ lower2 last0 r2 h
      (by
        intro hE c hc
        rcases List.mem_append.mp hc with hc | hc
        · exact hl hE c hc
        · simp only [List.mem_singleton] at hc
          subst hc
          rw [hE] at hadj
          exact adjust_part_zvals_whole_floors _ _ _ hadj)
      (by
        simp only [List.map_append, List.map_cons, List.map_nil, List.sum_append, List.sum_cons,
          List.sum_nil, hs, cube_t.dz, a5]
        ring)
    refine ⟨i1, i2, ?_, ?_⟩
    · simp only [List.map_cons] at i3 ⊢
      rw [List.getLast?_cons_cons]
      exact i3
    · simp only [List.length_append, List.length_cons, List.length_nil] at i4 ⊢
      omega

theorem whole_floors_sum (S : ℚ) :
    ∀ l : List cube_t, (∀ c ∈ l, c.whole_floors S) →
      ∃ m : Nat, l.length ≤ m ∧ (l.map cube_t.dz).sum = (m : ℚ) * S := by
  intro l
  induction l with
  | nil => intro _; exact ⟨0, le_refl _, by simp⟩
  | cons a t ih =>
    intro h
    obtain ⟨m, hm, hs⟩ := ih (fun c hc => h c (List.mem_cons_of_mem _ hc))
    obtain ⟨k, hk, hd⟩ := h a (List.mem_cons_self _ _)
    refine ⟨k + m, by simp only [List.length_cons]; omega, ?_⟩
    simp only [List.map_cons, List.sum_cons, hs, hd]
    push_cast
    ring

/-- What a returning run of the shrinking stack guarantees. -/
theorem gen_geometry_stack_core {R G : Type} (env : Env) (ops : RandOps R G)
    (mat : building_mat_t) (bcube base : cube_t) (wc : Bool) (n : Nat) (rgen r : R)
    (lower : List cube_t) (last : cube_t)
    (h : gen_geometry_stack env ops mat bcube base wc n rgen = some (lower, last, r)) :
    lower.length + 1 = n ∧ 0 < base.dz ∧
      (env.EXACT_MULT_FLOOR_HEIGHT = true →
        ∀ p ∈ lower ++ [last], p.whole_floors mat.floor_spacing) ∧
      ((lower ++ [last]).map cube_t.dz).sum = last.z2 - base.z1 ∧
      (env.EXACT_MULT_FLOOR_HEIGHT = true →
        0 < mat.floor_spacing ∧ 0 < base.z2 - last.z1 ∧
        last.z2 = last.z1 +
          ((max 1 (round_fp ((base.z2 - last.z1) / mat.floor_spacing)) : ℤ) : ℚ)
            * mat.floor_spacing) ∧
      (env.EXACT_MULT_FLOOR_HEIGHT = false → last.z2 = base.z2) := by
  unfold gen_geometry_stack at h
  simp only at h
  obtain ⟨hht, h⟩ := ite_none_eq_some h
  have hht : 0 < base.dz := not_not.mp hht
  split at h
  · exact absurd h (by simp)
  rename_i first upper hlev
  split at h
  · exact absurd h (by simp)
  rename_i lw last0 rgen3 hj
  split at h
  · exact absurd h (by simp)
  rename_i l1 hadj
  simp only [Option.some.injEq, Prod.mk.injEq] at h
  obtain ⟨rfl, rfl, -⟩ := h
  have hn : n ≠ 0 := by
    rintro rfl
    simp [gen_geometry_shrink_levels] at hlev
  have hnq : (0 : ℚ) < (n : ℚ) := by exact_mod_cast Nat.pos_of_ne_zero hn
  have hdz : 0 < base.dz / (n : ℚ) := div_pos hht hnq
  have hz := gen_geometry_shrink_levels_z ops bcube base wc (base.dz / (n : ℚ)) hdz n [] rgen
    (by simp)
  rw [hlev] at hz
  simp only [List.length_nil, zero_add] at hz
  have hlen : upper.length + 1 = n := by
    have := congrArg List.length hz
    simpa using this
  obtain ⟨j1, j2, j3, j4⟩ := gen_geometry_jitter_chain env ops mat (base.dz / (n : ℚ)) base.z1
    upper [] first _ lw last0 rgen3 hj (by simp)
    (by
      rw [← hlen] at hz
      simp only [List.map_cons, List.range'_succ, List.cons.injEq, Prod.mk.injEq,
        Nat.cast_zero, zero_mul, add_zero] at hz
      simp [hz.1.1])
  have hlast0 : last0.z2 = base.z2 := by
    have e1 : ((first :: upper).map cube_t.z2).getLast?
        = (((first :: upper).map (fun c => (c.z1, c.z2))).getLast?).map Prod.snd := by
      simp only [List.getLast?_map, Option.map_map]
      rfl
    rw [e1, hz, List.getLast?_map, List.getLast?_range', if_neg hn] at j3
    simp only [Option.map_some', Option.some.injEq, zero_add] at j3
    rw [← j3]
    have : ((n - 1 : ℕ) : ℚ) + 1 = (n : ℚ) := by
      have : n - 1 + 1 = n := Nat.sub_add_cancel (Nat.pos_of_ne_zero hn)
      exact_mod_cast this
    rw [this]
    simp only [cube_t.dz]
    field_simp
  obtain ⟨-, -, -, -, a5, -, a7⟩ := adjust_part_zvals_spec _ _ _ _ hadj
  refine ⟨by simp only [List.length_nil, zero_add] at j4; omega, hht, ?_, ?_, ?_, ?_⟩
  · intro hE p hp
    rcases List.mem_append.mp hp with hp | hp
    · exact j1 hE p hp
    · simp only [List.mem_singleton] at hp
      subst hp
      rw [hE] at hadj
      exact adjust_part_zvals_whole_floors _ _ _ hadj
  · simp only [List.map_append, List.map_cons, List.map_nil, List.sum_append, List.sum_cons,
      List.sum_nil, j2, cube_t.dz, a5]
    ring
  · intro hE
    rw [hE] at hadj
    obtain ⟨b1, b2, b3, b4⟩ := adjust_part_zvals_height _ _ _ hadj
    simp only [cube_t.dz, hlast0] at b2 b4
    rw [a5]
    exact ⟨b1, b2, b4⟩
  · intro hE
    rw [a7 hE]
    exact hlast0

/-! ### The scenario: 3 levels, floor spacing 3, raw height 10 -/

theorem gen_geometry_shrink_axis_zero_script (l : List Nat) (sm lo hi mel : ℚ) :
    gen_geometry_shrink_axis (script_ops l) sm lo hi mel [] = ((lo, hi), []) := by
  simp only [gen_geometry_shrink_axis, script_ops_rand, script_ops_rand_bool, List.headD_nil,
    List.tail_nil]
  norm_num

theorem gen_geometry_shrink_level_zero_script (l : List Nat) (bcube base prev : cube_t)
    (wc : Bool) :
    gen_geometry_shrink_level (script_ops l) bcube base wc (some prev) []
      = (⟨prev.x1, prev.x2, prev.y1, prev.y2, prev.z2, 0⟩, []) := by
  simp only [gen_geometry_shrink_level, gen_geometry_shrink_axis_zero_script, cube_t.zero]

theorem gen_geometry_shrink_level_none {R G : Type} (ops : RandOps R G) (bcube base : cube_t)
    (wc : Bool) (r : R) : gen_geometry_shrink_level ops bcube base wc none r = (base, r) := rfl

theorem gen_geometry_shrink_levels_demo (l : List Nat) (bcube : cube_t) (wc : Bool) :
    gen_geometry_shrink_levels (script_ops l) bcube ⟨0, 10, 0, 10, 0, 10⟩ wc (10 / 3) 3 [] []
      = ([⟨0, 10, 0, 10, 0, 10 / 3⟩, ⟨0, 10, 0, 10, 10 / 3, 20 / 3⟩,
          ⟨0, 10, 0, 10, 20 / 3, 10⟩], []) := by
  simp only [gen_geometry_shrink_levels, List.getLast?_nil, List.nil_append,
    List.getLast?_singleton, List.singleton_append, List.getLast?_cons_cons,
    gen_geometry_shrink_level_zero_script, gen_geometry_shrink_level_none, cube_t.normalize,
    List.cons_append]
  norm_num

theorem adjust_demo_level0 :
    adjust_part_zvals_for_floor_spacing true 3 ⟨0, 10, 0, 10, 0, 13 / 6⟩
      = some ⟨0, 10, 0, 10, 0, 3⟩ := by
  norm_num [adjust_part_zvals_for_floor_spacing, round_fp, cube_t.dz]

theorem adjust_demo_level1 :
    adjust_part_zvals_for_floor_spacing true 3 ⟨0, 10, 0, 10, 3, 11 / 2⟩
      = some ⟨0, 10, 0, 10, 3, 6⟩ := by
  norm_num [adjust_part_zvals_for_floor_spacing, round_fp, cube_t.dz]

theorem adjust_demo_level2 :
    adjust_part_zvals_for_floor_spacing true 3 ⟨0, 10, 0, 10, 6, 10⟩
      = some ⟨0, 10, 0, 10, 6, 9⟩ := by
  norm_num [adjust_part_zvals_for_floor_spacing, round_fp, cube_t.dz]

theorem gen_geometry_stack_demo :
    gen_geometry_stack (demo_env 0 1 false) (script_ops []) demo_mat ⟨0, 10, 0, 10, 0, 10⟩
        ⟨0, 10, 0, 10, 0, 10⟩ true 3 []
      = some ([⟨0, 10, 0, 10, 0, 3⟩, ⟨0, 10, 0, 10, 3, 6⟩], ⟨0, 10, 0, 10, 6, 9⟩, []) := by
  have e : (⟨0, 10, 0, 10, 0, 10⟩ : cube_t).dz / ((3 : ℕ) : ℚ) = 10 / 3 := by
    norm_num [cube_t.dz]
  have hm : demo_mat.floor_spacing = 3 := rfl
  have h0 : ((⟨0, 10, 0, 10, 0, 10⟩ : cube_t).dz > 0) := by norm_num [cube_t.dz]
  unfold gen_geometry_stack
  simp only [e, gen_geometry_shrink_levels_demo, h0, not_true_eq_false, if_false,
    gen_geometry_jitter, script_ops_rand_uniform, demo_env_exact, hm, List.headD_nil,
    List.tail_nil, List.nil_append]
  norm_num [adjust_demo_level0, adjust_demo_level1, adjust_demo_level2]

/-! ### `gen_geometry` and the shrinking stack -/

theorem gen_details_parts {R G : Type} (env : Env) (ops : RandOps R G) (b b2 : building_t)
    (fuel : Nat) (rgen r2 : R) (h : gen_details env ops b fuel rgen = some (b2, r2)) :
    b2.parts = b.parts := by
  unfold gen_details at h
  simp only at h
  obtain ⟨-, h⟩ := ite_none_eq_some h
  rcases ite_eq_some_cases h with h | h
  · simp only [Option.some.injEq, Prod.mk.injEq] at h
    obtain ⟨rfl, -⟩ := h
    rfl
  · split at h
    · exact absurd h (by simp)
    rcases ite_eq_some_cases h with h | h
    · simp only [Option.some.injEq] at h
      have := congrArg (fun x => x.1.parts) h
      simp only at this
      rw [← this]
      rfl
    · simp only [Option.some.injEq, Prod.mk.injEq] at h
      obtain ⟨rfl, -⟩ := h
      rfl

theorem gen_geometry_roof_details_parts {R G : Type} (env : Env) (ops : RandOps R G)
    (b b2 : building_t) (wd : Bool) (fuel : Nat) (rgen r2 : R)
    (h : gen_geometry_roof_details env ops b wd fuel rgen = some (b2, r2)) :
    b2.parts = b.parts := by
  unfold gen_geometry_roof_details at h
  simp only at h
  split at h
  · exact absurd h (by simp)
  rename_i b1 r1 heq
  have h1 : b1.parts = b.parts := by
    rcases ite_eq_some_cases heq with hs | hs
    · unfold gen_sloped_roof at hs
      simp only at hs
      obtain ⟨-, hs⟩ := ite_none_eq_some hs
      rcases ite_eq_some_cases hs with hs | hs
      · simp only [Option.some.injEq, Prod.mk.injEq] at hs
        obtain ⟨rfl, -⟩ := hs
        rfl
      · simp only [Option.some.injEq] at hs
        have := congrArg (fun x => x.1.parts) hs
        simp only at this
        rw [← this]
        rfl
    · simp only [Option.some.injEq, Prod.mk.injEq] at hs
      obtain ⟨rfl, -⟩ := hs
      rfl
  rcases ite_eq_some_cases h with h | h
  · rw [gen_details_parts env ops b1 b2 fuel r1 r2 h, h1]
  · simp only [Option.some.injEq, Prod.mk.injEq] at h
    obtain ⟨rfl, -⟩ := h
    exact h1

/-- A run of `gen_geometry` that takes the shrinking-stack branch without a split leaves in
`parts` exactly the levels that `gen_geometry_stack` computes. -/
theorem gen_geometry_parts_of_stack {R G : Type} (env : Env) (ops : RandOps R G)
    (b b2 : building_t) (rseed1 rseed2 : ℤ) (fuel : Nat) (g g2 : G) (base : cube_t)
    (sh : shape_draws R) (hv : env.is_valid b = true) (hh : b.is_house = false)
    (hb : gen_geometry_base env b = some base)
    (hsh : gen_geometry_shape env ops
        { b with parts := [], details := [], roof_tquads := [], doors := [], interior := none
                 ao_bcz2 := b.bcube.z2 } (ops.set_state (123 + rseed1) (345 * rseed2)) = sh)
    (hnl : sh.num_levels ≠ 1) (hds : sh.do_split = false)
    (hov : ¬ (ops.rand sh.rgen).1 % 4 < (if sh.was_cube then 2 else 3))
    (h : gen_geometry env ops b rseed1 rseed2 fuel g = some (b2, g2)) :
    ∃ lower last r,
      gen_geometry_stack env ops b.mat sh.b.bcube base sh.was_cube sh.num_levels
        (ops.rand sh.rgen).2 = some (lower, last, r) ∧ b2.parts = lower ++ [last] := by
  unfold gen_geometry at h
  rw [hb] at h
  simp only [hsh] at h
  simp only [hv, hh, hnl, hds, hov, Bool.not_true, Bool.false_eq_true, if_false, Bool.not_false,
    if_true, decide_False] at h
  obtain ⟨-, h⟩ := ite_none_eq_some h
  obtain ⟨hht, h⟩ := ite_none_eq_some h
  split at h
  · exact absurd h (by simp)
  rename_i first upper hlev
  split at h
  · exact absurd h (by simp)
  rename_i lower last0 rgen3 hj
  split at h
  · exact absurd h (by simp)
  rename_i last hadj
  split at h
  · exact absurd h (by simp)
  rename_i b1 r1 g1 hbuilt
  split at hbuilt
  · exact absurd hbuilt (by simp)
  rename_i b1x r1x hrd
  simp only [Option.some.injEq, Prod.mk.injEq] at hbuilt
  obtain ⟨rfl, -, -⟩ := hbuilt
  have hs := gen_geometry_finish_same_geometry _ _ _ _ _ _ _ _ h
  have hp := gen_geometry_roof_details_parts _ _ _ _ _ _ _ _ hrd
  refine ⟨lower, last, rgen3, ?_, by rw [hs.2.1, hp]⟩
  unfold gen_geometry_stack
  simp only [hht, if_false, hlev, hj, hadj]

/-! ### C11 and C12: the snapped level heights -/

/-- C11: with the exact-multiple feature enabled, when the shrinking stack of `gen_geometry`
returns its `num_levels` levels (which needs a floor spacing `S > 0`, asserted by the snapping),
the final height of every level is a positive integer multiple of `S`, and the sum of the level
heights is an integer multiple `m * S` with `m >= num_levels`. -/
theorem gen_geometry_stack_whole_floors {R G : Type} (env : Env) (ops : RandOps R G)
    (mat : building_mat_t) (bcube base : cube_t) (was_cube : Bool) (num_levels : Nat)
    (rgen r : R) (lower : List cube_t) (last : cube_t)
    (hE : env.EXACT_MULT_FLOOR_HEIGHT = true)
    (h : gen_geometry_stack env ops mat bcube base was_cube num_levels rgen
      = some (lower, last, r)) :
    0 < mat.floor_spacing ∧ (lower ++ [last]).length = num_levels ∧
      (∀ p ∈ lower ++ [last], ∃ k : Nat, 1 ≤ k ∧ p.dz = (k : ℚ) * mat.floor_spacing) ∧
      ∃ m : Nat, num_levels ≤ m ∧
        ((lower ++ [last]).map cube_t.dz).sum = (m : ℚ) * mat.floor_spacing := by
  obtain ⟨c1, -, c3, -, c5, -⟩ := gen_geometry_stack_core env ops mat bcube base was_cube
    num_levels rgen r lower last h
  have hlen : (lower ++ [last]).length = num_levels := by
    simp only [List.length_append, List.length_singleton]
    exact c1
  obtain ⟨m, hm, hs⟩ := whole_floors_sum mat.floor_spacing (lower ++ [last]) (c3 hE)
  exact ⟨(c5 hE).1, hlen, c3 hE, m, by omega, hs⟩

/-- Witness of C11: the scenario of the claim, 3 levels on a base of raw height 10 with floor
spacing 3 (lowest jitter): the levels are `[0,3]`, `[3,6]` and `[6,9]`. -/
theorem gen_geometry_stack_whole_floors_witness :
    (demo_env 0 1 false).EXACT_MULT_FLOOR_HEIGHT = true ∧
    gen_geometry_stack (demo_env 0 1 false) (script_ops []) demo_mat ⟨0, 10, 0, 10, 0, 10⟩
        ⟨0, 10, 0, 10, 0, 10⟩ true 3 []
      = some ([⟨0, 10, 0, 10, 0, 3⟩, ⟨0, 10, 0, 10, 3, 6⟩], ⟨0, 10, 0, 10, 6, 9⟩, []) ∧
    (0 < demo_mat.floor_spacing ∧
      (([⟨0, 10, 0, 10, 0, 3⟩, ⟨0, 10, 0, 10, 3, 6⟩, ⟨0, 10, 0, 10, 6, 9⟩] : List cube_t)).length
        = 3 ∧
      (∀ p ∈ ([⟨0, 10, 0, 10, 0, 3⟩, ⟨0, 10, 0, 10, 3, 6⟩, ⟨0, 10, 0, 10, 6, 9⟩] : List cube_t),
        ∃ k : Nat, 1 ≤ k ∧ p.dz = (k : ℚ) * demo_mat.floor_spacing) ∧
      ∃ m : Nat, 3 ≤ m ∧
        (([⟨0, 10, 0, 10, 0, 3⟩, ⟨0, 10, 0, 10, 3, 6⟩, ⟨0, 10, 0, 10, 6, 9⟩]
            : List cube_t).map cube_t.dz).sum
          = (m : ℚ) * demo_mat.floor_spacing) :=
  ⟨rfl, gen_geometry_stack_demo,
    gen_geometry_stack_whole_floors (demo_env 0 1 false) (script_ops []) demo_mat
      ⟨0, 10, 0, 10, 0, 10⟩ ⟨0, 10, 0, 10, 0, 10⟩ true 3 [] [] _ _ rfl
      gen_geometry_stack_demo⟩

/-- C12 counterexample: in the scenario of the claim (3 levels, floor spacing 3, raw height 10,
lowest jitter) the snapped levels are `[0,3]`, `[3,6]`, `[6,9]`: their heights sum to 9, which is
below the raw height 10. -/
theorem gen_geometry_stack_sum_below_raw_height :
    (demo_env 0 1 false).EXACT_MULT_FLOOR_HEIGHT = true ∧
    gen_geometry_stack (demo_env 0 1 false) (script_ops []) demo_mat ⟨0, 10, 0, 10, 0, 10⟩
        ⟨0, 10, 0, 10, 0, 10⟩ true 3 []
      = some ([⟨0, 10, 0, 10, 0, 3⟩, ⟨0, 10, 0, 10, 3, 6⟩], ⟨0, 10, 0, 10, 6, 9⟩, []) ∧
    (([⟨0, 10, 0, 10, 0, 3⟩, ⟨0, 10, 0, 10, 3, 6⟩, ⟨0, 10, 0, 10, 6, 9⟩]
        : List cube_t).map cube_t.dz).sum = 9 ∧
    (⟨0, 10, 0, 10, 0, 10⟩ : cube_t).dz = 10 := by
  refine ⟨rfl, gen_geometry_stack_demo, ?_, ?_⟩
  · norm_num [cube_t.dz]
  · norm_num [cube_t.dz]

/-- C12 (amended): with the exact-multiple feature enabled, when the shrinking stack of
`gen_geometry` returns its levels for a base of raw height `H` and floor spacing `S`, the sum of
the level heights is greater than `H - S/2` and at least `num_levels * S`. -/
theorem gen_geometry_stack_sum_bound {R G : Type} (env : Env) (ops : RandOps R G)
    (mat : building_mat_t) (bcube base : cube_t) (was_cube : Bool) (num_levels : Nat)
    (rgen r : R) (lower : List cube_t) (last : cube_t)
    (hE : env.EXACT_MULT_FLOOR_HEIGHT = true)
    (h : gen_geometry_stack env ops mat bcube base was_cube num_levels rgen
      = some (lower, last, r)) :
    base.dz - mat.floor_spacing / 2 < ((lower ++ [last]).map cube_t.dz).sum ∧
      (num_levels : ℚ) * mat.floor_spacing ≤ ((lower ++ [last]).map cube_t.dz).sum := by
  obtain ⟨c1, -, c3, c4, c5, -⟩ := gen_geometry_stack_core env ops mat bcube base was_cube
    num_levels rgen r lower last h
  obtain ⟨hS, hx, hz⟩ := c5 hE
  constructor
  · rw [c4, hz]
    have hpos : 0 < (base.z2 - last.z1) / mat.floor_spacing := div_pos hx hS
    have h1 := round_fp_gt hpos
    have h2 : (round_fp ((base.z2 - last.z1) / mat.floor_spacing) : ℚ)
        ≤ ((max 1 (round_fp ((base.z2 - last.z1) / mat.floor_spacing)) : ℤ) : ℚ) := by
      exact_mod_cast le_max_right 1 _
    generalize ((max 1 (round_fp ((base.z2 - last.z1) / mat.floor_spacing)) : ℤ) : ℚ) = m at h2 ⊢
    have h3 : ((base.z2 - last.z1) / mat.floor_spacing - 1 / 2) * mat.floor_spacing
        < m * mat.floor_spacing := mul_lt_mul_of_pos_right (by linarith) hS
    have h4 : ((base.z2 - last.z1) / mat.floor_spacing - 1 / 2) * mat.floor_spacing
        = base.z2 - last.z1 - mat.floor_spacing / 2 := by
      field_simp
      ring
    simp only [cube_t.dz]
    linarith
  · obtain ⟨m, hm, hs⟩ := whole_floors_sum mat.floor_spacing (lower ++ [last]) (c3 hE)
    rw [hs]
    have hlen : (lower ++ [last]).length = num_levels := by
      simp only [List.length_append, List.length_singleton]
      exact c1
    have : (num_levels : ℚ) ≤ (m : ℚ) := by
      rw [← hlen]
      exact_mod_cast hm
    exact mul_le_mul_of_nonneg_right this hS.le

/-- Witness of C12 (amended): the scenario of the claim; the sum 9 is above `10 - 3/2` and at
least `3 * 3`. -/
theorem gen_geometry_stack_sum_bound_witness :
    (demo_env 0 1 false).EXACT_MULT_FLOOR_HEIGHT = true ∧
    gen_geometry_stack (demo_env 0 1 false) (script_ops []) demo_mat ⟨0, 10, 0, 10, 0, 10⟩
        ⟨0, 10, 0, 10, 0, 10⟩ true 3 []
      = some ([⟨0, 10, 0, 10, 0, 3⟩, ⟨0, 10, 0, 10, 3, 6⟩], ⟨0, 10, 0, 10, 6, 9⟩, []) ∧
    ((⟨0, 10, 0, 10, 0, 10⟩ : cube_t).dz - demo_mat.floor_spacing / 2
        < (([⟨0, 10, 0, 10, 0, 3⟩, ⟨0, 10, 0, 10, 3, 6⟩, ⟨0, 10, 0, 10, 6, 9⟩]
            : List cube_t).map cube_t.dz).sum ∧
      ((3 : Nat) : ℚ) * demo_mat.floor_spacing
        ≤ (([⟨0, 10, 0, 10, 0, 3⟩, ⟨0, 10, 0, 10, 3, 6⟩, ⟨0, 10, 0, 10, 6, 9⟩]
            : List cube_t).map cube_t.dz).sum) :=
  ⟨rfl, gen_geometry_stack_demo,
    gen_geometry_stack_sum_bound (demo_env 0 1 false) (script_ops []) demo_mat
      ⟨0, 10, 0, 10, 0, 10⟩ ⟨0, 10, 0, 10, 0, 10⟩ true 3 [] [] _ _ rfl
      gen_geometry_stack_demo⟩

/-! ### C13: a vertical segment through the centre of a cylindrical part -/

theorem point_sub_all_zeros (p : point) : p.sub all_zeros = p := by
  simp [point.sub, all_zeros]

/-- C13: for an unrotated building with one cylindrical part, no details and no roof polygons,
and a vertical segment through the centre of the part from `p1` above its top to `p2` below its
bottom, `check_line_coll` with `xlate = 0`, `t = 1` and `occlusion_only = false` returns 2
(roof) and sets `t = (part.z2 - p1.z) / (p2.z - p1.z)`. The external helpers are taken at their
meaning on this input: the segment passes the bounding-box clip test and the centre of the part
lies in its ellipse. -/
theorem check_line_coll_vertical_cylinder_roof (env : Env) (b : building_t) (part : cube_t)
    (p1 p2 : point) (ret_any_pt no_coll_pt : Bool)
    (hrot : env.is_rotated b = false) (hcyl : env.use_cylinder_coll b = true)
    (hparts : b.parts = [part]) (hdet : b.details = []) (hroof : b.roof_tquads = [])
    (hz : part.z1 ≤ part.z2)
    (hx1 : p1.x = part.get_cube_center.x) (hy1 : p1.y = part.get_cube_center.y)
    (hx2 : p2.x = part.get_cube_center.x) (hy2 : p2.y = part.get_cube_center.y)
    (htop : part.z2 < p1.z) (hbot : p2.z < part.z1)
    (hclip : env.check_line_clip p1 p2 b.bcube = true)
    (hell : env.point_in_ellipse p1 part.get_cube_center ((1 / 2) * part.get_size.x)
      ((1 / 2) * part.get_size.y) = true) :
    check_line_coll env b p1 p2 all_zeros 1 false ret_any_pt no_coll_pt
      = (2, (part.z2 - p1.z) / (p2.z - p1.z)) := by
  have hden : p2.z - p1.z < 0 := by linarith
  have hnum : part.z2 - p1.z < 0 := by linarith
  have ht0 : 0 ≤ (part.z2 - p1.z) / (p2.z - p1.z) :=
    (div_pos_of_neg_of_neg hnum hden).le
  have ht1 : (part.z2 - p1.z) / (p2.z - p1.z) < 1 := by
    rw [div_lt_one_of_neg hden]
    linarith
  have hvert : p1.x = p2.x ∧ p1.y = p2.y := ⟨by rw [hx1, hx2], by rw [hy1, hy2]⟩
  have hzmin : ¬ (min p1.z p2.z > part.z2 ∨ max p1.z p2.z < part.z1) := by
    rw [min_eq_right (by linarith), max_eq_left (by linarith)]
    rintro (h | h) <;> linarith
  unfold check_line_coll
  simp only [point_sub_all_zeros, hclip, Bool.not_true, Bool.false_eq_true, if_false, hrot,
    hparts, hdet, hroof, check_line_coll_parts, check_line_coll_part, hzmin, hcyl, if_true,
    check_line_coll_cylinder, hvert, and_self, decide_True, hell, ht0, ht1, ge_iff_le,
    check_line_coll_details, check_line_coll_roof, List.foldl_nil]
  cases ret_any_pt <;> simp

/-- Witness of C13: the cylinder on `[0,4] x [0,4] x [0,10]` and the vertical segment from
`(2,2,12)` to `(2,2,-2)`: the roof is hit at `t = (10 - 12) / (-2 - 12)`. -/
theorem check_line_coll_vertical_cylinder_roof_witness :
    demo_line_env.is_rotated (demo_cylinder ⟨0, 4, 0, 4, 0, 10⟩) = false ∧
    demo_line_env.use_cylinder_coll (demo_cylinder ⟨0, 4, 0, 4, 0, 10⟩) = true ∧
    demo_line_env.check_line_clip ⟨2, 2, 12⟩ ⟨2, 2, -2⟩ (demo_cylinder ⟨0, 4, 0, 4, 0, 10⟩).bcube
      = true ∧
    check_line_coll demo_line_env (demo_cylinder ⟨0, 4, 0, 4, 0, 10⟩) ⟨2, 2, 12⟩ ⟨2, 2, -2⟩
        all_zeros 1 false false false
      = (2, (10 - 12) / (-2 - 12)) :=
  have hrot : demo_line_env.is_rotated (demo_cylinder ⟨0, 4, 0, 4, 0, 10⟩) = false := by
    simp [demo_line_env, demo_env, demo_cylinder, demo_building]
  have hcyl : demo_line_env.use_cylinder_coll (demo_cylinder ⟨0, 4, 0, 4, 0, 10⟩) = true := by
    simp [demo_line_env, demo_env, demo_cylinder, demo_building]
  have hclip : demo_line_env.check_line_clip ⟨2, 2, 12⟩ ⟨2, 2, -2⟩
      (demo_cylinder ⟨0, 4, 0, 4, 0, 10⟩).bcube = true := by
    norm_num [demo_line_env, demo_cylinder, demo_building, segment_meets_cube,
      segment_axis_range]
  ⟨hrot, hcyl, hclip,
    check_line_coll_vertical_cylinder_roof demo_line_env (demo_cylinder ⟨0, 4, 0, 4, 0, 10⟩)
      ⟨0, 4, 0, 4, 0, 10⟩ ⟨2, 2, 12⟩ ⟨2, 2, -2⟩ false false hrot hcyl rfl rfl rfl
      (by norm_num) (by norm_num [cube_t.get_cube_center])
      (by norm_num [cube_t.get_cube_center]) (by norm_num [cube_t.get_cube_center])
      (by norm_num [cube_t.get_cube_center]) (by norm_num) (by norm_num) hclip
      (by norm_num [demo_line_env, cube_t.get_cube_center, cube_t.get_size])⟩

/-! ### C15 and C20: queries on an invalid building; the containment query on cuboids -/

/-- C15: on a building that is not valid and has no parts, details or roof polygons, every
collision query reports no collision, for all query arguments and all external helpers:
`check_sphere_coll` returns false with `pos` (and `*cnorm_ptr`) unchanged, `check_line_coll`
returns 0 with `t` unchanged and `check_point_or_cylin_contained` returns false. -/
theorem collision_queries_on_invalid_building (env : Env) (b : building_t)
    (hv : env.is_valid b = false) (hparts : b.parts = []) (hdet : b.details = [])
    (hroof : b.roof_tquads = []) :
    (∀ (pos p_last xlate : point) (radius : ℚ) (xy_only check_interior : Bool)
        (cnorm_ptr : Option point),
      check_sphere_coll env b pos p_last xlate radius xy_only cnorm_ptr check_interior
        = (false, pos, cnorm_ptr)) ∧
    (∀ (p1 p2 xlate : point) (t : ℚ) (occlusion_only ret_any_pt no_coll_pt : Bool),
      check_line_coll env b p1 p2 xlate t occlusion_only ret_any_pt no_coll_pt = (0, t)) ∧
    (∀ (pos : point) (xy_radius : ℚ),
      check_point_or_cylin_contained env b pos xy_radius = false) := by
  refine ⟨?_, ?_, ?_⟩
  · intro pos p_last xlate radius xy_only check_interior cnorm_ptr
    unfold check_sphere_coll
    simp [hv]
  · intro p1 p2 xlate t oo rap ncp
    unfold check_line_coll
    simp only [hparts, hdet, hroof, check_line_coll_parts, check_line_coll_details,
      check_line_coll_roof, List.foldl_nil]
    split_ifs <;> rfl
  · intro pos xy_radius
    unfold check_point_or_cylin_contained
    simp only [hparts, List.any_nil]
    split_ifs <;> rfl

/-- Witness of C15: the empty shell with an all-zero bounding box. -/
theorem collision_queries_on_invalid_building_witness :
    (demo_env 0 1 false).is_valid (demo_building cube_t.zero) = false ∧
    ((∀ (pos p_last xlate : point) (radius : ℚ) (xy_only check_interior : Bool)
        (cnorm_ptr : Option point),
      check_sphere_coll (demo_env 0 1 false) (demo_building cube_t.zero) pos p_last xlate radius
        xy_only cnorm_ptr check_interior = (false, pos, cnorm_ptr)) ∧
    (∀ (p1 p2 xlate : point) (t : ℚ) (occlusion_only ret_any_pt no_coll_pt : Bool),
      check_line_coll (demo_env 0 1 false) (demo_building cube_t.zero) p1 p2 xlate t
        occlusion_only ret_any_pt no_coll_pt = (0, t)) ∧
    (∀ (pos : point) (xy_radius : ℚ),
      check_point_or_cylin_contained (demo_env 0 1 false) (demo_building cube_t.zero) pos
        xy_radius = false)) :=
  have hv : (demo_env 0 1 false).is_valid (demo_building cube_t.zero) = false := by
    simp [demo_env_is_valid, demo_building]
  ⟨hv, collision_queries_on_invalid_building (demo_env 0 1 false) (demo_building cube_t.zero)
    hv rfl rfl rfl⟩

theorem check_point_or_cylin_cube (env : Env) (b : building_t) (pos : point) (r : ℚ)
    (hrot : env.is_rotated b = false) (hcyl : env.use_cylinder_coll b = false)
    (hn : b.num_sides = 4) (hbox : r = 0 → b.bcube.contains_pt pos) :
    check_point_or_cylin_contained env b pos r = true ↔
      ∃ p ∈ b.parts, ¬ (pos.z > p.z2 ∨ pos.z < p.z1) ∧
        if r > 0 then (p.expand_by_val r).contains_pt pos else p.contains_pt pos := by
  unfold check_point_or_cylin_contained
  have h0 : ¬ (r = 0 ∧ ¬ b.bcube.contains_pt pos) := fun h => h.2 (hbox h.1)
  simp only [h0, if_false, hrot, Bool.false_eq_true, List.any_eq_true, check_point_or_cylin_part,
    hcyl, hn, ne_eq, not_true_eq_false]
  constructor
  · rintro ⟨p, hp, h⟩
    refine ⟨p, hp, ?_⟩
    split_ifs at h with h1 h2
    · simp only [h2, if_true]
      exact ⟨h1, of_decide_eq_true h⟩
    · simp only [h2, if_false]
      exact ⟨h1, of_decide_eq_true h⟩
  · rintro ⟨p, hp, h1, h⟩
    refine ⟨p, hp, ?_⟩
    rw [if_neg h1]
    split_ifs at h ⊢ with h2
    · exact decide_eq_true h
    · exact decide_eq_true h

/-- C20: for every unrotated cuboid building (`num_sides = 4`, no cylinder collision) whose
bounding box contains all its parts, and every point `pos`, the radius-0 query
`check_point_or_cylin_contained(pos, 0)` returns true if and only if `pos` lies inside at least
one part, and for every `xy_radius > 0` the query returns true whenever the radius-0 query
does. -/
theorem check_point_or_cylin_contained_cuboid (env : Env) (b : building_t) (pos : point)
    (hrot : env.is_rotated b = false) (hcyl : env.use_cylinder_coll b = false)
    (hn : b.num_sides = 4) (hb : b.encloses_parts) :
    (check_point_or_cylin_contained env b pos 0 = true ↔ ∃ p ∈ b.parts, p.contains_pt pos) ∧
      ∀ xy_radius : ℚ, 0 < xy_radius → check_point_or_cylin_contained env b pos 0 = true →
        check_point_or_cylin_contained env b pos xy_radius = true := by
  have hiff : check_point_or_cylin_contained env b pos 0 = true ↔
      ∃ p ∈ b.parts, p.contains_pt pos := by
    constructor
    · intro h
      by_cases hbox : b.bcube.contains_pt pos
      · obtain ⟨p, hp, -, h2⟩ :=
          (check_point_or_cylin_cube env b pos 0 hrot hcyl hn (fun _ => hbox)).mp h
        rw [if_neg (lt_irrefl 0)] at h2
        exact ⟨p, hp, h2⟩
      · unfold check_point_or_cylin_contained at h
        simp [hbox] at h
    · rintro ⟨p, hp, hc⟩
      have hbox : b.bcube.contains_pt pos := contains_pt_of_contains_cube (hb p hp) hc
      refine (check_point_or_cylin_cube env b pos 0 hrot hcyl hn (fun _ => hbox)).mpr
        ⟨p, hp, ?_, ?_⟩
      · unfold cube_t.contains_pt at hc
        rintro (h | h) <;> linarith [hc.2.2.2.2.1, hc.2.2.2.2.2]
      · rw [if_neg (lt_irrefl 0)]
        exact hc
  refine ⟨hiff, ?_⟩
  intro r hr h
  obtain ⟨p, hp, hc⟩ := hiff.mp h
  refine (check_point_or_cylin_cube env b pos r hrot hcyl hn
    (fun h0 => absurd h0 hr.ne')).mpr ⟨p, hp, ?_, ?_⟩
  · unfold cube_t.contains_pt at hc
    rintro (h | h) <;> linarith [hc.2.2.2.2.1, hc.2.2.2.2.2]
  · rw [if_pos hr]
    unfold cube_t.contains_pt at hc ⊢
    simp only [cube_t.expand_by_val]
    obtain ⟨c1, c2, c3, c4, c5, c6⟩ := hc
    exact ⟨by linarith, by linarith, by linarith, by linarith, by linarith, by linarith⟩

/-- Witness of C20: the unrotated cuboid building with the single part `[0,10] x [0,10] x [0,5]`
and the point `(1,1,1)`. -/
theorem check_point_or_cylin_contained_cuboid_witness :
    (demo_env 0 1 false).is_rotated
        { demo_building ⟨0, 10, 0, 10, 0, 5⟩ with parts := [⟨0, 10, 0, 10, 0, 5⟩] } = false ∧
    (demo_env 0 1 false).use_cylinder_coll
        { demo_building ⟨0, 10, 0, 10, 0, 5⟩ with parts := [⟨0, 10, 0, 10, 0, 5⟩] } = false ∧
    ({ demo_building ⟨0, 10, 0, 10, 0, 5⟩ with
        parts := [⟨0, 10, 0, 10, 0, 5⟩] } : building_t).encloses_parts ∧
    ((check_point_or_cylin_contained (demo_env 0 1 false)
          { demo_building ⟨0, 10, 0, 10, 0, 5⟩ with parts := [⟨0, 10, 0, 10, 0, 5⟩] }
          ⟨1, 1, 1⟩ 0 = true ↔
        ∃ p ∈ ({ demo_building ⟨0, 10, 0, 10, 0, 5⟩ with
            parts := [⟨0, 10, 0, 10, 0, 5⟩] } : building_t).parts, p.contains_pt ⟨1, 1, 1⟩) ∧
      ∀ xy_radius : ℚ, 0 < xy_radius →
        check_point_or_cylin_contained (demo_env 0 1 false)
          { demo_building ⟨0, 10, 0, 10, 0, 5⟩ with parts := [⟨0, 10, 0, 10, 0, 5⟩] }
          ⟨1, 1, 1⟩ 0 = true →
        check_point_or_cylin_contained (demo_env 0 1 false)
          { demo_building ⟨0, 10, 0, 10, 0, 5⟩ with parts := [⟨0, 10, 0, 10, 0, 5⟩] }
          ⟨1, 1, 1⟩ xy_radius = true) :=
  have hrot : (demo_env 0 1 false).is_rotated
      { demo_building ⟨0, 10, 0, 10, 0, 5⟩ with parts := [⟨0, 10, 0, 10, 0, 5⟩] } = false := by
    simp [demo_env, demo_building]
  have hcyl : (demo_env 0 1 false).use_cylinder_coll
      { demo_building ⟨0, 10, 0, 10, 0, 5⟩ with parts := [⟨0, 10, 0, 10, 0, 5⟩] } = false := by
    simp [demo_env, demo_building]
  have hb : ({ demo_building ⟨0, 10, 0, 10, 0, 5⟩ with
      parts := [⟨0, 10, 0, 10, 0, 5⟩] } : building_t).encloses_parts := by
    intro p hp
    simp only [List.mem_singleton] at hp
    subst hp
    exact contains_cube_refl _
  ⟨hrot, hcyl, hb,
    check_point_or_cylin_contained_cuboid (demo_env 0 1 false)
      { demo_building ⟨0, 10, 0, 10, 0, 5⟩ with parts := [⟨0, 10, 0, 10, 0, 5⟩] } ⟨1, 1, 1⟩
      hrot hcyl rfl hb⟩

/-! ### C16: the box returned by `place_door` -/

/-- The box `place_door` returns when it computes the position (`door_center = 0`), field by
field; `offset` is 1/2 for a centred door and the uniform draw otherwise. -/
theorem place_door_computed {R G : Type} (ops : RandOps R G) (b : building_t) (base : cube_t)
    (dim dir : Bool) (door_height door_pos door_center_shift width_scale : ℚ) (rgen : R) :
    ∃ offset : ℚ,
      ((door_center_shift = 0 ∨ b.hallway_dim = dim.toNat) →
        offset = 1 / 2 ∧
        (place_door ops b base dim dir door_height 0 door_pos door_center_shift width_scale
          rgen).2 = rgen) ∧
      (¬ (door_center_shift = 0 ∨ b.hallway_dim = dim.toNat) →
        offset = (ops.rand_uniform (1 / 2 - door_center_shift) (1 / 2 + door_center_shift)
          rgen).1) ∧
      ∀ door, door = (place_door ops b base dim dir door_height 0 door_pos door_center_shift
          width_scale rgen).1 →
        door.z1 = base.z1 ∧ door.z2 = base.z1 + door_height ∧
        door.d dim.toNat false = base.d dim.toNat dir +
          (if b.is_house then (5 / 1000 : ℚ) else 1 / 1000) * base.dz * (if dir then 1 else -1) ∧
        door.d dim.toNat true = door.d dim.toNat false ∧
        door.d (!dim).toNat false
          = offset * base.d (!dim).toNat false + (1 - offset) * base.d (!dim).toNat true
            - (1 / 2) * width_scale * door_height ∧
        door.d (!dim).toNat true
          = offset * base.d (!dim).toNat false + (1 - offset) * base.d (!dim).toNat true
            + (1 / 2) * width_scale * door_height := by
  by_cases hc : door_center_shift = 0 ∨ b.hallway_dim = dim.toNat
  · refine ⟨1 / 2, fun _ => ⟨rfl, ?_⟩, fun h => absurd hc h, ?_⟩
    · simp only [place_door, hc, decide_True, if_true]
    · intro door hd
      subst hd
      simp only [place_door, hc, decide_True, if_true]
      cases dim <;> cases dir <;>
        simp [cube_t.set, cube_t.d, Bool.toNat, cube_t.zero]
  · refine ⟨(ops.rand_uniform (1 / 2 - door_center_shift) (1 / 2 + door_center_shift) rgen).1,
      fun h => absurd h hc, fun _ => rfl, ?_⟩
    intro door hd
    subst hd
    simp only [place_door, hc, decide_False, if_true, Bool.false_eq_true, if_false]
    cases dim <;> cases dir <;>
      simp [cube_t.set, cube_t.d, Bool.toNat, cube_t.zero]

/-- C16: when the position is computed (`door_center = 0`), for a base box of positive height,
`door_height > 0` and `width_scale > 0`, the box `place_door` returns has zero extent along
`dim`, lies strictly beyond the face `base.d[dim][dir]` on the `dir` side at distance
`(0.005 for houses, 0.001 otherwise) * base.dz` from it, has extent `width_scale * door_height`
(which is positive) along the other horizontal axis, centred on the midpoint of the face when
`door_center_shift = 0` or `dim` is the hallway axis, and has the z-range
`[base.z1, base.z1 + door_height]`. -/
theorem place_door_box {R G : Type} (ops : RandOps R G) (b : building_t) (base : cube_t)
    (dim dir : Bool) (door_height door_pos door_center_shift width_scale : ℚ) (rgen : R)
    (hdh : 0 < door_height) (hws : 0 < width_scale) (hdz : 0 < base.dz) :
    (place_door ops b base dim dir door_height 0 door_pos door_center_shift width_scale
        rgen).1.d dim.toNat true
      = (place_door ops b base dim dir door_height 0 door_pos door_center_shift width_scale
        rgen).1.d dim.toNat false ∧
    (dir = true →
      base.d dim.toNat true
        < (place_door ops b base dim dir door_height 0 door_pos door_center_shift width_scale
          rgen).1.d dim.toNat false ∧
      (place_door ops b base dim dir door_height 0 door_pos door_center_shift width_scale
          rgen).1.d dim.toNat false - base.d dim.toNat true
        = (if b.is_house then (5 / 1000 : ℚ) else 1 / 1000) * base.dz) ∧
    (dir = false →
      (place_door ops b base dim dir door_height 0 door_pos door_center_shift width_scale
          rgen).1.d dim.toNat false < base.d dim.toNat false ∧
      base.d dim.toNat false
          - (place_door ops b base dim dir door_height 0 door_pos door_center_shift width_scale
            rgen).1.d dim.toNat false
        = (if b.is_house then (5 / 1000 : ℚ) else 1 / 1000) * base.dz) ∧
    (place_door ops b base dim dir door_height 0 door_pos door_center_shift width_scale
          rgen).1.d (!dim).toNat true
        - (place_door ops b base dim dir door_height 0 door_pos door_center_shift width_scale
          rgen).1.d (!dim).toNat false
      = width_scale * door_height ∧
    0 < width_scale * door_height ∧
    ((door_center_shift = 0 ∨ b.hallway_dim = dim.toNat) →
      ((place_door ops b base dim dir door_height 0 door_pos door_center_shift width_scale
            rgen).1.d (!dim).toNat false
          + (place_door ops b base dim dir door_height 0 door_pos door_center_shift width_scale
            rgen).1.d (!dim).toNat true) / 2
        = (base.d (!dim).toNat false + base.d (!dim).toNat true) / 2) ∧
    (place_door ops b base dim dir door_height 0 door_pos door_center_shift width_scale
        rgen).1.z1 = base.z1 ∧
    (place_door ops b base dim dir door_height 0 door_pos door_center_shift width_scale
        rgen).1.z2 = base.z1 + door_height := by
  obtain ⟨offset, hc, -, hd⟩ := place_door_computed ops b base dim dir door_height door_pos
    door_center_shift width_scale rgen
  obtain ⟨hz1, hz2, hd0, hd1, ho0, ho1⟩ := hd _ rfl
  have hk : 0 < (if b.is_house then (5 / 1000 : ℚ) else 1 / 1000) * base.dz := by
    split_ifs <;> positivity
  refine ⟨hd1, ?_, ?_, ?_, mul_pos hws hdh, ?_, hz1, hz2⟩
  · intro h
    subst h
    rw [hd0]
    simp only [if_true, mul_one]
    exact ⟨by linarith, by ring⟩
  · intro h
    subst h
    rw [hd0]
    simp only [Bool.false_eq_true, if_false]
    exact ⟨by linarith, by ring⟩
  · rw [ho0, ho1]; ring
  · intro hcen
    rw [ho0, ho1, (hc hcen).1]; ring

/-- Witness of C16: the base box `[0,10] x [0,10] x [0,5]` of a non-house building, the door on
the high x side, height 1, width scale 1/2, centred. -/
theorem place_door_box_witness :
    (0 : ℚ) < 1 ∧ (0 : ℚ) < 1 / 2 ∧ 0 < (⟨0, 10, 0, 10, 0, 5⟩ : cube_t).dz ∧
    (place_door (script_ops []) (demo_building ⟨0, 10, 0, 10, 0, 5⟩) ⟨0, 10, 0, 10, 0, 5⟩
        false true 1 0 0 0 (1 / 2) []).1.d false.toNat true
      = (place_door (script_ops []) (demo_building ⟨0, 10, 0, 10, 0, 5⟩) ⟨0, 10, 0, 10, 0, 5⟩
        false true 1 0 0 0 (1 / 2) []).1.d false.toNat false ∧
    (place_door (script_ops []) (demo_building ⟨0, 10, 0, 10, 0, 5⟩) ⟨0, 10, 0, 10, 0, 5⟩
        false true 1 0 0 0 (1 / 2) []).1.d (!false).toNat true
      - (place_door (script_ops []) (demo_building ⟨0, 10, 0, 10, 0, 5⟩) ⟨0, 10, 0, 10, 0, 5⟩
        false true 1 0 0 0 (1 / 2) []).1.d (!false).toNat false = 1 / 2 * 1 ∧
    (place_door (script_ops []) (demo_building ⟨0, 10, 0, 10, 0, 5⟩) ⟨0, 10, 0, 10, 0, 5⟩
        false true 1 0 0 0 (1 / 2) []).1.z2 = (⟨0, 10, 0, 10, 0, 5⟩ : cube_t).z1 + 1 :=
  have h := place_door_box (script_ops []) (demo_building ⟨0, 10, 0, 10, 0, 5⟩)
    ⟨0, 10, 0, 10, 0, 5⟩ false true 1 0 0 (1 / 2) [] (by norm_num) (by norm_num)
    (by norm_num [cube_t.dz])
  ⟨by norm_num, by norm_num, by norm_num [cube_t.dz], h.1, h.2.2.2.1, h.2.2.2.2.2.2.2⟩

/-! ### C17 and C18: the doors of a building -/

theorem point_get_door_pt (dim : Bool) (z o dv : ℚ) :
    (((all_zeros.set 2 z).set (!dim).toNat o).set dim.toNat dv).get dim.toNat = dv ∧
    (((all_zeros.set 2 z).set (!dim).toNat o).set dim.toNat dv).get (!dim).toNat = o ∧
    (((all_zeros.set 2 z).set (!dim).toNat o).set dim.toNat dv).z = z := by
  cases dim <;> simp [point.set, point.get, Bool.toNat, all_zeros]

/-- What `add_door` appends when its assertion holds: one quad whose four corners lie in the
plane `c.d[dim][0] +- 0.01 * width`, on the two z levels and the two ends of the box. -/
theorem add_door_spec (b b2 : building_t) (c : cube_t) (part_ix : Nat) (dim dir fb : Bool)
    (h : add_door b c part_ix dim dir fb = some b2) :
    ∃ q : tquad_with_ix_t,
      b2 = { b with
        doors := b.doors ++ [q],
        door_sides :=
          if part_ix < 4 then
            b.door_sides.set part_ix
              ((b.door_sides.getD part_ix 0) ||| (1 <<< (2 * dim.toNat + dir.toNat)))
          else b.door_sides } ∧
      q.type = (if fb then TYPE_BDOOR else TYPE_HDOOR) ∧ q.pts.length = 4 ∧
      ∀ p ∈ q.pts,
        p.get dim.toNat
          = c.d dim.toNat false
            + (1 / 100) * c.get_size.get (!dim).toNat * (if dir then 1 else -1) ∧
        (p.get (!dim).toNat = c.d (!dim).toNat false ∨
          p.get (!dim).toNat = c.d (!dim).toNat true) ∧
        (p.z = c.z1 ∨ p.z = c.z2) := by
  unfold add_door at h
  simp only at h
  by_cases hc : c.get_size.get dim.toNat = 0 ∧ c.get_size.get (!dim).toNat > 0 ∧ c.get_size.z > 0
  swap
  · rw [if_neg hc] at h
    exact absurd h (by simp)
  rw [if_pos hc] at h
  simp only [Option.some.injEq] at h
  refine ⟨_, h.symm, rfl, by split_ifs <;> rfl, ?_⟩
  intro p hp
  have key : ∀ z o, (z = c.z1 ∨ z = c.z2) →
      (o = c.d (!dim).toNat false ∨ o = c.d (!dim).toNat true) →
      p = ((all_zeros.set 2 z).set (!dim).toNat o).set dim.toNat
        (c.d dim.toNat false
          + (1 / 100) * c.get_size.get (!dim).toNat * (if dir then 1 else -1)) →
      p.get dim.toNat
          = c.d dim.toNat false
            + (1 / 100) * c.get_size.get (!dim).toNat * (if dir then 1 else -1) ∧
        (p.get (!dim).toNat = c.d (!dim).toNat false ∨
          p.get (!dim).toNat = c.d (!dim).toNat true) ∧
        (p.z = c.z1 ∨ p.z = c.z2) := by
    intro z o hz ho hpe
    obtain ⟨h1, h2, h3⟩ := point_get_door_pt dim z o
      (c.d dim.toNat false + (1 / 100) * c.get_size.get (!dim).toNat * (if dir then 1 else -1))
    rw [hpe, h1, h2, h3]
    exact ⟨rfl, ho, hz⟩
  have hdd : ∀ d : Bool, c.d (!dim).toNat d = c.d (!dim).toNat false ∨
      c.d (!dim).toNat d = c.d (!dim).toNat true := by
    intro d; cases d <;> simp
  have hp2 : p ∈ (if dim = false then _ else _ : List point) := hp
  by_cases hdim : dim = false
  · rw [if_pos hdim] at hp2
    simp only [List.mem_cons, List.mem_singleton, List.not_mem_nil, or_false] at hp2
    rcases hp2 with hp | hp | hp | hp
    all_goals first
      | exact key _ _ (Or.inl rfl) (hdd _) hp
      | exact key _ _ (Or.inr rfl) (hdd _) hp
  · rw [if_neg hdim] at hp2
    simp only [List.mem_cons, List.mem_singleton, List.not_mem_nil, or_false] at hp2
    rcases hp2 with hp | hp | hp | hp
    all_goals first
      | exact key _ _ (Or.inl rfl) (hdd _) hp
      | exact key _ _ (Or.inr rfl) (hdd _) hp

/-- The assertion of `add_door` is the only way it fails. -/
theorem add_door_isSome (b : building_t) (c : cube_t) (part_ix : Nat) (dim dir fb : Bool)
    (h0 : c.get_size.get dim.toNat = 0) (h1 : 0 < c.get_size.get (!dim).toNat)
    (h2 : 0 < c.get_size.z) :
    ∃ b2, add_door b c part_ix dim dir fb = some b2 := by
  unfold add_door
  simp only
  rw [if_pos ⟨h0, h1, h2⟩]
  exact ⟨_, rfl⟩

theorem get_size_get_xy (c : cube_t) (dim : Bool) :
    c.get_size.get dim.toNat = c.d dim.toNat true - c.d dim.toNat false := by
  cases dim <;> simp [cube_t.get_size, point.get, cube_t.d, Bool.toNat]

/-- The door `add_door` appends for the box `place_door` computes on the side `(dim, dir)` of
the part `bp`. -/
theorem add_door_place_door {R G : Type} (ops : RandOps R G) (b : building_t) (bp : cube_t)
    (ix : Nat) (dim dir : Bool) (dh dcs ws : ℚ) (rgen : R) (hdh : 0 < dh) (hws : 0 < ws) :
    ∃ (q : tquad_with_ix_t) (offset : ℚ),
      add_door b (place_door ops b bp dim dir dh 0 0 dcs ws rgen).1 ix dim dir true
        = some { b with
            doors := b.doors ++ [q],
            door_sides :=
              if ix < 4 then
                b.door_sides.set ix
                  ((b.door_sides.getD ix 0) ||| (1 <<< (2 * dim.toNat + dir.toNat)))
              else b.door_sides } ∧
      q.door_on_side bp dim dir (if b.is_house then (5 / 1000 : ℚ) else 1 / 1000) (ws * dh) dh ∧
      q.spans (!dim).toNat
        (offset * bp.d (!dim).toNat false + (1 - offset) * bp.d (!dim).toNat true) (ws * dh) ∧
      ((dcs = 0 ∨ b.hallway_dim = dim.toNat) →
        offset = 1 / 2 ∧ (place_door ops b bp dim dir dh 0 0 dcs ws rgen).2 = rgen) := by
  obtain ⟨offset, hc, -, hd⟩ := place_door_computed ops b bp dim dir dh 0 dcs ws rgen
  obtain ⟨hz1, hz2, hd0, hd1, ho0, ho1⟩ := hd _ rfl
  generalize (place_door ops b bp dim dir dh 0 0 dcs ws rgen).1 = c at hz1 hz2 hd0 hd1 ho0 ho1
  have hsd : c.get_size.get dim.toNat = 0 := by rw [get_size_get_xy, hd1]; ring
  have hso : c.get_size.get (!dim).toNat = ws * dh := by rw [get_size_get_xy, ho0, ho1]; ring
  have hsz : c.get_size.z = dh := by
    show c.z2 - c.z1 = dh
    rw [hz1, hz2]; ring
  obtain ⟨b2, hadd⟩ := add_door_isSome b c ix dim dir true hsd
    (by rw [hso]; exact mul_pos hws hdh) (by rw [hsz]; exact hdh)
  obtain ⟨q, hb2, hty, hlen, hpts⟩ := add_door_spec b b2 c ix dim dir true hadd
  refine ⟨q, offset, by rw [hadd, hb2], ⟨by rw [hty]; rfl, hlen, ?_⟩, ?_, hc⟩
  · intro p hp
    obtain ⟨h1, -, h3⟩ := hpts p hp
    refine ⟨?_, by rw [hz1, hz2] at h3; exact h3⟩
    rw [h1, hd0, hso]
    cases dir <;> simp <;> ring
  · intro p hp
    obtain ⟨-, h2, -⟩ := hpts p hp
    rcases h2 with h2 | h2
    · left; rw [h2, ho0]; ring
    · right; rw [h2, ho1]; ring

theorem door_sides_set_twice (l : List Nat) (x y : Nat) (h : 0 < l.length) :
    (l.set 0 (l.getD 0 0 ||| x)).set 0 ((l.set 0 (l.getD 0 0 ||| x)).getD 0 0 ||| y)
      = l.set 0 (l.getD 0 0 ||| x ||| y) := by
  cases l with
  | nil => simp at h
  | cons a t => simp [List.set, List.getD]

/-- C17: a cuboid non-house building with the first part `p0` and the hallway axis `dim`
(`hallway_dim = dim < 2`) gets exactly two doors from `gen_building_doors_if_needed`, both
recorded in the door sides of part 0 (bits `2*dim` and `2*dim + 1`): the first on the low side
and the second on the high side of `p0` along `dim`, each spanning the door width around the
midpoint of its face. The door height is `1.1 * get_door_height()`, which has to be positive
for the assertion in `add_door`, and the generator is not advanced. -/
theorem gen_building_doors_hallway {R G : Type} (env : Env) (ops : RandOps R G) (b : building_t)
    (rgen : R) (p0 : cube_t) (rest : List cube_t) (dim : Bool)
    (hcube : env.is_cube b = true) (hparts : b.parts = p0 :: rest)
    (hhall : b.hallway_dim = dim.toNat) (hhouse : b.is_house = false)
    (hdh : 0 < env.get_door_height b) (hsides : 0 < b.door_sides.length) :
    ∃ q0 q1 : tquad_with_ix_t,
      gen_building_doors_if_needed env ops b rgen
        = some ({ b with
            doors := b.doors ++ [q0, q1],
            door_sides := b.door_sides.set 0
              (b.door_sides.getD 0 0 ||| 1 <<< (2 * dim.toNat + 0) |||
                1 <<< (2 * dim.toNat + 1)) }, rgen) ∧
      q0.door_on_side p0 dim false (1 / 1000) ((7 / 10) * ((11 / 10) * env.get_door_height b))
        ((11 / 10) * env.get_door_height b) ∧
      q0.spans (!dim).toNat ((p0.d (!dim).toNat false + p0.d (!dim).toNat true) / 2)
        ((7 / 10) * ((11 / 10) * env.get_door_height b)) ∧
      q1.door_on_side p0 dim true (1 / 1000) ((7 / 10) * ((11 / 10) * env.get_door_height b))
        ((11 / 10) * env.get_door_height b) ∧
      q1.spans (!dim).toNat ((p0.d (!dim).toNat false + p0.d (!dim).toNat true) / 2)
        ((7 / 10) * ((11 / 10) * env.get_door_height b)) := by
  have hdh2 : (0 : ℚ) < (11 / 10) * env.get_door_height b := by positivity
  have hhd : (b.hallway_dim == 1) = dim := by
    rw [hhall]; cases dim <;> rfl
  have hlt : b.hallway_dim < 2 := by
    rw [hhall]; cases dim <;> decide
  obtain ⟨q0, o0, hadd0, hq0, hs0, hc0⟩ := add_door_place_door ops b p0 0 dim false
    ((11 / 10) * env.get_door_height b) 0 (7 / 10) rgen hdh2 (by norm_num)
  obtain ⟨ho0, hr0⟩ := hc0 (Or.inl rfl)
  obtain ⟨q1, o1, hadd1, hq1, hs1, hc1⟩ := add_door_place_door ops
    { b with
      doors := b.doors ++ [q0],
      door_sides :=
        if 0 < 4 then
          b.door_sides.set 0 ((b.door_sides.getD 0 0) ||| (1 <<< (2 * dim.toNat + false.toNat)))
        else b.door_sides } p0 0 dim true
    ((11 / 10) * env.get_door_height b) 0 (7 / 10) rgen hdh2 (by norm_num)
  obtain ⟨ho1, hr1⟩ := hc1 (Or.inl rfl)
  subst ho0 ho1
  simp only [hhouse, Bool.false_eq_true, if_false] at hq0 hq1
  have hmid : (1 / 2 : ℚ) * p0.d (!dim).toNat false + (1 - 1 / 2) * p0.d (!dim).toNat true
      = (p0.d (!dim).toNat false + p0.d (!dim).toNat true) / 2 := by ring
  rw [hmid] at hs0 hs1
  refine ⟨q0, q1, ?_, hq0, hs0, hq1, hs1⟩
  unfold gen_building_doors_if_needed
  simp only [hcube, Bool.not_true, Bool.false_eq_true, if_false, hparts, List.headD_cons,
    hlt, if_true, hhd]
  rw [if_neg (List.cons_ne_nil p0 rest)]
  simp only [hr0, hadd0, hr1, hadd1]
  have hds := door_sides_set_twice b.door_sides (1 <<< (2 * dim.toNat + 0))
    (1 <<< (2 * dim.toNat + 1)) hsides
  simp only [Nat.zero_lt_succ, if_true, List.append_assoc, List.singleton_append,
    Bool.toNat_false, Bool.toNat_true, List.cons_append, List.nil_append, hds,
    Option.some.injEq, Prod.mk.injEq, and_true, building_t.mk.injEq, true_and]
  exact hparts

theorem used_set_getD (l : List Bool) (i j : Nat) (h : i < l.length) :
    (l.set i true).getD j false = (if j = i then true else l.getD j false) := by
  induction l generalizing i j with
  | nil => simp at h
  | cons a t ih =>
    cases i with
    | zero => cases j <;> simp [List.set, List.getD]
    | succ i =>
      cases j with
      | zero => simp [List.set, List.getD]
      | succ j =>
        have := ih i j (by simpa using h)
        simpa [List.set, List.getD] using this

theorem side_index_lt (dim dir : Bool) : 2 * dim.toNat + dir.toNat < 4 := by
  cases dim <;> cases dir <;> decide

theorem side_index_inj (d1 r1 d2 r2 : Bool)
    (h : 2 * d1.toNat + r1.toNat = 2 * d2.toNat + r2.toNat) : d1 = d2 ∧ r1 = r2 := by
  revert h
  cases d1 <;> cases r1 <;> cases d2 <;> cases r2 <;> decide

/-- One placement keeps the invariant of the door loops. -/
theorem doors_inv_place {R G : Type} (ops : RandOps R G) (b0 b : building_t) (used : List Bool)
    (hw : Bool) (dh ws : ℚ) (pls : List door_placement) (bp : cube_t) (ix : Nat)
    (dim dir : Bool) (rgen : R) (hdh : 0 < dh) (hws : 0 < ws)
    (hinv : doors_inv b0 b used hw dh (ws * dh) pls)
    (hbp : b0.parts.get? ix = some bp) (hz : ¬ bp.z1 > b0.bcube.z1)
    (hwin : hw = true → ix < 4)
    (hface : bp.d dim.toNat dir = b0.bcube.d dim.toNat dir)
    (hused : used.getD (2 * dim.toNat + dir.toNat) false = false) :
    ∃ (b1 : building_t) (pl : door_placement),
      add_door b (place_door ops b bp dim dir dh 0 0 (1 / 10) ws rgen).1 ix dim dir true
        = some b1 ∧
      doors_inv b0 b1 (used.set (2 * dim.toNat + dir.toNat) true) hw dh (ws * dh)
        (pls ++ [pl]) := by
  obtain ⟨hb, hp, hh, hd, hlen, hu, hpair, hok⟩ := hinv
  obtain ⟨q, offset, hadd, hq, -, -⟩ := add_door_place_door ops b bp ix dim dir dh (1 / 10) ws
    rgen hdh hws
  refine ⟨_, ⟨ix, dim, dir, q⟩, hadd, hb, hp, hh, ?_, ?_, ?_, ?_, ?_⟩
  · show b.doors ++ [q] = _
    rw [hd, List.map_append, List.append_assoc]
    rfl
  · rw [List.length_set]; exact hlen
  · intro pl hpl
    rw [used_set_getD _ _ _ (by rw [hlen]; exact side_index_lt dim dir)]
    rcases List.mem_append.1 hpl with h | h
    · split_ifs
      · rfl
      · exact hu pl h
    · simp only [List.mem_singleton] at h
      subst h
      simp
  · rw [List.pairwise_append]
    refine ⟨hpair, List.pairwise_singleton _ _, ?_⟩
    intro a ha c hc
    simp only [List.mem_singleton] at hc
    subst hc
    rintro ⟨h1, h2⟩
    have := hu a ha
    rw [h1, h2] at this
    simp only at this
    rw [hused] at this
    exact absurd this (by simp)
  · intro pl hpl
    rcases List.mem_append.1 hpl with h | h
    · exact hok pl h
    · simp only [List.mem_singleton] at h
      subst h
      refine ⟨bp, hbp, hz, hface, hwin, ?_⟩
      rw [← hh]
      exact hq

/-- The loop over the four sides returns, keeps the invariant and places at most one door. -/
theorem gen_building_doors_sides_inv {R G : Type} (ops : RandOps R G) (b0 : building_t)
    (hw : Bool) (bp : cube_t) (ix : Nat) (pref_dim pref_dir : Bool) (dh ws : ℚ)
    (hdh : 0 < dh) (hws : 0 < ws)
    (hbp : b0.parts.get? ix = some bp) (hz : ¬ bp.z1 > b0.bcube.z1)
    (hwin : hw = true → ix < 4) :
    ∀ (l : List Nat) (b : building_t) (used : List Bool) (rgen : R) (pls : List door_placement),
      doors_inv b0 b used hw dh (ws * dh) pls →
      ∃ (placed : Bool) (b2 : building_t) (used2 : List Bool) (r2 : R)
        (pls2 : List door_placement),
        gen_building_doors_sides ops bp ix pref_dim pref_dir dh ws l (b, used, rgen)
          = some (placed, b2, used2, r2) ∧
        doors_inv b0 b2 used2 hw dh (ws * dh) pls2 ∧
        ((placed = false ∧ pls2 = pls) ∨ (placed = true ∧ ∃ pl, pls2 = pls ++ [pl])) := by
  intro l
  induction l with
  | nil =>
    intro b used rgen pls hinv
    exact ⟨false, b, used, rgen, pls, rfl, hinv, Or.inl ⟨rfl, rfl⟩⟩
  | cons n rest ih =>
    intro b used rgen pls hinv
    simp only [gen_building_doors_sides]
    by_cases h1 : bp.d (xor pref_dim (n / 2 == 1)).toNat (xor pref_dir (n % 2 == 1))
        ≠ b.bcube.d (xor pref_dim (n / 2 == 1)).toNat (xor pref_dir (n % 2 == 1))
    · rw [if_pos h1]
      exact ih b used rgen pls hinv
    · rw [if_neg h1]
      by_cases h2 : used.getD (2 * (xor pref_dim (n / 2 == 1)).toNat
          + (xor pref_dir (n % 2 == 1)).toNat) false = true
      · rw [if_pos h2]
        exact ih b used rgen pls hinv
      · rw [if_neg h2]
        have h1b := not_not.1 h1
        rw [hinv.1] at h1b
        obtain ⟨b1, pl, hadd, hinv1⟩ := doors_inv_place ops b0 b used hw dh ws pls bp ix
          (xor pref_dim (n / 2 == 1)) (xor pref_dir (n % 2 == 1)) rgen hdh hws hinv hbp hz hwin
          h1b (by simpa using h2)
        rw [hadd]
        exact ⟨true, b1, _, _, pls ++ [pl], rfl, hinv1, Or.inr ⟨rfl, pl, rfl⟩⟩

/-- The loop over the parts returns, keeps the invariant and places at most one door. -/
theorem gen_building_doors_parts_inv {R G : Type} (ops : RandOps R G) (b0 : building_t)
    (hw : Bool) (pref_dim pref_dir : Bool) (dh ws : ℚ) (hdh : 0 < dh) (hws : 0 < ws) :
    ∀ (l : List cube_t) (ix : Nat) (b : building_t) (used : List Bool) (rgen : R)
      (pls : List door_placement),
      b0.parts.drop ix = l →
      doors_inv b0 b used hw dh (ws * dh) pls →
      ∃ (b2 : building_t) (used2 : List Bool) (r2 : R) (pls2 : List door_placement),
        gen_building_doors_parts ops hw pref_dim pref_dir dh ws l ix (b, used, rgen)
          = some (b2, used2, r2) ∧
        doors_inv b0 b2 used2 hw dh (ws * dh) pls2 ∧
        (pls2 = pls ∨ ∃ pl, pls2 = pls ++ [pl]) := by
  intro l
  induction l with
  | nil =>
    intro ix b used rgen pls _ hinv
    exact ⟨b, used, rgen, pls, rfl, hinv, Or.inl rfl⟩
  | cons bp rest ih =>
    intro ix b used rgen pls hdrop hinv
    simp only [gen_building_doors_parts]
    by_cases h1 : hw = true ∧ ix ≥ 4
    · rw [if_pos h1]
      exact ⟨b, used, rgen, pls, rfl, hinv, Or.inl rfl⟩
    · rw [if_neg h1]
      by_cases h2 : bp.z1 > b.bcube.z1
      · rw [if_pos h2]
        exact ⟨b, used, rgen, pls, rfl, hinv, Or.inl rfl⟩
      · rw [if_neg h2]
        have hbp : b0.parts.get? ix = some bp := by
          have : (b0.parts.drop ix)[0]? = b0.parts[ix + 0]? := List.getElem?_drop _ _ _
          rw [hdrop] at this
          simpa [List.get?_eq_getElem?] using this.symm
        have hwin : hw = true → ix < 4 := by
          intro h
          by_contra hc
          exact h1 ⟨h, Nat.le_of_not_lt hc⟩
        rw [hinv.1] at h2
        obtain ⟨placed, b2, used2, r2, pls2, hs, hinv2, hpl⟩ :=
          gen_building_doors_sides_inv ops b0 hw bp ix pref_dim pref_dir dh ws hdh hws hbp h2
            hwin [0, 1, 2, 3] b used rgen pls hinv
        rw [hs]
        rcases hpl with ⟨rfl, rfl⟩ | ⟨rfl, pl, rfl⟩
        · simp only
          have hdrop2 : b0.parts.drop (ix + 1) = rest := by
            rw [← List.drop_drop, hdrop]
            rfl
          exact ih (ix + 1) b2 used2 r2 pls2 hdrop2 hinv2
        · exact ⟨b2, used2, r2, _, rfl, hinv2, Or.inr ⟨pl, rfl⟩⟩

/-- The loop over the door count returns, keeps the invariant and places at most `k` doors. -/
theorem gen_building_doors_loop_inv {R G : Type} (ops : RandOps R G) (b0 : building_t)
    (hw : Bool) (pref_dim pref_dir : Bool) (dh ws : ℚ) (hdh : 0 < dh) (hws : 0 < ws) :
    ∀ (k : Nat) (b : building_t) (used : List Bool) (rgen : R) (pls : List door_placement),
      doors_inv b0 b used hw dh (ws * dh) pls →
      ∃ (b2 : building_t) (used2 : List Bool) (r2 : R) (pls2 : List door_placement),
        gen_building_doors_loop ops hw pref_dim pref_dir dh ws k (b, used, rgen)
          = some (b2, used2, r2) ∧
        doors_inv b0 b2 used2 hw dh (ws * dh) pls2 ∧
        pls2.length ≤ pls.length + k := by
  intro k
  induction k with
  | zero =>
    intro b used rgen pls hinv
    exact ⟨b, used, rgen, pls, rfl, hinv, le_refl _⟩
  | succ k ih =>
    intro b used rgen pls hinv
    simp only [gen_building_doors_loop]
    obtain ⟨b1, used1, r1, pls1, hp, hinv1, hpl⟩ :=
      gen_building_doors_parts_inv ops b0 hw pref_dim pref_dir dh ws hdh hws b.parts 0 b used
        rgen pls (by rw [hinv.2.1]; rfl) hinv
    rw [hp]
    obtain ⟨b2, used2, r2, pls2, hl, hinv2, hlen⟩ := ih b1 used1 r1 pls1 hinv1
    refine ⟨b2, used2, r2, pls2, hl, hinv2, ?_⟩
    rcases hpl with rfl | ⟨pl, rfl⟩
    · omega
    · simp only [List.length_append, List.length_cons, List.length_nil] at hlen
      omega

/-- Witness of C17: the building with the single part `[0,10] x [0,10] x [0,5]` and the
hallway along x gets two doors. -/
theorem gen_building_doors_hallway_witness :
    (demo_env 0 1 false).is_cube demo_hallway_building = true ∧
    demo_hallway_building.parts = [⟨0, 10, 0, 10, 0, 5⟩] ∧
    demo_hallway_building.hallway_dim = false.toNat ∧
    demo_hallway_building.is_house = false ∧
    0 < (demo_env 0 1 false).get_door_height demo_hallway_building ∧
    0 < demo_hallway_building.door_sides.length ∧
    ∃ b2 : building_t,
      gen_building_doors_if_needed (demo_env 0 1 false) (script_ops []) demo_hallway_building []
        = some (b2, []) ∧ b2.doors.length = 2 ∧ b2.door_sides = [3, 0, 0, 0] := by
  have hdh : 0 < (demo_env 0 1 false).get_door_height demo_hallway_building := by
    norm_num [demo_env, demo_hallway_building, demo_building, demo_mat]
  refine ⟨rfl, rfl, rfl, rfl, hdh, by decide, ?_⟩
  obtain ⟨q0, q1, h, -⟩ := gen_building_doors_hallway (demo_env 0 1 false) (script_ops [])
    demo_hallway_building [] ⟨0, 10, 0, 10, 0, 5⟩ [] false rfl rfl rfl rfl hdh (by decide)
  exact ⟨_, h, rfl, rfl⟩

/-- C18: for a cuboid building with at least one part and no hallway axis
(`hallway_dim >= 2`), and a positive door height, `gen_building_doors_if_needed` returns and
appends the quads of a list of placements of length at most
`num_doors = 1 + rand() % (3 with windows, 4 without)`, hence at most 4 and at most 3 with
windows; no two placements are on the same side `(dim, dir)`, and each is on a part not above
the ground level of the bounding box, on a face of that part coinciding with the face of the
bounding box on that side, with part index below 4 when the material has windows. -/
theorem gen_building_doors_no_hallway {R G : Type} (env : Env) (ops : RandOps R G)
    (b : building_t) (rgen : R) (hcube : env.is_cube b = true) (hparts : b.parts ≠ [])
    (hhall : ¬ b.hallway_dim < 2) (hdh : 0 < env.get_door_height b) :
    ∃ (b2 : building_t) (r2 : R) (pls : List door_placement),
      gen_building_doors_if_needed env ops b rgen = some (b2, r2) ∧
      b2.doors = b.doors ++ pls.map door_placement.quad ∧
      pls.length ≤ 1 + (ops.rand (ops.rand_bool (ops.rand_bool rgen).2).2).1
        % (if b.mat.add_windows then 3 else 4) ∧
      pls.length ≤ 4 ∧ (b.mat.add_windows = true → pls.length ≤ 3) ∧
      door_placements_ok b b.mat.add_windows ((11 / 10) * env.get_door_height b)
        ((7 / 10) * ((11 / 10) * env.get_door_height b)) pls := by
  have hdh2 : (0 : ℚ) < (11 / 10) * env.get_door_height b := by positivity
  have hinv0 : doors_inv b b [false, false, false, false] b.mat.add_windows
      ((11 / 10) * env.get_door_height b) ((7 / 10) * ((11 / 10) * env.get_door_height b)) [] :=
    ⟨rfl, rfl, rfl, by simp, rfl, by simp, List.Pairwise.nil, by simp⟩
  obtain ⟨b2, used2, r2, pls, hl, hinv, hlen⟩ := gen_building_doors_loop_inv ops b
    b.mat.add_windows (ops.rand_bool rgen).1 (ops.rand_bool (ops.rand_bool rgen).2).1
    ((11 / 10) * env.get_door_height b) (7 / 10) hdh2 (by norm_num)
    (1 + (ops.rand (ops.rand_bool (ops.rand_bool rgen).2).2).1
      % (if b.mat.add_windows then 3 else 4)) b [false, false, false, false]
    (ops.rand (ops.rand_bool (ops.rand_bool rgen).2).2).2 [] hinv0
  simp only [List.length_nil, Nat.zero_add] at hlen
  refine ⟨b2, r2, pls, ?_, hinv.2.2.2.1, hlen, ?_, ?_, hinv.2.2.2.2.2.2⟩
  · unfold gen_building_doors_if_needed
    simp only [hcube, Bool.not_true, Bool.false_eq_true, if_false, hparts, hhall]
    rw [hl]
  · have : (ops.rand (ops.rand_bool (ops.rand_bool rgen).2).2).1
        % (if b.mat.add_windows then 3 else 4) < 4 := by
      split_ifs
      · exact lt_trans (Nat.mod_lt _ (by norm_num)) (by norm_num)
      · exact Nat.mod_lt _ (by norm_num)
    omega
  · intro hwin
    rw [hwin] at hlen
    simp only [if_true] at hlen
    have := Nat.mod_lt (ops.rand (ops.rand_bool (ops.rand_bool rgen).2).2).1
      (show 3 > 0 by norm_num)
    omega

/-- Witness of C18: the building with the single part `[0,10] x [0,10] x [0,5]` and no
hallway. -/
theorem gen_building_doors_no_hallway_witness :
    (demo_env 0 1 false).is_cube demo_part_building = true ∧
    demo_part_building.parts ≠ [] ∧ ¬ demo_part_building.hallway_dim < 2 ∧
    0 < (demo_env 0 1 false).get_door_height demo_part_building ∧
    ∃ (b2 : building_t) (r2 : List Nat),
      gen_building_doors_if_needed (demo_env 0 1 false) (script_ops []) demo_part_building []
        = some (b2, r2) ∧ b2.doors.length ≤ 3 := by
  have hdh : 0 < (demo_env 0 1 false).get_door_height demo_part_building := by
    norm_num [demo_env, demo_part_building, demo_building, demo_mat]
  have hp : demo_part_building.parts ≠ [] := by simp [demo_part_building]
  have hh : ¬ demo_part_building.hallway_dim < 2 := by decide
  refine ⟨rfl, hp, hh, hdh, ?_⟩
  obtain ⟨b2, r2, pls, h, hd, -, -, h3, -⟩ := gen_building_doors_no_hallway (demo_env 0 1 false)
    (script_ops []) demo_part_building [] rfl hp hh hdh
  refine ⟨b2, r2, h, ?_⟩
  rw [hd]
  simpa [demo_part_building, demo_building] using h3 rfl

/-! ### C19: the peaked roof -/

theorem interval_weight (lo hi v : ℚ) (h : lo < hi) (h1 : lo ≤ v) (h2 : v ≤ hi) :
    ∃ s : ℚ, 0 ≤ s ∧ s ≤ 1 ∧ v = lo * (1 - s) + hi * s := by
  have hpos : 0 < hi - lo := by linarith
  refine ⟨(v - lo) / (hi - lo), div_nonneg (by linarith) hpos.le, ?_, ?_⟩
  · rw [div_le_one hpos]; linarith
  · field_simp
    ring

/-- A quad whose corners project to the corners of the rectangle `[xa, xb] x [ya, yb]`, in the
order `(xa,ya), (xb,ya), (xb,yb), (xa,yb)`, lies over every point of the rectangle. -/
theorem over_xy_rect (q : tquad_with_ix_t) (p0 p1 p2 p3 : point) (xa xb ya yb x y : ℚ)
    (hq : q.pts = [p0, p1, p2, p3])
    (h0 : p0.x = xa ∧ p0.y = ya) (h1 : p1.x = xb ∧ p1.y = ya)
    (h2 : p2.x = xb ∧ p2.y = yb) (h3 : p3.x = xa ∧ p3.y = yb)
    (hx : xa < xb) (hy : ya < yb) (hx1 : xa ≤ x) (hx2 : x ≤ xb) (hy1 : ya ≤ y) (hy2 : y ≤ yb) :
    q.over_xy x y := by
  obtain ⟨s, hs0, hs1, hxs⟩ := interval_weight xa xb x hx hx1 hx2
  obtain ⟨t, ht0, ht1, hyt⟩ := interval_weight ya yb y hy hy1 hy2
  refine ⟨p0, p1, p2, p3, (1 - s) * (1 - t), s * (1 - t), s * t, (1 - s) * t, hq,
    mul_nonneg (by linarith) (by linarith), mul_nonneg hs0 (by linarith), mul_nonneg hs0 ht0,
    mul_nonneg (by linarith) ht0, by ring, ?_, ?_⟩
  · rw [h0.1, h1.1, h2.1, h3.1, hxs]; ring
  · rw [h0.2, h1.2, h2.2, h3.2, hyt]; ring

/-- The result of `gen_peaked_roof` for the ridge along x (`dim = 0`). -/
theorem gen_peaked_roof_dim0 (b : building_t) (top : cube_t) (ph : ℚ) :
    ∃ sides : List tquad_with_ix_t,
      (gen_peaked_roof b top ph false).1.roof_tquads
        = b.roof_tquads ++
          [⟨[⟨top.x1, top.y1, top.z2⟩, ⟨top.x2, top.y1, top.z2⟩,
              ⟨top.x2, (1 / 2) * (top.y1 + top.y2), top.z2 + min (ph * top.dy) top.dz⟩,
              ⟨top.x1, (1 / 2) * (top.y1 + top.y2), top.z2 + min (ph * top.dy) top.dz⟩],
            TYPE_ROOF⟩,
           ⟨[⟨top.x1, (1 / 2) * (top.y1 + top.y2), top.z2 + min (ph * top.dy) top.dz⟩,
              ⟨top.x2, (1 / 2) * (top.y1 + top.y2), top.z2 + min (ph * top.dy) top.dz⟩,
              ⟨top.x2, top.y2, top.z2⟩, ⟨top.x1, top.y2, top.z2⟩], TYPE_ROOF⟩] ++ sides ∧
      ∀ t ∈ sides, t.type = TYPE_WALL := by
  refine ⟨?w, ?h1, ?h2⟩
  case h1 =>
    unfold gen_peaked_roof
    simp only [if_true, Bool.false_eq_true, if_false, List.map, List.getD_cons_zero,
      List.getD_cons_succ]
    rw [List.append_assoc (b.roof_tquads ++ _)]
    exact rfl
  case h2 =>
    intro t ht
    simp only [List.mem_append] at ht
    rcases ht with ht | ht
    all_goals
      split_ifs at ht
      · simp at ht
      · simp only [List.mem_singleton] at ht
        rw [ht]

/-- The result of `gen_peaked_roof` for the ridge along y (`dim = 1`). -/
theorem gen_peaked_roof_dim1 (b : building_t) (top : cube_t) (ph : ℚ) :
    ∃ sides : List tquad_with_ix_t,
      (gen_peaked_roof b top ph true).1.roof_tquads
        = b.roof_tquads ++
          [⟨[⟨top.x1, top.y1, top.z2⟩,
              ⟨(1 / 2) * (top.x1 + top.x2), top.y1, top.z2 + min (ph * top.dx) top.dz⟩,
              ⟨(1 / 2) * (top.x1 + top.x2), top.y2, top.z2 + min (ph * top.dx) top.dz⟩,
              ⟨top.x1, top.y2, top.z2⟩], TYPE_ROOF⟩,
           ⟨[⟨(1 / 2) * (top.x1 + top.x2), top.y1, top.z2 + min (ph * top.dx) top.dz⟩,
              ⟨top.x2, top.y1, top.z2⟩, ⟨top.x2, top.y2, top.z2⟩,
              ⟨(1 / 2) * (top.x1 + top.x2), top.y2, top.z2 + min (ph * top.dx) top.dz⟩],
            TYPE_ROOF⟩] ++ sides ∧
      ∀ t ∈ sides, t.type = TYPE_WALL := by
  refine ⟨?w, ?h1, ?h2⟩
  case h1 =>
    unfold gen_peaked_roof
    simp only [if_true, Bool.true_eq_false, if_false, List.map, List.getD_cons_zero,
      List.getD_cons_succ]
    rw [List.append_assoc (b.roof_tquads ++ _)]
    exact rfl
  case h2 =>
    intro t ht
    simp only [List.mem_append] at ht
    rcases ht with ht | ht
    all_goals
      split_ifs at ht
      · simp at ht
      · simp only [List.mem_singleton] at ht
        rw [ht]

/-- C19: for a strictly normalized top box and `peak_height > 0`, `gen_peaked_roof` returns
`roof_dz = min(peak_height * width, top.dz)`, with `width = dy` for `dim = 0` and `dx` for
`dim = 1`, which is positive; it appends two roof quads `q0`, `q1` (followed by the side
triangles that are not occluded); both quads are planar, every point of the footprint of the
top lies under one of them, and they share the two ridge corners `r0`, `r1`, which lie at
height `top.z2 + roof_dz` over the centre line of the top (y centre for `dim = 0`, x centre for
`dim = 1`), all other corners being at `top.z2`. -/
theorem gen_peaked_roof_slopes (b : building_t) (top : cube_t) (peak_height : ℚ) (dim : Bool)
    (hn : top.is_strictly_normalized) (hph : 0 < peak_height) :
    (gen_peaked_roof b top peak_height dim).2
      = min (peak_height * (if dim then top.dx else top.dy)) top.dz ∧
    0 < (gen_peaked_roof b top peak_height dim).2 ∧
    ∃ (q0 q1 : tquad_with_ix_t) (sides : List tquad_with_ix_t) (r0 r1 : point),
      (gen_peaked_roof b top peak_height dim).1.roof_tquads
        = b.roof_tquads ++ [q0, q1] ++ sides ∧
      q0.type = TYPE_ROOF ∧ q1.type = TYPE_ROOF ∧ (∀ t ∈ sides, t.type = TYPE_WALL) ∧
      q0.planar ∧ q1.planar ∧
      (∀ x y : ℚ, top.x1 ≤ x → x ≤ top.x2 → top.y1 ≤ y → y ≤ top.y2 →
        q0.over_xy x y ∨ q1.over_xy x y) ∧
      r0 ∈ q0.pts ∧ r1 ∈ q0.pts ∧ r0 ∈ q1.pts ∧ r1 ∈ q1.pts ∧
      r0.z = top.z2 + (gen_peaked_roof b top peak_height dim).2 ∧
      r1.z = top.z2 + (gen_peaked_roof b top peak_height dim).2 ∧
      (dim = false →
        r0.x = top.x1 ∧ r1.x = top.x2 ∧ r0.y = (top.y1 + top.y2) / 2 ∧
          r1.y = (top.y1 + top.y2) / 2) ∧
      (dim = true →
        r0.y = top.y1 ∧ r1.y = top.y2 ∧ r0.x = (top.x1 + top.x2) / 2 ∧
          r1.x = (top.x1 + top.x2) / 2) ∧
      ∀ p ∈ q0.pts ++ q1.pts, p = r0 ∨ p = r1 ∨ p.z = top.z2 := by
  obtain ⟨hx, hy, hz⟩ := hn
  have hdx : 0 < top.dx := by unfold cube_t.dx; linarith
  have hdy : 0 < top.dy := by unfold cube_t.dy; linarith
  have hdz : 0 < top.dz := by unfold cube_t.dz; linarith
  cases dim
  · have hdzv : (gen_peaked_roof b top peak_height false).2
        = min (peak_height * top.dy) top.dz := rfl
    obtain ⟨sides, hr, hs⟩ := gen_peaked_roof_dim0 b top peak_height
    refine ⟨hdzv, ?_, _, _, sides,
      ⟨top.x1, (1 / 2) * (top.y1 + top.y2), top.z2 + min (peak_height * top.dy) top.dz⟩,
      ⟨top.x2, (1 / 2) * (top.y1 + top.y2), top.z2 + min (peak_height * top.dy) top.dz⟩,
      hr, rfl, rfl, hs, ?_, ?_, ?_, ?_, ?_, ?_, ?_, ?_, ?_, ?_, ?_, ?_⟩
    · rw [hdzv]; exact lt_min (mul_pos hph hdy) hdz
    · show coplanar _ _ _ _
      unfold coplanar
      ring
    · show coplanar _ _ _ _
      unfold coplanar
      ring
    · intro x y hx1 hx2 hy1 hy2
      by_cases hc : y ≤ (1 / 2) * (top.y1 + top.y2)
      · exact Or.inl (over_xy_rect _ _ _ _ _ top.x1 top.x2 top.y1 ((1 / 2) * (top.y1 + top.y2))
          x y rfl ⟨rfl, rfl⟩ ⟨rfl, rfl⟩ ⟨rfl, rfl⟩ ⟨rfl, rfl⟩ hx (by linarith) hx1 hx2 hy1 hc)
      · exact Or.inr (over_xy_rect _ _ _ _ _ top.x1 top.x2 ((1 / 2) * (top.y1 + top.y2)) top.y2
          x y rfl ⟨rfl, rfl⟩ ⟨rfl, rfl⟩ ⟨rfl, rfl⟩ ⟨rfl, rfl⟩ hx (by linarith) hx1 hx2
          (by linarith) hy2)
    · simp
    · simp
    · simp
    · simp
    · rw [hdzv]
    · rw [hdzv]
    · intro _
      exact ⟨rfl, rfl, by ring, by ring⟩
    · intro h
      exact absurd h (by simp)
    · intro p hp
      simp only [List.cons_append, List.nil_append, List.mem_cons, List.mem_singleton,
        List.not_mem_nil, or_false] at hp
      rcases hp with rfl | rfl | rfl | rfl | rfl | rfl | rfl | rfl <;> simp
  · have hdzv : (gen_peaked_roof b top peak_height true).2
        = min (peak_height * top.dx) top.dz := rfl
    obtain ⟨sides, hr, hs⟩ := gen_peaked_roof_dim1 b top peak_height
    refine ⟨hdzv, ?_, _, _, sides,
      ⟨(1 / 2) * (top.x1 + top.x2), top.y1, top.z2 + min (peak_height * top.dx) top.dz⟩,
      ⟨(1 / 2) * (top.x1 + top.x2), top.y2, top.z2 + min (peak_height * top.dx) top.dz⟩,
      hr, rfl, rfl, hs, ?_, ?_, ?_, ?_, ?_, ?_, ?_, ?_, ?_, ?_, ?_, ?_⟩
    · rw [hdzv]; exact lt_min (mul_pos hph hdx) hdz
    · show coplanar _ _ _ _
      unfold coplanar
      ring
    · show coplanar _ _ _ _
      unfold coplanar
      ring
    · intro x y hx1 hx2 hy1 hy2
      by_cases hc : x ≤ (1 / 2) * (top.x1 + top.x2)
      · exact Or.inl (over_xy_rect _ _ _ _ _ top.x1 ((1 / 2) * (top.x1 + top.x2)) top.y1 top.y2
          x y rfl ⟨rfl, rfl⟩ ⟨rfl, rfl⟩ ⟨rfl, rfl⟩ ⟨rfl, rfl⟩ (by linarith) hy hx1 hc hy1 hy2)
      · exact Or.inr (over_xy_rect _ _ _ _ _ ((1 / 2) * (top.x1 + top.x2)) top.x2 top.y1 top.y2
          x y rfl ⟨rfl, rfl⟩ ⟨rfl, rfl⟩ ⟨rfl, rfl⟩ ⟨rfl, rfl⟩ (by linarith) hy (by linarith)
          hx2 hy1 hy2)
    · simp
    · simp
    · simp
    · simp
    · rw [hdzv]
    · rw [hdzv]
    · intro h
      exact absurd h (by simp)
    · intro _
      exact ⟨rfl, rfl, by ring, by ring⟩
    · intro p hp
      simp only [List.cons_append, List.nil_append, List.mem_cons, List.mem_singleton,
        List.not_mem_nil, or_false] at hp
      rcases hp with rfl | rfl | rfl | rfl | rfl | rfl | rfl | rfl <;> simp

/-- Witness of C19: the top box `[0,10] x [0,10] x [0,5]` with peak height 1/4 and the ridge
along x: `roof_dz = min(1/4 * 10, 5) = 5/2`. -/
theorem gen_peaked_roof_slopes_witness :
    (⟨0, 10, 0, 10, 0, 5⟩ : cube_t).is_strictly_normalized ∧ (0 : ℚ) < 1 / 4 ∧
    (gen_peaked_roof (demo_building ⟨0, 10, 0, 10, 0, 5⟩) ⟨0, 10, 0, 10, 0, 5⟩ (1 / 4) false).2
      = min ((1 / 4) * (if false then (⟨0, 10, 0, 10, 0, 5⟩ : cube_t).dx
          else (⟨0, 10, 0, 10, 0, 5⟩ : cube_t).dy)) (⟨0, 10, 0, 10, 0, 5⟩ : cube_t).dz ∧
    0 < (gen_peaked_roof (demo_building ⟨0, 10, 0, 10, 0, 5⟩) ⟨0, 10, 0, 10, 0, 5⟩
      (1 / 4) false).2 :=
  have hn : (⟨0, 10, 0, 10, 0, 5⟩ : cube_t).is_strictly_normalized := by
    unfold cube_t.is_strictly_normalized; norm_num
  have h := gen_peaked_roof_slopes (demo_building ⟨0, 10, 0, 10, 0, 5⟩) ⟨0, 10, 0, 10, 0, 5⟩
    (1 / 4) false hn (by norm_num)
  ⟨hn, by norm_num, h.1, h.2.1⟩

/-! ### C14: the draws on the process-wide generators -/

theorem gen_house_chimney_parts {R G : Type} (ops : RandOps R G) (b : building_t)
    (two_parts : Bool) (fd : Nat → Nat) (rdz : Nat → ℚ) (rgen : R) :
    ∃ c, (gen_house_chimney ops b two_parts fd rdz rgen).1.parts = b.parts ++ [c] := by
  unfold gen_house_chimney
  simp only
  exact ⟨_, rfl⟩

/-- The roofs and the chimney of a house keep the parts and may append one (the chimney). -/
theorem gen_house_top_parts {R G : Type} (ops : RandOps R G) (b3 : building_t)
    (h : house_parts R G) (two_parts : Bool) (rgen4 : R) :
    ∃ extra, (gen_house_top ops b3 h two_parts rgen4).1.parts = b3.parts ++ extra := by
  unfold gen_house_top
  simp only
  obtain ⟨-, f2, -, -⟩ := gen_house_roofs_frame b3 h.force_dim
    (ops.rand_uniform (15 / 100) (1 / 2) rgen4).1 (b3.parts.length - h.skip_last_roof.toNat)
  generalize gen_house_roofs b3 h.force_dim (ops.rand_uniform (15 / 100) (1 / 2) rgen4).1
    (b3.parts.length - h.skip_last_roof.toNat) = rf at f2 ⊢
  obtain ⟨b4, rdz⟩ := rf
  simp only at f2 ⊢
  split_ifs
  · obtain ⟨c, hc⟩ := gen_house_chimney_parts ops b4 two_parts h.force_dim rdz
      (ops.rand (ops.rand_uniform (15 / 100) (1 / 2) rgen4).2).2
    refine ⟨[c], ?_⟩
    show (gen_house_chimney ops b4 two_parts h.force_dim rdz _).1.parts = _
    rw [hc, f2]
  · refine ⟨[], ?_⟩
    show b4.parts = _
    rw [f2, List.append_nil]

/-- With windows disabled a house has no interior and no door: its parts are those of the
layout, followed by the chimney if there is one, and the state of the process-wide generator
is the one the layout leaves. -/
theorem gen_house_no_windows {R G : Type} (env : Env) (ops : RandOps R G) (b : building_t)
    (base : cube_t) (fuel : Nat) (rgen : R) (g : G) (h : house_parts R G)
    (hp : b.parts = []) (hw : env.windows_enabled = false)
    (hl : gen_house_layout env ops { b with num_sides := 4, parts := [base] } base
      ((ops.rand rgen).1 % 3) (ops.rand_bool (ops.rand rgen).2).1
      (ops.rand_bool (ops.rand rgen).2).2 g = some h) :
    ∃ (b6 : building_t) (r : R) (extra : List cube_t),
      gen_house env ops b base fuel rgen g = some (b6, r, h.g) ∧
      b6.parts = h.b.parts ++ extra := by
  have hint : gen_interior env ops h.b fuel h.rgen = some (h.b, h.rgen) := by
    unfold gen_interior
    simp only [hw, Bool.not_false, if_true]
    split_ifs <;> rfl
  have hdoor : ∀ dd, gen_house_door env ops h.b h dd h.rgen = some (h.b, h.rgen) := by
    intro dd
    unfold gen_house_door
    simp only [hw, Bool.false_eq_true, if_false]
  obtain ⟨extra, he⟩ := gen_house_top_parts ops h.b h (decide ((ops.rand rgen).1 % 3 ≠ 0)) h.rgen
  refine ⟨(gen_house_top ops h.b h (decide ((ops.rand rgen).1 % 3 ≠ 0)) h.rgen).1,
    (gen_house_top ops h.b h (decide ((ops.rand rgen).1 % 3 ≠ 0)) h.rgen).2, extra, ?_, he⟩
  unfold gen_house
  simp only [hp, ne_eq, not_true_eq_false, if_false, hl, hint, hdoor]

theorem gen_house_part_draws_type2 {R G : Type} (ops : RandOps R G) (base : cube_t)
    (rgen : R) (g : G) :
    (gen_house_part_draws ops base 2 rgen g).2.2.2.2.1
        = (ops.g_rand_uniform (1 / 10) (1 / 2) g).1 ∧
      (gen_house_part_draws ops base 2 rgen g).2.2.2.2.2.2
        = (ops.g_rand_uniform (1 / 10) (1 / 2) g).2 := by
  unfold gen_house_part_draws
  simp

/-- The two-part house (`type = 2`): the second part is lowered by the height change drawn
from the process-wide generator and then snapped to whole floors. -/
theorem gen_house_two_parts_type2 {R G : Type} (env : Env) (ops : RandOps R G) (b : building_t)
    (base : cube_t) (gd dd : Bool) (dh0 : ℚ) (rgen : R) (g : G)
    (hadd : env.ADD_BUILDING_INTERIORS = true) (hex : env.EXACT_MULT_FLOOR_HEIGHT = true)
    (hS : 0 < b.mat.floor_spacing) (hdz : 0 < base.dz)
    (hdh : (ops.g_rand_uniform (1 / 10) (1 / 2) g).1 < 1) :
    ∃ (h : house_parts R G) (p0 p1 : cube_t),
      gen_house_two_parts env ops b base 2 gd dd dh0 rgen g = some h ∧
      h.b.parts = [p0, p1] ∧ h.g = (ops.g_rand_uniform (1 / 10) (1 / 2) g).2 ∧
      p1.z2 = base.z1 + (((max 1 (round_fp ((base.dz
          - (ops.g_rand_uniform (1 / 10) (1 / 2) g).1 * base.dz) / b.mat.floor_spacing)) : ℤ)) : ℚ)
            * b.mat.floor_spacing := by
  have key_none : ∀ c : cube_t,
      adjust_part_zvals_for_floor_spacing true b.mat.floor_spacing c = none →
      c.z1 = base.z1 →
      c.z2 = base.z2 - (ops.g_rand_uniform (1 / 10) (1 / 2) g).1 * base.dz → False := by
    intro c hc h1 h2
    unfold adjust_part_zvals_for_floor_spacing at hc
    simp only [Bool.not_true, Bool.false_eq_true, if_false] at hc
    have hpos : c.dz > 0 ∧ b.mat.floor_spacing > 0 := by
      refine ⟨?_, hS⟩
      unfold cube_t.dz at hdz ⊢
      rw [h1, h2]
      unfold cube_t.dz
      nlinarith
    rw [if_pos hpos] at hc
    exact absurd hc (by simp)
  have key_some : ∀ c p1 : cube_t,
      adjust_part_zvals_for_floor_spacing true b.mat.floor_spacing c = some p1 →
      c.z1 = base.z1 →
      c.z2 = base.z2 - (ops.g_rand_uniform (1 / 10) (1 / 2) g).1 * base.dz →
      p1.z2 = base.z1 + (((max 1 (round_fp ((base.dz
          - (ops.g_rand_uniform (1 / 10) (1 / 2) g).1 * base.dz) / b.mat.floor_spacing)) : ℤ)) : ℚ)
            * b.mat.floor_spacing := by
    intro c p1 hc h1 h2
    obtain ⟨-, -, -, hz⟩ := adjust_part_zvals_height _ _ _ hc
    have hcdz : c.dz = base.dz - (ops.g_rand_uniform (1 / 10) (1 / 2) g).1 * base.dz := by
      unfold cube_t.dz
      rw [h1, h2]
      unfold cube_t.dz
      ring
    rw [hz, hcdz, h1]
  unfold gen_house_two_parts
  simp only
  obtain ⟨hd1, hd2⟩ := gen_house_part_draws_type2 ops base
    (ops.rand_uniform (4 / 10) (6 / 10) (ops.rand_bool rgen).2).2 g
  generalize gen_house_part_draws ops base 2
    (ops.rand_uniform (4 / 10) (6 / 10) (ops.rand_bool rgen).2).2 g = dr at hd1 hd2 ⊢
  obtain ⟨dim, dir2, shrink0, shrink1, delta_height, rgen3, g1⟩ := dr
  simp only at hd1 hd2 ⊢
  subst hd1 hd2
  simp only [hadd, hex, if_true]
  split
  · rename_i heq
    exact absurd (key_none _ heq (by simp only [set_xy_z1])
      (by simp only [cube_t.dz, set_xy_z1, set_xy_z2])) id
  · rename_i part1 heq
    have hz := key_some _ _ heq (by simp only [set_xy_z1])
      (by simp only [cube_t.dz, set_xy_z1, set_xy_z2])
    simp only [show ¬ ((2 : Nat) = 1) by decide, if_false, false_and, ne_eq, not_true_eq_false,
      calc_bcube_from_parts]
    exact ⟨_, _, part1, rfl, rfl, rfl, hz⟩

/-- A run of `gen_geometry` on a fresh house of the two-part type with windows disabled: the
height of the second part comes from the draw on the process-wide generator `g`. -/
theorem gen_geometry_house_two_part {R G : Type} (env : Env) (ops : RandOps R G)
    (b : building_t) (r1 r2 : ℤ) (fuel : Nat) (g : G)
    (hv : env.is_valid b = true) (hh : b.is_house = true) (hp : b.parts = [])
    (hsn : b.bcube.is_strictly_normalized) (hw : env.windows_enabled = false)
    (hadd : env.ADD_BUILDING_INTERIORS = true) (hex : env.EXACT_MULT_FLOOR_HEIGHT = true)
    (hS : 0 < b.mat.floor_spacing)
    (ht : (ops.rand (ops.set_state (123 + r1) (345 * r2))).1 % 3 = 2)
    (hdh : (ops.g_rand_uniform (1 / 10) (1 / 2) g).1 < 1) :
    ∃ (b6 : building_t) (p0 p1 : cube_t) (extra : List cube_t),
      gen_geometry env ops b r1 r2 fuel g
        = some (b6, (ops.g_rand_uniform (1 / 10) (1 / 2) g).2) ∧
      b6.parts = p0 :: p1 :: extra ∧
      p1.z2 = b.bcube.z1 + (((max 1 (round_fp ((b.bcube.dz
          - (ops.g_rand_uniform (1 / 10) (1 / 2) g).1 * b.bcube.dz)
            / b.mat.floor_spacing)) : ℤ)) : ℚ) * b.mat.floor_spacing := by
  have hdz : 0 < b.bcube.dz := by
    unfold cube_t.dz
    linarith [hsn.2.2]
  obtain ⟨h, p0, p1, htp, hparts, hg, hz⟩ := gen_house_two_parts_type2 env ops
    { ({ b with parts := [], details := [], roof_tquads := [], doors := [], interior := none
                ao_bcz2 := b.bcube.z2 } : building_t) with num_sides := 4, parts := [b.bcube] }
    b.bcube env.windows_enabled
    (ops.rand_bool (ops.rand (ops.set_state (123 + r1) (345 * r2))).2).1
    (env.get_door_height
      { ({ b with parts := [], details := [], roof_tquads := [], doors := [], interior := none
                  ao_bcz2 := b.bcube.z2 } : building_t) with num_sides := 4, parts := [b.bcube] })
    (ops.rand_bool (ops.rand (ops.set_state (123 + r1) (345 * r2))).2).2 g hadd hex hS hdz hdh
  obtain ⟨b6, r, extra, hgh, hb6⟩ := gen_house_no_windows env ops
    { b with parts := [], details := [], roof_tquads := [], doors := [], interior := none
             ao_bcz2 := b.bcube.z2 } b.bcube fuel (ops.set_state (123 + r1) (345 * r2)) g h rfl hw
    (by
      rw [ht]
      unfold gen_house_layout
      simp only [show ¬ ((2 : Nat) = 0) by decide, ne_eq, not_false_eq_true, if_true]
      exact htp)
  refine ⟨b6, p0, p1, extra, ?_, by rw [hb6, hparts]; rfl, hz⟩
  unfold gen_geometry
  rw [gen_geometry_base_fresh env b hp]
  simp only [hv, hsn, Bool.not_true, Bool.false_eq_true, if_false, not_true_eq_false, hgh, hg]
  simp only [hh, if_true]

/-- C14 (evaluation of the code, which does not have the property): two runs of `gen_geometry`
on the same fresh house
with the same seeds `(0, 0)`, the same material and the same seeded draws differ in the state
of the process-wide generator only (its next draw maps to 0.1 in one run and to 0.5 in the
other), and return different parts: the second part of the house ends at height 9 in one run
and at height 6 in the other. -/
theorem gen_geometry_depends_on_global_state :
    ∃ (bA bB : building_t) (gA gB : List Nat),
      gen_geometry (demo_env 0 1 false) (script_ops [2]) demo_house 0 0 1 [0]
        = some (bA, gA) ∧
      gen_geometry (demo_env 0 1 false) (script_ops [2]) demo_house 0 0 1 [100]
        = some (bB, gB) ∧
      (bA.parts.getD 1 cube_t.zero).z2 = 9 ∧ (bB.parts.getD 1 cube_t.zero).z2 = 6 ∧
      bA.parts ≠ bB.parts := by
  have hv : (demo_env 0 1 false).is_valid demo_house = true := by
    simp [demo_env, demo_house, demo_building, cube_t.zero]
  have hsn : demo_house.bcube.is_strictly_normalized := by
    simp [cube_t.is_strictly_normalized, demo_house, demo_building]
  have hS : 0 < demo_house.mat.floor_spacing := by
    norm_num [demo_house, demo_building, demo_mat]
  obtain ⟨bA, p0, p1, extra, hA, hpA, hzA⟩ := gen_geometry_house_two_part (demo_env 0 1 false)
    (script_ops [2]) demo_house 0 0 1 [0] hv rfl rfl hsn rfl rfl rfl hS rfl
    (by norm_num [script_ops])
  obtain ⟨bB, q0, q1, extraB, hB, hpB, hzB⟩ := gen_geometry_house_two_part (demo_env 0 1 false)
    (script_ops [2]) demo_house 0 0 1 [100] hv rfl rfl hsn rfl rfl rfl hS rfl
    (by norm_num [script_ops])
  have h9 : p1.z2 = 9 := by
    rw [hzA]
    norm_num [script_ops, demo_house, demo_building, demo_mat, cube_t.dz, round_fp]
  have h6 : q1.z2 = 6 := by
    rw [hzB]
    norm_num [script_ops, demo_house, demo_building, demo_mat, cube_t.dz, round_fp]
  refine ⟨bA, bB, _, _, hA, hB, ?_, ?_, ?_⟩
  · rw [hpA]; exact h9
  · rw [hpB]; exact h6
  · rw [hpA, hpB]
    intro heq
    simp only [List.cons.injEq] at heq
    have := heq.2.1
    rw [this, h6] at h9
    norm_num at h9

/-! ### C24: the gable triangles of the peaked roof -/

theorem gable_any_iff (b : building_t) (top : cube_t) (roof_dz : ℚ) (dim n : Bool) :
    (b.parts.any (fun p =>
      decide (p.d dim.toNat (!n) = top.d dim.toNat n ∧ p.z1 ≤ top.z2 ∧ p.z2 ≥ top.z2 + roof_dz ∧
        p.d (!dim).toNat false ≤ top.d (!dim).toNat false ∧
        p.d (!dim).toNat true ≥ top.d (!dim).toNat true)) = true)
      ↔ gable_occluded b top roof_dz dim n := by
  unfold gable_occluded
  simp only [List.any_eq_true, decide_eq_true_eq]

/-- The polygons `gen_peaked_roof` appends: two quads, then the gable of end 0 and the gable of
end 1, each present exactly when the end is not occluded. -/
theorem gen_peaked_roof_polygons (b : building_t) (top : cube_t) (ph : ℚ) (dim : Bool) :
    ∃ (q0 q1 : tquad_with_ix_t) (t0 t1 : List tquad_with_ix_t),
      (gen_peaked_roof b top ph dim).1.roof_tquads = b.roof_tquads ++ [q0, q1] ++ t0 ++ t1 ∧
      (q0.type = TYPE_ROOF ∧ q0.pts.length = 4) ∧ (q1.type = TYPE_ROOF ∧ q1.pts.length = 4) ∧
      (gable_occluded b top (gen_peaked_roof b top ph dim).2 dim false → t0 = []) ∧
      (¬ gable_occluded b top (gen_peaked_roof b top ph dim).2 dim false →
        ∃ t, t0 = [t] ∧ t.is_gable top dim false) ∧
      (gable_occluded b top (gen_peaked_roof b top ph dim).2 dim true → t1 = []) ∧
      (¬ gable_occluded b top (gen_peaked_roof b top ph dim).2 dim true →
        ∃ t, t1 = [t] ∧ t.is_gable top dim true) := by
  have hdz : (gen_peaked_roof b top ph dim).2
      = min (ph * (if dim then top.dx else top.dy)) top.dz := rfl
  rw [hdz]
  have h0 := gable_any_iff b top (min (ph * (if dim then top.dx else top.dy)) top.dz) dim false
  have h1 := gable_any_iff b top (min (ph * (if dim then top.dx else top.dy)) top.dz) dim true
  cases dim
  · refine ⟨?q0, ?q1, ?t0, ?t1, ?h, ?_⟩
    case h =>
      unfold gen_peaked_roof
      simp only [Bool.false_eq_true, if_false, if_true, List.map, List.getD_cons_zero,
        List.getD_cons_succ, Bool.toNat_false, Bool.toNat_true]
      exact rfl
    refine ⟨⟨rfl, rfl⟩, ⟨rfl, rfl⟩, ?_, ?_, ?_, ?_⟩
    · intro ho
      exact if_pos (h0.2 ho)
    · intro ho
      refine ⟨_, if_neg (fun hc => ho (h0.1 hc)), rfl, rfl, ?_⟩
      intro p hp
      simp only [List.mem_cons, List.mem_singleton, List.not_mem_nil, or_false] at hp
      rcases hp with rfl | rfl | rfl <;> rfl
    · intro ho
      exact if_pos (h1.2 ho)
    · intro ho
      refine ⟨_, if_neg (fun hc => ho (h1.1 hc)), rfl, rfl, ?_⟩
      intro p hp
      simp only [List.mem_cons, List.mem_singleton, List.not_mem_nil, or_false] at hp
      rcases hp with rfl | rfl | rfl <;> rfl
  · refine ⟨?r0, ?r1, ?u0, ?u1, ?g, ?_⟩
    case g =>
      unfold gen_peaked_roof
      simp only [Bool.true_eq_false, if_false, if_true, List.map, List.getD_cons_zero,
        List.getD_cons_succ, Bool.toNat_false, Bool.toNat_true]
      exact rfl
    refine ⟨⟨rfl, rfl⟩, ⟨rfl, rfl⟩, ?_, ?_, ?_, ?_⟩
    · intro ho
      exact if_pos (h0.2 ho)
    · intro ho
      refine ⟨_, if_neg (fun hc => ho (h0.1 hc)), rfl, rfl, ?_⟩
      intro p hp
      simp only [List.mem_cons, List.mem_singleton, List.not_mem_nil, or_false] at hp
      rcases hp with rfl | rfl | rfl <;> rfl
    · intro ho
      exact if_pos (h1.2 ho)
    · intro ho
      refine ⟨_, if_neg (fun hc => ho (h1.1 hc)), rfl, rfl, ?_⟩
      intro p hp
      simp only [List.mem_cons, List.mem_singleton, List.not_mem_nil, or_false] at hp
      rcases hp with rfl | rfl | rfl <;> rfl

/-- C24: `gen_peaked_roof` appends exactly two roof quads followed by the gable triangles of
end 0 and end 1; the gable of end `n` is omitted if and only if the end is occluded by some
part `p` (`p.d[dim][1-n] = top.d[dim][n]`, `p.z1 <= top.z2`, `p.z2 >= top.z2 + roof_dz`, and
the range of `p` along the other horizontal axis contains that of `top`), and when present it
is one wall triangle lying in the plane `coordinate[dim] = top.d[dim][n]`; so between 2 and 4
polygons are appended. -/
theorem gen_peaked_roof_gables (b : building_t) (top : cube_t) (peak_height : ℚ) (dim : Bool) :
    ∃ (q0 q1 : tquad_with_ix_t) (t0 t1 : List tquad_with_ix_t),
      (gen_peaked_roof b top peak_height dim).1.roof_tquads
        = b.roof_tquads ++ [q0, q1] ++ t0 ++ t1 ∧
      (q0.type = TYPE_ROOF ∧ q0.pts.length = 4) ∧ (q1.type = TYPE_ROOF ∧ q1.pts.length = 4) ∧
      (t0 = [] ↔ gable_occluded b top (gen_peaked_roof b top peak_height dim).2 dim false) ∧
      (t0 = [] ∨ ∃ t, t0 = [t] ∧ t.is_gable top dim false) ∧
      (t1 = [] ↔ gable_occluded b top (gen_peaked_roof b top peak_height dim).2 dim true) ∧
      (t1 = [] ∨ ∃ t, t1 = [t] ∧ t.is_gable top dim true) ∧
      b.roof_tquads.length + 2 ≤ (gen_peaked_roof b top peak_height dim).1.roof_tquads.length ∧
      (gen_peaked_roof b top peak_height dim).1.roof_tquads.length ≤ b.roof_tquads.length + 4 := by
  obtain ⟨q0, q1, t0, t1, hr, hq0, hq1, a0, b0, a1, b1⟩ :=
    gen_peaked_roof_polygons b top peak_height dim
  have c0 : t0 = [] ∨ ∃ t, t0 = [t] ∧ t.is_gable top dim false := by
    by_cases ho : gable_occluded b top (gen_peaked_roof b top peak_height dim).2 dim false
    · exact Or.inl (a0 ho)
    · exact Or.inr (b0 ho)
  have c1 : t1 = [] ∨ ∃ t, t1 = [t] ∧ t.is_gable top dim true := by
    by_cases ho : gable_occluded b top (gen_peaked_roof b top peak_height dim).2 dim true
    · exact Or.inl (a1 ho)
    · exact Or.inr (b1 ho)
  have l0 : t0.length ≤ 1 := by
    rcases c0 with h | ⟨t, h, -⟩ <;> simp [h]
  have l1 : t1.length ≤ 1 := by
    rcases c1 with h | ⟨t, h, -⟩ <;> simp [h]
  refine ⟨q0, q1, t0, t1, hr, hq0, hq1, ⟨fun h => ?_, a0⟩, c0, ⟨fun h => ?_, a1⟩, c1, ?_, ?_⟩
  · by_contra ho
    obtain ⟨t, ht, -⟩ := b0 ho
    rw [h] at ht
    exact absurd ht (by simp)
  · by_contra ho
    obtain ⟨t, ht, -⟩ := b1 ho
    rw [h] at ht
    exact absurd ht (by simp)
  · rw [hr]
    simp only [List.length_append, List.length_cons, List.length_nil]
    omega
  · rw [hr]
    simp only [List.length_append, List.length_cons, List.length_nil]
    omega

/-! ### C27: `gen_rotation` -/

/-- The bounding box `gen_rotation` computes is the box of the four rotated corners. -/
theorem gen_rotation_bcube {R G : Type} (env : Env) (ops : RandOps R G) (b : building_t)
    (rgen : R) (h : b.mat.max_rot_angle ≠ 0) :
    (gen_rotation env ops b rgen).1.bcube
      = (((cube_t.set_from_point
            (gen_rotation_corner (env.sin (ops.rand_uniform 0 b.mat.max_rot_angle rgen).1)
              (env.cos (ops.rand_uniform 0 b.mat.max_rot_angle rgen).1) b.bcube 0)).union_with_pt
          (gen_rotation_corner (env.sin (ops.rand_uniform 0 b.mat.max_rot_angle rgen).1)
            (env.cos (ops.rand_uniform 0 b.mat.max_rot_angle rgen).1) b.bcube 1)).union_with_pt
          (gen_rotation_corner (env.sin (ops.rand_uniform 0 b.mat.max_rot_angle rgen).1)
            (env.cos (ops.rand_uniform 0 b.mat.max_rot_angle rgen).1) b.bcube 2)).union_with_pt
          (gen_rotation_corner (env.sin (ops.rand_uniform 0 b.mat.max_rot_angle rgen).1)
            (env.cos (ops.rand_uniform 0 b.mat.max_rot_angle rgen).1) b.bcube 3) ∧
    (gen_rotation env ops b rgen).1.parts = [b.bcube] ∧
    (gen_rotation env ops b rgen).1.rot_sin
      = env.sin (ops.rand_uniform 0 b.mat.max_rot_angle rgen).1 ∧
    (gen_rotation env ops b rgen).1.rot_cos
      = env.cos (ops.rand_uniform 0 b.mat.max_rot_angle rgen).1 := by
  unfold gen_rotation
  rw [if_neg h]
  exact ⟨rfl, rfl, rfl, rfl⟩

/-- The box of four points is the least box containing them. -/
theorem union_four_pts_least (p0 p1 p2 p3 : point) :
    (∀ q, q = p0 ∨ q = p1 ∨ q = p2 ∨ q = p3 →
      ((((cube_t.set_from_point p0).union_with_pt p1).union_with_pt p2).union_with_pt
        p3).contains_pt q) ∧
    ∀ box : cube_t, (∀ q, q = p0 ∨ q = p1 ∨ q = p2 ∨ q = p3 → box.contains_pt q) →
      box.contains_cube
        ((((cube_t.set_from_point p0).union_with_pt p1).union_with_pt p2).union_with_pt p3) := by
  constructor
  · intro q hq
    simp only [cube_t.contains_pt, cube_t.union_with_pt, cube_t.set_from_point]
    rcases hq with rfl | rfl | rfl | rfl <;>
      simp only [le_min_iff, min_le_iff, le_max_iff, max_le_iff, le_refl, true_or, or_true,
        and_self, true_and, and_true]
  · intro box hb
    have h0 := hb p0 (Or.inl rfl)
    have h1 := hb p1 (Or.inr (Or.inl rfl))
    have h2 := hb p2 (Or.inr (Or.inr (Or.inl rfl)))
    have h3 := hb p3 (Or.inr (Or.inr (Or.inr rfl)))
    simp only [cube_t.contains_pt] at h0 h1 h2 h3
    simp only [cube_t.contains_cube, cube_t.union_with_pt, cube_t.set_from_point, le_min_iff,
      max_le_iff]
    tauto

theorem min_max_sym (a b m : ℚ) :
    min (min (min a b) (m - b)) (m - a) + max (max (max a b) (m - b)) (m - a) = m := by
  simp only [min_def, max_def]
  split_ifs <;> linarith

/-- The box of the four rotated corners has the centre of the original box in x and y, and its
z-range when the box is normalized in z. -/
theorem gen_rotation_corners_box (s c : ℚ) (bc : cube_t) (hz : bc.z1 ≤ bc.z2) :
    ((((cube_t.set_from_point (gen_rotation_corner s c bc 0)).union_with_pt
        (gen_rotation_corner s c bc 1)).union_with_pt
        (gen_rotation_corner s c bc 2)).union_with_pt
        (gen_rotation_corner s c bc 3)).get_cube_center.x = bc.get_cube_center.x ∧
    ((((cube_t.set_from_point (gen_rotation_corner s c bc 0)).union_with_pt
        (gen_rotation_corner s c bc 1)).union_with_pt
        (gen_rotation_corner s c bc 2)).union_with_pt
        (gen_rotation_corner s c bc 3)).get_cube_center.y = bc.get_cube_center.y ∧
    ((((cube_t.set_from_point (gen_rotation_corner s c bc 0)).union_with_pt
        (gen_rotation_corner s c bc 1)).union_with_pt
        (gen_rotation_corner s c bc 2)).union_with_pt
        (gen_rotation_corner s c bc 3)).z1 = bc.z1 ∧
    ((((cube_t.set_from_point (gen_rotation_corner s c bc 0)).union_with_pt
        (gen_rotation_corner s c bc 1)).union_with_pt
        (gen_rotation_corner s c bc 2)).union_with_pt
        (gen_rotation_corner s c bc 3)).z2 = bc.z2 := by
  have e0 : gen_rotation_corner s c bc 0 = do_xy_rotate s c bc.get_cube_center
      ⟨bc.x1, bc.y1, bc.z1⟩ := rfl
  have e1 : gen_rotation_corner s c bc 1 = do_xy_rotate s c bc.get_cube_center
      ⟨bc.x2, bc.y1, bc.z2⟩ := rfl
  have e2 : gen_rotation_corner s c bc 2 = do_xy_rotate s c bc.get_cube_center
      ⟨bc.x1, bc.y2, bc.z1⟩ := rfl
  have e3 : gen_rotation_corner s c bc 3 = do_xy_rotate s c bc.get_cube_center
      ⟨bc.x2, bc.y2, bc.z2⟩ := rfl
  rw [e0, e1, e2, e3]
  simp only [cube_t.get_cube_center, cube_t.union_with_pt, cube_t.set_from_point, do_xy_rotate]
  refine ⟨?_, ?_, ?_, ?_⟩
  · have h := min_max_sym
      ((bc.x1 - (bc.x1 + bc.x2) / 2) * c - (bc.y1 - (bc.y1 + bc.y2) / 2) * s
        + (bc.x1 + bc.x2) / 2)
      ((bc.x2 - (bc.x1 + bc.x2) / 2) * c - (bc.y1 - (bc.y1 + bc.y2) / 2) * s
        + (bc.x1 + bc.x2) / 2) (bc.x1 + bc.x2)
    have r2 : (bc.x1 - (bc.x1 + bc.x2) / 2) * c - (bc.y2 - (bc.y1 + bc.y2) / 2) * s
        + (bc.x1 + bc.x2) / 2
        = (bc.x1 + bc.x2) - ((bc.x2 - (bc.x1 + bc.x2) / 2) * c
          - (bc.y1 - (bc.y1 + bc.y2) / 2) * s + (bc.x1 + bc.x2) / 2) := by ring
    have r3 : (bc.x2 - (bc.x1 + bc.x2) / 2) * c - (bc.y2 - (bc.y1 + bc.y2) / 2) * s
        + (bc.x1 + bc.x2) / 2
        = (bc.x1 + bc.x2) - ((bc.x1 - (bc.x1 + bc.x2) / 2) * c
          - (bc.y1 - (bc.y1 + bc.y2) / 2) * s + (bc.x1 + bc.x2) / 2) := by ring
    rw [r2, r3, h]
  · have h := min_max_sym
      ((bc.y1 - (bc.y1 + bc.y2) / 2) * c + (bc.x1 - (bc.x1 + bc.x2) / 2) * s
        + (bc.y1 + bc.y2) / 2)
      ((bc.y1 - (bc.y1 + bc.y2) / 2) * c + (bc.x2 - (bc.x1 + bc.x2) / 2) * s
        + (bc.y1 + bc.y2) / 2) (bc.y1 + bc.y2)
    have r2 : (bc.y2 - (bc.y1 + bc.y2) / 2) * c + (bc.x1 - (bc.x1 + bc.x2) / 2) * s
        + (bc.y1 + bc.y2) / 2
        = (bc.y1 + bc.y2) - ((bc.y1 - (bc.y1 + bc.y2) / 2) * c
          + (bc.x2 - (bc.x1 + bc.x2) / 2) * s + (bc.y1 + bc.y2) / 2) := by ring
    have r3 : (bc.y2 - (bc.y1 + bc.y2) / 2) * c + (bc.x2 - (bc.x1 + bc.x2) / 2) * s
        + (bc.y1 + bc.y2) / 2
        = (bc.y1 + bc.y2) - ((bc.y1 - (bc.y1 + bc.y2) / 2) * c
          + (bc.x1 - (bc.x1 + bc.x2) / 2) * s + (bc.y1 + bc.y2) / 2) := by ring
    rw [r2, r3, h]
  · simp only [min_def]
    split_ifs <;> linarith
  · simp only [max_def]
    split_ifs <;> linarith

/-- C27: when the maximum rotation angle of the material is 0, `gen_rotation` changes nothing
(and draws nothing). Otherwise it sets the sine and cosine of the drawn angle, leaves exactly
one part, the bounding box it was called with (unrotated), and replaces `bcube` by the least
axis-aligned box that contains the four corners of that part rotated about its centre; the new
`bcube` has the XY centre of the old one and, the old one being normalized in z, its z-range. -/
theorem gen_rotation_spec {R G : Type} (env : Env) (ops : RandOps R G) (b : building_t)
    (rgen : R) (hz : b.bcube.z1 ≤ b.bcube.z2) :
    (b.mat.max_rot_angle = 0 → gen_rotation env ops b rgen = (b, rgen)) ∧
    (b.mat.max_rot_angle ≠ 0 →
      (gen_rotation env ops b rgen).1.parts = [b.bcube] ∧
      (gen_rotation env ops b rgen).1.rot_sin
        = env.sin (ops.rand_uniform 0 b.mat.max_rot_angle rgen).1 ∧
      (gen_rotation env ops b rgen).1.rot_cos
        = env.cos (ops.rand_uniform 0 b.mat.max_rot_angle rgen).1 ∧
      (∀ i : Nat, i < 4 →
        (gen_rotation env ops b rgen).1.bcube.contains_pt
          (gen_rotation_corner (gen_rotation env ops b rgen).1.rot_sin
            (gen_rotation env ops b rgen).1.rot_cos b.bcube i)) ∧
      (∀ box : cube_t,
        (∀ i : Nat, i < 4 →
          box.contains_pt
            (gen_rotation_corner (gen_rotation env ops b rgen).1.rot_sin
              (gen_rotation env ops b rgen).1.rot_cos b.bcube i)) →
        box.contains_cube (gen_rotation env ops b rgen).1.bcube) ∧
      (gen_rotation env ops b rgen).1.bcube.get_cube_center.x = b.bcube.get_cube_center.x ∧
      (gen_rotation env ops b rgen).1.bcube.get_cube_center.y = b.bcube.get_cube_center.y ∧
      (gen_rotation env ops b rgen).1.bcube.z1 = b.bcube.z1 ∧
      (gen_rotation env ops b rgen).1.bcube.z2 = b.bcube.z2) := by
  constructor
  · intro h
    unfold gen_rotation
    rw [if_pos h]
  · intro h
    obtain ⟨hb, hp, hs, hc⟩ := gen_rotation_bcube env ops b rgen h
    obtain ⟨c1, c2, c3, c4⟩ := gen_rotation_corners_box
      (env.sin (ops.rand_uniform 0 b.mat.max_rot_angle rgen).1)
      (env.cos (ops.rand_uniform 0 b.mat.max_rot_angle rgen).1) b.bcube hz
    obtain ⟨l1, l2⟩ := union_four_pts_least
      (gen_rotation_corner (env.sin (ops.rand_uniform 0 b.mat.max_rot_angle rgen).1)
        (env.cos (ops.rand_uniform 0 b.mat.max_rot_angle rgen).1) b.bcube 0)
      (gen_rotation_corner (env.sin (ops.rand_uniform 0 b.mat.max_rot_angle rgen).1)
        (env.cos (ops.rand_uniform 0 b.mat.max_rot_angle rgen).1) b.bcube 1)
      (gen_rotation_corner (env.sin (ops.rand_uniform 0 b.mat.max_rot_angle rgen).1)
        (env.cos (ops.rand_uniform 0 b.mat.max_rot_angle rgen).1) b.bcube 2)
      (gen_rotation_corner (env.sin (ops.rand_uniform 0 b.mat.max_rot_angle rgen).1)
        (env.cos (ops.rand_uniform 0 b.mat.max_rot_angle rgen).1) b.bcube 3)
    rw [hs, hc, hb]
    refine ⟨hp, rfl, rfl, ?_, ?_, c1, c2, c3, c4⟩
    · intro i hi
      apply l1
      interval_cases i
      · exact Or.inl rfl
      · exact Or.inr (Or.inl rfl)
      · exact Or.inr (Or.inr (Or.inl rfl))
      · exact Or.inr (Or.inr (Or.inr rfl))
    · intro box hbox
      apply l2
      intro q hq
      rcases hq with rfl | rfl | rfl | rfl
      · exact hbox 0 (by norm_num)
      · exact hbox 1 (by norm_num)
      · exact hbox 2 (by norm_num)
      · exact hbox 3 (by norm_num)

/-- Witness of C27: the footprint `[0,10] x [0,2] x [0,3]` rotated with sine 3/5 and cosine
4/5. -/
theorem gen_rotation_spec_witness :
    (demo_ngon_building ⟨0, 10, 0, 2, 0, 3⟩).bcube.z1
      ≤ (demo_ngon_building ⟨0, 10, 0, 2, 0, 3⟩).bcube.z2 ∧
    (demo_ngon_building ⟨0, 10, 0, 2, 0, 3⟩).mat.max_rot_angle ≠ 0 ∧
    (gen_rotation (demo_env (3 / 5) (4 / 5) false) (script_ops [0])
      (demo_ngon_building ⟨0, 10, 0, 2, 0, 3⟩) [0]).1.parts = [⟨0, 10, 0, 2, 0, 3⟩] ∧
    (gen_rotation (demo_env (3 / 5) (4 / 5) false) (script_ops [0])
      (demo_ngon_building ⟨0, 10, 0, 2, 0, 3⟩) [0]).1.bcube.z2 = 3 := by
  have hz : (demo_ngon_building ⟨0, 10, 0, 2, 0, 3⟩).bcube.z1
      ≤ (demo_ngon_building ⟨0, 10, 0, 2, 0, 3⟩).bcube.z2 := by
    norm_num [demo_ngon_building, demo_building]
  have hm : (demo_ngon_building ⟨0, 10, 0, 2, 0, 3⟩).mat.max_rot_angle ≠ 0 := by
    norm_num [demo_ngon_building, demo_ngon_mat, demo_mat]
  have h := (gen_rotation_spec (demo_env (3 / 5) (4 / 5) false) (script_ops [0])
    (demo_ngon_building ⟨0, 10, 0, 2, 0, 3⟩) [0] hz).2 hm
  exact ⟨hz, hm, h.1, h.2.2.2.2.2.2.2.2⟩

/-! ### C22: the top of a cylindrical part in `check_sphere_coll` -/

/-- The scan of a single near-circular cylindrical part when the previous position is above
the top of the part (in the caller's frame) and the centre is within `max(rx, ry)` of the axis:
`pos2.z` is set to `part.z2 + radius`, without the offset `xlate.z`. -/
theorem check_sphere_coll_parts_cylinder_top (env : Env) (b : building_t) (part : cube_t)
    (p_last2 xlate : point) (radius : ℚ) (check_interior : Bool) (st : sphere_coll_state)
    (hcyl : env.use_cylinder_coll b = true)
    (hzov : ¬ (st.pos2.z + radius < part.z1 + xlate.z ∨ st.pos2.z - radius > part.z2 + xlate.z))
    (hrad : radius ≠ 0)
    (hnear : env.dist_xy_less_than st.pos2 (part.get_cube_center.add xlate)
      (radius + max ((1 / 2) * part.dx) ((1 / 2) * part.dy)) = true)
    (hcirc : |(1 / 2) * part.dx - (1 / 2) * part.dy| < radius)
    (habove : p_last2.z > part.z2 + xlate.z)
    (hin : env.dist_xy_less_than st.pos2 (part.get_cube_center.add xlate)
      (max ((1 / 2) * part.dx) ((1 / 2) * part.dy)) = true) :
    check_sphere_coll_parts env b p_last2 xlate radius false check_interior [part] st
      = { st with pos2 := { st.pos2 with z := part.z2 + radius }
                  cnorm := st.cnorm.map (fun _ => plus_z)
                  had_coll := true } := by
  simp only [check_sphere_coll_parts, Bool.false_eq_true, false_and, if_false, true_and, hzov,
    hrad, hcyl, if_true, hnear, Bool.not_true, hcirc, habove, hin, and_self]

/-- The result of `check_sphere_coll` on an unrotated building with one near-circular
cylindrical part, no details and no roof polygons, when the sphere comes from above the top of
the part: the returned `pos.z` is `part.z2 + radius`. -/
theorem check_sphere_coll_cylinder_top (env : Env) (b : building_t) (part : cube_t)
    (pos p_last xlate : point) (radius : ℚ) (cnorm_ptr : Option point) (check_interior : Bool)
    (hv : env.is_valid b = true) (hrot : env.is_rotated b = false)
    (hparts : b.parts = [part]) (hdet : b.details = []) (hroof : b.roof_tquads = [])
    (hbroad : env.sphere_cube_intersect pos radius (b.bcube.xlate xlate) p_last true false = true)
    (hcyl : env.use_cylinder_coll b = true)
    (hzov : ¬ (pos.z + radius < part.z1 + xlate.z ∨ pos.z - radius > part.z2 + xlate.z))
    (hrad : 0 < radius)
    (hnear : env.dist_xy_less_than pos (part.get_cube_center.add xlate)
      (radius + max ((1 / 2) * part.dx) ((1 / 2) * part.dy)) = true)
    (hcirc : |(1 / 2) * part.dx - (1 / 2) * part.dy| < radius)
    (habove : p_last.z > part.z2 + xlate.z)
    (hin : env.dist_xy_less_than pos (part.get_cube_center.add xlate)
      (max ((1 / 2) * part.dx) ((1 / 2) * part.dy)) = true) :
    check_sphere_coll env b pos p_last xlate radius false cnorm_ptr check_interior
      = (true, { pos with z := part.z2 + radius }, cnorm_ptr.map (fun _ => plus_z)) := by
  have hp := check_sphere_coll_parts_cylinder_top env b part p_last xlate radius check_interior
    { pos2 := pos, had_coll := false, is_interior := false, cnorm := cnorm_ptr } hcyl hzov
    (ne_of_gt hrad) hnear hcirc habove hin
  unfold check_sphere_coll
  simp only [hv, hrot, hbroad, hparts, hdet, hroof, hp, Bool.not_true, Bool.false_eq_true,
    if_false, Bool.not_false, if_true, and_false, check_sphere_coll_details,
    check_sphere_coll_roof, List.foldl_nil]
  rw [if_neg (by simp)]

/-- C22 (evaluation of the code, which does not have the property): a circular cylindrical
part `[0,4] x [0,4] x [0,10]` queried with the offset `xlate = (0,0,100)`, so that its top is at
height 110 in the caller's frame; the sphere of radius 1 at `(2,2,110.5)` comes from
`(2,2,112)` above the top. `check_sphere_coll` reports a hit with normal `+z` and returns
`pos.z = 10 + 1 = 11`, not `(10 + 100) + 1 = 111`. -/
theorem check_sphere_coll_cylinder_top_drops_xlate :
    check_sphere_coll (demo_env 0 1 false) (demo_cylinder ⟨0, 4, 0, 4, 0, 10⟩)
        ⟨2, 2, 221 / 2⟩ ⟨2, 2, 112⟩ ⟨0, 0, 100⟩ 1 false (some all_zeros) false
      = (true, ⟨2, 2, 11⟩, some plus_z) ∧
    (11 : ℚ) ≠ ((⟨0, 4, 0, 4, 0, 10⟩ : cube_t).z2 + (⟨0, 0, 100⟩ : point).z) + 1 := by
  constructor
  · rw [check_sphere_coll_cylinder_top (demo_env 0 1 false) (demo_cylinder ⟨0, 4, 0, 4, 0, 10⟩)
      ⟨0, 4, 0, 4, 0, 10⟩ ⟨2, 2, 221 / 2⟩ ⟨2, 2, 112⟩ ⟨0, 0, 100⟩ 1 (some all_zeros) false
      (by simp [demo_env, demo_cylinder, demo_building, cube_t.zero])
      (by simp [demo_env, demo_cylinder, demo_building]) rfl rfl rfl
      (by norm_num [demo_env, demo_cylinder, demo_building, cube_t.xlate])
      (by simp [demo_env, demo_cylinder, demo_building])
      (by norm_num) (by norm_num)
      (by norm_num [demo_env, cube_t.get_cube_center, point.add, cube_t.dx, cube_t.dy])
      (by norm_num [cube_t.dx, cube_t.dy])
      (by norm_num)
      (by norm_num [demo_env, cube_t.get_cube_center, point.add, cube_t.dx, cube_t.dy])]
    norm_num
  · norm_num

/-! ### C21: `check_line_coll` under a common translation -/

/-- The result of `check_line_coll` on an unrotated cuboid building with one part, no details
and no roof polygons, for a segment that is not vertical and enters the part at `tmin < t`:
the kind is decided by `zval = p1.z + tmin * (p2.z - p1.z)`, computed from the arguments `p1`,
`p2` as passed, not from the translated points. -/
theorem check_line_coll_single_cube (env : Env) (b : building_t) (part : cube_t)
    (p1 p2 xlate : point) (t tmin tmax : ℚ) (no_coll_pt : Bool)
    (hclip : env.check_line_clip (p1.sub xlate) (p2.sub xlate) b.bcube = true)
    (hrot : env.is_rotated b = false) (hcyl : env.use_cylinder_coll b = false)
    (hn : b.num_sides = 4)
    (hparts : b.parts = [part]) (hdet : b.details = []) (hroof : b.roof_tquads = [])
    (hnv : ¬ ((p1.sub xlate).x = (p2.sub xlate).x ∧ (p1.sub xlate).y = (p2.sub xlate).y))
    (hz : ¬ (min (p1.sub xlate).z (p2.sub xlate).z > part.z2 ∨
      max (p1.sub xlate).z (p2.sub xlate).z < part.z1))
    (hseg : env.get_line_clip (p1.sub xlate) (p2.sub xlate) part = some (tmin, tmax))
    (ht : tmin < t) :
    check_line_coll env b p1 p2 xlate t false false no_coll_pt
      = (if |p1.z + tmin * (p2.z - p1.z) - part.z2| < (1 / 10000) * part.dz then 2 else 1,
          tmin) := by
  unfold check_line_coll
  simp only [hclip, Bool.not_true, Bool.false_eq_true, if_false, hrot, hparts, hdet, hroof,
    check_line_coll_parts, check_line_coll_part, hz, hcyl, hn, ne_eq, not_true_eq_false, hseg,
    ht, if_true, hnv, decide_False, check_line_coll_details, check_line_coll_roof,
    List.foldl_nil]
  split_ifs <;> simp

/-- C21 (evaluation of the code, which does not have the property): the segment from
`(4,5,10)` to `(6,5,0)` enters the part `[0,10] x [0,10] x [0,5]` through its top at `t = 1/2`
and `check_line_coll` with `xlate = 0` returns 2 (roof); the same segment and building moved by
the common offset `x = (0,0,100)` return 1 (side) with the same `t`. -/
theorem check_line_coll_not_translation_invariant :
    check_line_coll demo_clip_env demo_part_building ⟨4, 5, 10⟩ ⟨6, 5, 0⟩ all_zeros 1
        false false false = (2, 1 / 2) ∧
    check_line_coll demo_clip_env demo_part_building
        ((⟨4, 5, 10⟩ : point).add ⟨0, 0, 100⟩) ((⟨6, 5, 0⟩ : point).add ⟨0, 0, 100⟩)
        ⟨0, 0, 100⟩ 1 false false false = (1, 1 / 2) := by
  constructor
  · rw [check_line_coll_single_cube demo_clip_env demo_part_building ⟨0, 10, 0, 10, 0, 5⟩
      ⟨4, 5, 10⟩ ⟨6, 5, 0⟩ all_zeros 1 (1 / 2) 1 false
      (by norm_num [demo_clip_env, demo_line_env, demo_part_building, demo_building,
        segment_meets_cube, segment_axis_range, point.sub, all_zeros])
      (by simp [demo_clip_env, demo_line_env, demo_env, demo_part_building, demo_building])
      (by simp [demo_clip_env, demo_line_env, demo_env, demo_part_building, demo_building])
      rfl rfl rfl rfl
      (by norm_num [point.sub, all_zeros])
      (by norm_num [point.sub, all_zeros])
      (by norm_num [demo_clip_env, segment_clip, segment_axis_range, point.sub, all_zeros])
      (by norm_num)]
    norm_num [cube_t.dz]
  · rw [check_line_coll_single_cube demo_clip_env demo_part_building ⟨0, 10, 0, 10, 0, 5⟩
      ((⟨4, 5, 10⟩ : point).add ⟨0, 0, 100⟩) ((⟨6, 5, 0⟩ : point).add ⟨0, 0, 100⟩)
      ⟨0, 0, 100⟩ 1 (1 / 2) 1 false
      (by norm_num [demo_clip_env, demo_line_env, demo_part_building, demo_building,
        segment_meets_cube, segment_axis_range, point.sub, point.add])
      (by simp [demo_clip_env, demo_line_env, demo_env, demo_part_building, demo_building])
      (by simp [demo_clip_env, demo_line_env, demo_env, demo_part_building, demo_building])
      rfl rfl rfl rfl
      (by norm_num [point.sub, point.add])
      (by norm_num [point.sub, point.add])
      (by norm_num [demo_clip_env, segment_clip, segment_axis_range, point.sub, point.add])
      (by norm_num)]
    norm_num [cube_t.dz, point.add]

/-! ### C23: the interior re-test of `check_sphere_coll` -/

/-- The result of `check_sphere_coll` with `check_interior = true` on an unrotated cuboid
building with an interior and one part that the sphere hits (no details, no roof polygons):
the flag is the result of the interior re-test, which runs on the caller's `pos`; when it is
true the returned position is `pos2`, the position corrected by the part, and the position
corrected by the interior is lost. -/
theorem check_sphere_coll_interior_retest (env : Env) (b : building_t) (part : cube_t)
    (interior : building_interior_t) (pos p_last xlate pos2 : point) (radius : ℚ)
    (cnorm_ptr cn2 : Option point)
    (hv : env.is_valid b = true) (hrot : env.is_rotated b = false)
    (hcyl : env.use_cylinder_coll b = false) (hn : b.num_sides = 4)
    (hparts : b.parts = [part]) (hdet : b.details = []) (hroof : b.roof_tquads = [])
    (hint : b.interior = some interior)
    (hbroad : env.sphere_cube_intersect pos radius (b.bcube.xlate xlate) p_last true false = true)
    (hzov : ¬ (pos.z + radius < part.z1 + xlate.z ∨ pos.z - radius > part.z2 + xlate.z))
    (hrad : 0 < radius)
    (hhit : env.sphere_cube_int_update_pos pos radius (part.xlate xlate) p_last true false
      cnorm_ptr = (true, pos2, cn2)) :
    check_sphere_coll env b pos p_last xlate radius false cnorm_ptr true
      = (if (check_sphere_coll_interior env interior pos p_last xlate radius false cn2).1 then
          (true, pos2,
            (check_sphere_coll_interior env interior pos p_last xlate radius false cn2).2.2)
        else
          (false,
            (check_sphere_coll_interior env interior pos p_last xlate radius false cn2).2.1,
            (check_sphere_coll_interior env interior pos p_last xlate radius false cn2).2.2)) := by
  have hp : check_sphere_coll_parts env b p_last xlate radius false true [part]
      { pos2 := pos, had_coll := false, is_interior := false, cnorm := cnorm_ptr }
      = { pos2 := pos2, had_coll := true, is_interior := true, cnorm := cn2 } := by
    simp only [check_sphere_coll_parts, Bool.false_eq_true, false_and, if_false, true_and, hzov,
      ne_of_gt hrad, hcyl, hn, ne_eq, not_true_eq_false, hhit, if_true, hint, Option.isSome_some,
      and_self]
  unfold check_sphere_coll
  simp only [hv, hrot, hbroad, hparts, hdet, hroof, hp, hint, Bool.not_true, Bool.false_eq_true,
    if_false, Bool.not_false, if_true, and_false, check_sphere_coll_details,
    check_sphere_coll_roof, List.foldl_nil]
  rw [if_neg (by simp)]
  cases (check_sphere_coll_interior env interior pos p_last xlate radius false cn2).1 <;> simp

/-- C23 (evaluation of the code, which does not have the property): the sphere of radius 1 at
`(5.5, 5, 2)` inside the part `[0,10] x [0,10] x [0,5]` overlaps the interior wall
`[4,5] x [0,10] x [0,5]`. The interior re-test hits and corrects the position to `(6, 5, 2)`,
but `check_sphere_coll` returns the position corrected by the part, `(11, 5, 2)`. -/
theorem check_sphere_coll_drops_interior_pos :
    check_sphere_coll demo_sphere_env demo_interior_building ⟨11 / 2, 5, 2⟩ ⟨11 / 2, 5, 2⟩
        all_zeros 1 false none true = (true, ⟨11, 5, 2⟩, none) ∧
    check_sphere_coll_interior demo_sphere_env ⟨[⟨4, 5, 0, 10, 0, 5⟩], [], [], [], [], none⟩
        ⟨11 / 2, 5, 2⟩ ⟨11 / 2, 5, 2⟩ all_zeros 1 false none = (true, ⟨6, 5, 2⟩, none) := by
  have hi : check_sphere_coll_interior demo_sphere_env
      ⟨[⟨4, 5, 0, 10, 0, 5⟩], [], [], [], [], none⟩
      ⟨11 / 2, 5, 2⟩ ⟨11 / 2, 5, 2⟩ all_zeros 1 false none = (true, ⟨6, 5, 2⟩, none) := by
    norm_num [check_sphere_coll_interior, demo_sphere_env, sphere_push_out_x, cube_t.xlate,
      all_zeros]
  refine ⟨?_, hi⟩
  rw [check_sphere_coll_interior_retest demo_sphere_env demo_interior_building
    ⟨0, 10, 0, 10, 0, 5⟩ ⟨[⟨4, 5, 0, 10, 0, 5⟩], [], [], [], [], none⟩ ⟨11 / 2, 5, 2⟩
    ⟨11 / 2, 5, 2⟩ all_zeros ⟨11, 5, 2⟩ 1 none none
    (by simp [demo_sphere_env, demo_env, demo_interior_building, demo_part_building,
      demo_building, cube_t.zero])
    (by simp [demo_sphere_env, demo_env, demo_interior_building, demo_part_building,
      demo_building])
    (by simp [demo_sphere_env, demo_env, demo_interior_building, demo_part_building,
      demo_building])
    rfl rfl rfl rfl rfl
    (by norm_num [demo_sphere_env, demo_env, demo_interior_building, demo_part_building,
      demo_building, cube_t.xlate, all_zeros])
    (by norm_num [all_zeros]) (by norm_num)
    (by norm_num [demo_sphere_env, sphere_push_out_x, cube_t.xlate, all_zeros]), hi]
  simp

/-! ### C26: the detail boxes of `gen_details` -/

section split_loop_equations

attribute [local irreducible] gen_interior_split_step

theorem gen_interior_split_loop_nil {R G : Type} (env : Env) (ops : RandOps R G)
    (b : building_t) (k : interior_dims) (p : cube_t) (part_ix : Nat) (whs : Bool → ℚ)
    (fuel : Nat) (st : interior_state R) :
    gen_interior_split_loop env ops b k p part_ix whs fuel [] st = some st := by
  cases fuel <;> rfl

theorem gen_interior_split_loop_succ {R G : Type} (env : Env) (ops : RandOps R G)
    (b : building_t) (k : interior_dims) (p : cube_t) (part_ix : Nat) (whs : Bool → ℚ)
    (fuel : Nat) (c : split_cube_t) (ts ts1 : List split_cube_t) (st st1 : interior_state R)
    (h : gen_interior_split_step env ops b k p part_ix whs c ts st = some (ts1, st1)) :
    gen_interior_split_loop env ops b k p part_ix whs (fuel + 1) (c :: ts) st =
      gen_interior_split_loop env ops b k p part_ix whs fuel ts1 st1 := by
  rw [gen_interior_split_loop, h]

theorem gen_interior_split_loop_succ_none {R G : Type} (env : Env) (ops : RandOps R G)
    (b : building_t) (k : interior_dims) (p : cube_t) (part_ix : Nat) (whs : Bool → ℚ)
    (fuel : Nat) (c : split_cube_t) (ts : List split_cube_t) (st : interior_state R)
    (h : gen_interior_split_step env ops b k p part_ix whs c ts st = none) :
    gen_interior_split_loop env ops b k p part_ix whs (fuel + 1) (c :: ts) st = none := by
  rw [gen_interior_split_loop, h]

theorem gen_interior_split_loop_zero_cons {R G : Type} (env : Env) (ops : RandOps R G)
    (b : building_t) (k : interior_dims) (p : cube_t) (part_ix : Nat) (whs : Bool → ℚ)
    (c : split_cube_t) (ts : List split_cube_t) (st : interior_state R) :
    gen_interior_split_loop env ops b k p part_ix whs 0 (c :: ts) st = none := by
  rw [gen_interior_split_loop]

end split_loop_equations

/-- More fuel does not change a result of the work-stack loop. -/
theorem gen_interior_split_loop_mono {R G : Type} (env : Env) (ops : RandOps R G)
    (b : building_t) (k : interior_dims) (p : cube_t) (part_ix : Nat) (whs : Bool → ℚ)
    (r : interior_state R) :
    ∀ (fuel : Nat) (ts : List split_cube_t) (st : interior_state R),
      gen_interior_split_loop env ops b k p part_ix whs fuel ts st = some r →
      ∀ fuel2, fuel ≤ fuel2 →
        gen_interior_split_loop env ops b k p part_ix whs fuel2 ts st = some r := by
  intro fuel
  induction fuel with
  | zero =>
    intro ts st h fuel2 _
    cases ts with
    | nil => rw [gen_interior_split_loop_nil] at h ⊢; exact h
    | cons c t => rw [gen_interior_split_loop_zero_cons] at h; exact absurd h (by simp)
  | succ n ih =>
    intro ts st h fuel2 hle
    cases ts with
    | nil => rw [gen_interior_split_loop_nil] at h ⊢; exact h
    | cons c t =>
      obtain ⟨m, rfl⟩ : ∃ m, fuel2 = m + 1 := ⟨fuel2 - 1, by omega⟩
      cases hs : gen_interior_split_step env ops b k p part_ix whs c t st with
      | none => rw [gen_interior_split_loop_succ_none _ _ _ _ _ _ _ _ _ _ _ hs] at h
                exact absurd h (by simp)
      | some x =>
        obtain ⟨t1, s1⟩ := x
        rw [gen_interior_split_loop_succ _ _ _ _ _ _ _ _ _ _ _ _ _ hs] at h ⊢
        exact ih t1 s1 h m (by omega)

theorem bool_toNat_lt_three (d : Bool) : d.toNat < 3 := by cases d <;> decide

theorem cube_rand_side_pos_some {R G : Type} (ops : RandOps R G) (c : cube_t) (d : Bool)
    (a : ℚ) (rgen : R) :
    cube_rand_side_pos ops c d.toNat (1 / 4) a rgen =
      some (ops.rand_uniform
        (c.d d.toNat false + max a (1 / 4 * (c.d d.toNat true - c.d d.toNat false)))
        (c.d d.toNat true - max a (1 / 4 * (c.d d.toNat true - c.d d.toNat false))) rgen) := by
  unfold cube_rand_side_pos
  rw [if_pos ⟨bool_toNat_lt_three d, by norm_num⟩]

/-- A draw of `cube_rand_side_pos` with the parameter `1/4` on a side of length at least twice
the absolute clearance stays clear of both ends by the larger of the two clearances. -/
theorem cube_rand_side_pos_range {R G : Type} (ops : RandOps R G) (hops : ops.in_range)
    (c : cube_t) (d : Bool) (a : ℚ) (rgen : R) (v : ℚ) (r : R) (ha : 0 ≤ a)
    (hlen : 2 * a ≤ c.d d.toNat true - c.d d.toNat false)
    (h : cube_rand_side_pos ops c d.toNat (1 / 4) a rgen = some (v, r)) :
    c.d d.toNat false + max a (1 / 4 * (c.d d.toNat true - c.d d.toNat false)) ≤ v ∧
      v ≤ c.d d.toNat true - max a (1 / 4 * (c.d d.toNat true - c.d d.toNat false)) := by
  rw [cube_rand_side_pos_some] at h
  have hv : v = (ops.rand_uniform
        (c.d d.toNat false + max a (1 / 4 * (c.d d.toNat true - c.d d.toNat false)))
        (c.d d.toNat true - max a (1 / 4 * (c.d d.toNat true - c.d d.toNat false))) rgen).1 := by
    rw [Option.some.injEq] at h; rw [h]
  rw [hv]
  apply hops.1
  have hm : max a (1 / 4 * (c.d d.toNat true - c.d d.toNat false)) ≤
      1 / 2 * (c.d d.toNat true - c.d d.toNat false) := by
    apply max_le <;> linarith
  linarith

/-- The 20-try loop never stops on an `assert`; an accepted coordinate is clear of both ends of
the region, outside the forbidden doorway intervals and, for an edge region, outside the window
bays. -/
theorem gen_interior_choose_wall_pos_spec {R G : Type} (env : Env) (ops : RandOps R G)
    (hops : ops.in_range) (k : interior_dims) (p : cube_t) (c : split_cube_t)
    (wall_dim on_edge : Bool) (whs : ℚ) (ha : 0 ≤ k.doorway_width + k.wall_thick)
    (hlen : 2 * (k.doorway_width + k.wall_thick)
      ≤ c.cube.d wall_dim.toNat true - c.cube.d wall_dim.toNat false) :
    ∀ (n : Nat) (wp0 : ℚ) (rgen : R), ∃ wall_pos ok rgen2,
      gen_interior_choose_wall_pos env ops k p c wall_dim on_edge whs n wp0 rgen
        = some (wall_pos, ok, rgen2) ∧
      (ok = true →
        c.cube.d wall_dim.toNat false + max (k.doorway_width + k.wall_thick)
            (1 / 4 * (c.cube.d wall_dim.toNat true - c.cube.d wall_dim.toNat false)) ≤ wall_pos ∧
        wall_pos ≤ c.cube.d wall_dim.toNat true - max (k.doorway_width + k.wall_thick)
            (1 / 4 * (c.cube.d wall_dim.toNat true - c.cube.d wall_dim.toNat false)) ∧
        c.bad_pos wall_pos wall_dim = false ∧
        ¬ (on_edge = true ∧
          is_val_inside_window env p wall_dim wall_pos whs k.window_border = true)) := by
  intro n
  induction n with
  | zero =>
    intro wp0 rgen
    exact ⟨wp0, false, rgen, rfl, by simp⟩
  | succ n ih =>
    intro wp0 rgen
    rw [gen_interior_choose_wall_pos]
    cases hd : cube_rand_side_pos ops c.cube wall_dim.toNat (1 / 4)
        (k.doorway_width + k.wall_thick) rgen with
    | none => rw [cube_rand_side_pos_some] at hd; exact absurd hd (by simp)
    | some vr =>
      obtain ⟨v, r⟩ := vr
      have hr := cube_rand_side_pos_range ops hops c.cube wall_dim _ rgen v r ha hlen hd
      simp only []
      by_cases h1 : on_edge = true ∧
          is_val_inside_window env p wall_dim v whs k.window_border = true
      · rw [if_pos h1]; exact ih v r
      · rw [if_neg h1]
        by_cases h2 : c.bad_pos v wall_dim = true
        · rw [if_pos h2]; exact ih v r
        · rw [if_neg h2]
          exact ⟨v, true, r, rfl, fun _ => ⟨hr.1, hr.2, by simpa using h2, h1⟩⟩

theorem cube_t.d_set_same (c : cube_t) (d e : Bool) (v : ℚ) :
    (c.set d.toNat e v).d d.toNat e = v := by
  cases d <;> cases e <;> rfl

theorem cube_t.d_set_other_dir (c : cube_t) (d e : Bool) (v : ℚ) :
    (c.set d.toNat e v).d d.toNat (!e) = c.d d.toNat (!e) := by
  cases d <;> cases e <;> rfl

theorem cube_t.d_set_other_dim (c : cube_t) (d e f : Bool) (v : ℚ) :
    (c.set (!d).toNat e v).d d.toNat f = c.d d.toNat f := by
  cases d <;> cases e <;> cases f <;> rfl

theorem cube_t.d_set_other_dim2 (c : cube_t) (d e f : Bool) (v : ℚ) :
    (c.set d.toNat e v).d (!d).toNat f = c.d (!d).toNat f := by
  cases d <;> cases e <;> cases f <;> rfl

theorem cube_t.d_set_true_false (c : cube_t) (d : Bool) (v : ℚ) :
    (c.set d.toNat true v).d d.toNat false = c.d d.toNat false := by
  cases d <;> rfl

theorem cube_t.d_set_false_true (c : cube_t) (d : Bool) (v : ℚ) :
    (c.set d.toNat false v).d d.toNat true = c.d d.toNat true := by
  cases d <;> rfl

theorem cube_t.get_size_get (c : cube_t) (d : Bool) :
    c.get_size.get d.toNat = c.d d.toNat true - c.d d.toNat false := by
  cases d <;> rfl

/-- The doorway cut of the T-junction scan never stops on the `assert` when `wall3` reaches
from below `wall_pos + doorway_width/4` to above `wall_pos - doorway_width/4`; the box of the
region is not changed. -/
theorem gen_interior_tjunction_door_spec (k : interior_dims) (hdw : 0 < k.doorway_width)
    (hhw : k.doorway_hwidth = 1 / 2 * k.doorway_width) (wall_dim dir s : Bool) (wall_pos : ℚ)
    (a : tjunction_state)
    (hlo : a.wall3.d wall_dim.toNat false < wall_pos + 1 / 4 * k.doorway_width)
    (hhi : wall_pos - 1 / 4 * k.doorway_width < a.wall3.d wall_dim.toNat true) :
    ∃ a1, gen_interior_tjunction_door k wall_dim wall_pos dir s a = some a1 ∧
      a1.c.cube = a.c.cube ∧
      (s = false → a1.wall3.d wall_dim.toNat false < wall_pos + 1 / 4 * k.doorway_width ∧
        wall_pos - 1 / 4 * k.doorway_width < a1.wall3.d wall_dim.toNat true) := by
  unfold gen_interior_tjunction_door
  simp only []
  by_cases hc : |a.wall3.d wall_dim.toNat (!s) - wall_pos| > 3 / 2 * k.doorway_width
  · rw [if_pos hc]
    unfold remove_section_from_cube
    have hcond : 1 / 2 * (wall_pos + a.wall3.d wall_dim.toNat (!s)) - k.doorway_hwidth
          > a.wall3.d wall_dim.toNat false ∧
        1 / 2 * (wall_pos + a.wall3.d wall_dim.toNat (!s)) - k.doorway_hwidth
          < 1 / 2 * (wall_pos + a.wall3.d wall_dim.toNat (!s)) + k.doorway_hwidth ∧
        1 / 2 * (wall_pos + a.wall3.d wall_dim.toNat (!s)) + k.doorway_hwidth
          < a.wall3.d wall_dim.toNat true := by
      rw [hhw]
      cases s
      · simp only [Bool.not_false] at hc ⊢
        rcases lt_abs.1 hc with h | h
        · refine ⟨?_, ?_, ?_⟩ <;> linarith
        · exfalso; linarith
      · simp only [Bool.not_true] at hc ⊢
        rcases lt_abs.1 hc with h | h
        · exfalso; linarith
        · refine ⟨?_, ?_, ?_⟩ <;> linarith
    rw [if_pos hcond]
    refine ⟨_, rfl, rfl, ?_⟩
    intro hs
    subst hs
    simp only [Bool.not_false] at hc ⊢
    have h1 := cube_t.d_set_other_dir a.wall3 wall_dim true
      (1 / 2 * (wall_pos + a.wall3.d wall_dim.toNat true) - k.doorway_hwidth)
    have h2 := cube_t.d_set_same a.wall3 wall_dim true
      (1 / 2 * (wall_pos + a.wall3.d wall_dim.toNat true) - k.doorway_hwidth)
    simp only [Bool.not_true] at h1
    rw [h1, h2, hhw]
    rcases lt_abs.1 hc with h | h
    · constructor <;> linarith
    · exfalso; linarith
  · rw [if_neg hc]
    exact ⟨a, rfl, rfl, fun _ => ⟨hlo, hhi⟩⟩

/-- The two doorway cuts and the bookkeeping at the end of one iteration of the T-junction scan
never stop on an `assert`; the box of the region is not changed. -/
theorem gen_interior_tjunction_doors_spec (k : interior_dims) (hdw : 0 < k.doorway_width)
    (hhw : k.doorway_hwidth = 1 / 2 * k.doorway_width) (part_mask part_mask2 : Nat)
    (wall_dim : Bool) (wall_pos : ℚ) (dir : Bool) (a : tjunction_state)
    (hlo : a.wall3.d wall_dim.toNat false < wall_pos + 1 / 4 * k.doorway_width)
    (hhi : wall_pos - 1 / 4 * k.doorway_width < a.wall3.d wall_dim.toNat true) :
    ∃ st1,
      (match gen_interior_tjunction_door k wall_dim wall_pos dir false a with
        | none => none
        | some a0 =>
          match gen_interior_tjunction_door k wall_dim wall_pos dir true a0 with
          | none => none
          | some a =>
            some { a with
              interior := a.interior.push_wall (!wall_dim) a.wall3
              wall_seps_placed :=
                (a.wall_seps_placed.set (2 * wall_dim.toNat + dir.toNat)
                  ((a.wall_seps_placed.getD (2 * wall_dim.toNat + dir.toNat) 0)
                    ||| part_mask)).set (2 * wall_dim.toNat + (!dir).toNat)
                  (((a.wall_seps_placed.set (2 * wall_dim.toNat + dir.toNat)
                    ((a.wall_seps_placed.getD (2 * wall_dim.toNat + dir.toNat) 0)
                      ||| part_mask)).getD (2 * wall_dim.toNat + (!dir).toNat) 0)
                    ||| part_mask2) }) = some st1 ∧
      st1.c.cube = a.c.cube := by
  obtain ⟨a0, ha0, hc0, hI0⟩ := gen_interior_tjunction_door_spec k hdw hhw wall_dim dir false
    wall_pos a hlo hhi
  obtain ⟨a1, ha1, hc1, -⟩ := gen_interior_tjunction_door_spec k hdw hhw wall_dim dir true
    wall_pos a0 (hI0 rfl).1 (hI0 rfl).2
  rw [ha0]
  simp only []
  rw [ha1]
  exact ⟨_, rfl, hc1.trans hc0⟩

/-- One iteration of the T-junction scan never stops on an `assert` when `wall_pos` is strictly
inside the region along the split axis; the box of the region is not changed. -/
theorem gen_interior_tjunction_step_spec (k : interior_dims) (hdw : 0 < k.doorway_width)
    (hhw : k.doorway_hwidth = 1 / 2 * k.doorway_width)
    (hes : k.wall_edge_spacing ≤ 1 / 4 * k.doorway_width)
    (part_ix ix2 : Nat) (p2 : cube_t) (wall_dim : Bool) (wall_pos : ℚ) (dir : Bool)
    (st : tjunction_state)
    (hlo : st.c.cube.d wall_dim.toNat false < wall_pos)
    (hhi : wall_pos < st.c.cube.d wall_dim.toNat true) :
    ∃ st1, gen_interior_tjunction_step k part_ix ix2 p2 wall_dim wall_pos dir st = some st1 ∧
      st1.c.cube = st.c.cube := by
  unfold gen_interior_tjunction_step
  simp only []
  by_cases h1 : ix2 = part_ix
  · rw [if_pos h1]; exact ⟨st, rfl, rfl⟩
  rw [if_neg h1]
  by_cases h2 : p2.d (!wall_dim).toNat (!dir) ≠ st.c.cube.d (!wall_dim).toNat dir
  · rw [if_pos h2]; exact ⟨st, rfl, rfl⟩
  rw [if_neg h2]
  by_cases h3 : p2.z1 ≥ st.c.cube.z2 ∨ p2.z2 ≤ st.c.cube.z1
  · rw [if_pos h3]; exact ⟨st, rfl, rfl⟩
  rw [if_neg h3]
  by_cases h4 : p2.d wall_dim.toNat false ≥ wall_pos ∨ p2.d wall_dim.toNat true ≤ wall_pos
  · rw [if_pos h4]; exact ⟨st, rfl, rfl⟩
  rw [if_neg h4]
  by_cases h5 : (st.wall_seps_placed.getD (2 * wall_dim.toNat + (!dir).toNat) 0) &&&
      ((1 <<< ix2) % 4294967296) ≠ 0
  · rw [if_pos h5]; exact ⟨st, rfl, rfl⟩
  rw [if_neg h5]
  push_neg at h4
  refine gen_interior_tjunction_doors_spec k hdw hhw _ _ wall_dim wall_pos dir _ ?_ ?_
  · simp only [cube_t.d_set_other_dim, cube_t.d_set_true_false, cube_t.d_set_same]
    have := max_lt hlo h4.1
    linarith
  · simp only [cube_t.d_set_other_dim, cube_t.d_set_same]
    have := lt_min hhi h4.2
    linarith

/-- The T-junction scan never stops on an `assert` when `wall_pos` is strictly inside the
region along the split axis, and it does not change the box of the region. -/
theorem gen_interior_tjunctions_spec (k : interior_dims) (hdw : 0 < k.doorway_width)
    (hhw : k.doorway_hwidth = 1 / 2 * k.doorway_width)
    (hes : k.wall_edge_spacing ≤ 1 / 4 * k.doorway_width)
    (part_ix : Nat) (wall_dim : Bool) (wall_pos : ℚ) (parts : List cube_t) :
    ∀ (ix2 : Nat) (st : tjunction_state),
      st.c.cube.d wall_dim.toNat false < wall_pos → wall_pos < st.c.cube.d wall_dim.toNat true →
      ∃ st1, gen_interior_tjunctions k part_ix wall_dim wall_pos parts ix2 st = some st1 ∧
        st1.c.cube = st.c.cube := by
  induction parts with
  | nil => intro ix2 st _ _; exact ⟨st, rfl, rfl⟩
  | cons p2 rest ih =>
    intro ix2 st hlo hhi
    obtain ⟨s1, hs1, hc1⟩ := gen_interior_tjunction_step_spec k hdw hhw hes part_ix ix2 p2
      wall_dim wall_pos false st hlo hhi
    obtain ⟨s2, hs2, hc2⟩ := gen_interior_tjunction_step_spec k hdw hhw hes part_ix ix2 p2
      wall_dim wall_pos true s1 (by rw [hc1]; exact hlo) (by rw [hc1]; exact hhi)
    obtain ⟨s3, hs3, hc3⟩ := ih (ix2 + 1) s2 (by rw [hc2, hc1]; exact hlo)
      (by rw [hc2, hc1]; exact hhi)
    rw [gen_interior_tjunctions, hs1]
    simp only []
    rw [hs2]
    simp only []
    rw [hs3]
    exact ⟨s3, rfl, by rw [hc3, hc2, hc1]⟩

theorem interior_dims_of_consistent (env : Env) (b : building_t)
    (hS : 0 < b.mat.floor_spacing) : (interior_dims.of env b).consistent := by
  unfold interior_dims.consistent interior_dims.of
  simp only []
  exact ⟨by linarith, trivial, by linarith, by linarith, by linarith, by linarith, by linarith,
    by linarith⟩

theorem create_wall_d_other_false (w : cube_t) (dim : Bool) (wp fc ht es : ℚ) :
    (create_wall w dim wp fc ht es).d (!dim).toNat false = w.d (!dim).toNat false + es := by
  cases dim <;> rfl

theorem create_wall_d_other_true (w : cube_t) (dim : Bool) (wp fc ht es : ℚ) :
    (create_wall w dim wp fc ht es).d (!dim).toNat true = w.d (!dim).toNat true - es := by
  cases dim <;> rfl

theorem create_wall_d_false (w : cube_t) (dim : Bool) (wp fc ht es : ℚ) :
    (create_wall w dim wp fc ht es).d dim.toNat false = wp - ht := by
  cases dim <;> rfl

theorem create_wall_d_true (w : cube_t) (dim : Bool) (wp fc ht es : ℚ) :
    (create_wall w dim wp fc ht es).d dim.toNat true = wp + ht := by
  cases dim <;> rfl

/-- One iteration of the work-stack loop never stops on an `assert`. It either pushes nothing,
or the region has both sides of at least `min_wall_len` and two sub-regions are pushed, each
shorter than the region by at least `doorway_width + wall_thick` along the split axis and as
long as the region along the other axis. -/
theorem gen_interior_split_step_spec {R G : Type} (env : Env) (ops : RandOps R G)
    (hops : ops.in_range) (b : building_t) (k : interior_dims) (hk : k.consistent) (p : cube_t)
    (part_ix : Nat) (whs : Bool → ℚ) (c : split_cube_t) (ts : List split_cube_t)
    (st : interior_state R) :
    ∃ ts1 st1, gen_interior_split_step env ops b k p part_ix whs c ts st = some (ts1, st1) ∧
      (ts1 = ts ∨
        (k.min_wall_len ≤ min c.cube.get_size.x c.cube.get_size.y ∧
          ∃ (wall_dim : Bool) (s1 s2 : split_cube_t), ts1 = s1 :: s2 :: ts ∧
            ∀ s, s = s1 ∨ s = s2 →
              s.cube.get_size.get wall_dim.toNat + (k.doorway_width + k.wall_thick)
                ≤ c.cube.get_size.get wall_dim.toNat ∧
              s.cube.get_size.get (!wall_dim).toNat
                = c.cube.get_size.get (!wall_dim).toNat)) := by
  obtain ⟨hdw, hhw, hes0, hes, hwt, hht, hmwl, hmwl2⟩ := hk
  unfold gen_interior_split_step
  simp only []
  generalize (gen_interior_wall_dim ops k c st.rgen).1 = wall_dim
  generalize (gen_interior_wall_dim ops k c st.rgen).2 = rgen1
  by_cases hmin : min c.cube.get_size.x c.cube.get_size.y < k.min_wall_len
  · rw [if_pos hmin]; exact ⟨_, _, rfl, Or.inl rfl⟩
  rw [if_neg hmin]
  push_neg at hmin
  have hsz : ∀ d : Bool, k.min_wall_len ≤ c.cube.d d.toNat true - c.cube.d d.toNat false := by
    intro d
    have h := le_min_iff.1 hmin
    cases d
    · exact h.1
    · exact h.2
  obtain ⟨wp, ok, rgen2, hch, hok⟩ := gen_interior_choose_wall_pos_spec env ops hops k p c
    wall_dim (decide (c.cube.d wall_dim.toNat false = p.d wall_dim.toNat false ∨
      c.cube.d wall_dim.toNat true = p.d wall_dim.toNat true)) (whs wall_dim)
    (by linarith) (le_trans hmwl (hsz wall_dim)) 20 0 rgen1
  rw [hch]
  cases ok
  · exact ⟨_, _, rfl, Or.inl rfl⟩
  obtain ⟨h1, h2, -, -⟩ := hok rfl
  simp only []
  have hgap : k.doorway_width + k.wall_thick ≤ max (k.doorway_width + k.wall_thick)
      (1 / 4 * (c.cube.d wall_dim.toNat true - c.cube.d wall_dim.toNat false)) := le_max_left _ _
  obtain ⟨tj, htj, hcube⟩ := gen_interior_tjunctions_spec k hdw hhw hes part_ix wall_dim wp
    b.parts 0 ⟨c, cube_t.zero, cube_t.zero, st.interior, st.wall_seps_placed⟩
    (by show c.cube.d wall_dim.toNat false < wp; linarith)
    (by show wp < c.cube.d wall_dim.toNat true; linarith)
  rw [htj]
  simp only []
  have hcube1 : tj.c.cube = c.cube := hcube
  rw [cube_rand_side_pos_some, hcube1]
  simp only []
  have hdoor := cube_rand_side_pos_range ops hops c.cube (!wall_dim) k.doorway_width rgen2 _ _
    hdw.le (by linarith [hsz (!wall_dim)])
    (cube_rand_side_pos_some ops c.cube (!wall_dim) k.doorway_width rgen2)
  have hdgap : k.doorway_width ≤ max k.doorway_width
      (1 / 4 * (c.cube.d (!wall_dim).toNat true - c.cube.d (!wall_dim).toNat false)) :=
    le_max_left _ _
  generalize ops.rand_uniform _ _ rgen2 = dr at hdoor ⊢
  unfold remove_section_from_cube
  rw [if_pos (by
    rw [create_wall_d_other_false, create_wall_d_other_true, hhw]
    exact ⟨by linarith, by linarith, by linarith⟩)]
  simp only [Bool.not_true, Bool.not_false]
  by_cases hsplit : c.cube.get_size.get wall_dim.toNat
      > max env.wall_split_thresh 1 * k.min_wall_len
  · rw [if_pos hsplit]
    refine ⟨_, _, rfl, Or.inr ⟨hmin, wall_dim, _, _, rfl, ?_⟩⟩
    rintro s (rfl | rfl)
    · simp only [cube_t.get_size_get, cube_t.d_set_same, cube_t.d_set_true_false,
        cube_t.d_set_other_dim2, cube_t.d_set_other_dim, create_wall_d_false, create_wall_d_true]
      constructor
      · linarith
      · trivial
    · simp only [cube_t.get_size_get, cube_t.d_set_same, cube_t.d_set_false_true,
        cube_t.d_set_other_dim2, cube_t.d_set_other_dim, create_wall_d_false, create_wall_d_true]
      constructor
      · linarith
      · trivial
  · rw [if_neg hsplit]
    exact ⟨_, _, rfl, Or.inl rfl⟩

theorem split_stack_weight_cons (delta : ℚ) (c : split_cube_t) (ts : List split_cube_t) :
    split_stack_weight delta (c :: ts) = 3 ^ c.rank delta + split_stack_weight delta ts := by
  simp [split_stack_weight]

/-- A sub-region that is shorter by `delta` along one axis and as long along the other has a
smaller rank. -/
theorem split_cube_t.rank_sub (delta : ℚ) (hd : 0 < delta) (c s : split_cube_t)
    (wall_dim : Bool)
    (h1 : s.cube.get_size.get wall_dim.toNat + delta ≤ c.cube.get_size.get wall_dim.toNat)
    (h2 : s.cube.get_size.get (!wall_dim).toNat = c.cube.get_size.get (!wall_dim).toNat)
    (hc : delta ≤ c.cube.get_size.x + c.cube.get_size.y) :
    s.rank delta + 1 ≤ c.rank delta := by
  have hsum : s.cube.get_size.x + s.cube.get_size.y + delta
      ≤ c.cube.get_size.x + c.cube.get_size.y := by
    cases wall_dim
    · simp only [Bool.toNat_false, Bool.not_false, Bool.toNat_true, point.get] at h1 h2
      linarith
    · simp only [Bool.toNat_false, Bool.not_true, Bool.toNat_true, point.get] at h1 h2
      linarith
  unfold split_cube_t.rank
  have hle : (s.cube.get_size.x + s.cube.get_size.y) / delta
      ≤ (c.cube.get_size.x + c.cube.get_size.y) / delta - 1 := by
    rw [div_le_iff₀ hd, sub_mul, div_mul_cancel₀ _ hd.ne']
    linarith
  have hf1 : ⌊(s.cube.get_size.x + s.cube.get_size.y) / delta⌋
      ≤ ⌊(c.cube.get_size.x + c.cube.get_size.y) / delta⌋ - 1 := by
    rw [← Int.floor_sub_one]
    exact Int.floor_mono hle
  have hf2 : (1 : ℤ) ≤ ⌊(c.cube.get_size.x + c.cube.get_size.y) / delta⌋ := by
    rw [Int.le_floor, le_div_iff₀ hd]
    push_cast
    linarith
  omega

/-- Every iteration of the work-stack loop makes the weight of the stack smaller. -/
theorem gen_interior_split_step_weight {R G : Type} (env : Env) (ops : RandOps R G)
    (hops : ops.in_range) (b : building_t) (k : interior_dims) (hk : k.consistent) (p : cube_t)
    (part_ix : Nat) (whs : Bool → ℚ) (c : split_cube_t) (ts : List split_cube_t)
    (st : interior_state R) :
    ∃ ts1 st1, gen_interior_split_step env ops b k p part_ix whs c ts st = some (ts1, st1) ∧
      split_stack_weight (k.doorway_width + k.wall_thick) ts1
        < split_stack_weight (k.doorway_width + k.wall_thick) (c :: ts) := by
  obtain ⟨ts1, st1, hs, hcase⟩ :=
    gen_interior_split_step_spec env ops hops b k hk p part_ix whs c ts st
  obtain ⟨hdw, -, -, -, hwt, -, hmwl, -⟩ := hk
  refine ⟨ts1, st1, hs, ?_⟩
  have hpos : 0 < 3 ^ c.rank (k.doorway_width + k.wall_thick) := Nat.pow_pos (by norm_num)
  rcases hcase with rfl | ⟨hmin, wall_dim, s1, s2, rfl, hsub⟩
  · rw [split_stack_weight_cons]; omega
  · have hm := le_min_iff.1 hmin
    have hd : 0 < k.doorway_width + k.wall_thick := by linarith
    have hc : k.doorway_width + k.wall_thick ≤ c.cube.get_size.x + c.cube.get_size.y := by
      linarith [hm.1, hm.2]
    have r1 := split_cube_t.rank_sub _ hd c s1 wall_dim (hsub s1 (Or.inl rfl)).1
      (hsub s1 (Or.inl rfl)).2 hc
    have r2 := split_cube_t.rank_sub _ hd c s2 wall_dim (hsub s2 (Or.inr rfl)).1
      (hsub s2 (Or.inr rfl)).2 hc
    have p1 : 3 ^ (s1.rank (k.doorway_width + k.wall_thick) + 1)
        ≤ 3 ^ c.rank (k.doorway_width + k.wall_thick) := Nat.pow_le_pow_right (by norm_num) r1
    have p2 : 3 ^ (s2.rank (k.doorway_width + k.wall_thick) + 1)
        ≤ 3 ^ c.rank (k.doorway_width + k.wall_thick) := Nat.pow_le_pow_right (by norm_num) r2
    rw [pow_succ] at p1 p2
    rw [split_stack_weight_cons, split_stack_weight_cons, split_stack_weight_cons]
    omega

/-- The work-stack loop returns a state as soon as the fuel reaches the weight of the stack. -/
theorem gen_interior_split_loop_total {R G : Type} (env : Env) (ops : RandOps R G)
    (hops : ops.in_range) (b : building_t) (k : interior_dims) (hk : k.consistent) (p : cube_t)
    (part_ix : Nat) (whs : Bool → ℚ) :
    ∀ (fuel : Nat) (ts : List split_cube_t) (st : interior_state R),
      split_stack_weight (k.doorway_width + k.wall_thick) ts ≤ fuel →
      ∃ st1, gen_interior_split_loop env ops b k p part_ix whs fuel ts st = some st1 := by
  intro fuel
  induction fuel with
  | zero =>
    intro ts st h
    cases ts with
    | nil => exact ⟨st, gen_interior_split_loop_nil _ _ _ _ _ _ _ _ _⟩
    | cons c t =>
      rw [split_stack_weight_cons] at h
      have hpos : 0 < 3 ^ c.rank (k.doorway_width + k.wall_thick) := Nat.pow_pos (by norm_num)
      omega
  | succ n ih =>
    intro ts st h
    cases ts with
    | nil => exact ⟨st, gen_interior_split_loop_nil _ _ _ _ _ _ _ _ _⟩
    | cons c t =>
      obtain ⟨ts1, st1, hs, hw⟩ :=
        gen_interior_split_step_weight env ops hops b k hk p part_ix whs c t st
      rw [gen_interior_split_loop_succ _ _ _ _ _ _ _ _ _ _ _ _ _ hs]
      exact ih ts1 st1 (by omega)

/-- With enough fuel the work-stack loop returns one state, the same for all larger fuels. -/
theorem gen_interior_split_loop_result {R G : Type} (env : Env) (ops : RandOps R G)
    (hops : ops.in_range) (b : building_t) (k : interior_dims) (hk : k.consistent) (p : cube_t)
    (part_ix : Nat) (whs : Bool → ℚ) (ts : List split_cube_t) (st : interior_state R) :
    ∃ (N : Nat) (st1 : interior_state R), ∀ fuel, N ≤ fuel →
      gen_interior_split_loop env ops b k p part_ix whs fuel ts st = some st1 := by
  obtain ⟨st1, h⟩ := gen_interior_split_loop_total env ops hops b k hk p part_ix whs
    (split_stack_weight (k.doorway_width + k.wall_thick) ts) ts st le_rfl
  exact ⟨_, st1, fun fuel hf =>
    gen_interior_split_loop_mono env ops b k p part_ix whs st1 _ ts st h fuel hf⟩

/-! ### C30: the work-stack loop terminates -/

theorem interior_dims_of_min_wall_len (env : Env) (b : building_t) :
    (interior_dims.of env b).min_wall_len = 2 * b.mat.floor_spacing := by
  unfold interior_dims.of
  simp only []
  ring

theorem demo_part_building_spacing : demo_part_building.mat.floor_spacing = 3 := rfl

/-- C30: for a part with positive horizontal extents, a positive floor spacing and uniform draws
that stay in their ranges, the work-stack loop of the recursive partition terminates. Every
iteration returns without a failed `assert`; it either pushes nothing, or it pushes two
sub-regions of a region whose sides are both at least `min_wall_len`, each shorter than the
region by at least `doorway_width + wall_thick` along the split axis and as long as the region
along the other axis. `gen_interior_partition` returns one state for every large enough fuel. -/
theorem gen_interior_partition_terminates {R G : Type} (env : Env) (ops : RandOps R G)
    (b : building_t) (p : cube_t) (part_ix : Nat) (st : interior_state R)
    (hS : 0 < b.mat.floor_spacing) (hops : ops.in_range) (hx : p.x1 < p.x2)
    (hy : p.y1 < p.y2) :
    (∀ (whs : Bool → ℚ) (c : split_cube_t) (ts : List split_cube_t) (st0 : interior_state R),
      ∃ ts1 st1,
        gen_interior_split_step env ops b (interior_dims.of env b) p part_ix whs c ts st0
          = some (ts1, st1) ∧
        (ts1 = ts ∨
          ((interior_dims.of env b).min_wall_len
              ≤ min c.cube.get_size.x c.cube.get_size.y ∧
            ∃ (wall_dim : Bool) (s1 s2 : split_cube_t), ts1 = s1 :: s2 :: ts ∧
              ∀ s, s = s1 ∨ s = s2 →
                s.cube.get_size.get wall_dim.toNat
                    + ((interior_dims.of env b).doorway_width
                      + (interior_dims.of env b).wall_thick)
                  ≤ c.cube.get_size.get wall_dim.toNat ∧
                s.cube.get_size.get (!wall_dim).toNat
                  = c.cube.get_size.get (!wall_dim).toNat))) ∧
    ∃ (N : Nat) (st1 : interior_state R), ∀ fuel, N ≤ fuel →
      gen_interior_partition env ops b (interior_dims.of env b) p part_ix fuel st
        = some st1 := by
  have hk := interior_dims_of_consistent env b hS
  refine ⟨fun whs c ts st0 =>
    gen_interior_split_step_spec env ops hops b _ hk p part_ix whs c ts st0, ?_⟩
  unfold gen_interior_partition get_num_windows_on_side
  rw [if_pos hx, if_pos hy]
  exact gen_interior_split_loop_result env ops hops b _ hk p part_ix _ _ st

/-- C30 at the part `[0,10] x [0,10] x [0,5]` of floor spacing 3. -/
theorem gen_interior_partition_terminates_witness :
    0 < demo_part_building.mat.floor_spacing ∧ (script_ops [1, 50, 50]).in_range ∧
    ((⟨0, 10, 0, 10, 0, 5⟩ : cube_t).x1 < (⟨0, 10, 0, 10, 0, 5⟩ : cube_t).x2) ∧
    ∃ (N : Nat) (st1 : interior_state (List Nat)), ∀ fuel, N ≤ fuel →
      gen_interior_partition (demo_env 0 1 true) (script_ops [1, 50, 50]) demo_part_building
        (interior_dims.of (demo_env 0 1 true) demo_part_building) ⟨0, 10, 0, 10, 0, 5⟩ 0 fuel
        (demo_interior_state [1, 50, 50]) = some st1 :=
  ⟨by rw [demo_part_building_spacing]; norm_num, script_ops_in_range _, by norm_num,
    (gen_interior_partition_terminates (demo_env 0 1 true) (script_ops [1, 50, 50])
      demo_part_building ⟨0, 10, 0, 10, 0, 5⟩ 0 (demo_interior_state [1, 50, 50])
      (by rw [demo_part_building_spacing]; norm_num) (script_ops_in_range _)
      (by norm_num) (by norm_num)).2⟩

/-! ### C29: the 20-try loop choosing the split coordinate -/

theorem split_cube_t.bad_pos_false (c : split_cube_t) (val : ℚ) (dim : Bool)
    (h : c.bad_pos val dim = false) (d : Bool) :
    ¬ (c.door_lo.getD (2 * dim.toNat + d.toNat) 0 < val ∧
      val < c.door_hi.getD (2 * dim.toNat + d.toNat) 0) := by
  unfold split_cube_t.bad_pos at h
  simp only [List.any_cons, List.any_nil, Bool.or_false, Bool.or_eq_false_iff,
    decide_eq_false_iff_not] at h
  rintro ⟨h1, h2⟩
  cases d
  · exact h.1 ⟨lt_trans h1 h2, h1, h2⟩
  · exact h.2 ⟨lt_trans h1 h2, h1, h2⟩

/-- The loop body on a region for which the 20-try loop found no coordinate: the region is
appended to `rooms`, nothing else of the interior changes and nothing is pushed. -/
theorem gen_interior_split_step_rejected {R G : Type} (env : Env) (ops : RandOps R G)
    (b : building_t) (k : interior_dims) (p : cube_t) (part_ix : Nat) (whs : Bool → ℚ)
    (c : split_cube_t) (ts : List split_cube_t) (st : interior_state R) (wall_pos : ℚ) (rgen2 : R)
    (hmin : ¬ min c.cube.get_size.x c.cube.get_size.y < k.min_wall_len)
    (h : gen_interior_choose_wall_pos env ops k p c (gen_interior_wall_dim ops k c st.rgen).1
        (decide (c.cube.d (gen_interior_wall_dim ops k c st.rgen).1.toNat false
            = p.d (gen_interior_wall_dim ops k c st.rgen).1.toNat false ∨
          c.cube.d (gen_interior_wall_dim ops k c st.rgen).1.toNat true
            = p.d (gen_interior_wall_dim ops k c st.rgen).1.toNat true))
        (whs (gen_interior_wall_dim ops k c st.rgen).1) 20 0
        (gen_interior_wall_dim ops k c st.rgen).2 = some (wall_pos, false, rgen2)) :
    gen_interior_split_step env ops b k p part_ix whs c ts st =
      some (ts, { st with
        rgen := rgen2
        interior := { st.interior with rooms := st.interior.rooms ++ [c.cube] } }) := by
  unfold gen_interior_split_step
  simp only []
  rw [if_neg hmin, h]

/-- C29: for a region whose sides are both at least `min_wall_len` (positive floor spacing,
uniform draws within their ranges), the 20-try loop never stops on an `assert`; a coordinate it
accepts is at distance at least `max(doorway_width + wall_thick, span/4)` from both edges of the
region along the split axis and is not strictly inside a forbidden doorway interval of the
region for that axis; and when all 20 tries are rejected the loop body appends the region to
`rooms`, changes nothing else of the interior and pushes nothing. -/
theorem gen_interior_wall_pos_spec {R G : Type} (env : Env) (ops : RandOps R G)
    (b : building_t) (p : cube_t) (part_ix : Nat) (whs : Bool → ℚ) (c : split_cube_t)
    (ts : List split_cube_t) (st : interior_state R)
    (hS : 0 < b.mat.floor_spacing) (hops : ops.in_range)
    (hx : (interior_dims.of env b).min_wall_len ≤ c.cube.get_size.x)
    (hy : (interior_dims.of env b).min_wall_len ≤ c.cube.get_size.y) :
    (∀ (wall_dim on_edge : Bool) (whs0 : ℚ) (n : Nat) (wp0 : ℚ) (rgen : R),
      ∃ wall_pos ok rgen2,
        gen_interior_choose_wall_pos env ops (interior_dims.of env b) p c wall_dim on_edge whs0
          n wp0 rgen = some (wall_pos, ok, rgen2) ∧
        (ok = true →
          max ((interior_dims.of env b).doorway_width + (interior_dims.of env b).wall_thick)
              (1 / 4 * (c.cube.d wall_dim.toNat true - c.cube.d wall_dim.toNat false))
            ≤ wall_pos - c.cube.d wall_dim.toNat false ∧
          max ((interior_dims.of env b).doorway_width + (interior_dims.of env b).wall_thick)
              (1 / 4 * (c.cube.d wall_dim.toNat true - c.cube.d wall_dim.toNat false))
            ≤ c.cube.d wall_dim.toNat true - wall_pos ∧
          ∀ d : Bool, ¬ (c.door_lo.getD (2 * wall_dim.toNat + d.toNat) 0 < wall_pos ∧
            wall_pos < c.door_hi.getD (2 * wall_dim.toNat + d.toNat) 0))) ∧
    (∀ (wall_pos : ℚ) (rgen2 : R),
      gen_interior_choose_wall_pos env ops (interior_dims.of env b) p c
          (gen_interior_wall_dim ops (interior_dims.of env b) c st.rgen).1
          (decide (c.cube.d (gen_interior_wall_dim ops (interior_dims.of env b) c
                st.rgen).1.toNat false
              = p.d (gen_interior_wall_dim ops (interior_dims.of env b) c st.rgen).1.toNat false ∨
            c.cube.d (gen_interior_wall_dim ops (interior_dims.of env b) c st.rgen).1.toNat true
              = p.d (gen_interior_wall_dim ops (interior_dims.of env b) c st.rgen).1.toNat true))
          (whs (gen_interior_wall_dim ops (interior_dims.of env b) c st.rgen).1) 20 0
          (gen_interior_wall_dim ops (interior_dims.of env b) c st.rgen).2
        = some (wall_pos, false, rgen2) →
      gen_interior_split_step env ops b (interior_dims.of env b) p part_ix whs c ts st =
        some (ts, { st with
          rgen := rgen2
          interior := { st.interior with rooms := st.interior.rooms ++ [c.cube] } })) := by
  obtain ⟨hdw, -, -, -, hwt, -, hmwl, -⟩ := interior_dims_of_consistent env b hS
  constructor
  · intro wall_dim on_edge whs0 n wp0 rgen
    have hlen : (interior_dims.of env b).min_wall_len
        ≤ c.cube.d wall_dim.toNat true - c.cube.d wall_dim.toNat false := by
      cases wall_dim
      · exact hx
      · exact hy
    obtain ⟨wall_pos, ok, rgen2, h, hok⟩ := gen_interior_choose_wall_pos_spec env ops hops
      (interior_dims.of env b) p c wall_dim on_edge whs0 (by linarith) (le_trans hmwl hlen)
      n wp0 rgen
    refine ⟨wall_pos, ok, rgen2, h, fun hk => ?_⟩
    obtain ⟨h1, h2, h3, -⟩ := hok hk
    exact ⟨by linarith, by linarith, split_cube_t.bad_pos_false c wall_pos wall_dim h3⟩
  · intro wall_pos rgen2 h
    exact gen_interior_split_step_rejected env ops b _ p part_ix whs c ts st wall_pos rgen2
      (by rw [not_lt]; exact le_min hx hy) h

/-- C29 at the region `[0,10] x [0,10] x [0,5]` of floor spacing 3 (minimum wall length 6). -/
theorem gen_interior_wall_pos_spec_witness :
    0 < demo_part_building.mat.floor_spacing ∧ (script_ops [50]).in_range ∧
    (interior_dims.of (demo_env 0 1 true) demo_part_building).min_wall_len
      ≤ (split_cube_t.of ⟨0, 10, 0, 10, 0, 5⟩).cube.get_size.x ∧
    ∃ wall_pos ok rgen2,
      gen_interior_choose_wall_pos (demo_env 0 1 true) (script_ops [50])
          (interior_dims.of (demo_env 0 1 true) demo_part_building) ⟨0, 10, 0, 10, 0, 5⟩
          (split_cube_t.of ⟨0, 10, 0, 10, 0, 5⟩) false true (1 / 2) 20 0 [50]
        = some (wall_pos, ok, rgen2) ∧
      (ok = true →
        max ((interior_dims.of (demo_env 0 1 true) demo_part_building).doorway_width
              + (interior_dims.of (demo_env 0 1 true) demo_part_building).wall_thick)
            (1 / 4 * ((split_cube_t.of ⟨0, 10, 0, 10, 0, 5⟩).cube.d false.toNat true
              - (split_cube_t.of ⟨0, 10, 0, 10, 0, 5⟩).cube.d false.toNat false))
          ≤ wall_pos - (split_cube_t.of ⟨0, 10, 0, 10, 0, 5⟩).cube.d false.toNat false ∧
        max ((interior_dims.of (demo_env 0 1 true) demo_part_building).doorway_width
              + (interior_dims.of (demo_env 0 1 true) demo_part_building).wall_thick)
            (1 / 4 * ((split_cube_t.of ⟨0, 10, 0, 10, 0, 5⟩).cube.d false.toNat true
              - (split_cube_t.of ⟨0, 10, 0, 10, 0, 5⟩).cube.d false.toNat false))
          ≤ (split_cube_t.of ⟨0, 10, 0, 10, 0, 5⟩).cube.d false.toNat true - wall_pos ∧
        ∀ d : Bool,
          ¬ ((split_cube_t.of ⟨0, 10, 0, 10, 0, 5⟩).door_lo.getD (2 * false.toNat + d.toNat) 0
              < wall_pos ∧
            wall_pos
              < (split_cube_t.of ⟨0, 10, 0, 10, 0, 5⟩).door_hi.getD
                (2 * false.toNat + d.toNat) 0)) :=
  ⟨by rw [demo_part_building_spacing]; norm_num, script_ops_in_range _,
    by rw [interior_dims_of_min_wall_len, demo_part_building_spacing]
       norm_num [split_cube_t.of, cube_t.get_size],
    (gen_interior_wall_pos_spec (demo_env 0 1 true) (script_ops [50]) demo_part_building
      ⟨0, 10, 0, 10, 0, 5⟩ 0 (fun _ => 1 / 2) (split_cube_t.of ⟨0, 10, 0, 10, 0, 5⟩) []
      (demo_interior_state [50])
      (by rw [demo_part_building_spacing]; norm_num) (script_ops_in_range _)
      (by rw [interior_dims_of_min_wall_len, demo_part_building_spacing]
          norm_num [split_cube_t.of, cube_t.get_size])
      (by rw [interior_dims_of_min_wall_len, demo_part_building_spacing]
          norm_num [split_cube_t.of, cube_t.get_size])).1 false true (1 / 2) 20 0 [50]⟩

/-! ### C28: a region with a side below the minimum wall length -/

/-- The loop body on a region whose shorter horizontal side is below `min_wall_len` (line
1099): nothing is pushed and only the generator changes. -/
theorem gen_interior_split_step_short {R G : Type} (env : Env) (ops : RandOps R G)
    (b : building_t) (k : interior_dims) (p : cube_t) (part_ix : Nat) (whs : Bool → ℚ)
    (c : split_cube_t) (ts : List split_cube_t) (st : interior_state R)
    (h : min c.cube.get_size.x c.cube.get_size.y < k.min_wall_len) :
    gen_interior_split_step env ops b k p part_ix whs c ts st =
      some (ts, { st with rgen := (gen_interior_wall_dim ops k c st.rgen).2 }) := by
  unfold gen_interior_split_step
  simp only []
  rw [if_pos h]

theorem demo_narrow_building_spacing : demo_narrow_building.mat.floor_spacing = 3 := rfl

theorem demo_narrow_short :
    min (split_cube_t.of ⟨0, 4, 0, 10, 0, 3⟩).cube.get_size.x
        (split_cube_t.of ⟨0, 4, 0, 10, 0, 3⟩).cube.get_size.y
      < (interior_dims.of (demo_env 0 1 true) demo_narrow_building).min_wall_len := by
  rw [interior_dims_of_min_wall_len, demo_narrow_building_spacing]
  norm_num [split_cube_t.of, cube_t.get_size]

theorem demo_narrow_wall_dim :
    gen_interior_wall_dim (script_ops [])
      (interior_dims.of (demo_env 0 1 true) demo_narrow_building)
      (split_cube_t.of ⟨0, 4, 0, 10, 0, 3⟩) [] = (false, []) := by
  unfold gen_interior_wall_dim
  rw [interior_dims_of_min_wall_len, demo_narrow_building_spacing]
  norm_num [split_cube_t.of, cube_t.get_size, script_ops_rand_bool]

/-- The recursive partition of the narrow part: the only region is dropped. -/
theorem gen_interior_partition_demo_narrow :
    gen_interior_partition (demo_env 0 1 true) (script_ops []) demo_narrow_building
        (interior_dims.of (demo_env 0 1 true) demo_narrow_building) ⟨0, 4, 0, 10, 0, 3⟩ 0 1
        (demo_interior_state [])
      = some (demo_interior_state []) := by
  unfold gen_interior_partition get_num_windows_on_side
  rw [if_pos (by norm_num), if_pos (by norm_num)]
  simp only []
  rw [gen_interior_split_loop_succ _ _ _ _ _ _ _ _ _ _ _ _ _
    (gen_interior_split_step_short _ _ _ _ _ _ _ _ _ _ demo_narrow_short),
    gen_interior_split_loop_nil]
  have h := demo_narrow_wall_dim
  simp only [demo_interior_state] at h ⊢
  rw [h]

theorem demo_narrow_calc_num_floors :
    calc_num_floors ⟨0, 4, 0, 10, 0, 3⟩
      (interior_dims.of (demo_env 0 1 true) demo_narrow_building).window_vspacing
      (interior_dims.of (demo_env 0 1 true) demo_narrow_building).floor_thickness = some 1 := by
  have h1 : (interior_dims.of (demo_env 0 1 true) demo_narrow_building).window_vspacing = 3 := rfl
  have h2 : (interior_dims.of (demo_env 0 1 true) demo_narrow_building).floor_thickness
      = 3 / 10 := by
    unfold interior_dims.of; simp only []; rw [demo_narrow_building_spacing]; norm_num
  rw [h1, h2]
  unfold calc_num_floors round_fp
  norm_num [cube_t.dz]

/-- The loop over the parts on the narrow building: no room and no wall. -/
theorem gen_interior_parts_demo_narrow :
    ∃ st1, gen_interior_parts (demo_env 0 1 true) (script_ops []) demo_narrow_building
        (interior_dims.of (demo_env 0 1 true) demo_narrow_building) 1
        [⟨0, 4, 0, 10, 0, 3⟩] 0 (demo_interior_state []) = some st1 ∧
      st1.interior.rooms = [] ∧ st1.interior.walls0 = [] ∧ st1.interior.walls1 = [] ∧
      st1.has_hallway_with_rooms = false := by
  have hh : demo_narrow_building.is_house = false := rfl
  have hp : demo_narrow_building.parts = [⟨0, 4, 0, 10, 0, 3⟩] := rfl
  rw [gen_interior_parts]
  simp only [hh, hp, Bool.false_eq_true, false_and, if_false, demo_narrow_calc_num_floors]
  rw [if_neg (by norm_num), if_neg (by
    rw [interior_dims_of_min_wall_len, demo_narrow_building_spacing]
    norm_num [cube_t.get_size, point.get]), gen_interior_partition_demo_narrow]
  simp only []
  rw [gen_interior_parts]
  exact ⟨_, rfl, rfl, rfl, rfl, rfl⟩

/-- The function `gen_interior` on the narrow building returns an interior without rooms and
without walls. -/
theorem gen_interior_demo_narrow :
    ∃ b2 r2, gen_interior (demo_env 0 1 true) (script_ops []) demo_narrow_building 1 []
        = some (b2, r2) ∧
      b2.interior.map (fun i => (i.rooms, i.walls0, i.walls1)) = some ([], [], []) := by
  unfold gen_interior
  simp only [demo_env_interiors, demo_env_inf_terrain, demo_env_windows, demo_env_is_cube]
  have hp : demo_narrow_building.parts = [⟨0, 4, 0, 10, 0, 3⟩] := rfl
  have hc : demo_narrow_building.has_chimney = false := rfl
  have hh : demo_narrow_building.is_house = false := rfl
  have hn : demo_narrow_building.num_sides = 4 := rfl
  have ha : demo_narrow_building.mat.add_windows = true := rfl
  have hd : demo_narrow_building.hallway_dim = 2 := rfl
  simp only [hp, hc, hn, ha, hd, Bool.not_true, Bool.false_eq_true, if_false, beq_self_eq_true,
    List.length_cons, List.length_nil, Bool.toNat_false, List.take]
  obtain ⟨st1, h1, hr, hw0, hw1, hhw⟩ := gen_interior_parts_demo_narrow
  simp only [demo_interior_state] at h1
  rw [h1]
  simp only [hhw, hw0, hw1, Bool.not_false, if_true]
  rw [gen_interior_extra_doors, if_pos (by simp)]
  simp only []
  rw [gen_interior_extra_doors, if_pos (by simp)]
  exact ⟨_, _, rfl, by simp [hr]⟩

/-- C28, as the code has it: the part `[0,4] x [0,10] x [0,3]` of a building of floor spacing 3
is the seed region of its recursive partition and its shorter side `4` is below the minimum
wall length `6`; `gen_interior` returns an interior whose `rooms` are empty, so the region was
not appended to `rooms` (and no wall was added). -/
theorem gen_interior_short_region_no_room :
    min (split_cube_t.of ⟨0, 4, 0, 10, 0, 3⟩).cube.get_size.x
        (split_cube_t.of ⟨0, 4, 0, 10, 0, 3⟩).cube.get_size.y
      < (interior_dims.of (demo_env 0 1 true) demo_narrow_building).min_wall_len ∧
    demo_narrow_building.parts = [⟨0, 4, 0, 10, 0, 3⟩] ∧
    ∃ b2 r2, gen_interior (demo_env 0 1 true) (script_ops []) demo_narrow_building 1 []
        = some (b2, r2) ∧
      b2.interior.map (fun i => (i.rooms, i.walls0, i.walls1)) = some ([], [], []) :=
  ⟨demo_narrow_short, rfl, gen_interior_demo_narrow⟩

/-- C28, amended: when the shorter horizontal side of the popped region is below the minimum
wall length, the split is abandoned and the region is dropped: the loop body pushes nothing and
changes only the generator (by the draw of the split axis), so the region is not appended to
`rooms` and no wall is added; the loop goes on with the rest of the stack. -/
theorem gen_interior_short_region_dropped {R G : Type} (env : Env) (ops : RandOps R G)
    (b : building_t) (k : interior_dims) (p : cube_t) (part_ix : Nat) (whs : Bool → ℚ)
    (c : split_cube_t) (ts : List split_cube_t) (st : interior_state R)
    (h : min c.cube.get_size.x c.cube.get_size.y < k.min_wall_len) :
    gen_interior_split_step env ops b k p part_ix whs c ts st =
        some (ts, { st with rgen := (gen_interior_wall_dim ops k c st.rgen).2 }) ∧
    ∀ fuel, gen_interior_split_loop env ops b k p part_ix whs (fuel + 1) (c :: ts) st =
      gen_interior_split_loop env ops b k p part_ix whs fuel ts
        { st with rgen := (gen_interior_wall_dim ops k c st.rgen).2 } :=
  ⟨gen_interior_split_step_short env ops b k p part_ix whs c ts st h, fun fuel =>
    gen_interior_split_loop_succ env ops b k p part_ix whs fuel c ts _ st _
      (gen_interior_split_step_short env ops b k p part_ix whs c ts st h)⟩

/-- C28, amended, at the part `[0,4] x [0,10] x [0,3]` of floor spacing 3. -/
theorem gen_interior_short_region_dropped_witness :
    min (split_cube_t.of ⟨0, 4, 0, 10, 0, 3⟩).cube.get_size.x
        (split_cube_t.of ⟨0, 4, 0, 10, 0, 3⟩).cube.get_size.y
      < (interior_dims.of (demo_env 0 1 true) demo_narrow_building).min_wall_len ∧
    gen_interior_split_step (demo_env 0 1 true) (script_ops []) demo_narrow_building
        (interior_dims.of (demo_env 0 1 true) demo_narrow_building) ⟨0, 4, 0, 10, 0, 3⟩ 0
        (fun _ => 1 / 2) (split_cube_t.of ⟨0, 4, 0, 10, 0, 3⟩) [] (demo_interior_state []) =
      some ([], { demo_interior_state [] with
        rgen := (gen_interior_wall_dim (script_ops [])
          (interior_dims.of (demo_env 0 1 true) demo_narrow_building)
          (split_cube_t.of ⟨0, 4, 0, 10, 0, 3⟩) (demo_interior_state []).rgen).2 }) :=
  ⟨demo_narrow_short,
    (gen_interior_short_region_dropped (demo_env 0 1 true) (script_ops []) demo_narrow_building
      (interior_dims.of (demo_env 0 1 true) demo_narrow_building) ⟨0, 4, 0, 10, 0, 3⟩ 0
      (fun _ => 1 / 2) (split_cube_t.of ⟨0, 4, 0, 10, 0, 3⟩) [] (demo_interior_state [])
      demo_narrow_short).1⟩

/-! ### C25: window bays and the split coordinate -/

theorem demo_long_dims :
    interior_dims.of (demo_env 0 1 true) demo_long_building
      = ⟨3, 3 / 10, 3 / 20, 3 / 2, 3 / 4, 3 / 20, 3 / 40, 3 / 400, 6, 1 / 4⟩ := by
  have h : demo_long_building.mat.floor_spacing = 3 := rfl
  have h2 : (demo_env 0 1 true).window_width_fract = 1 / 2 := rfl
  unfold interior_dims.of
  simp only [h, h2]
  norm_num

theorem demo_long_parts : demo_long_building.parts = [⟨0, 40, 0, 8, 0, 3⟩] := rfl

theorem demo_env_fract (s c : ℚ) (w : Bool) (q : ℚ) :
    (demo_env s c w).fract q = q - (⌊q⌋ : ℚ) := rfl

theorem demo_env_wall_split_thresh (s c : ℚ) (w : Bool) :
    (demo_env s c w).wall_split_thresh = 4 := rfl

/-- The T-junction scan of a building with a single part does nothing. -/
theorem gen_interior_tjunctions_single (k : interior_dims) (wall_dim : Bool) (wall_pos : ℚ)
    (p2 : cube_t) (st : tjunction_state) :
    gen_interior_tjunctions k 0 wall_dim wall_pos [p2] 0 st = some st := by
  simp [gen_interior_tjunctions, gen_interior_tjunction_step]

/-- A try of the 20-try loop that passes both tests is accepted. -/
theorem gen_interior_choose_wall_pos_accept {R G : Type} (env : Env) (ops : RandOps R G)
    (k : interior_dims) (p : cube_t) (c : split_cube_t) (wall_dim on_edge : Bool) (whs : ℚ)
    (n : Nat) (wp0 : ℚ) (rgen : R) (v : ℚ) (r : R)
    (hd : cube_rand_side_pos ops c.cube wall_dim.toNat (1 / 4)
      (k.doorway_width + k.wall_thick) rgen = some (v, r))
    (h1 : ¬ (on_edge = true ∧ is_val_inside_window env p wall_dim v whs k.window_border = true))
    (h2 : c.bad_pos v wall_dim = false) :
    gen_interior_choose_wall_pos env ops k p c wall_dim on_edge whs (n + 1) wp0 rgen
      = some (v, true, r) := by
  rw [gen_interior_choose_wall_pos, hd]
  simp only []
  rw [if_neg h1, if_neg (by rw [h2]; simp)]

/-- A try of the 20-try loop that falls inside a window bay of an edge region is rejected. -/
theorem gen_interior_choose_wall_pos_window {R G : Type} (env : Env) (ops : RandOps R G)
    (k : interior_dims) (p : cube_t) (c : split_cube_t) (wall_dim : Bool) (whs : ℚ)
    (n : Nat) (wp0 : ℚ) (rgen : R) (v : ℚ) (r : R)
    (hd : cube_rand_side_pos ops c.cube wall_dim.toNat (1 / 4)
      (k.doorway_width + k.wall_thick) rgen = some (v, r))
    (h1 : is_val_inside_window env p wall_dim v whs k.window_border = true) :
    gen_interior_choose_wall_pos env ops k p c wall_dim true whs (n + 1) wp0 rgen
      = gen_interior_choose_wall_pos env ops k p c wall_dim true whs n v r := by
  rw [gen_interior_choose_wall_pos, hd]
  simp only []
  rw [if_pos ⟨trivial, h1⟩]

/-- The loop body on a region of a building with a single part, when the split axis, the
accepted coordinate, the doorway and the two fragments of the wall are known. -/
theorem gen_interior_split_step_eval {R G : Type} (env : Env) (ops : RandOps R G)
    (b : building_t) (k : interior_dims) (p : cube_t) (whs : Bool → ℚ) (c : split_cube_t)
    (ts : List split_cube_t) (st : interior_state R) (p2 : cube_t) (hparts : b.parts = [p2])
    (wall_dim : Bool) (rgen1 : R)
    (hwd : gen_interior_wall_dim ops k c st.rgen = (wall_dim, rgen1))
    (hmin : ¬ min c.cube.get_size.x c.cube.get_size.y < k.min_wall_len)
    (on_edge : Bool)
    (hoe : decide (c.cube.d wall_dim.toNat false = p.d wall_dim.toNat false ∨
      c.cube.d wall_dim.toNat true = p.d wall_dim.toNat true) = on_edge)
    (whs0 : ℚ) (hw : whs wall_dim = whs0)
    (wp : ℚ) (rgen2 : R)
    (hch : gen_interior_choose_wall_pos env ops k p c wall_dim on_edge whs0 20 0 rgen1
      = some (wp, true, rgen2))
    (dp : ℚ) (rgen3 : R)
    (hdoor : cube_rand_side_pos ops c.cube (!wall_dim).toNat (1 / 4) k.doorway_width rgen2
      = some (dp, rgen3))
    (wlo whi : cube_t)
    (hrem : remove_section_from_cube
      (create_wall c.cube wall_dim wp k.fc_thick k.wall_half_thick k.wall_edge_spacing)
      (dp - k.doorway_hwidth) (dp + k.doorway_hwidth) (!wall_dim) = some (wlo, whi)) :
    gen_interior_split_step env ops b k p 0 whs c ts st =
      some (if c.cube.get_size.get wall_dim.toNat > max env.wall_split_thresh 1 * k.min_wall_len
        then
          (⟨c.cube.set wall_dim.toNat true (wlo.d wall_dim.toNat false),
              c.door_lo.set (2 * (!wall_dim).toNat + 1) (dp - k.doorway_hwidth - k.wall_half_thick),
              c.door_hi.set (2 * (!wall_dim).toNat + 1)
                (dp + k.doorway_hwidth + k.wall_half_thick)⟩ ::
            ⟨c.cube.set wall_dim.toNat false (wlo.d wall_dim.toNat true),
              c.door_lo.set (2 * (!wall_dim).toNat + 0) (dp - k.doorway_hwidth - k.wall_half_thick),
              c.door_hi.set (2 * (!wall_dim).toNat + 0)
                (dp + k.doorway_hwidth + k.wall_half_thick)⟩ :: ts,
            { st with
              rgen := rgen3
              interior := (st.interior.push_wall wall_dim wlo).push_wall wall_dim whi })
        else
          (ts, { st with
            rgen := rgen3
            interior :=
              { (st.interior.push_wall wall_dim wlo).push_wall wall_dim whi with
                rooms := ((st.interior.push_wall wall_dim wlo).push_wall wall_dim whi).rooms
                  ++ [c.cube] } })) := by
  unfold gen_interior_split_step
  simp only [hwd, hparts, gen_interior_tjunctions_single]
  rw [if_neg hmin, hoe, hw, hch]
  simp only []
  rw [hdoor]
  simp only []
  rw [hrem]
  simp only []
  split_ifs <;> rfl

/-- The first iteration on the long building: the seed region is split at `x = 10`. -/
theorem demo_long_step1 (whs : Bool → ℚ) (hw : whs false = 1 / 2) (ts : List split_cube_t)
    (int : building_interior_t) (hd : Nat) (seps : List Nat) (hh : Bool) (rest : List Nat) :
    gen_interior_split_step (demo_env 0 1 true) (script_ops []) demo_long_building
        (interior_dims.of (demo_env 0 1 true) demo_long_building)
        ⟨0, 40, 0, 8, 0, 3⟩ 0 whs ⟨⟨0, 40, 0, 8, 0, 3⟩, [0, 0, 0, 0], [0, 0, 0, 0]⟩ ts
        ⟨int, hd, seps, hh, 0 :: 0 :: rest⟩
      = some (⟨⟨0, 397 / 40, 0, 8, 0, 3⟩, [0, 0, 0, 47 / 40], [0, 0, 0, 113 / 40]⟩ ::
          ⟨⟨403 / 40, 40, 0, 8, 0, 3⟩, [0, 0, 47 / 40, 0], [0, 0, 113 / 40, 0]⟩ :: ts,
        ⟨(int.push_wall false ⟨397 / 40, 403 / 40, 3 / 400, 5 / 4, 3 / 20, 57 / 20⟩).push_wall
            false ⟨397 / 40, 403 / 40, 11 / 4, 3197 / 400, 3 / 20, 57 / 20⟩,
          hd, seps, hh, rest⟩) := by
  rw [demo_long_dims]
  rw [gen_interior_split_step_eval (demo_env 0 1 true) (script_ops []) demo_long_building _
    ⟨0, 40, 0, 8, 0, 3⟩ whs _ ts _ _ demo_long_parts false (0 :: 0 :: rest)
    (by unfold gen_interior_wall_dim; norm_num [cube_t.get_size])
    (by norm_num [cube_t.get_size])
    true (by norm_num [cube_t.d]) (1 / 2) hw 10 (0 :: rest)
    (gen_interior_choose_wall_pos_accept _ _ _ _ _ _ _ _ _ _ _ _ _
      (by norm_num [cube_rand_side_pos, cube_t.d, script_ops_rand_uniform])
      (by norm_num [is_val_inside_window, demo_env_fract, cube_t.d])
      (by norm_num [split_cube_t.bad_pos]))
    2 rest
    (by norm_num [cube_rand_side_pos, cube_t.d, script_ops_rand_uniform])
    ⟨397 / 40, 403 / 40, 3 / 400, 5 / 4, 3 / 20, 57 / 20⟩
    ⟨397 / 40, 403 / 40, 11 / 4, 3197 / 400, 3 / 20, 57 / 20⟩
    (by norm_num [remove_section_from_cube, create_wall, cube_t.d, cube_t.set])]
  norm_num [cube_t.get_size, point.get, cube_t.set, cube_t.d, demo_env_wall_split_thresh]


/-- The second iteration: the low region `[0, 397/40]` touches the face `x = 0` of the part; it gets a
wall at `x = 397/160` and becomes a room. -/
theorem demo_long_step2 (whs : Bool → ℚ) (hw : whs false = 1 / 2) (ts : List split_cube_t)
    (int : building_interior_t) (hd : Nat) (seps : List Nat) (hh : Bool) (rest : List Nat) :
    gen_interior_split_step (demo_env 0 1 true) (script_ops []) demo_long_building
        (interior_dims.of (demo_env 0 1 true) demo_long_building)
        ⟨0, 40, 0, 8, 0, 3⟩ 0 whs ⟨⟨0, 397 / 40, 0, 8, 0, 3⟩, [0, 0, 0, 47 / 40], [0, 0, 0, 113 / 40]⟩ ts
        ⟨int, hd, seps, hh, 0 :: 0 :: 0 :: rest⟩
      = some (ts,
        ⟨{ (int.push_wall false ⟨77 / 32, 409 / 160, 3 / 400, 5 / 4, 3 / 20, 57 / 20⟩).push_wall false
              ⟨77 / 32, 409 / 160, 11 / 4, 3197 / 400, 3 / 20, 57 / 20⟩ with
            rooms := ((int.push_wall false ⟨77 / 32, 409 / 160, 3 / 400, 5 / 4, 3 / 20, 57 / 20⟩).push_wall false
              ⟨77 / 32, 409 / 160, 11 / 4, 3197 / 400, 3 / 20, 57 / 20⟩).rooms ++ [⟨0, 397 / 40, 0, 8, 0, 3⟩] },
          hd, seps, hh, rest⟩) := by
  rw [demo_long_dims]
  rw [gen_interior_split_step_eval (demo_env 0 1 true) (script_ops []) demo_long_building _
    ⟨0, 40, 0, 8, 0, 3⟩ whs _ ts _ _ demo_long_parts false (0 :: 0 :: rest)
    (by unfold gen_interior_wall_dim; norm_num [cube_t.get_size, script_ops_rand_bool])
    (by norm_num [cube_t.get_size])
    true (by norm_num [cube_t.d]) (1 / 2) hw (397 / 160) (0 :: rest)
    (gen_interior_choose_wall_pos_accept _ _ _ _ _ _ _ _ _ _ _ _ _
      (by norm_num [cube_rand_side_pos, cube_t.d, script_ops_rand_uniform])
      (by norm_num [is_val_inside_window, demo_env_fract, cube_t.d])
      (by norm_num [split_cube_t.bad_pos]))
    2 rest
    (by norm_num [cube_rand_side_pos, cube_t.d, script_ops_rand_uniform])
    ⟨77 / 32, 409 / 160, 3 / 400, 5 / 4, 3 / 20, 57 / 20⟩
    ⟨77 / 32, 409 / 160, 11 / 4, 3197 / 400, 3 / 20, 57 / 20⟩
    (by norm_num [remove_section_from_cube, create_wall, cube_t.d, cube_t.set])]
  norm_num [cube_t.get_size, point.get, cube_t.set, cube_t.d, demo_env_wall_split_thresh]

/-- The third iteration: the high region `[403/40, 40]` touches the face `x = 40` of the part and is
split at `x = 2809/160`. -/
theorem demo_long_step3 (whs : Bool → ℚ) (hw : whs false = 1 / 2) (ts : List split_cube_t)
    (int : building_interior_t) (hd : Nat) (seps : List Nat) (hh : Bool) (rest : List Nat) :
    gen_interior_split_step (demo_env 0 1 true) (script_ops []) demo_long_building
        (interior_dims.of (demo_env 0 1 true) demo_long_building)
        ⟨0, 40, 0, 8, 0, 3⟩ 0 whs ⟨⟨403 / 40, 40, 0, 8, 0, 3⟩, [0, 0, 47 / 40, 0], [0, 0, 113 / 40, 0]⟩ ts
        ⟨int, hd, seps, hh, 0 :: 0 :: rest⟩
      = some (⟨⟨403 / 40, 2797 / 160, 0, 8, 0, 3⟩, [0, 0, 47 / 40, 47 / 40], [0, 0, 113 / 40, 113 / 40]⟩ ::
          ⟨⟨2821 / 160, 40, 0, 8, 0, 3⟩, [0, 0, 47 / 40, 0], [0, 0, 113 / 40, 0]⟩ :: ts,
        ⟨(int.push_wall false ⟨2797 / 160, 2821 / 160, 3 / 400, 5 / 4, 3 / 20, 57 / 20⟩).push_wall
            false ⟨2797 / 160, 2821 / 160, 11 / 4, 3197 / 400, 3 / 20, 57 / 20⟩,
          hd, seps, hh, rest⟩) := by
  rw [demo_long_dims]
  rw [gen_interior_split_step_eval (demo_env 0 1 true) (script_ops []) demo_long_building _
    ⟨0, 40, 0, 8, 0, 3⟩ whs _ ts _ _ demo_long_parts false (0 :: 0 :: rest)
    (by unfold gen_interior_wall_dim; norm_num [cube_t.get_size, script_ops_rand_bool])
    (by norm_num [cube_t.get_size])
    true (by norm_num [cube_t.d]) (1 / 2) hw (2809 / 160) (0 :: rest)
    (gen_interior_choose_wall_pos_accept _ _ _ _ _ _ _ _ _ _ _ _ _
      (by norm_num [cube_rand_side_pos, cube_t.d, script_ops_rand_uniform])
      (by norm_num [is_val_inside_window, demo_env_fract, cube_t.d])
      (by norm_num [split_cube_t.bad_pos]))
    2 rest
    (by norm_num [cube_rand_side_pos, cube_t.d, script_ops_rand_uniform])
    ⟨2797 / 160, 2821 / 160, 3 / 400, 5 / 4, 3 / 20, 57 / 20⟩
    ⟨2797 / 160, 2821 / 160, 11 / 4, 3197 / 400, 3 / 20, 57 / 20⟩
    (by norm_num [remove_section_from_cube, create_wall, cube_t.d, cube_t.set])]
  norm_num [cube_t.get_size, point.get, cube_t.set, cube_t.d, demo_env_wall_split_thresh]

/-- The fourth iteration: the middle region `[403/40, 2797/160]` touches neither face `x = 0` nor
`x = 40` of the part, so `on_edge` is false and the window test is skipped; the coordinate
`x = 787/64` is accepted. -/
theorem demo_long_step4 (whs : Bool → ℚ) (hw : whs false = 1 / 2) (ts : List split_cube_t)
    (int : building_interior_t) (hd : Nat) (seps : List Nat) (hh : Bool) (rest : List Nat) :
    gen_interior_split_step (demo_env 0 1 true) (script_ops []) demo_long_building
        (interior_dims.of (demo_env 0 1 true) demo_long_building)
        ⟨0, 40, 0, 8, 0, 3⟩ 0 whs ⟨⟨403 / 40, 2797 / 160, 0, 8, 0, 3⟩, [0, 0, 47 / 40, 47 / 40], [0, 0, 113 / 40, 113 / 40]⟩ ts
        ⟨int, hd, seps, hh, 0 :: 10 :: 0 :: rest⟩
      = some (ts,
        ⟨{ (int.push_wall false ⟨3911 / 320, 3959 / 320, 3 / 400, 5 / 4, 3 / 20, 57 / 20⟩).push_wall false
              ⟨3911 / 320, 3959 / 320, 11 / 4, 3197 / 400, 3 / 20, 57 / 20⟩ with
            rooms := ((int.push_wall false ⟨3911 / 320, 3959 / 320, 3 / 400, 5 / 4, 3 / 20, 57 / 20⟩).push_wall false
              ⟨3911 / 320, 3959 / 320, 11 / 4, 3197 / 400, 3 / 20, 57 / 20⟩).rooms ++ [⟨403 / 40, 2797 / 160, 0, 8, 0, 3⟩] },
          hd, seps, hh, rest⟩) := by
  rw [demo_long_dims]
  rw [gen_interior_split_step_eval (demo_env 0 1 true) (script_ops []) demo_long_building _
    ⟨0, 40, 0, 8, 0, 3⟩ whs _ ts _ _ demo_long_parts false (10 :: 0 :: rest)
    (by unfold gen_interior_wall_dim; norm_num [cube_t.get_size, script_ops_rand_bool])
    (by norm_num [cube_t.get_size])
    false (by norm_num [cube_t.d]) (1 / 2) hw (787 / 64) (0 :: rest)
    (gen_interior_choose_wall_pos_accept _ _ _ _ _ _ _ _ _ _ _ _ _
      (by norm_num [cube_rand_side_pos, cube_t.d, script_ops_rand_uniform])
      (by norm_num [is_val_inside_window, demo_env_fract, cube_t.d])
      (by norm_num [split_cube_t.bad_pos]))
    2 rest
    (by norm_num [cube_rand_side_pos, cube_t.d, script_ops_rand_uniform])
    ⟨3911 / 320, 3959 / 320, 3 / 400, 5 / 4, 3 / 20, 57 / 20⟩
    ⟨3911 / 320, 3959 / 320, 11 / 4, 3197 / 400, 3 / 20, 57 / 20⟩
    (by norm_num [remove_section_from_cube, create_wall, cube_t.d, cube_t.set])]
  norm_num [cube_t.get_size, point.get, cube_t.set, cube_t.d, demo_env_wall_split_thresh]

/-- The fifth iteration: the last region `[2821/160, 40]` gets a wall at `x = 753887/32000` and
becomes a room. -/
theorem demo_long_step5 (whs : Bool → ℚ) (hw : whs false = 1 / 2) (ts : List split_cube_t)
    (int : building_interior_t) (hd : Nat) (seps : List Nat) (hh : Bool) (rest : List Nat) :
    gen_interior_split_step (demo_env 0 1 true) (script_ops []) demo_long_building
        (interior_dims.of (demo_env 0 1 true) demo_long_building)
        ⟨0, 40, 0, 8, 0, 3⟩ 0 whs ⟨⟨2821 / 160, 40, 0, 8, 0, 3⟩, [0, 0, 47 / 40, 0], [0, 0, 113 / 40, 0]⟩ ts
        ⟨int, hd, seps, hh, 3 :: 0 :: rest⟩
      = some (ts,
        ⟨{ (int.push_wall false ⟨751487 / 32000, 756287 / 32000, 3 / 400, 5 / 4, 3 / 20, 57 / 20⟩).push_wall false
              ⟨751487 / 32000, 756287 / 32000, 11 / 4, 3197 / 400, 3 / 20, 57 / 20⟩ with
            rooms := ((int.push_wall false ⟨751487 / 32000, 756287 / 32000, 3 / 400, 5 / 4, 3 / 20, 57 / 20⟩).push_wall false
              ⟨751487 / 32000, 756287 / 32000, 11 / 4, 3197 / 400, 3 / 20, 57 / 20⟩).rooms ++ [⟨2821 / 160, 40, 0, 8, 0, 3⟩] },
          hd, seps, hh, rest⟩) := by
  rw [demo_long_dims]
  rw [gen_interior_split_step_eval (demo_env 0 1 true) (script_ops []) demo_long_building _
    ⟨0, 40, 0, 8, 0, 3⟩ whs _ ts _ _ demo_long_parts false (3 :: 0 :: rest)
    (by unfold gen_interior_wall_dim; norm_num [cube_t.get_size, script_ops_rand_bool])
    (by norm_num [cube_t.get_size])
    true (by norm_num [cube_t.d]) (1 / 2) hw (753887 / 32000) (0 :: rest)
    (gen_interior_choose_wall_pos_accept _ _ _ _ _ _ _ _ _ _ _ _ _
      (by norm_num [cube_rand_side_pos, cube_t.d, script_ops_rand_uniform])
      (by norm_num [is_val_inside_window, demo_env_fract, cube_t.d])
      (by norm_num [split_cube_t.bad_pos]))
    2 rest
    (by norm_num [cube_rand_side_pos, cube_t.d, script_ops_rand_uniform])
    ⟨751487 / 32000, 756287 / 32000, 3 / 400, 5 / 4, 3 / 20, 57 / 20⟩
    ⟨751487 / 32000, 756287 / 32000, 11 / 4, 3197 / 400, 3 / 20, 57 / 20⟩
    (by norm_num [remove_section_from_cube, create_wall, cube_t.d, cube_t.set])]
  norm_num [cube_t.get_size, point.get, cube_t.set, cube_t.d, demo_env_wall_split_thresh]

/-- The work-stack loop on the long building: five iterations, three rooms and five walls of two
fragments each. -/
theorem gen_interior_split_loop_demo_long (whs : Bool → ℚ) (hw : whs false = 1 / 2)
    (fuel : Nat) :
    gen_interior_split_loop (demo_env 0 1 true) (script_ops []) demo_long_building
        (interior_dims.of (demo_env 0 1 true) demo_long_building) ⟨0, 40, 0, 8, 0, 3⟩ 0 whs
        (fuel + 5) [split_cube_t.of ⟨0, 40, 0, 8, 0, 3⟩]
        (demo_interior_state [0, 0, 0, 0, 0, 0, 0, 0, 10, 0, 3, 0])
      = some
        ⟨⟨[⟨397 / 40, 403 / 40, 3 / 400, 5 / 4, 3 / 20, 57 / 20⟩,
            ⟨397 / 40, 403 / 40, 11 / 4, 3197 / 400, 3 / 20, 57 / 20⟩,
            ⟨77 / 32, 409 / 160, 3 / 400, 5 / 4, 3 / 20, 57 / 20⟩,
            ⟨77 / 32, 409 / 160, 11 / 4, 3197 / 400, 3 / 20, 57 / 20⟩,
            ⟨2797 / 160, 2821 / 160, 3 / 400, 5 / 4, 3 / 20, 57 / 20⟩,
            ⟨2797 / 160, 2821 / 160, 11 / 4, 3197 / 400, 3 / 20, 57 / 20⟩,
            ⟨3911 / 320, 3959 / 320, 3 / 400, 5 / 4, 3 / 20, 57 / 20⟩,
            ⟨3911 / 320, 3959 / 320, 11 / 4, 3197 / 400, 3 / 20, 57 / 20⟩,
            ⟨751487 / 32000, 756287 / 32000, 3 / 400, 5 / 4, 3 / 20, 57 / 20⟩,
            ⟨751487 / 32000, 756287 / 32000, 11 / 4, 3197 / 400, 3 / 20, 57 / 20⟩],
          [], [], [],
          [⟨0, 397 / 40, 0, 8, 0, 3⟩, ⟨403 / 40, 2797 / 160, 0, 8, 0, 3⟩,
            ⟨2821 / 160, 40, 0, 8, 0, 3⟩], none⟩, 2, [0, 0, 0, 0], false, []⟩ := by
  unfold demo_interior_state split_cube_t.of
  rw [gen_interior_split_loop_succ _ _ _ _ _ _ _ _ _ _ _ _ _ (demo_long_step1 whs hw _ _ _ _ _ _),
    gen_interior_split_loop_succ _ _ _ _ _ _ _ _ _ _ _ _ _ (demo_long_step2 whs hw _ _ _ _ _ _),
    gen_interior_split_loop_succ _ _ _ _ _ _ _ _ _ _ _ _ _ (demo_long_step3 whs hw _ _ _ _ _ _),
    gen_interior_split_loop_succ _ _ _ _ _ _ _ _ _ _ _ _ _ (demo_long_step4 whs hw _ _ _ _ _ _),
    gen_interior_split_loop_succ _ _ _ _ _ _ _ _ _ _ _ _ _ (demo_long_step5 whs hw _ _ _ _ _ _),
    gen_interior_split_loop_nil]
  rfl

theorem demo_long_windows (xy2 : ℚ) (h : (0 : ℚ) < xy2) :
    get_num_windows_on_side (demo_env 0 1 true) demo_long_building 0 xy2
      = some (round_fp (2 * xy2)) := by
  have ht : demo_long_building.mat.window_tx = 1 := rfl
  have hc : ∀ a c, (demo_env 0 1 true).clip_low_high a c = (a, c) := fun _ _ => rfl
  unfold get_num_windows_on_side
  rw [if_pos h]
  simp only [ht, hc]
  norm_num

/-- The recursive partition of the part of the long building. -/
theorem gen_interior_partition_demo_long (fuel : Nat) :
    ∃ st, gen_interior_partition (demo_env 0 1 true) (script_ops []) demo_long_building
        (interior_dims.of (demo_env 0 1 true) demo_long_building) ⟨0, 40, 0, 8, 0, 3⟩ 0
        (fuel + 5) (demo_interior_state [0, 0, 0, 0, 0, 0, 0, 0, 10, 0, 3, 0]) = some st ∧
      st.has_hallway_with_rooms = false ∧ st.interior.walls1 = [] ∧
      st.interior.walls0 =
          [⟨397 / 40, 403 / 40, 3 / 400, 5 / 4, 3 / 20, 57 / 20⟩,
            ⟨397 / 40, 403 / 40, 11 / 4, 3197 / 400, 3 / 20, 57 / 20⟩,
            ⟨77 / 32, 409 / 160, 3 / 400, 5 / 4, 3 / 20, 57 / 20⟩,
            ⟨77 / 32, 409 / 160, 11 / 4, 3197 / 400, 3 / 20, 57 / 20⟩,
            ⟨2797 / 160, 2821 / 160, 3 / 400, 5 / 4, 3 / 20, 57 / 20⟩,
            ⟨2797 / 160, 2821 / 160, 11 / 4, 3197 / 400, 3 / 20, 57 / 20⟩,
            ⟨3911 / 320, 3959 / 320, 3 / 400, 5 / 4, 3 / 20, 57 / 20⟩,
            ⟨3911 / 320, 3959 / 320, 11 / 4, 3197 / 400, 3 / 20, 57 / 20⟩,
            ⟨751487 / 32000, 756287 / 32000, 3 / 400, 5 / 4, 3 / 20, 57 / 20⟩,
            ⟨751487 / 32000, 756287 / 32000, 11 / 4, 3197 / 400, 3 / 20, 57 / 20⟩] ∧
      st.interior.rooms = [⟨0, 397 / 40, 0, 8, 0, 3⟩, ⟨403 / 40, 2797 / 160, 0, 8, 0, 3⟩,
        ⟨2821 / 160, 40, 0, 8, 0, 3⟩] := by
  unfold gen_interior_partition
  simp only []
  rw [demo_long_windows 40 (by norm_num), demo_long_windows 8 (by norm_num)]
  simp only []
  rw [gen_interior_split_loop_demo_long _ (by norm_num [round_fp, cube_t.get_size]) fuel]
  exact ⟨_, rfl, rfl, rfl, rfl, rfl⟩

/-- The post-pass leaves walls shorter than `1.5 * min_wall_len` as they are. -/
theorem gen_interior_extra_doors_short {R G : Type} (ops : RandOps R G) (k : interior_dims)
    (d : Bool) (perp : List cube_t) (walls : List cube_t) (rgen : R)
    (hlen : ∀ wall ∈ walls,
      wall.d (!d).toNat true - wall.d (!d).toNat false < 3 / 2 * k.min_wall_len) :
    ∀ (fuel w : Nat), walls.length ≤ w + fuel →
      gen_interior_extra_doors ops k d perp fuel w (walls, rgen) = some (walls, rgen) := by
  intro fuel
  induction fuel with
  | zero =>
    intro w h
    rw [gen_interior_extra_doors, if_pos (by simpa using h)]
  | succ n ih =>
    intro w h
    rw [gen_interior_extra_doors]
    by_cases hw : w ≥ walls.length
    · rw [if_pos hw]
    · rw [if_neg hw]
      rw [gen_interior_extra_door_splits]
      have hlt : w < walls.length := by omega
      have hget : walls.getD w cube_t.zero = walls[w] := by
        rw [List.getD_eq_getElem _ _ hlt]
      rw [if_pos (by rw [hget]; exact hlen _ (List.getElem_mem _))]
      exact ih (w + 1) (by omega)

theorem demo_long_calc_num_floors :
    calc_num_floors ⟨0, 40, 0, 8, 0, 3⟩
      (interior_dims.of (demo_env 0 1 true) demo_long_building).window_vspacing
      (interior_dims.of (demo_env 0 1 true) demo_long_building).floor_thickness = some 1 := by
  rw [demo_long_dims]
  unfold calc_num_floors round_fp
  norm_num [cube_t.dz]

/-- The loop over the parts on the long building. -/
theorem gen_interior_parts_demo_long (fuel : Nat) :
    ∃ st, gen_interior_parts (demo_env 0 1 true) (script_ops []) demo_long_building
        (interior_dims.of (demo_env 0 1 true) demo_long_building) (fuel + 5)
        [⟨0, 40, 0, 8, 0, 3⟩] 0 (demo_interior_state [0, 0, 0, 0, 0, 0, 0, 0, 10, 0, 3, 0])
        = some st ∧
      st.has_hallway_with_rooms = false ∧ st.interior.walls1 = [] ∧
      st.interior.walls0 =
          [⟨397 / 40, 403 / 40, 3 / 400, 5 / 4, 3 / 20, 57 / 20⟩,
            ⟨397 / 40, 403 / 40, 11 / 4, 3197 / 400, 3 / 20, 57 / 20⟩,
            ⟨77 / 32, 409 / 160, 3 / 400, 5 / 4, 3 / 20, 57 / 20⟩,
            ⟨77 / 32, 409 / 160, 11 / 4, 3197 / 400, 3 / 20, 57 / 20⟩,
            ⟨2797 / 160, 2821 / 160, 3 / 400, 5 / 4, 3 / 20, 57 / 20⟩,
            ⟨2797 / 160, 2821 / 160, 11 / 4, 3197 / 400, 3 / 20, 57 / 20⟩,
            ⟨3911 / 320, 3959 / 320, 3 / 400, 5 / 4, 3 / 20, 57 / 20⟩,
            ⟨3911 / 320, 3959 / 320, 11 / 4, 3197 / 400, 3 / 20, 57 / 20⟩,
            ⟨751487 / 32000, 756287 / 32000, 3 / 400, 5 / 4, 3 / 20, 57 / 20⟩,
            ⟨751487 / 32000, 756287 / 32000, 11 / 4, 3197 / 400, 3 / 20, 57 / 20⟩] ∧
      st.interior.rooms = [⟨0, 397 / 40, 0, 8, 0, 3⟩, ⟨403 / 40, 2797 / 160, 0, 8, 0, 3⟩,
        ⟨2821 / 160, 40, 0, 8, 0, 3⟩] := by
  have hh : demo_long_building.is_house = false := rfl
  obtain ⟨st, hst, h1, h2, h3, h4⟩ := gen_interior_partition_demo_long fuel
  rw [gen_interior_parts]
  simp only [hh, demo_long_parts, Bool.false_eq_true, false_and, if_false,
    demo_long_calc_num_floors]
  rw [if_neg (by norm_num), if_neg (by
    rw [demo_long_dims]
    norm_num [cube_t.get_size, point.get]), hst]
  simp only []
  rw [gen_interior_parts]
  exact ⟨_, rfl, h1, h2, h3, h4⟩

/-- The function `gen_interior` on the long building: the walls and rooms of the partition. -/
theorem gen_interior_demo_long :
    ∃ b2 r2 int, gen_interior (demo_env 0 1 true) (script_ops []) demo_long_building 10
        [0, 0, 0, 0, 0, 0, 0, 0, 10, 0, 3, 0] = some (b2, r2) ∧
      b2.interior = some int ∧
      int.walls0 =
          [⟨397 / 40, 403 / 40, 3 / 400, 5 / 4, 3 / 20, 57 / 20⟩,
            ⟨397 / 40, 403 / 40, 11 / 4, 3197 / 400, 3 / 20, 57 / 20⟩,
            ⟨77 / 32, 409 / 160, 3 / 400, 5 / 4, 3 / 20, 57 / 20⟩,
            ⟨77 / 32, 409 / 160, 11 / 4, 3197 / 400, 3 / 20, 57 / 20⟩,
            ⟨2797 / 160, 2821 / 160, 3 / 400, 5 / 4, 3 / 20, 57 / 20⟩,
            ⟨2797 / 160, 2821 / 160, 11 / 4, 3197 / 400, 3 / 20, 57 / 20⟩,
            ⟨3911 / 320, 3959 / 320, 3 / 400, 5 / 4, 3 / 20, 57 / 20⟩,
            ⟨3911 / 320, 3959 / 320, 11 / 4, 3197 / 400, 3 / 20, 57 / 20⟩,
            ⟨751487 / 32000, 756287 / 32000, 3 / 400, 5 / 4, 3 / 20, 57 / 20⟩,
            ⟨751487 / 32000, 756287 / 32000, 11 / 4, 3197 / 400, 3 / 20, 57 / 20⟩] ∧
      int.rooms = [⟨0, 397 / 40, 0, 8, 0, 3⟩, ⟨403 / 40, 2797 / 160, 0, 8, 0, 3⟩,
        ⟨2821 / 160, 40, 0, 8, 0, 3⟩] := by
  have hc : demo_long_building.has_chimney = false := rfl
  have hn : demo_long_building.num_sides = 4 := rfl
  have ha : demo_long_building.mat.add_windows = true := rfl
  have hd : demo_long_building.hallway_dim = 2 := rfl
  obtain ⟨st, hst, h1, h2, h3, h4⟩ := gen_interior_parts_demo_long 5
  simp only [demo_interior_state] at hst
  unfold gen_interior
  simp only [demo_env_interiors, demo_env_inf_terrain, demo_env_windows, demo_env_is_cube,
    demo_long_parts, hc, hn, ha, hd, Bool.not_true, Bool.false_eq_true, if_false,
    beq_self_eq_true, List.length_cons, List.length_nil, Bool.toNat_false, List.take]
  rw [hst]
  simp only [h1, h2, Bool.not_false, if_true]
  rw [gen_interior_extra_doors_short _ _ _ _ _ _ (by
    rw [h3, demo_long_dims]
    intro wall hwall
    simp only [List.mem_cons, List.mem_singleton, List.not_mem_nil, or_false] at hwall
    rcases hwall with rfl | rfl | rfl | rfl | rfl | rfl | rfl | rfl | rfl | rfl <;>
      norm_num [cube_t.d]) 10 0 (by rw [h3]; simp)]
  simp only []
  rw [gen_interior_extra_doors, if_pos (by simp)]
  exact ⟨_, _, _, rfl, rfl, h3, h4⟩

/-- C25, as the code has it: `gen_interior` on the building with the single part
`[0,40] x [0,8] x [0,3]` (floor spacing 3, window spacing 1/2 along x) and the draws
`0,0,0,0,0,0,0,0,10,0,3,0`. The region `[403/40, 2797/160] x [0,8]` reaches both faces `y = 0`
and `y = 8` of the part but neither face `x = 0` nor `x = 40`, so `on_edge` is false for its
split along x; the interior has a wall split at `wall_pos = 787/64` whose end lies
`wall_edge_spacing` from the face `y = 0`, and `787/64` is inside a window bay of that face. -/
theorem gen_interior_wall_inside_window :
    ∃ b2 r2 int wall, gen_interior (demo_env 0 1 true) (script_ops []) demo_long_building 10
        [0, 0, 0, 0, 0, 0, 0, 0, 10, 0, 3, 0] = some (b2, r2) ∧
      b2.interior = some int ∧ wall ∈ int.walls0 ∧
      (⟨403 / 40, 2797 / 160, 0, 8, 0, 3⟩ : cube_t) ∈ int.rooms ∧
      wall.x1 = 787 / 64 - (interior_dims.of (demo_env 0 1 true) demo_long_building).wall_half_thick ∧
      wall.x2 = 787 / 64 + (interior_dims.of (demo_env 0 1 true) demo_long_building).wall_half_thick ∧
      wall.y1 = 0 + (interior_dims.of (demo_env 0 1 true) demo_long_building).wall_edge_spacing ∧
      is_val_inside_window (demo_env 0 1 true) ⟨0, 40, 0, 8, 0, 3⟩ false (787 / 64) (1 / 2)
        (interior_dims.of (demo_env 0 1 true) demo_long_building).window_border = true := by
  obtain ⟨b2, r2, int, h, hi, hw, hr⟩ := gen_interior_demo_long
  refine ⟨b2, r2, int, ⟨3911 / 320, 3959 / 320, 3 / 400, 5 / 4, 3 / 20, 57 / 20⟩, h, hi,
    by rw [hw]; simp, by rw [hr]; simp, ?_, ?_, ?_, ?_⟩
  all_goals rw [demo_long_dims]
  all_goals norm_num [is_val_inside_window, demo_env_fract, cube_t.d]

/-! ### C34: the nine shape codes of `split_in_xy` -/

/-- The boxes that `split_in_xy` appends for the shape code `shape`, written with the split
coordinates `dpos`, `dpos2`, `spos1`, `spos2` (lines 31-64). -/
theorem split_in_xy_body_eq (parts : List cube_t) (seed : cube_t) (shape : Nat) (dim dir : Bool)
    (div s1 s2 : ℚ) (hs : shape < 9) :
    split_in_xy_body parts seed shape dim dir div s1 s2 = some (parts ++
      (if shape = 0 then
        [seed.set dim.toNat dir (seed.get_llc.get dim.toNat + div * seed.get_size.get dim.toNat),
          (seed.set dim.toNat (!dir)
            (seed.get_llc.get dim.toNat + div * seed.get_size.get dim.toNat)).set
            (!dim).toNat false
            (seed.get_llc.get (!dim).toNat + s1 * seed.get_size.get (!dim).toNat)]
      else if shape = 1 then
        [seed.set dim.toNat dir (seed.get_llc.get dim.toNat + div * seed.get_size.get dim.toNat),
          (seed.set dim.toNat (!dir)
            (seed.get_llc.get dim.toNat + div * seed.get_size.get dim.toNat)).set
            (!dim).toNat false
            (seed.get_llc.get (!dim).toNat + s2 * seed.get_size.get (!dim).toNat)]
      else if shape = 2 then
        [seed.set dim.toNat dir (seed.get_llc.get dim.toNat + div * seed.get_size.get dim.toNat),
          (seed.set dim.toNat (!dir)
            (seed.get_llc.get dim.toNat + div * seed.get_size.get dim.toNat)).set
            (!dim).toNat true
            (seed.get_llc.get (!dim).toNat + s1 * seed.get_size.get (!dim).toNat)]
      else if shape = 3 then
        [seed.set dim.toNat dir (seed.get_llc.get dim.toNat + div * seed.get_size.get dim.toNat),
          (seed.set dim.toNat (!dir)
            (seed.get_llc.get dim.toNat + div * seed.get_size.get dim.toNat)).set
            (!dim).toNat true
            (seed.get_llc.get (!dim).toNat + s2 * seed.get_size.get (!dim).toNat)]
      else if shape = 4 ∨ shape = 5 then
        [seed.set dim.toNat dir (seed.get_llc.get dim.toNat + div * seed.get_size.get dim.toNat),
          ((seed.set dim.toNat (!dir)
            (seed.get_llc.get dim.toNat + div * seed.get_size.get dim.toNat)).set
            (!dim).toNat false
            (seed.get_llc.get (!dim).toNat + s1 * seed.get_size.get (!dim).toNat)).set
            (!dim).toNat true
            (seed.get_llc.get (!dim).toNat + s2 * seed.get_size.get (!dim).toNat)]
      else if shape = 6 then
        [seed.set dim.toNat dir (seed.get_llc.get dim.toNat + div * seed.get_size.get dim.toNat),
          (seed.set dim.toNat (!dir)
            (seed.get_llc.get dim.toNat + div * seed.get_size.get dim.toNat)).set
            (!dim).toNat true
            (seed.get_llc.get (!dim).toNat + s1 * seed.get_size.get (!dim).toNat),
          (seed.set dim.toNat (!dir)
            (seed.get_llc.get dim.toNat + div * seed.get_size.get dim.toNat)).set
            (!dim).toNat false
            (seed.get_llc.get (!dim).toNat + s2 * seed.get_size.get (!dim).toNat)]
      else if shape = 7 then
        [seed.set dim.toNat dir (seed.get_llc.get dim.toNat + div * seed.get_size.get dim.toNat),
          (((seed.set dim.toNat (!dir)
            (seed.get_llc.get dim.toNat + div * seed.get_size.get dim.toNat)).set dim.toNat dir
            (seed.get_llc.get dim.toNat + (1 - div) * seed.get_size.get dim.toNat)).set
            (!dim).toNat false
            (seed.get_llc.get (!dim).toNat + s1 * seed.get_size.get (!dim).toNat)).set
            (!dim).toNat true
            (seed.get_llc.get (!dim).toNat + s2 * seed.get_size.get (!dim).toNat),
          seed.set dim.toNat (!dir)
            (seed.get_llc.get dim.toNat + (1 - div) * seed.get_size.get dim.toNat)]
      else
        [((seed.set dim.toNat dir
            (seed.get_llc.get dim.toNat + div * seed.get_size.get dim.toNat)).set
            (!dim).toNat false
            (seed.get_llc.get (!dim).toNat + s1 * seed.get_size.get (!dim).toNat)).set
            (!dim).toNat true
            (seed.get_llc.get (!dim).toNat + s2 * seed.get_size.get (!dim).toNat),
          (seed.set dim.toNat (!dir)
            (seed.get_llc.get dim.toNat + div * seed.get_size.get dim.toNat)).set dim.toNat dir
            (seed.get_llc.get dim.toNat + (1 - div) * seed.get_size.get dim.toNat),
          ((seed.set (!dim).toNat false
            (seed.get_llc.get (!dim).toNat + s1 * seed.get_size.get (!dim).toNat)).set
            (!dim).toNat true
            (seed.get_llc.get (!dim).toNat + s2 * seed.get_size.get (!dim).toNat)).set
            dim.toNat (!dir)
            (seed.get_llc.get dim.toNat + (1 - div) * seed.get_size.get dim.toNat)])) := by
  interval_cases shape <;> rfl

theorem cube_t.d_set_false_true2 (c : cube_t) (d : Bool) (v w : ℚ) :
    ((c.set d.toNat false v).set d.toNat true w).d d.toNat false = v := by
  cases d <;> rfl

theorem split_sig_distinct (parts : List cube_t) (seed : cube_t) (dim dir : Bool)
    (div s1 s2 : ℚ) (hsz : seed.d (!dim).toNat false < seed.d (!dim).toNat true)
    (h1 : 0 < s1) (h12 : s1 < s2) (h2 : s2 < 1) (i j : Nat) (hi : i < 9) (hj : j < 9)
    (h : split_in_xy_body parts seed i dim dir div s1 s2
      = split_in_xy_body parts seed j dim dir div s1 s2) :
    i = j ∨ (i = 4 ∧ j = 5) ∨ (i = 5 ∧ j = 4) := by
  have hl : seed.get_llc.get (!dim).toNat = seed.d (!dim).toNat false := by cases dim <;> rfl
  have hg : seed.get_size.get (!dim).toNat
      = seed.d (!dim).toNat true - seed.d (!dim).toNat false := by cases dim <;> rfl
  have e1 : seed.d (!dim).toNat false
      < seed.get_llc.get (!dim).toNat + s1 * seed.get_size.get (!dim).toNat := by
    rw [hl, hg]; nlinarith
  have e2 : seed.get_llc.get (!dim).toNat + s1 * seed.get_size.get (!dim).toNat
      < seed.get_llc.get (!dim).toNat + s2 * seed.get_size.get (!dim).toNat := by
    rw [hl, hg]; nlinarith
  have e3 : seed.get_llc.get (!dim).toNat + s2 * seed.get_size.get (!dim).toNat
      < seed.d (!dim).toNat true := by
    rw [hl, hg]; nlinarith
  rw [split_in_xy_body_eq _ _ _ _ _ _ _ _ hi, split_in_xy_body_eq _ _ _ _ _ _ _ _ hj] at h
  generalize seed.get_llc.get (!dim).toNat + s1 * seed.get_size.get (!dim).toNat = spos1
    at h e1 e2
  generalize seed.get_llc.get (!dim).toNat + s2 * seed.get_size.get (!dim).toNat = spos2
    at h e2 e3
  generalize seed.get_llc.get dim.toNat + div * seed.get_size.get dim.toNat = dpos at h
  generalize seed.get_llc.get dim.toNat + (1 - div) * seed.get_size.get dim.toNat = dpos2 at h
  have h0 := List.append_cancel_left (Option.some.inj h)
  have ha := congrArg (fun l : List cube_t => (l.getD 1 cube_t.zero).d (!dim).toNat false) h0
  have hb := congrArg (fun l : List cube_t => (l.getD 1 cube_t.zero).d (!dim).toNat true) h0
  have hc := congrArg List.length h0
  clear h h0
  by_contra hne
  interval_cases i <;> interval_cases j <;> simp at hne <;>
    simp [cube_t.d_set_same, cube_t.d_set_other_dim2, cube_t.d_set_other_dim,
      cube_t.d_set_true_false, cube_t.d_set_false_true, cube_t.d_set_false_true2] at ha hb hc <;>
    linarith

/-- C34, as the code has it: for the seed box `[0,10] x [0,10] x [0,8]`, `dim = x`, `dir = +`,
`div = 0.3`, `s1 = 0.25`, `s2 = 0.7` the shape codes 4 and 5 give the same part list (one and
the same T footprint): the switch has a single branch `case 4: case 5:`. -/
theorem split_in_xy_codes_4_5_same :
    split_in_xy_body [] ⟨0, 10, 0, 10, 0, 8⟩ 4 false true (3 / 10) (1 / 4) (7 / 10)
        = some [⟨0, 3, 0, 10, 0, 8⟩, ⟨3, 10, 5 / 2, 7, 0, 8⟩] ∧
      split_in_xy_body [] ⟨0, 10, 0, 10, 0, 8⟩ 5 false true (3 / 10) (1 / 4) (7 / 10)
        = some [⟨0, 3, 0, 10, 0, 8⟩, ⟨3, 10, 5 / 2, 7, 0, 8⟩] := by
  constructor <;>
  · simp only [split_in_xy_body, cube_t.set, cube_t.get_llc, cube_t.get_size, point.get,
      Bool.toNat, cond, Bool.not_false, Bool.not_true, List.nil_append, Option.some.injEq,
      List.cons.injEq, cube_t.mk.injEq, and_true]
    norm_num

/-- C34 (amended): for a seed box with positive extents in x and y, fixed `dim`, `dir`, `div`
and fractions `0 < s1 < s2 < 1`, two shape codes below 9 give the same part list if and only if
they are equal or are the codes 4 and 5; so the nine codes give eight pairwise different lists
(codes 0-3: L, 4 and 5: the same T, 6: U, 7: H, 8: +). The codes 0-5 append two boxes, the codes
6-8 three. -/
theorem split_in_xy_shape_codes (parts : List cube_t) (seed : cube_t) (dim dir : Bool)
    (div s1 s2 : ℚ) (hx : seed.x1 < seed.x2) (hy : seed.y1 < seed.y2)
    (h1 : 0 < s1) (h12 : s1 < s2) (h2 : s2 < 1) :
    (∀ i j : Nat, i < 9 → j < 9 →
      (split_in_xy_body parts seed i dim dir div s1 s2
          = split_in_xy_body parts seed j dim dir div s1 s2
        ↔ i = j ∨ (i = 4 ∧ j = 5) ∨ (i = 5 ∧ j = 4))) ∧
    (∀ i : Nat, i < 9 → ∃ new, split_in_xy_body parts seed i dim dir div s1 s2
        = some (parts ++ new) ∧ new.length = if i < 6 then 2 else 3) := by
  have hsz : seed.d (!dim).toNat false < seed.d (!dim).toNat true := by
    cases dim
    · exact hy
    · exact hx
  constructor
  · intro i j hi hj
    constructor
    · exact split_sig_distinct parts seed dim dir div s1 s2 hsz h1 h12 h2 i j hi hj
    · rintro (rfl | ⟨rfl, rfl⟩ | ⟨rfl, rfl⟩) <;> rfl
  · intro i hi
    refine ⟨_, split_in_xy_body_eq parts seed i dim dir div s1 s2 hi, ?_⟩
    interval_cases i <;> rfl

/-- C34 (amended) at the seed box `[0,10] x [0,10] x [0,8]`: the codes 0 and 1 differ. -/
theorem split_in_xy_shape_codes_witness :
    (⟨0, 10, 0, 10, 0, 8⟩ : cube_t).x1 < (⟨0, 10, 0, 10, 0, 8⟩ : cube_t).x2 ∧
    ((0 : ℚ) < 1 / 4 ∧ (1 / 4 : ℚ) < 7 / 10 ∧ (7 / 10 : ℚ) < 1) ∧
    (split_in_xy_body [] ⟨0, 10, 0, 10, 0, 8⟩ 0 false true (3 / 10) (1 / 4) (7 / 10)
        = split_in_xy_body [] ⟨0, 10, 0, 10, 0, 8⟩ 1 false true (3 / 10) (1 / 4) (7 / 10)
      ↔ 0 = 1 ∨ (0 = 4 ∧ 1 = 5) ∨ (0 = 5 ∧ 1 = 4)) :=
  ⟨by norm_num, by norm_num,
    (split_in_xy_shape_codes [] ⟨0, 10, 0, 10, 0, 8⟩ false true (3 / 10) (1 / 4) (7 / 10)
      (by norm_num) (by norm_num) (by norm_num) (by norm_num) (by norm_num)).1 0 1
      (by norm_num) (by norm_num)⟩

/-! ### C35: the slabs of a part of whole floors -/

theorem round_fp_whole_minus_tenth (k : Nat) (hk : 1 ≤ k) :
    round_fp ((k : ℚ) - 1 / 10) = (k : ℤ) := by
  have hk1 : (1 : ℚ) ≤ (k : ℚ) := by exact_mod_cast hk
  have hpos : (k : ℚ) - 1 / 10 > 0 := by linarith
  simp only [round_fp, hpos, if_true]
  rw [Int.floor_eq_iff]
  push_cast
  constructor <;> linarith

theorem calc_num_floors_whole (p : cube_t) (S : ℚ) (k : Nat) (hS : 0 < S) (hk1 : 1 ≤ k)
    (hk : k ≤ 100) (hp : p.dz = (k : ℚ) * S) :
    calc_num_floors p S ((1 / 10) * S) = some k := by
  have hk1q : (1 : ℚ) ≤ (k : ℚ) := by exact_mod_cast hk1
  have hz : p.dz - (1 / 10) * S > 0 := by rw [hp]; nlinarith
  have hq : (p.dz - (1 / 10) * S) / S = (k : ℚ) - 1 / 10 := by
    rw [hp]; field_simp; ring
  have hmod : ((k : ℤ) % 4294967296).toNat = k := by
    rw [Int.emod_eq_of_lt (by omega) (by omega)]
    simp
  simp only [calc_num_floors, hz, if_true, hq, round_fp_whole_minus_tenth k hk1, hmod, hk]

/-- C35, as the code has it: a part of height `101 * S` (here `S = 1`) is a part of whole
floors, but `calc_num_floors` does not return 101: its sanity check `num_floors <= 100` fails,
and no slab is emitted. -/
theorem calc_num_floors_whole_sanity_check :
    (⟨0, 1, 0, 1, 0, 101⟩ : cube_t).dz = ((101 : Nat) : ℚ) * 1 ∧
      calc_num_floors ⟨0, 1, 0, 1, 0, 101⟩ 1 ((1 / 10) * 1) = none ∧
      gen_interior_part_slabs ⟨0, 1, 0, 1, 0, 101⟩ 1 ([], []) = none := by
  have hc : calc_num_floors ⟨0, 1, 0, 1, 0, 101⟩ 1 ((1 / 10) * 1) = none := by
    simp only [calc_num_floors, round_fp]
    norm_num [cube_t.dz]
  refine ⟨by norm_num [cube_t.dz], hc, ?_⟩
  simp only [gen_interior_part_slabs, hc]

/-- C35 (amended): for floor spacing `S > 0`, slab thickness `0.1*S` and a part of height
exactly `k*S` with `1 <= k <= 100`, `calc_num_floors` returns `k`, the part's iteration of
`gen_interior` appends `k` ceiling slabs and `k` floor slabs, the first floor slab starts at the
part's `z1` and the top face of the last ceiling slab is the part's `z2`. -/
theorem gen_interior_slabs_fill_part (p : cube_t) (S : ℚ) (cs fs : List cube_t) (k : Nat)
    (hS : 0 < S) (hk1 : 1 ≤ k) (hk : k ≤ 100) (hp : p.dz = (k : ℚ) * S) :
    calc_num_floors p S ((1 / 10) * S) = some k ∧
      ∃ ceilings floors,
        gen_interior_part_slabs p S (cs, fs) = some (cs ++ ceilings, fs ++ floors) ∧
        gen_interior_slab_loop p k S ((1 / 2) * ((1 / 10) * S)) (k + 1) 0 p.z1 (cs, fs)
          = (cs ++ ceilings, fs ++ floors) ∧
        ceilings.length = k ∧ floors.length = k ∧
        floors.head?.map (fun c => c.z1) = some p.z1 ∧
        ceilings.getLast?.map (fun c => c.z2) = some p.z2 := by
  have hcalc := calc_num_floors_whole p S k hS hk1 hk hp
  obtain ⟨j, rfl⟩ : ∃ j, k = j + 1 := ⟨k - 1, by omega⟩
  refine ⟨hcalc, _, _, ?_, gen_interior_slab_loop_eq p (j + 1) S _ cs fs, ?_, ?_, ?_, ?_⟩
  · simp only [gen_interior_part_slabs, hcalc]
    rw [gen_interior_slab_loop_eq]
  · simp
  · simp
  · simp [List.range'_succ]
  · have hz : p.z2 = p.z1 + ((j : ℚ) + 1) * S := by
      have := hp
      simp only [cube_t.dz] at this
      push_cast at this
      linarith
    rw [List.range'_concat]
    simp [hz, add_comm]

/-- C35 (amended) at a part of height 9 with floor spacing 3. -/
theorem gen_interior_slabs_fill_part_witness :
    (0 : ℚ) < 3 ∧ (⟨0, 1, 0, 1, 0, 9⟩ : cube_t).dz = ((3 : Nat) : ℚ) * 3 ∧
      calc_num_floors ⟨0, 1, 0, 1, 0, 9⟩ 3 ((1 / 10) * 3) = some 3 :=
  ⟨by norm_num, by norm_num [cube_t.dz],
    (gen_interior_slabs_fill_part ⟨0, 1, 0, 1, 0, 9⟩ 3 [] [] 3 (by norm_num) (by norm_num)
      (by norm_num) (by norm_num [cube_t.dz])).1⟩

/-! ### C33: the footprints of the shrinking stack -/

theorem shrink_delta_small {R G : Type} (ops : RandOps R G) (hr : ops.in_range) (sm : ℚ)
    (hsm0 : 0 ≤ sm) (hsm1 : sm ≤ 1) (n : Nat) (r : R) :
    0 ≤ (if n % 4 ≠ 0 then
          ((sm * (ops.rand_uniform (1 / 10) (4 / 10) r).1), (ops.rand_uniform (1 / 10) (4 / 10) r).2)
        else ((0 : ℚ), r)).1 ∧
      (if n % 4 ≠ 0 then
          ((sm * (ops.rand_uniform (1 / 10) (4 / 10) r).1), (ops.rand_uniform (1 / 10) (4 / 10) r).2)
        else ((0 : ℚ), r)).1 ≤ 4 / 10 := by
  have hu := hr.1 (1 / 10) (4 / 10) r (by norm_num)
  split_ifs
  · simp only
    constructor
    · exact mul_nonneg hsm0 (by linarith [hu.1])
    · have : sm * (ops.rand_uniform (1 / 10) (4 / 10) r).1 ≤ 1 * (4 / 10) :=
        mul_le_mul hsm1 hu.2 (by linarith [hu.1]) (by norm_num)
      linarith
  · simp only
    norm_num

/-- One axis of a level of the shrinking stack: when the previous level is at least
`min_edge_len` wide, the new edges stay inside the previous ones, in order, and at least
`min_edge_len` apart. -/
theorem gen_geometry_shrink_axis_width {R G : Type} (ops : RandOps R G) (hr : ops.in_range)
    (sm lo hi mel : ℚ) (rgen : R) (hsm0 : 0 ≤ sm) (hsm1 : sm ≤ 1) (hlh : lo ≤ hi)
    (hmel : mel ≤ hi - lo) :
    lo ≤ (gen_geometry_shrink_axis ops sm lo hi mel rgen).1.1 ∧
      (gen_geometry_shrink_axis ops sm lo hi mel rgen).1.1
        ≤ (gen_geometry_shrink_axis ops sm lo hi mel rgen).1.2 ∧
      (gen_geometry_shrink_axis ops sm lo hi mel rgen).1.2 ≤ hi ∧
      mel ≤ (gen_geometry_shrink_axis ops sm lo hi mel rgen).1.2
        - (gen_geometry_shrink_axis ops sm lo hi mel rgen).1.1 := by
  unfold gen_geometry_shrink_axis
  simp only
  have d0 := shrink_delta_small ops hr sm hsm0 hsm1 (ops.rand (ops.rand_bool rgen).2).1
    (ops.rand (ops.rand_bool rgen).2).2
  generalize (if (ops.rand (ops.rand_bool rgen).2).1 % 4 ≠ 0 then
      ((sm * (ops.rand_uniform (1 / 10) (4 / 10) (ops.rand (ops.rand_bool rgen).2).2).1),
        (ops.rand_uniform (1 / 10) (4 / 10) (ops.rand (ops.rand_bool rgen).2).2).2)
      else ((0 : ℚ), (ops.rand (ops.rand_bool rgen).2).2)) = p0 at d0 ⊢
  have d1 := shrink_delta_small ops hr sm hsm0 hsm1 (ops.rand p0.2).1 (ops.rand p0.2).2
  generalize (if (ops.rand p0.2).1 % 4 ≠ 0 then
      ((sm * (ops.rand_uniform (1 / 10) (4 / 10) (ops.rand p0.2).2).1),
        (ops.rand_uniform (1 / 10) (4 / 10) (ops.rand p0.2).2).2)
      else ((0 : ℚ), (ops.rand p0.2).2)) = p1 at d1 ⊢
  have hlen : 0 ≤ hi - lo := by linarith
  have a1 : lo ≤ lo + p0.1 * (hi - lo) := by
    have := mul_nonneg d0.1 hlen
    linarith
  have a2 : lo + p0.1 * (hi - lo) ≤ hi + -p1.1 * (hi - lo) := by
    have h0 : p0.1 * (hi - lo) ≤ 4 / 10 * (hi - lo) := mul_le_mul_of_nonneg_right d0.2 hlen
    have h1 : p1.1 * (hi - lo) ≤ 4 / 10 * (hi - lo) := mul_le_mul_of_nonneg_right d1.2 hlen
    linarith
  have a3 : hi + -p1.1 * (hi - lo) ≤ hi := by
    have := mul_nonneg d1.1 hlen
    linarith
  generalize lo + p0.1 * (hi - lo) = u at a1 a2 ⊢
  generalize hi + -p1.1 * (hi - lo) = v at a2 a3 ⊢
  cases (ops.rand_bool rgen).1 <;> simp only [Bool.xor_false, Bool.xor_true, Bool.not_false,
    Bool.not_true, Bool.false_xor, Bool.true_xor] <;> split_ifs <;>
    simp only [if_true, if_false, Bool.false_eq_true] at * <;>
    refine ⟨?_, ?_, ?_, ?_⟩ <;> linarith

/-- The box of one level: inside the previous level in XY, in order, and at least the minimum
edge length wide on both axes. -/
theorem gen_geometry_shrink_level_width {R G : Type} (ops : RandOps R G) (hr : ops.in_range)
    (bcube base : cube_t) (was_cube : Bool) (prev : cube_t) (rgen : R) (wx wy : ℚ)
    (hwx : wx = (2 / 10) / (if was_cube = true then 1 else 1 / 2) * (bcube.x2 - bcube.x1))
    (hwy : wy = (2 / 10) / (if was_cube = true then 1 else 1 / 2) * (bcube.y2 - bcube.y1))
    (hx : prev.x1 ≤ prev.x2) (hy : prev.y1 ≤ prev.y2)
    (hpx : wx ≤ prev.x2 - prev.x1) (hpy : wy ≤ prev.y2 - prev.y1) :
    prev.contains_cube_xy (gen_geometry_shrink_level ops bcube base was_cube (some prev) rgen).1 ∧
      (gen_geometry_shrink_level ops bcube base was_cube (some prev) rgen).1.x1
        ≤ (gen_geometry_shrink_level ops bcube base was_cube (some prev) rgen).1.x2 ∧
      (gen_geometry_shrink_level ops bcube base was_cube (some prev) rgen).1.y1
        ≤ (gen_geometry_shrink_level ops bcube base was_cube (some prev) rgen).1.y2 ∧
      wx ≤ (gen_geometry_shrink_level ops bcube base was_cube (some prev) rgen).1.x2
        - (gen_geometry_shrink_level ops bcube base was_cube (some prev) rgen).1.x1 ∧
      wy ≤ (gen_geometry_shrink_level ops bcube base was_cube (some prev) rgen).1.y2
        - (gen_geometry_shrink_level ops bcube base was_cube (some prev) rgen).1.y1 := by
  have hsm0 : (0 : ℚ) ≤ (if was_cube = true then 1 else 1 / 2) := by split_ifs <;> norm_num
  have hsm1 : (if was_cube = true then 1 else 1 / 2) ≤ (1 : ℚ) := by split_ifs <;> norm_num
  subst hwx hwy
  have ax := gen_geometry_shrink_axis_width ops hr
    (if was_cube = true then 1 else 1 / 2) prev.x1 prev.x2
    ((2 / 10) / (if was_cube = true then 1 else 1 / 2) * (bcube.x2 - bcube.x1)) rgen
    hsm0 hsm1 hx hpx
  have ay := gen_geometry_shrink_axis_width ops hr
    (if was_cube = true then 1 else 1 / 2) prev.y1 prev.y2
    ((2 / 10) / (if was_cube = true then 1 else 1 / 2) * (bcube.y2 - bcube.y1))
    (gen_geometry_shrink_axis ops (if was_cube = true then 1 else 1 / 2) prev.x1 prev.x2
      ((2 / 10) / (if was_cube = true then 1 else 1 / 2) * (bcube.x2 - bcube.x1)) rgen).2
    hsm0 hsm1 hy hpy
  simp only [gen_geometry_shrink_level, cube_t.contains_cube_xy]
  exact ⟨⟨ax.1, ax.2.2.1, ay.1, ay.2.2.1⟩, ax.2.1, ay.2.1, ax.2.2.2, ay.2.2.2⟩

theorem normalize_xy_of_le (c : cube_t) (hx : c.x1 ≤ c.x2) (hy : c.y1 ≤ c.y2) :
    c.normalize.x1 = c.x1 ∧ c.normalize.x2 = c.x2 ∧ c.normalize.y1 = c.y1 ∧
      c.normalize.y2 = c.y2 := by
  simp only [cube_t.normalize]
  exact ⟨min_eq_left hx, max_eq_right hx, min_eq_left hy, max_eq_right hy⟩

/-- The loop over the levels of the shrinking stack keeps every level inside the one below it
and at least the minimum edge length wide. -/
theorem gen_geometry_shrink_levels_chain {R G : Type} (ops : RandOps R G) (hr : ops.in_range)
    (bcube base : cube_t) (was_cube : Bool) (dz : ℚ) (wx wy : ℚ)
    (hwx : wx = (2 / 10) / (if was_cube = true then 1 else 1 / 2) * (bcube.x2 - bcube.x1))
    (hwy : wy = (2 / 10) / (if was_cube = true then 1 else 1 / 2) * (bcube.y2 - bcube.y1))
    (hbase : base.x1 ≤ base.x2 ∧ base.y1 ≤ base.y2 ∧ wx ≤ base.x2 - base.x1 ∧
      wy ≤ base.y2 - base.y1) :
    ∀ (k : Nat) (done : List cube_t) (rgen : R),
      done.Chain' (fun a c => a.contains_cube_xy c) →
      (∀ c ∈ done, c.x1 ≤ c.x2 ∧ c.y1 ≤ c.y2 ∧ wx ≤ c.x2 - c.x1 ∧ wy ≤ c.y2 - c.y1) →
      (gen_geometry_shrink_levels ops bcube base was_cube dz k done rgen).1.length
          = done.length + k ∧
      (gen_geometry_shrink_levels ops bcube base was_cube dz k done rgen).1.Chain'
          (fun a c => a.contains_cube_xy c) ∧
        ∀ c ∈ (gen_geometry_shrink_levels ops bcube base was_cube dz k done rgen).1,
          c.x1 ≤ c.x2 ∧ c.y1 ≤ c.y2 ∧ wx ≤ c.x2 - c.x1 ∧ wy ≤ c.y2 - c.y1 := by
  intro k
  induction k with
  | zero => intro done rgen hc hg; exact ⟨rfl, hc, hg⟩
  | succ k ih =>
    intro done rgen hc hg
    rw [gen_geometry_shrink_levels]
    simp only []
    have key : (∀ x ∈ done.getLast?, x.contains_cube_xy
          (gen_geometry_shrink_level ops bcube base was_cube done.getLast? rgen).1) ∧
        (gen_geometry_shrink_level ops bcube base was_cube done.getLast? rgen).1.x1
          ≤ (gen_geometry_shrink_level ops bcube base was_cube done.getLast? rgen).1.x2 ∧
        (gen_geometry_shrink_level ops bcube base was_cube done.getLast? rgen).1.y1
          ≤ (gen_geometry_shrink_level ops bcube base was_cube done.getLast? rgen).1.y2 ∧
        wx ≤ (gen_geometry_shrink_level ops bcube base was_cube done.getLast? rgen).1.x2
          - (gen_geometry_shrink_level ops bcube base was_cube done.getLast? rgen).1.x1 ∧
        wy ≤ (gen_geometry_shrink_level ops bcube base was_cube done.getLast? rgen).1.y2
          - (gen_geometry_shrink_level ops bcube base was_cube done.getLast? rgen).1.y1 := by
      cases hl : done.getLast? with
      | none =>
        refine ⟨by simp, ?_⟩
        show base.x1 ≤ base.x2 ∧ _
        exact hbase
      | some prev =>
        have hm : prev ∈ done := List.mem_of_getLast?_eq_some hl
        obtain ⟨g1, g2, g3, g4⟩ := hg prev hm
        obtain ⟨c1, c2⟩ := gen_geometry_shrink_level_width ops hr bcube base was_cube prev rgen
          wx wy hwx hwy g1 g2 g3 g4
        refine ⟨?_, c2⟩
        intro x hx
        simp only [Option.mem_def, Option.some.injEq] at hx
        subst hx
        exact c1
    generalize gen_geometry_shrink_level ops bcube base was_cube done.getLast? rgen = lv at key ⊢
    obtain ⟨k1, k2, k3, k4, k5⟩ := key
    obtain ⟨n1, n2, n3, n4⟩ := normalize_xy_of_le ({ lv.1 with z2 := lv.1.z1 + dz }) k2 k3
    have hstep := ih (done ++ [({ lv.1 with z2 := lv.1.z1 + dz } : cube_t).normalize]) lv.2
      (by
        refine List.Chain'.append hc (List.chain'_singleton _) ?_
        intro x hx y hy
        simp only [List.head?_cons, Option.mem_def, Option.some.injEq] at hy
        subst hy
        have := k1 x hx
        simp only [cube_t.contains_cube_xy] at this ⊢
        rw [n1, n2, n3, n4]
        exact this)
      (by
        intro c hcm
        rcases List.mem_append.1 hcm with h | h
        · exact hg c h
        · simp only [List.mem_singleton] at h
          subst h
          rw [n1, n2, n3, n4]
          exact ⟨k2, k3, k4, k5⟩)
    refine ⟨?_, hstep.2⟩
    rw [hstep.1]
    simp
    omega

/-- The z jitter and the snapping keep the XY footprints of the levels. -/
theorem gen_geometry_jitter_xy {R G : Type} (env : Env) (ops : RandOps R G)
    (mat : building_mat_t) (dz : ℚ) :
    ∀ (upper lower : List cube_t) (cur : cube_t) (rgen : R) (lower2 : List cube_t)
      (last0 : cube_t) (r2 : R),
      gen_geometry_jitter env ops mat dz lower cur upper rgen = some (lower2, last0, r2) →
      (lower2 ++ [last0]).map (fun c => (c.x1, c.x2, c.y1, c.y2))
        = (lower ++ cur :: upper).map (fun c => (c.x1, c.x2, c.y1, c.y2)) := by
  intro upper
  induction upper with
  | nil =>
    intro lower cur rgen lower2 last0 r2 h
    simp only [gen_geometry_jitter, Option.some.injEq, Prod.mk.injEq] at h
    obtain ⟨rfl, rfl, -⟩ := h
    rfl
  | cons nxt upper ih =>
    intro lower cur rgen lower2 last0 r2 h
    rw [gen_geometry_jitter] at h
    simp only [] at h
    split at h
    · exact absurd h (by simp)
    · rename_i cur1 hadj
      obtain ⟨a1, a2, a3, a4, -⟩ := adjust_part_zvals_spec _ _ _ _ hadj
      rw [ih _ _ _ _ _ _ h]
      simp [a1, a2, a3, a4]

/-- A list of boxes with the XY footprints of a nested list of boxes is nested level by level,
and the width bounds carry over. -/
theorem footprints_of_chain (ls ls2 : List cube_t) (wx wy : ℚ)
    (hc : ls.Chain' (fun a c => a.contains_cube_xy c))
    (hw : ∀ c ∈ ls, c.x1 ≤ c.x2 ∧ c.y1 ≤ c.y2 ∧ wx ≤ c.x2 - c.x1 ∧ wy ≤ c.y2 - c.y1)
    (hm : ls2.map (fun c => (c.x1, c.x2, c.y1, c.y2))
      = ls.map (fun c => (c.x1, c.x2, c.y1, c.y2))) :
    ls2.length = ls.length ∧
      (∀ i, i + 1 < ls2.length →
        (ls2.getD i cube_t.zero).contains_cube_xy (ls2.getD (i + 1) cube_t.zero)) ∧
      ∀ c ∈ ls2, wx ≤ c.x2 - c.x1 ∧ wy ≤ c.y2 - c.y1 := by
  have hl : ls2.length = ls.length := by
    have := congrArg List.length hm
    simpa using this
  have hget : ∀ i, (fun c : cube_t => (c.x1, c.x2, c.y1, c.y2)) (ls2.getD i cube_t.zero)
      = (fun c : cube_t => (c.x1, c.x2, c.y1, c.y2)) (ls.getD i cube_t.zero) := by
    intro i
    have e1 := List.getD_map ls2 cube_t.zero (n := i) (fun c : cube_t => (c.x1, c.x2, c.y1, c.y2))
    have e2 := List.getD_map ls cube_t.zero (n := i) (fun c : cube_t => (c.x1, c.x2, c.y1, c.y2))
    rw [hm] at e1
    exact e1.symm.trans e2
  refine ⟨hl, ?_, ?_⟩
  · intro i hi
    rw [hl] at hi
    have h1 := hget i
    have h2 := hget (i + 1)
    simp only [Prod.mk.injEq] at h1 h2
    have h3 := List.chain'_iff_get.1 hc i (by omega)
    rw [List.getD_eq_getElem ls cube_t.zero (by omega : i < ls.length),
      List.getD_eq_getElem ls cube_t.zero hi] at *
    simp only [cube_t.contains_cube_xy, List.get_eq_getElem] at h3 ⊢
    rw [h1.1, h1.2.1, h1.2.2.1, h1.2.2.2, h2.1, h2.2.1, h2.2.2.1, h2.2.2.2]
    exact h3
  · intro c hcm
    have h1 : (fun c : cube_t => (c.x1, c.x2, c.y1, c.y2)) c
        ∈ ls.map (fun c => (c.x1, c.x2, c.y1, c.y2)) := by
      rw [← hm]
      exact List.mem_map_of_mem _ hcm
    obtain ⟨c0, hc0, he⟩ := List.mem_map.1 h1
    simp only [Prod.mk.injEq] at he
    obtain ⟨-, -, g3, g4⟩ := hw c0 hc0
    rw [← he.1, ← he.2.1, ← he.2.2.1, ← he.2.2.2]
    exact ⟨g3, g4⟩

/-- C33: in the shrinking stack of a building whose base spans `bcube`, the XY footprint of
every level `i+1` is contained in the footprint of level `i`, and the width of every level along
x and y is at least 20% of the width of `bcube` on that axis. This holds for the `n` boxes that
the loop over the levels generates, and for the levels that the stack ends with after the z
jitter and the snapping to whole floors. -/
theorem gen_geometry_stack_footprints {R G : Type} (env : Env) (ops : RandOps R G)
    (hr : ops.in_range) (mat : building_mat_t) (bcube base : cube_t) (was_cube : Bool)
    (n : Nat) (rgen : R)
    (hx : bcube.x1 ≤ bcube.x2) (hy : bcube.y1 ≤ bcube.y2)
    (hbx : base.x1 = bcube.x1 ∧ base.x2 = bcube.x2)
    (hby : base.y1 = bcube.y1 ∧ base.y2 = bcube.y2) :
    ((gen_geometry_shrink_levels ops bcube base was_cube (base.dz / n) n [] rgen).1.length = n ∧
      (∀ i, i + 1 < n →
        ((gen_geometry_shrink_levels ops bcube base was_cube (base.dz / n) n [] rgen).1.getD i
            cube_t.zero).contains_cube_xy
          ((gen_geometry_shrink_levels ops bcube base was_cube (base.dz / n) n [] rgen).1.getD
            (i + 1) cube_t.zero)) ∧
      ∀ c ∈ (gen_geometry_shrink_levels ops bcube base was_cube (base.dz / n) n [] rgen).1,
        (2 / 10) * (bcube.x2 - bcube.x1) ≤ c.x2 - c.x1 ∧
          (2 / 10) * (bcube.y2 - bcube.y1) ≤ c.y2 - c.y1) ∧
    ∀ (lower : List cube_t) (last : cube_t) (r : R),
      gen_geometry_stack env ops mat bcube base was_cube n rgen = some (lower, last, r) →
      (lower ++ [last]).length = n ∧
      (∀ i, i + 1 < n →
        ((lower ++ [last]).getD i cube_t.zero).contains_cube_xy
          ((lower ++ [last]).getD (i + 1) cube_t.zero)) ∧
      ∀ c ∈ lower ++ [last],
        (2 / 10) * (bcube.x2 - bcube.x1) ≤ c.x2 - c.x1 ∧
          (2 / 10) * (bcube.y2 - bcube.y1) ≤ c.y2 - c.y1 := by
  have hsm : (2 / 10 : ℚ) ≤ (2 / 10) / (if was_cube = true then 1 else 1 / 2) ∧
      (2 / 10 : ℚ) / (if was_cube = true then 1 else 1 / 2) ≤ 1 := by
    split_ifs <;> norm_num
  have hWx : 0 ≤ bcube.x2 - bcube.x1 := by linarith
  have hWy : 0 ≤ bcube.y2 - bcube.y1 := by linarith
  have hbase : base.x1 ≤ base.x2 ∧ base.y1 ≤ base.y2 ∧
      (2 / 10) / (if was_cube = true then 1 else 1 / 2) * (bcube.x2 - bcube.x1)
        ≤ base.x2 - base.x1 ∧
      (2 / 10) / (if was_cube = true then 1 else 1 / 2) * (bcube.y2 - bcube.y1)
        ≤ base.y2 - base.y1 := by
    rw [hbx.1, hbx.2, hby.1, hby.2]
    refine ⟨hx, hy, ?_, ?_⟩
    · nlinarith [hsm.2, mul_le_mul_of_nonneg_right hsm.2 hWx]
    · nlinarith [hsm.2, mul_le_mul_of_nonneg_right hsm.2 hWy]
  obtain ⟨hlen, hchain, hwid⟩ := gen_geometry_shrink_levels_chain ops hr bcube base was_cube
    (base.dz / n) _ _ rfl rfl hbase n [] rgen List.chain'_nil (by simp)
  have hweak : ∀ (ls2 : List cube_t),
      ls2.map (fun c => (c.x1, c.x2, c.y1, c.y2))
        = (gen_geometry_shrink_levels ops bcube base was_cube (base.dz / n) n [] rgen).1.map
          (fun c => (c.x1, c.x2, c.y1, c.y2)) →
      ls2.length = n ∧
      (∀ i, i + 1 < n →
        (ls2.getD i cube_t.zero).contains_cube_xy (ls2.getD (i + 1) cube_t.zero)) ∧
      ∀ c ∈ ls2, (2 / 10) * (bcube.x2 - bcube.x1) ≤ c.x2 - c.x1 ∧
          (2 / 10) * (bcube.y2 - bcube.y1) ≤ c.y2 - c.y1 := by
    intro ls2 hm
    obtain ⟨f1, f2, f3⟩ := footprints_of_chain _ ls2 _ _ hchain hwid hm
    have hl : ls2.length = n := by rw [f1, hlen]; simp
    refine ⟨hl, ?_, ?_⟩
    · intro i hi
      exact f2 i (by omega)
    · intro c hcm
      obtain ⟨g1, g2⟩ := f3 c hcm
      have e1 := mul_le_mul_of_nonneg_right hsm.1 hWx
      have e2 := mul_le_mul_of_nonneg_right hsm.1 hWy
      exact ⟨le_trans e1 g1, le_trans e2 g2⟩
  refine ⟨hweak _ rfl, ?_⟩
  intro lower last r h
  apply hweak
  unfold gen_geometry_stack at h
  simp only [] at h
  by_cases hh : base.dz > 0
  · rw [if_neg (not_not.2 hh)] at h
    generalize gen_geometry_shrink_levels ops bcube base was_cube (base.dz / n) n [] rgen
      = res at h ⊢
    obtain ⟨ls, r1⟩ := res
    simp only [] at h ⊢
    cases ls with
    | nil => simp at h
    | cons first upper =>
      simp only [] at h
      split at h
      · exact absurd h (by simp)
      · rename_i lower0 last0 r3 hj
        split at h
        · exact absurd h (by simp)
        · rename_i last1 hadj
          simp only [Option.some.injEq, Prod.mk.injEq] at h
          obtain ⟨rfl, rfl, -⟩ := h
          have hxy := gen_geometry_jitter_xy env ops mat (base.dz / n) upper [] first r1
            lower0 last0 r3 hj
          obtain ⟨a1, a2, a3, a4, -⟩ := adjust_part_zvals_spec _ _ _ _ hadj
          rw [← List.nil_append (first :: upper), ← hxy]
          simp [a1, a2, a3, a4]
  · rw [if_pos hh] at h
    exact absurd h (by simp)

/-- The three levels of a stack on the box `[0,10]³` (every draw of the scripted source is 0,
so no edge moves): each footprint is the one below it and every width is 10 ≥ 2. -/
theorem gen_geometry_stack_footprints_witness :
    (⟨0, 10, 0, 10, 0, 10⟩ : cube_t).x1 ≤ (⟨0, 10, 0, 10, 0, 10⟩ : cube_t).x2 ∧
      gen_geometry_stack (demo_env 0 1 false) (script_ops []) demo_mat ⟨0, 10, 0, 10, 0, 10⟩
          ⟨0, 10, 0, 10, 0, 10⟩ true 3 []
        = some ([⟨0, 10, 0, 10, 0, 3⟩, ⟨0, 10, 0, 10, 3, 6⟩], ⟨0, 10, 0, 10, 6, 9⟩, []) ∧
      ∀ c ∈ [(⟨0, 10, 0, 10, 0, 3⟩ : cube_t), ⟨0, 10, 0, 10, 3, 6⟩] ++ [⟨0, 10, 0, 10, 6, 9⟩],
        (2 / 10) * ((⟨0, 10, 0, 10, 0, 10⟩ : cube_t).x2 - (⟨0, 10, 0, 10, 0, 10⟩ : cube_t).x1)
            ≤ c.x2 - c.x1 ∧
          (2 / 10) * ((⟨0, 10, 0, 10, 0, 10⟩ : cube_t).y2 - (⟨0, 10, 0, 10, 0, 10⟩ : cube_t).y1)
            ≤ c.y2 - c.y1 :=
  ⟨by norm_num, gen_geometry_stack_demo,
    ((gen_geometry_stack_footprints (demo_env 0 1 false) (script_ops []) (script_ops_in_range [])
      demo_mat ⟨0, 10, 0, 10, 0, 10⟩ ⟨0, 10, 0, 10, 0, 10⟩ true 3 [] (by norm_num) (by norm_num)
      ⟨rfl, rfl⟩ ⟨rfl, rfl⟩).2 _ _ _ gen_geometry_stack_demo).2.2⟩

/-! ### C38: the heights of the boxes handed to `adjust_part_zvals_for_floor_spacing` -/

theorem sum_dz_ge_of_whole_floors (S : ℚ) (hS : 0 < S) :
    ∀ (l : List cube_t), (∀ p ∈ l, p.whole_floors S) →
      (l.length : ℚ) * S ≤ (l.map cube_t.dz).sum := by
  intro l
  induction l with
  | nil => intro _; simp
  | cons a l ih =>
    intro h
    obtain ⟨k, hk, hd⟩ := h a (List.mem_cons_self _ _)
    have h2 := ih (fun p hp => h p (List.mem_cons_of_mem _ hp))
    have hk1 : (1 : ℚ) ≤ k := by exact_mod_cast hk
    simp only [List.length_cons, List.map_cons, List.sum_cons, Nat.cast_add, Nat.cast_one]
    rw [hd]
    nlinarith

/-- A shrinking stack with fewer than one floor spacing of height per level below the last one
fails an `assert`, whatever the random source returns: the levels below the last are snapped to
at least one floor each, and the last level is left without height. -/
theorem gen_geometry_stack_short_none {R G : Type} (env : Env) (ops : RandOps R G)
    (mat : building_mat_t) (bcube base : cube_t) (wc : Bool) (n : Nat) (rgen : R)
    (hE : env.EXACT_MULT_FLOOR_HEIGHT = true)
    (hshort : base.dz ≤ ((n : ℚ) - 1) * mat.floor_spacing) :
    gen_geometry_stack env ops mat bcube base wc n rgen = none := by
  cases h : gen_geometry_stack env ops mat bcube base wc n rgen with
  | none => rfl
  | some res =>
    exfalso
    obtain ⟨lower, last, r⟩ := res
    obtain ⟨hlen, hdz, hwf, hsum, hex, -⟩ :=
      gen_geometry_stack_core env ops mat bcube base wc n rgen r lower last h
    obtain ⟨hS, hlast, -⟩ := hex hE
    have hw := sum_dz_ge_of_whole_floors mat.floor_spacing hS lower
      (fun p hp => hwf hE p (List.mem_append_left _ hp))
    simp only [List.map_append, List.sum_append, List.map_cons, List.map_nil, List.sum_cons,
      List.sum_nil, add_zero] at hsum
    have hl : (lower.length : ℚ) = (n : ℚ) - 1 := by
      rw [← hlen]
      push_cast
      ring
    rw [hl] at hw
    simp only [cube_t.dz] at hsum hshort hdz
    linarith

/-- C38 (the code at the failing input): a stack of two levels on a base `[0,10]² × [0,3]` with
floor spacing 3 (snapping to whole floors enabled). Level 0 is snapped up to one whole floor
`[0,3]`, level 1 becomes `[3,3]`, and `adjust_part_zvals_for_floor_spacing` receives a box
without height: the `assert(dz > 0.0 ...)` fails for every sequence of random draws. -/
theorem gen_geometry_stack_zero_height_level (l : List Nat) :
    (⟨0, 10, 0, 10, 0, 3⟩ : cube_t).dz > 0 ∧ demo_mat.floor_spacing > 0 ∧
      gen_geometry_stack (demo_env 0 1 false) (script_ops l) demo_mat ⟨0, 10, 0, 10, 0, 3⟩
        ⟨0, 10, 0, 10, 0, 3⟩ true 2 [] = none ∧
      adjust_part_zvals_for_floor_spacing true 3 ⟨0, 10, 0, 10, 3, 3⟩ = none := by
  refine ⟨by norm_num [cube_t.dz], by norm_num [demo_mat], ?_, ?_⟩
  · apply gen_geometry_stack_short_none _ _ _ _ _ _ _ _ (demo_env_exact _ _ _)
    norm_num [cube_t.dz, demo_mat]
  · norm_num [adjust_part_zvals_for_floor_spacing, cube_t.dz]

/-! ### C37: the `assert` of the overlapping-levels branch -/

/-- With a minimum inset of at least half the base width on both sides, no candidate box of the
10-attempt loop has a positive width: the first attempt fails the
`assert(bc.is_strictly_normalized())`, whatever the random source returns. -/
theorem gen_geometry_overlap_tries_none {R G : Type} (ops : RandOps R G) (base : cube_t)
    (mem : ℚ) (prev : List cube_t) (n : Nat) (bc : cube_t) (rgen : R)
    (hm : 1 / 2 ≤ mem) (hx : base.x1 ≤ base.x2) :
    gen_geometry_overlap_tries ops base base.get_size mem prev (n + 1) bc rgen = none := by
  simp only [gen_geometry_overlap_tries]
  rw [if_pos]
  simp only [cube_t.is_strictly_normalized, cube_t.get_size, not_and_or, not_lt]
  left
  have h1 := le_max_right (ops.rand_uniform (-(2 / 10)) (45 / 100) rgen).1 mem
  have h2 := le_max_right (ops.rand_uniform (-(2 / 10)) (45 / 100)
    (ops.rand_uniform (-(2 / 10)) (45 / 100) rgen).2).1 mem
  have hw : 0 ≤ base.x2 - base.x1 := by linarith
  nlinarith [mul_le_mul_of_nonneg_right (le_trans hm h1) hw,
    mul_le_mul_of_nonneg_right (le_trans hm h2) hw]

/-- For a `no_city` material the loop over the levels cannot get past level 13. -/
theorem gen_geometry_overlap_levels_none {R G : Type} (env : Env) (ops : RandOps R G)
    (mat : building_mat_t) (base : cube_t) (dz : ℚ) (hnc : mat.no_city = true)
    (hx : base.x1 ≤ base.x2) :
    ∀ (k : Nat) (done : List cube_t) (rgen : R), 14 ≤ done.length + k → done.length ≤ 13 →
      gen_geometry_overlap_levels env ops mat base dz k done rgen = none := by
  intro k
  induction k with
  | zero => intro done rgen h1 h2; omega
  | succ k ih =>
    intro done rgen h1 h2
    simp only [gen_geometry_overlap_levels]
    split
    · rfl
    rename_i bc2 hadj
    by_cases h13 : done.length = 13
    · rw [gen_geometry_overlap_tries_none ops base _ done 9 bc2 _ (by rw [h13]; simp [hnc]; norm_num)
        hx]
    · split
      · rfl
      rename_i bc3 rgen2 htries
      apply ih
      · simp only [List.length_append, List.length_singleton]; omega
      · simp only [List.length_append, List.length_singleton]; omega

/-- C37 (the code at the failing input): the overlapping-levels branch for a `no_city` material
with 14 levels on the base `[0,10]² × [0,42]`. At level 13 the minimum inset is `0.04*13 = 0.52`
of the width on both sides, every candidate box has the negative width `-0.04 * 10`, and the
`assert(bc.is_strictly_normalized())` fails for every sequence of random draws. -/
theorem gen_geometry_overlap_level_13_fails (l : List Nat) (prev : List cube_t) (bc : cube_t) :
    demo_no_city_mat.no_city = true ∧
      gen_geometry_overlap_tries (script_ops l) ⟨0, 10, 0, 10, 0, 42⟩
        (⟨0, 10, 0, 10, 0, 42⟩ : cube_t).get_size ((4 / 100) * ((13 : Nat) : ℚ)) prev 10 bc l
        = none ∧
      gen_geometry_overlap_levels (demo_env 0 1 false) (script_ops l) demo_no_city_mat
        ⟨0, 10, 0, 10, 0, 42⟩ ((⟨0, 10, 0, 10, 0, 42⟩ : cube_t).dz / 14) 14 [] l = none :=
  ⟨rfl,
    gen_geometry_overlap_tries_none (script_ops l) ⟨0, 10, 0, 10, 0, 42⟩ _ prev 9 bc l
      (by norm_num) (by norm_num),
    gen_geometry_overlap_levels_none (demo_env 0 1 false) (script_ops l) demo_no_city_mat
      ⟨0, 10, 0, 10, 0, 42⟩ _ rfl (by norm_num) 14 [] l (by simp) (by simp)⟩

/-! ### C36: `check_bcube_overlap_xy` is symmetric -/

/-- C36: when the box test `cube_t::intersects` is symmetric, `check_bcube_overlap_xy` gives the
same answer with the two buildings exchanged, for every relative and absolute expansion; and
for two unrotated buildings with zero expansion the answer is whether the bounding boxes
intersect. -/
theorem check_bcube_overlap_xy_symm (env : Env)
    (hsym : ∀ x y : cube_t, env.cube_intersects x y = env.cube_intersects y x)
    (a b : building_t) (expand_rel expand_abs : ℚ) :
    check_bcube_overlap_xy env a b expand_rel expand_abs
        = check_bcube_overlap_xy env b a expand_rel expand_abs ∧
      (env.is_rotated a = false → env.is_rotated b = false →
        check_bcube_overlap_xy env a b 0 0 = env.cube_intersects a.bcube b.bcube) := by
  constructor
  · unfold check_bcube_overlap_xy
    rw [hsym b.bcube a.bcube]
    by_cases h1 : (expand_rel = 0 ∧ expand_abs = 0 ∧ env.cube_intersects a.bcube b.bcube = false)
    · rw [if_pos h1, if_pos h1]
    · rw [if_neg h1, if_neg h1]
      by_cases h2 : (env.is_rotated a = false ∧ env.is_rotated b = false)
      · rw [if_pos h2, if_pos h2.symm]
      · have h2s : ¬ (env.is_rotated b = false ∧ env.is_rotated a = false) := fun h => h2 h.symm
        rw [if_neg h2, if_neg h2s]
        by_cases h3 : (b.bcube.contains_pt_xy a.bcube.get_cube_center ∨
            a.bcube.contains_pt_xy b.bcube.get_cube_center)
        · rw [if_pos h3, if_pos h3.symm]
        · have h3s : ¬ (a.bcube.contains_pt_xy b.bcube.get_cube_center ∨
              b.bcube.contains_pt_xy a.bcube.get_cube_center) := fun h => h3 h.symm
          rw [if_neg h3, if_neg h3s, Bool.or_comm]
  · intro ha hb
    unfold check_bcube_overlap_xy
    cases hi : env.cube_intersects a.bcube b.bcube <;> simp [ha, hb]

/-- Two unrotated boxes `[0,10]³` and `[5,15]² × [0,10]`: the test is symmetric and true, as the
boxes intersect. -/
theorem check_bcube_overlap_xy_symm_witness :
    (∀ x y : cube_t, (demo_env 0 1 false).cube_intersects x y
        = (demo_env 0 1 false).cube_intersects y x) ∧
      check_bcube_overlap_xy (demo_env 0 1 false) (demo_building ⟨0, 10, 0, 10, 0, 10⟩)
          (demo_building ⟨5, 15, 5, 15, 0, 10⟩) 0 0
        = check_bcube_overlap_xy (demo_env 0 1 false) (demo_building ⟨5, 15, 5, 15, 0, 10⟩)
          (demo_building ⟨0, 10, 0, 10, 0, 10⟩) 0 0 ∧
      check_bcube_overlap_xy (demo_env 0 1 false) (demo_building ⟨0, 10, 0, 10, 0, 10⟩)
          (demo_building ⟨5, 15, 5, 15, 0, 10⟩) 0 0 = true :=
  have hs : ∀ x y : cube_t, (demo_env 0 1 false).cube_intersects x y
      = (demo_env 0 1 false).cube_intersects y x := by
    intro x y
    simp only [demo_env, decide_eq_decide]
    constructor <;> (rintro ⟨h1, h2, h3, h4, h5, h6⟩; exact ⟨h2, h1, h4, h3, h6, h5⟩)
  ⟨hs,
    (check_bcube_overlap_xy_symm (demo_env 0 1 false) hs (demo_building ⟨0, 10, 0, 10, 0, 10⟩)
      (demo_building ⟨5, 15, 5, 15, 0, 10⟩) 0 0).1,
    by
      simp only [check_bcube_overlap_xy, demo_env, demo_building]
      norm_num⟩

/-! ### C40: the doorway cuts of `gen_interior` -/

/-- A doorway drawn by `cube_rand_side_pos` along a side of the box `c` of length at least
`2 * doorway_width` can be cut out of every box `wall` that reaches, along that side, from at
most `doorway_width / 4` inside `c` at either end: the precondition
`wall.lo < lo_pos < hi_pos < wall.hi` of `remove_section_from_cube` holds. -/
theorem doorway_cut_precondition {R G : Type} (ops : RandOps R G) (hops : ops.in_range)
    (k : interior_dims) (hdw : 0 < k.doorway_width)
    (hhw : k.doorway_hwidth = 1 / 2 * k.doorway_width) (c wall : cube_t) (d : Bool) (rgen : R)
    (hlen : 2 * k.doorway_width ≤ c.d d.toNat true - c.d d.toNat false)
    (hlo : wall.d d.toNat false ≤ c.d d.toNat false + 1 / 4 * k.doorway_width)
    (hhi : c.d d.toNat true - 1 / 4 * k.doorway_width ≤ wall.d d.toNat true) :
    ∃ pos r frag,
      cube_rand_side_pos ops c d.toNat (1 / 4) k.doorway_width rgen = some (pos, r) ∧
      (wall.d d.toNat false < pos - k.doorway_hwidth ∧
        pos - k.doorway_hwidth < pos + k.doorway_hwidth ∧
        pos + k.doorway_hwidth < wall.d d.toNat true) ∧
      remove_section_from_cube wall (pos - k.doorway_hwidth) (pos + k.doorway_hwidth) d
        = some frag := by
  obtain ⟨⟨pos, r⟩, hs⟩ : ∃ u, cube_rand_side_pos ops c d.toNat (1 / 4) k.doorway_width rgen
      = some u := ⟨_, cube_rand_side_pos_some ops c d k.doorway_width rgen⟩
  obtain ⟨h1, h2⟩ := cube_rand_side_pos_range ops hops c d k.doorway_width rgen pos r hdw.le
    hlen hs
  have hm := le_max_left k.doorway_width (1 / 4 * (c.d d.toNat true - c.d d.toNat false))
  have hpre : wall.d d.toNat false < pos - k.doorway_hwidth ∧
      pos - k.doorway_hwidth < pos + k.doorway_hwidth ∧
      pos + k.doorway_hwidth < wall.d d.toNat true := by
    rw [hhw]
    refine ⟨by linarith, by linarith, by linarith⟩
  refine ⟨pos, r, (wall.set d.toNat true (pos - k.doorway_hwidth),
    wall.set d.toNat false (pos + k.doorway_hwidth)), hs, hpre, ?_⟩
  unfold remove_section_from_cube
  rw [if_pos ⟨hpre.1, hpre.2.1, hpre.2.2⟩]

/-- The 4-try loop of the post-pass never stops on an `assert` for a wall of length at least
`1.5 * min_wall_len`. -/
theorem gen_interior_extra_door_tries_some {R G : Type} (ops : RandOps R G) (hops : ops.in_range)
    (k : interior_dims) (hk : k.consistent) (d : Bool) (wall : cube_t) (perp : List cube_t)
    (hlen : 3 / 2 * k.min_wall_len ≤ wall.d (!d).toNat true - wall.d (!d).toNat false) :
    ∀ (n : Nat) (rgen : R), ∃ res, gen_interior_extra_door_tries ops k d wall perp n rgen
      = some res := by
  obtain ⟨hdw, hhw, -, -, -, -, -, hmw⟩ := hk
  intro n
  induction n with
  | zero => intro rgen; exact ⟨_, rfl⟩
  | succ n ih =>
    intro rgen
    obtain ⟨pos, r, frag, h1, -, h3⟩ := doorway_cut_precondition ops hops k hdw hhw wall wall (!d)
      rgen (by linarith) (by linarith) (by linarith)
    rw [gen_interior_extra_door_tries, h1]
    simp only []
    split_ifs
    · exact ih r
    · rw [h3]
      exact ⟨_, rfl⟩

/-- The loop over the splits of one wall of the post-pass never stops on an `assert`. -/
theorem gen_interior_extra_door_splits_some {R G : Type} (ops : RandOps R G)
    (hops : ops.in_range) (k : interior_dims) (hk : k.consistent) (d : Bool)
    (perp : List cube_t) (w : Nat) :
    ∀ (n : Nat) (walls : List cube_t) (rgen : R),
      ∃ res, gen_interior_extra_door_splits ops k d perp w n (walls, rgen) = some res := by
  intro n
  induction n with
  | zero => intro walls rgen; exact ⟨_, rfl⟩
  | succ n ih =>
    intro walls rgen
    rw [gen_interior_extra_door_splits]
    by_cases hl : (walls.getD w cube_t.zero).d (!d).toNat true
        - (walls.getD w cube_t.zero).d (!d).toNat false < 3 / 2 * k.min_wall_len
    · rw [if_pos hl]
      exact ⟨_, rfl⟩
    · rw [if_neg hl]
      obtain ⟨res, hres⟩ := gen_interior_extra_door_tries_some ops hops k hk d
        (walls.getD w cube_t.zero) perp (not_lt.1 hl) 4 rgen
      rw [hres]
      obtain ⟨fr, r1⟩ := res
      cases fr with
      | none => exact ⟨_, rfl⟩
      | some frag =>
        obtain ⟨wl, wh⟩ := frag
        exact ih _ _

/-- C40: with a random source that returns values inside the requested interval and the lengths
of `gen_interior` (`k.consistent`), every doorway cut satisfies the precondition
`wall.lo < lo_pos < hi_pos < wall.hi` asserted by `remove_section_from_cube`, so no cut stops on
the `assert`: the cut of the dividing wall of a region whose sides are at least `min_wall_len`,
the two stub doorways of an iteration of the T-junction scan (for a wall position inside the
region), hence the whole body of the work-stack loop, and every cut of the post-pass in a wall
of length at least `1.5 * min_wall_len`, hence its loop over the splits of a wall. -/
theorem gen_interior_doorway_cuts {R G : Type} (env : Env) (ops : RandOps R G)
    (hops : ops.in_range) (b : building_t) (k : interior_dims) (hk : k.consistent) :
    (∀ (c : cube_t) (wall_dim : Bool) (wall_pos : ℚ) (rgen : R),
      k.min_wall_len ≤ min c.get_size.x c.get_size.y →
      ∃ pos r frag,
        cube_rand_side_pos ops c (!wall_dim).toNat (1 / 4) k.doorway_width rgen = some (pos, r) ∧
        ((create_wall c wall_dim wall_pos k.fc_thick k.wall_half_thick k.wall_edge_spacing).d
            (!wall_dim).toNat false < pos - k.doorway_hwidth ∧
          pos - k.doorway_hwidth < pos + k.doorway_hwidth ∧
          pos + k.doorway_hwidth <
            (create_wall c wall_dim wall_pos k.fc_thick k.wall_half_thick k.wall_edge_spacing).d
              (!wall_dim).toNat true) ∧
        remove_section_from_cube
          (create_wall c wall_dim wall_pos k.fc_thick k.wall_half_thick k.wall_edge_spacing)
          (pos - k.doorway_hwidth) (pos + k.doorway_hwidth) (!wall_dim) = some frag) ∧
    (∀ (part_ix ix2 : Nat) (p2 : cube_t) (wall_dim : Bool) (wall_pos : ℚ) (dir : Bool)
        (st : tjunction_state),
      st.c.cube.d wall_dim.toNat false < wall_pos → wall_pos < st.c.cube.d wall_dim.toNat true →
      ∃ st1, gen_interior_tjunction_step k part_ix ix2 p2 wall_dim wall_pos dir st = some st1) ∧
    (∀ (p : cube_t) (part_ix : Nat) (whs : Bool → ℚ) (c : split_cube_t)
        (ts : List split_cube_t) (st : interior_state R),
      ∃ res, gen_interior_split_step env ops b k p part_ix whs c ts st = some res) ∧
    (∀ (d : Bool) (wall : cube_t) (rgen : R),
      3 / 2 * k.min_wall_len ≤ wall.d (!d).toNat true - wall.d (!d).toNat false →
      ∃ pos r frag,
        cube_rand_side_pos ops wall (!d).toNat (1 / 4) k.doorway_width rgen = some (pos, r) ∧
        (wall.d (!d).toNat false < pos - k.doorway_hwidth ∧
          pos - k.doorway_hwidth < pos + k.doorway_hwidth ∧
          pos + k.doorway_hwidth < wall.d (!d).toNat true) ∧
        remove_section_from_cube wall (pos - k.doorway_hwidth) (pos + k.doorway_hwidth) (!d)
          = some frag) ∧
    (∀ (d : Bool) (perp : List cube_t) (w n : Nat) (walls : List cube_t) (rgen : R),
      ∃ res, gen_interior_extra_door_splits ops k d perp w n (walls, rgen) = some res) := by
  have hk0 := hk
  obtain ⟨hdw, hhw, hes0, hes, -, -, -, hmw⟩ := hk
  refine ⟨?_, ?_, ?_, ?_, ?_⟩
  · intro c wall_dim wall_pos rgen hmin
    have hside : k.min_wall_len ≤ c.d (!wall_dim).toNat true - c.d (!wall_dim).toNat false := by
      rw [← cube_t.get_size_get]
      cases wall_dim
      · exact le_trans hmin (min_le_right _ _)
      · exact le_trans hmin (min_le_left _ _)
    exact doorway_cut_precondition ops hops k hdw hhw c _ (!wall_dim) rgen (by linarith)
      (by rw [create_wall_d_other_false]; linarith)
      (by rw [create_wall_d_other_true]; linarith)
  · intro part_ix ix2 p2 wall_dim wall_pos dir st hlo hhi
    obtain ⟨st1, h, -⟩ := gen_interior_tjunction_step_spec k hdw hhw hes part_ix ix2 p2 wall_dim
      wall_pos dir st hlo hhi
    exact ⟨st1, h⟩
  · intro p part_ix whs c ts st
    obtain ⟨ts1, st1, h, -⟩ := gen_interior_split_step_spec env ops hops b k hk0 p part_ix whs c
      ts st
    exact ⟨_, h⟩
  · intro d wall rgen hlen
    exact doorway_cut_precondition ops hops k hdw hhw wall wall (!d) rgen (by linarith)
      (by linarith) (by linarith)
  · intro d perp w n walls rgen
    exact gen_interior_extra_door_splits_some ops hops k hk0 d perp w n walls rgen

/-- The lengths of the floor spacing 3 and the scripted random source: the post-pass cuts a
doorway into the wall `[0,10] x [4,5]`, of length 10 ≥ 9 along x. -/
theorem gen_interior_doorway_cuts_witness :
    (script_ops []).in_range ∧
      (interior_dims.of (demo_env 0 1 false) demo_long_building).consistent ∧
      3 / 2 * (interior_dims.of (demo_env 0 1 false) demo_long_building).min_wall_len
        ≤ (⟨0, 10, 4, 5, 0, 3⟩ : cube_t).d (!true).toNat true
          - (⟨0, 10, 4, 5, 0, 3⟩ : cube_t).d (!true).toNat false ∧
      ∃ pos r frag,
        cube_rand_side_pos (script_ops []) ⟨0, 10, 4, 5, 0, 3⟩ (!true).toNat (1 / 4)
            (interior_dims.of (demo_env 0 1 false) demo_long_building).doorway_width []
          = some (pos, r) ∧
        ((⟨0, 10, 4, 5, 0, 3⟩ : cube_t).d (!true).toNat false
            < pos - (interior_dims.of (demo_env 0 1 false) demo_long_building).doorway_hwidth ∧
          pos - (interior_dims.of (demo_env 0 1 false) demo_long_building).doorway_hwidth
            < pos + (interior_dims.of (demo_env 0 1 false) demo_long_building).doorway_hwidth ∧
          pos + (interior_dims.of (demo_env 0 1 false) demo_long_building).doorway_hwidth
            < (⟨0, 10, 4, 5, 0, 3⟩ : cube_t).d (!true).toNat true) ∧
        remove_section_from_cube ⟨0, 10, 4, 5, 0, 3⟩
          (pos - (interior_dims.of (demo_env 0 1 false) demo_long_building).doorway_hwidth)
          (pos + (interior_dims.of (demo_env 0 1 false) demo_long_building).doorway_hwidth) (!true)
          = some frag :=
  have hk : (interior_dims.of (demo_env 0 1 false) demo_long_building).consistent :=
    interior_dims_of_consistent _ _ (by norm_num [demo_long_building, demo_building, demo_mat])
  have hl : 3 / 2 * (interior_dims.of (demo_env 0 1 false) demo_long_building).min_wall_len
      ≤ (⟨0, 10, 4, 5, 0, 3⟩ : cube_t).d (!true).toNat true
        - (⟨0, 10, 4, 5, 0, 3⟩ : cube_t).d (!true).toNat false := by
    rw [interior_dims_of_min_wall_len]
    norm_num [demo_long_building, demo_building, demo_mat, cube_t.d]
  ⟨script_ops_in_range [], hk, hl,
    (gen_interior_doorway_cuts (demo_env 0 1 false) (script_ops []) (script_ops_in_range [])
      demo_long_building _ hk).2.2.2.1 true ⟨0, 10, 4, 5, 0, 3⟩ [] hl⟩

/-! ### C31: one T-junction stub per pair of parts and face -/

theorem and_or_ne_zero (a m x : Nat) (h : a &&& x ≠ 0) : (a ||| m) &&& x ≠ 0 := by
  obtain ⟨i, hi⟩ := Nat.ne_zero_implies_bit_true h
  intro h2
  have h3 : ((a ||| m) &&& x).testBit i = true := by
    rw [Nat.testBit_and] at hi ⊢
    rw [Nat.testBit_or]
    simp only [Bool.and_eq_true, Bool.or_eq_true] at hi ⊢
    exact ⟨Or.inl hi.1, hi.2⟩
  rw [h2, Nat.zero_testBit] at h3
  exact absurd h3 (by simp)

theorem or_and_self_ne_zero (a m : Nat) (h : m ≠ 0) : (a ||| m) &&& m ≠ 0 := by
  obtain ⟨i, hi⟩ := Nat.ne_zero_implies_bit_true h
  intro h2
  have h3 : ((a ||| m) &&& m).testBit i = true := by
    rw [Nat.testBit_and, Nat.testBit_or, hi]
    simp
  rw [h2, Nat.zero_testBit] at h3
  exact absurd h3 (by simp)

/-- The mask `1 << ix` of a part of index below 32 is not zero. -/
theorem part_mask_ne_zero (ix : Nat) (h : ix < 32) : (1 <<< ix) % 4294967296 ≠ 0 := by
  rw [Nat.one_shiftLeft, Nat.mod_eq_of_lt]
  · exact (Nat.pow_pos (by norm_num)).ne'
  · calc 2 ^ ix < 2 ^ 32 := Nat.pow_lt_pow_right (by norm_num) h
      _ = 4294967296 := by norm_num

theorem getD_set_nat (l : List Nat) (i j v : Nat) :
    (l.set i v).getD j 0 = if i = j ∧ i < l.length then v else l.getD j 0 := by
  rw [List.getD_eq_getElem?_getD, List.getElem?_set, List.getD_eq_getElem?_getD]
  by_cases h : i = j
  · subst h
    by_cases h2 : i < l.length
    · simp [h2]
    · simp [h2]
      rw [List.getElem?_eq_none (by omega)]
      rfl
  · simp [h]

/-- Setting bits of one mask keeps every recorded separator. -/
theorem wall_seps_le_set (seps : List Nat) (i m : Nat) :
    wall_seps_le seps (seps.set i (seps.getD i 0 ||| m)) := by
  intro wd dir ix h
  unfold wall_sep_placed at h ⊢
  rw [getD_set_nat]
  split_ifs with hc
  · rw [hc.1]
    exact and_or_ne_zero _ _ _ h
  · exact h

theorem wall_seps_le_refl (s : List Nat) : wall_seps_le s s := fun _ _ _ h => h

theorem wall_seps_le_trans {s1 s2 s3 : List Nat} (h1 : wall_seps_le s1 s2)
    (h2 : wall_seps_le s2 s3) : wall_seps_le s1 s3 := fun wd dir ix h => h2 wd dir ix (h1 wd dir ix h)

theorem gen_interior_tjunction_door_seps (k : interior_dims) (wall_dim : Bool) (wall_pos : ℚ)
    (dir s : Bool) (a a1 : tjunction_state)
    (h : gen_interior_tjunction_door k wall_dim wall_pos dir s a = some a1) :
    a1.wall_seps_placed = a.wall_seps_placed := by
  unfold gen_interior_tjunction_door at h
  simp only [] at h
  split_ifs at h
  · split at h
    · exact absurd h (by simp)
    · simp only [Option.some.injEq] at h
      subst h
      rfl
  · simp only [Option.some.injEq] at h
    subst h
    rfl

/-- The outcome of one iteration of the T-junction scan: either nothing changes (one of the
`continue` tests holds), or a stub is inserted after all five tests failed, and both masks are
updated. -/
theorem gen_interior_tjunction_step_seps (k : interior_dims) (part_ix ix2 : Nat) (p2 : cube_t)
    (wall_dim : Bool) (wall_pos : ℚ) (dir : Bool) (st st1 : tjunction_state)
    (h : gen_interior_tjunction_step k part_ix ix2 p2 wall_dim wall_pos dir st = some st1) :
    st1 = st ∨
      (¬ wall_sep_placed st.wall_seps_placed wall_dim (!dir) ix2 ∧
        st1.wall_seps_placed =
          (st.wall_seps_placed.set (2 * wall_dim.toNat + dir.toNat)
            ((st.wall_seps_placed.getD (2 * wall_dim.toNat + dir.toNat) 0)
              ||| ((1 <<< part_ix) % 4294967296))).set (2 * wall_dim.toNat + (!dir).toNat)
            (((st.wall_seps_placed.set (2 * wall_dim.toNat + dir.toNat)
              ((st.wall_seps_placed.getD (2 * wall_dim.toNat + dir.toNat) 0)
                ||| ((1 <<< part_ix) % 4294967296))).getD (2 * wall_dim.toNat + (!dir).toNat) 0)
              ||| ((1 <<< ix2) % 4294967296))) := by
  unfold gen_interior_tjunction_step at h
  simp only [] at h
  by_cases g1 : ix2 = part_ix
  · rw [if_pos g1] at h
    exact Or.inl (Option.some.inj h).symm
  rw [if_neg g1] at h
  by_cases g2 : p2.d (!wall_dim).toNat (!dir) ≠ st.c.cube.d (!wall_dim).toNat dir
  · rw [if_pos g2] at h
    exact Or.inl (Option.some.inj h).symm
  rw [if_neg g2] at h
  by_cases g3 : p2.z1 ≥ st.c.cube.z2 ∨ p2.z2 ≤ st.c.cube.z1
  · rw [if_pos g3] at h
    exact Or.inl (Option.some.inj h).symm
  rw [if_neg g3] at h
  by_cases g4 : p2.d wall_dim.toNat false ≥ wall_pos ∨ p2.d wall_dim.toNat true ≤ wall_pos
  · rw [if_pos g4] at h
    exact Or.inl (Option.some.inj h).symm
  rw [if_neg g4] at h
  by_cases g5 : (st.wall_seps_placed.getD (2 * wall_dim.toNat + (!dir).toNat) 0)
      &&& ((1 <<< ix2) % 4294967296) ≠ 0
  · rw [if_pos g5] at h
    exact Or.inl (Option.some.inj h).symm
  rw [if_neg g5] at h
  right
  refine ⟨g5, ?_⟩
  split at h
  · exact absurd h (by simp)
  rename_i a0 h0
  split at h
  · exact absurd h (by simp)
  rename_i a h1
  have e0 := gen_interior_tjunction_door_seps _ _ _ _ _ _ _ h0
  have e1 := gen_interior_tjunction_door_seps _ _ _ _ _ _ _ h1
  simp only [Option.some.injEq] at h
  subst h
  simp only []
  rw [e1, e0]

/-- One iteration of the T-junction scan keeps the number of masks and every recorded
separator. -/
theorem gen_interior_tjunction_step_mono (k : interior_dims) (part_ix ix2 : Nat) (p2 : cube_t)
    (wall_dim : Bool) (wall_pos : ℚ) (dir : Bool) (st st1 : tjunction_state)
    (h : gen_interior_tjunction_step k part_ix ix2 p2 wall_dim wall_pos dir st = some st1) :
    st1.wall_seps_placed.length = st.wall_seps_placed.length ∧
      wall_seps_le st.wall_seps_placed st1.wall_seps_placed := by
  rcases gen_interior_tjunction_step_seps k part_ix ix2 p2 wall_dim wall_pos dir st st1 h with
    rfl | ⟨-, e⟩
  · exact ⟨rfl, wall_seps_le_refl _⟩
  · rw [e]
    exact ⟨by simp only [List.length_set],
      wall_seps_le_trans (wall_seps_le_set _ _ _) (wall_seps_le_set _ _ _)⟩

/-- A recorded separator makes the iteration of the scan for that part and side a no-op. -/
theorem gen_interior_tjunction_step_blocked (k : interior_dims) (part_ix ix2 : Nat) (p2 : cube_t)
    (wall_dim : Bool) (wall_pos : ℚ) (dir : Bool) (st : tjunction_state)
    (hb : wall_sep_placed st.wall_seps_placed wall_dim (!dir) ix2) :
    gen_interior_tjunction_step k part_ix ix2 p2 wall_dim wall_pos dir st = some st := by
  unfold gen_interior_tjunction_step
  simp only []
  by_cases g1 : ix2 = part_ix
  · rw [if_pos g1]
  rw [if_neg g1]
  by_cases g2 : p2.d (!wall_dim).toNat (!dir) ≠ st.c.cube.d (!wall_dim).toNat dir
  · rw [if_pos g2]
  rw [if_neg g2]
  by_cases g3 : p2.z1 ≥ st.c.cube.z2 ∨ p2.z2 ≤ st.c.cube.z1
  · rw [if_pos g3]
  rw [if_neg g3]
  by_cases g4 : p2.d wall_dim.toNat false ≥ wall_pos ∨ p2.d wall_dim.toNat true ≤ wall_pos
  · rw [if_pos g4]
  have hb2 : (st.wall_seps_placed.getD (2 * wall_dim.toNat + (!dir).toNat) 0)
      &&& ((1 <<< ix2) % 4294967296) ≠ 0 := hb
  rw [if_neg g4, if_pos hb2]

/-- The T-junction scan keeps the number of masks and every recorded separator. -/
theorem gen_interior_tjunctions_mono (k : interior_dims) (part_ix : Nat) (wall_dim : Bool)
    (wall_pos : ℚ) :
    ∀ (parts : List cube_t) (ix2 : Nat) (st st1 : tjunction_state),
      gen_interior_tjunctions k part_ix wall_dim wall_pos parts ix2 st = some st1 →
      st1.wall_seps_placed.length = st.wall_seps_placed.length ∧
        wall_seps_le st.wall_seps_placed st1.wall_seps_placed := by
  intro parts
  induction parts with
  | nil =>
    intro ix2 st st1 h
    simp only [gen_interior_tjunctions, Option.some.injEq] at h
    subst h
    exact ⟨rfl, wall_seps_le_refl _⟩
  | cons p2 rest ih =>
    intro ix2 st st1 h
    rw [gen_interior_tjunctions] at h
    split at h
    · exact absurd h (by simp)
    rename_i sa ha
    split at h
    · exact absurd h (by simp)
    rename_i sb hb
    obtain ⟨l1, m1⟩ := gen_interior_tjunction_step_mono _ _ _ _ _ _ _ _ _ ha
    obtain ⟨l2, m2⟩ := gen_interior_tjunction_step_mono _ _ _ _ _ _ _ _ _ hb
    obtain ⟨l3, m3⟩ := ih _ _ _ h
    exact ⟨by rw [l3, l2, l1], wall_seps_le_trans m1 (wall_seps_le_trans m2 m3)⟩

/-- The body of the work-stack loop keeps the number of masks and every recorded separator. -/
theorem gen_interior_split_step_mono {R G : Type} (env : Env) (ops : RandOps R G)
    (b : building_t) (k : interior_dims) (p : cube_t) (part_ix : Nat) (whs : Bool → ℚ)
    (c : split_cube_t) (ts ts1 : List split_cube_t) (st st1 : interior_state R)
    (h : gen_interior_split_step env ops b k p part_ix whs c ts st = some (ts1, st1)) :
    st1.wall_seps_placed.length = st.wall_seps_placed.length ∧
      wall_seps_le st.wall_seps_placed st1.wall_seps_placed := by
  unfold gen_interior_split_step at h
  simp only [] at h
  generalize (gen_interior_wall_dim ops k c st.rgen).1 = wall_dim at h
  generalize (gen_interior_wall_dim ops k c st.rgen).2 = rgen1 at h
  by_cases hmin : min c.cube.get_size.x c.cube.get_size.y < k.min_wall_len
  · rw [if_pos hmin] at h
    simp only [Option.some.injEq, Prod.mk.injEq] at h
    obtain ⟨-, rfl⟩ := h
    exact ⟨rfl, wall_seps_le_refl _⟩
  rw [if_neg hmin] at h
  split at h
  · exact absurd h (by simp)
  · simp only [Option.some.injEq, Prod.mk.injEq] at h
    obtain ⟨-, rfl⟩ := h
    exact ⟨rfl, wall_seps_le_refl _⟩
  · rename_i wall_pos rgen2 hch
    split at h
    · exact absurd h (by simp)
    rename_i tj htj
    obtain ⟨l1, m1⟩ := gen_interior_tjunctions_mono _ _ _ _ _ _ _ _ htj
    split at h
    · exact absurd h (by simp)
    rename_i doorway_pos rgen3 hdp
    split at h
    · exact absurd h (by simp)
    rename_i wall_lo wall_hi hrem
    by_cases hsplit : c.cube.get_size.get wall_dim.toNat
        > max env.wall_split_thresh 1 * k.min_wall_len
    · rw [if_pos hsplit] at h
      simp only [Option.some.injEq, Prod.mk.injEq] at h
      obtain ⟨-, rfl⟩ := h
      exact ⟨l1, m1⟩
    · rw [if_neg hsplit] at h
      simp only [Option.some.injEq, Prod.mk.injEq] at h
      obtain ⟨-, rfl⟩ := h
      exact ⟨l1, m1⟩

/-- The work-stack loop keeps the number of masks and every recorded separator. -/
theorem gen_interior_split_loop_seps {R G : Type} (env : Env) (ops : RandOps R G)
    (b : building_t) (k : interior_dims) (p : cube_t) (part_ix : Nat) (whs : Bool → ℚ) :
    ∀ (fuel : Nat) (ts : List split_cube_t) (st st1 : interior_state R),
      gen_interior_split_loop env ops b k p part_ix whs fuel ts st = some st1 →
      st1.wall_seps_placed.length = st.wall_seps_placed.length ∧
        wall_seps_le st.wall_seps_placed st1.wall_seps_placed := by
  intro fuel
  induction fuel with
  | zero =>
    intro ts st st1 h
    cases ts with
    | nil =>
      rw [gen_interior_split_loop_nil] at h
      obtain rfl := Option.some.inj h
      exact ⟨rfl, wall_seps_le_refl _⟩
    | cons c ts =>
      rw [gen_interior_split_loop_zero_cons] at h
      exact absurd h (by simp)
  | succ fuel ih =>
    intro ts st st1 h
    cases ts with
    | nil =>
      rw [gen_interior_split_loop_nil] at h
      obtain rfl := Option.some.inj h
      exact ⟨rfl, wall_seps_le_refl _⟩
    | cons c ts =>
      cases hs : gen_interior_split_step env ops b k p part_ix whs c ts st with
      | none =>
        rw [gen_interior_split_loop_succ_none _ _ _ _ _ _ _ _ _ _ _ hs] at h
        exact absurd h (by simp)
      | some res =>
        obtain ⟨ts1, sa⟩ := res
        rw [gen_interior_split_loop_succ _ _ _ _ _ _ _ _ _ _ _ _ _ hs] at h
        obtain ⟨l1, m1⟩ := gen_interior_split_step_mono _ _ _ _ _ _ _ _ _ _ _ _ hs
        obtain ⟨l2, m2⟩ := ih _ _ _ h
        exact ⟨by rw [l2, l1], wall_seps_le_trans m1 m2⟩

/-- The hallway layout does not touch the masks. -/
theorem gen_interior_hallway_seps {R : Type} (env : Env) (b : building_t) (k : interior_dims)
    (p : cube_t) (min_dim : Bool) (st st1 : interior_state R)
    (h : gen_interior_hallway env b k p min_dim st = some st1) :
    st1.wall_seps_placed = st.wall_seps_placed := by
  unfold gen_interior_hallway at h
  simp only [] at h
  split at h
  · split_ifs at h
    have e := Option.some.inj h
    rw [← e]
  · exact absurd h (by simp)

/-- The loop over the parts of `gen_interior` keeps the number of masks and every recorded
separator. -/
theorem gen_interior_parts_seps {R G : Type} (env : Env) (ops : RandOps R G) (b : building_t)
    (k : interior_dims) (fuel : Nat) :
    ∀ (parts : List cube_t) (ix : Nat) (st st1 : interior_state R),
      gen_interior_parts env ops b k fuel parts ix st = some st1 →
      st1.wall_seps_placed.length = st.wall_seps_placed.length ∧
        wall_seps_le st.wall_seps_placed st1.wall_seps_placed := by
  intro parts
  induction parts with
  | nil =>
    intro ix st st1 h
    simp only [gen_interior_parts, Option.some.injEq] at h
    subst h
    exact ⟨rfl, wall_seps_le_refl _⟩
  | cons p rest ih =>
    intro ix st st1 h
    rw [gen_interior_parts] at h
    by_cases hh : b.is_house = true ∧ ix > 1
    · rw [if_pos hh] at h
      obtain rfl := Option.some.inj h
      exact ⟨rfl, wall_seps_le_refl _⟩
    rw [if_neg hh] at h
    split at h
    · exact absurd h (by simp)
    rename_i num_floors hnf
    by_cases h0 : num_floors = 0
    · rw [if_pos h0] at h
      exact ih _ _ _ h
    rw [if_neg h0] at h
    simp only [] at h
    split at h
    · exact absurd h (by simp)
    rename_i sa hw
    obtain ⟨l2, m2⟩ := ih _ _ _ h
    have hsa : sa.wall_seps_placed.length = st.wall_seps_placed.length ∧
        wall_seps_le st.wall_seps_placed sa.wall_seps_placed := by
      split_ifs at hw
      · rw [gen_interior_hallway_seps _ _ _ _ _ _ _ hw]
        exact ⟨rfl, wall_seps_le_refl _⟩
      · unfold gen_interior_partition at hw
        simp only [] at hw
        split at hw
        · exact gen_interior_split_loop_seps _ _ _ _ _ _ _ _ _ _ _ hw
        · exact absurd hw (by simp)
    exact ⟨l2.trans hsa.1, wall_seps_le_trans hsa.2 m2⟩

/-- C31: in a building of at most 32 parts (both part indices are below 32), take an iteration of
the T-junction scan of `gen_interior` that inserts a stub for the part `part_ix` against the
part `ix2` on the axis `wall_dim` and side `dir` (the iteration returns a changed state). No
separator was recorded there before; afterwards one is recorded for both parts. In every later
state that keeps the recorded separators, the iteration for the same pair, axis and side inserts
nothing, whatever the region and the wall position, and so does the iteration for the part `ix2`
against the part `part_ix` from the other side. The T-junction scan, the work-stack loop and the
loop over the parts keep the recorded separators. -/
theorem gen_interior_tjunction_stub_once {R G : Type} (env : Env) (ops : RandOps R G)
    (b : building_t) (k : interior_dims) (part_ix ix2 : Nat) (hp : part_ix < 32) (h2 : ix2 < 32)
    (p2 : cube_t) (wall_dim : Bool) (wall_pos : ℚ) (dir : Bool) (st st1 : tjunction_state)
    (hlen : st.wall_seps_placed.length = 4)
    (hstep : gen_interior_tjunction_step k part_ix ix2 p2 wall_dim wall_pos dir st = some st1)
    (hplaced : st1 ≠ st) :
    ¬ wall_sep_placed st.wall_seps_placed wall_dim (!dir) ix2 ∧
      wall_sep_placed st1.wall_seps_placed wall_dim dir part_ix ∧
      wall_sep_placed st1.wall_seps_placed wall_dim (!dir) ix2 ∧
      (∀ (st2 : tjunction_state),
        wall_seps_le st1.wall_seps_placed st2.wall_seps_placed →
        ∀ (q : cube_t) (wp : ℚ),
          gen_interior_tjunction_step k part_ix ix2 q wall_dim wp dir st2 = some st2 ∧
          gen_interior_tjunction_step k ix2 part_ix q wall_dim wp (!dir) st2 = some st2) ∧
      (∀ (pi : Nat) (wd : Bool) (wp : ℚ) (parts : List cube_t) (ix : Nat)
          (t t1 : tjunction_state),
        wall_seps_le st1.wall_seps_placed t.wall_seps_placed →
        gen_interior_tjunctions k pi wd wp parts ix t = some t1 →
        wall_seps_le st1.wall_seps_placed t1.wall_seps_placed) ∧
      (∀ (p : cube_t) (ix : Nat) (whs : Bool → ℚ) (fuel : Nat) (ts : List split_cube_t)
          (s s1 : interior_state R),
        wall_seps_le st1.wall_seps_placed s.wall_seps_placed →
        gen_interior_split_loop env ops b k p ix whs fuel ts s = some s1 →
        wall_seps_le st1.wall_seps_placed s1.wall_seps_placed) ∧
      (∀ (fuel : Nat) (parts : List cube_t) (ix : Nat) (s s1 : interior_state R),
        wall_seps_le st1.wall_seps_placed s.wall_seps_placed →
        gen_interior_parts env ops b k fuel parts ix s = some s1 →
        wall_seps_le st1.wall_seps_placed s1.wall_seps_placed) := by
  rcases gen_interior_tjunction_step_seps k part_ix ix2 p2 wall_dim wall_pos dir st st1 hstep with
    e | ⟨hnot, e⟩
  · exact absurd e hplaced
  have hi : 2 * wall_dim.toNat + dir.toNat < 4 := by cases wall_dim <;> cases dir <;> decide
  have hj : 2 * wall_dim.toNat + (!dir).toNat < 4 := by cases wall_dim <;> cases dir <;> decide
  have hij : 2 * wall_dim.toNat + (!dir).toNat ≠ 2 * wall_dim.toNat + dir.toNat := by
    cases wall_dim <;> cases dir <;> decide
  have m1 : wall_sep_placed st1.wall_seps_placed wall_dim dir part_ix := by
    unfold wall_sep_placed
    rw [e, getD_set_nat, if_neg (fun hc => hij hc.1), getD_set_nat,
      if_pos ⟨rfl, by rw [hlen]; exact hi⟩]
    exact or_and_self_ne_zero _ _ (part_mask_ne_zero part_ix hp)
  have m2 : wall_sep_placed st1.wall_seps_placed wall_dim (!dir) ix2 := by
    unfold wall_sep_placed
    rw [e, getD_set_nat, if_pos ⟨rfl, by rw [List.length_set, hlen]; exact hj⟩]
    exact or_and_self_ne_zero _ _ (part_mask_ne_zero ix2 h2)
  refine ⟨hnot, m1, m2, ?_, ?_, ?_, ?_⟩
  · intro st2 hle q wp
    refine ⟨gen_interior_tjunction_step_blocked k part_ix ix2 q wall_dim wp dir st2
      (hle _ _ _ m2), gen_interior_tjunction_step_blocked k ix2 part_ix q wall_dim wp (!dir) st2
      ?_⟩
    rw [Bool.not_not]
    exact hle _ _ _ m1
  · intro pi wd wp parts ix t t1 hle ht
    exact wall_seps_le_trans hle (gen_interior_tjunctions_mono k pi wd wp parts ix t t1 ht).2
  · intro p ix whs fuel ts s s1 hle hs
    exact wall_seps_le_trans hle
      (gen_interior_split_loop_seps env ops b k p ix whs fuel ts s s1 hs).2
  · intro fuel parts ix s s1 hle hs
    exact wall_seps_le_trans hle (gen_interior_parts_seps env ops b k fuel parts ix s s1 hs).2

/-- A stub of the region `[0,4] x [0,8] x [0,3]` of part 0 against the part
`[0,4] x [8,16] x [0,3]` of index 1, for a wall across x at `x = 2` (floor spacing 3): the
overlap is too short for a doorway on either side, the stub is pushed and both masks are
updated. -/
theorem gen_interior_tjunction_step_demo :
    gen_interior_tjunction_step (interior_dims.of (demo_env 0 1 false) demo_long_building) 0 1
        ⟨0, 4, 8, 16, 0, 3⟩ false 2 true
        ⟨split_cube_t.of ⟨0, 4, 0, 8, 0, 3⟩, cube_t.zero, cube_t.zero, ⟨[], [], [], [], [], none⟩,
          [0, 0, 0, 0]⟩
      = some ⟨split_cube_t.of ⟨0, 4, 0, 8, 0, 3⟩, cube_t.zero,
          ⟨3 / 400, 1597 / 400, 157 / 20, 8, 3 / 20, 57 / 20⟩,
          ⟨[], [⟨3 / 400, 1597 / 400, 157 / 20, 8, 3 / 20, 57 / 20⟩], [], [], [], none⟩,
          [2, 1, 0, 0]⟩ := by
  have hm : demo_long_building.mat.floor_spacing = 3 := rfl
  simp only [gen_interior_tjunction_step, gen_interior_tjunction_door, interior_dims.of, hm,
    split_cube_t.of, cube_t.zero, cube_t.d, cube_t.set, Bool.toNat, Bool.not_false,
    Bool.not_true, cond_true, cond_false, building_interior_t.push_wall]
  norm_num [lt_abs, building_interior_t.set_walls, building_interior_t.walls]
  decide

/-- The stub of the evaluated iteration: recorded for part 0 on the side 1 and for part 1 on the
side 0 of the axis x. -/
theorem gen_interior_tjunction_stub_once_witness :
    0 < 32 ∧ 1 < 32 ∧
      gen_interior_tjunction_step (interior_dims.of (demo_env 0 1 false) demo_long_building) 0 1
        ⟨0, 4, 8, 16, 0, 3⟩ false 2 true
        ⟨split_cube_t.of ⟨0, 4, 0, 8, 0, 3⟩, cube_t.zero, cube_t.zero, ⟨[], [], [], [], [], none⟩,
          [0, 0, 0, 0]⟩
      = some ⟨split_cube_t.of ⟨0, 4, 0, 8, 0, 3⟩, cube_t.zero,
          ⟨3 / 400, 1597 / 400, 157 / 20, 8, 3 / 20, 57 / 20⟩,
          ⟨[], [⟨3 / 400, 1597 / 400, 157 / 20, 8, 3 / 20, 57 / 20⟩], [], [], [], none⟩,
          [2, 1, 0, 0]⟩ ∧
      wall_sep_placed [2, 1, 0, 0] false true 0 ∧ wall_sep_placed [2, 1, 0, 0] false (!true) 1 :=
  ⟨by decide, by decide, gen_interior_tjunction_step_demo,
    (gen_interior_tjunction_stub_once (demo_env 0 1 false) (script_ops []) demo_long_building
      (interior_dims.of (demo_env 0 1 false) demo_long_building) 0 1 (by decide) (by decide)
      ⟨0, 4, 8, 16, 0, 3⟩ false 2 true
      ⟨split_cube_t.of ⟨0, 4, 0, 8, 0, 3⟩, cube_t.zero, cube_t.zero, ⟨[], [], [], [], [], none⟩,
        [0, 0, 0, 0]⟩
      ⟨split_cube_t.of ⟨0, 4, 0, 8, 0, 3⟩, cube_t.zero,
        ⟨3 / 400, 1597 / 400, 157 / 20, 8, 3 / 20, 57 / 20⟩,
        ⟨[], [⟨3 / 400, 1597 / 400, 157 / 20, 8, 3 / 20, 57 / 20⟩], [], [], [], none⟩,
        [2, 1, 0, 0]⟩ rfl gen_interior_tjunction_step_demo
      (fun h => by
        have h2 := congrArg tjunction_state.wall_seps_placed h
        simp at h2)).2.1,
    (gen_interior_tjunction_stub_once (demo_env 0 1 false) (script_ops []) demo_long_building
      (interior_dims.of (demo_env 0 1 false) demo_long_building) 0 1 (by decide) (by decide)
      ⟨0, 4, 8, 16, 0, 3⟩ false 2 true
      ⟨split_cube_t.of ⟨0, 4, 0, 8, 0, 3⟩, cube_t.zero, cube_t.zero, ⟨[], [], [], [], [], none⟩,
        [0, 0, 0, 0]⟩
      ⟨split_cube_t.of ⟨0, 4, 0, 8, 0, 3⟩, cube_t.zero,
        ⟨3 / 400, 1597 / 400, 157 / 20, 8, 3 / 20, 57 / 20⟩,
        ⟨[], [⟨3 / 400, 1597 / 400, 157 / 20, 8, 3 / 20, 57 / 20⟩], [], [], [], none⟩,
        [2, 1, 0, 0]⟩ rfl gen_interior_tjunction_step_demo
      (fun h => by
        have h2 := congrArg tjunction_state.wall_seps_placed h
        simp at h2)).2.2.1⟩

/-! ### C39: the array `force_dim` of `gen_house` -/

/-- Snapping a box of positive height to whole floors does not stop on the `assert` when the
floor spacing is positive. -/
theorem adjust_part_zvals_some (flag : Bool) (S : ℚ) (c : cube_t) (hS : 0 < S) (hdz : 0 < c.dz) :
    ∃ c2, adjust_part_zvals_for_floor_spacing flag S c = some c2 := by
  unfold adjust_part_zvals_for_floor_spacing
  cases flag
  · exact ⟨_, rfl⟩
  · simp only [Bool.not_true, Bool.false_eq_true, if_false]
    rw [if_pos ⟨hdz, hS⟩]
    exact ⟨_, rfl⟩

theorem gen_house_detail_extra {R G : Type} (ops : RandOps R G) (base part1 pre : cube_t)
    (dim dir dir2 : Bool) (dt : Nat) (gd dd ddir : Bool) (dh : ℚ) (r : R) (hdt : dt = 1 ∨ dt = 2) :
    (gen_house_detail ops base part1 pre dim dir dir2 dt gd dd ddir dh r).1.length
      = 1 + (gen_house_detail ops base part1 pre dim dir dir2 dt gd dd ddir dh r).2.1.toNat := by
  unfold gen_house_detail
  rcases hdt with rfl | rfl
  · simp
  · simp

theorem gen_house_part_draws_type1_dh {R G : Type} (ops : RandOps R G) (base : cube_t)
    (rgen : R) (g : G) :
    (gen_house_part_draws ops base 1 rgen g).2.2.2.2.1
      = max 0 (ops.g_rand_uniform (-(1 / 10)) (1 / 2) g).1 := by
  simp [gen_house_part_draws]

theorem cube_t.set_xy_z (c : cube_t) (d e : Bool) (v : ℚ) :
    (c.set d.toNat e v).z1 = c.z1 ∧ (c.set d.toNat e v).z2 = c.z2 := by
  cases d <;> cases e <;> exact ⟨rfl, rfl⟩

/-- C39 (the code on L-shaped houses): the multi-part section of `gen_house` for `type = 1`
returns (random source in range, positive floor spacing and base height). In its result the
lookup `force_dim[2]` is the value `env.force_dim_oob` behind the array of two entries; when the
draw of line 635 is false (the roof axes are not forced), `force_dim[0]` is 2 but `force_dim[1]`
is 0, so the ridge axis `(fdim < 2) ? fdim : get_largest_xy_dim(part)` of the second section is
x whatever its shape; and when a porch or a garage is added (`detail_type != 0`), three parts
get a roof, so the roof loop reads `force_dim[2]`. -/
theorem gen_house_force_dim_L_shape {R G : Type} (env : Env) (ops : RandOps R G)
    (hops : ops.in_range) (b : building_t) (base : cube_t) (gd dd : Bool) (dh : ℚ) (rgen : R)
    (g : G) (hS : 0 < b.mat.floor_spacing) (hdz : 0 < base.dz) :
    ∃ h : house_parts R G,
      gen_house_two_parts env ops b base 1 gd dd dh rgen g = some h ∧
      h.force_dim 2 = env.force_dim_oob ∧
      ((ops.rand_bool (gen_house_part_draws ops base 1
          (ops.rand_uniform (4 / 10) (6 / 10) (ops.rand_bool rgen).2).2 g).2.2.2.2.2.1).1 = false →
        h.force_dim 0 = 2 ∧ h.force_dim 1 = 0 ∧
        ∀ p : cube_t,
          (if h.force_dim 1 < 2 then h.force_dim 1 == 1 else get_largest_xy_dim p) = false) ∧
      ((ops.rand (ops.rand_bool (gen_house_part_draws ops base 1
          (ops.rand_uniform (4 / 10) (6 / 10) (ops.rand_bool rgen).2).2 g).2.2.2.2.2.1).2).1 % 3 ≠ 0 →
        h.b.parts.length - h.skip_last_roof.toNat = 3) := by
  have hdh := gen_house_part_draws_type1_dh ops base
    (ops.rand_uniform (4 / 10) (6 / 10) (ops.rand_bool rgen).2).2 g
  have hg := (hops.2 (-(1 / 10)) (1 / 2) g (by norm_num)).2
  unfold gen_house_two_parts
  simp only []
  generalize gen_house_part_draws ops base 1
    (ops.rand_uniform (4 / 10) (6 / 10) (ops.rand_bool rgen).2).2 g = dr at hdh ⊢
  obtain ⟨dim, dir2, sh0, sh1, delta, r3, g1⟩ := dr
  simp only [] at hdh ⊢
  have hdelta : delta ≤ 1 / 2 := by
    rw [hdh]
    exact max_le (by norm_num) hg
  have key : ∀ c : cube_t,
      (if env.ADD_BUILDING_INTERIORS = true then
        adjust_part_zvals_for_floor_spacing env.EXACT_MULT_FLOOR_HEIGHT b.mat.floor_spacing c
      else some c) = none → c.z1 = base.z1 → c.z2 = base.z2 - delta * base.dz → False := by
    intro c hc h1 h2
    have hcz : 0 < c.dz := by
      unfold cube_t.dz at hdz ⊢
      rw [h1, h2]
      unfold cube_t.dz
      nlinarith
    obtain ⟨c2, hc2⟩ := adjust_part_zvals_some env.EXACT_MULT_FLOOR_HEIGHT b.mat.floor_spacing c
      hS hcz
    rw [hc2] at hc
    split_ifs at hc
  split
  · rename_i hnone
    exfalso
    refine key _ hnone ?_ ?_
    · simp only [(cube_t.set_xy_z _ _ _ _).1]
    · simp only [(cube_t.set_xy_z _ _ _ _).2, (cube_t.set_xy_z _ _ _ _).1, cube_t.dz]
  · rename_i part1 hpart1
    clear hpart1 key
    simp only [if_true]
    have hdt3 : (ops.rand (ops.rand_bool r3).2).1 % 3 < 3 := Nat.mod_lt _ (by norm_num)
    generalize (ops.rand (ops.rand_bool r3).2).1 % 3 = dt at hdt3 ⊢
    generalize (ops.rand_bool r3).1 = fb
    by_cases h0 : dt ≠ 0
    · rw [if_pos h0]
      have hlen := gen_house_detail_extra ops base part1
        (base.set dim.toNat (!(ops.rand_bool rgen).1)
          ((base.set dim.toNat (ops.rand_bool rgen).1
            (base.d dim.toNat (ops.rand_bool rgen).1 +
              ((ops.rand_uniform (4 / 10) (6 / 10) (ops.rand_bool rgen).2).1 *
                if (ops.rand_bool rgen).1 = true then -1 else 1) *
                base.get_size.get dim.toNat)).d dim.toNat (ops.rand_bool rgen).1))
        dim (ops.rand_bool rgen).1 dir2 dt gd dd
        (if dd = dim ∧ dt = 0 then !if dd = dim then (ops.rand_bool rgen).1 else dir2
          else if dd = dim then (ops.rand_bool rgen).1 else dir2)
        dh (ops.rand (ops.rand_bool r3).2).2 (by omega)
      generalize gen_house_detail ops base part1 _ dim _ dir2 dt gd dd _ dh _ = det at hlen ⊢
      simp only [List.cons_append, List.nil_append, calc_bcube_from_parts]
      refine ⟨_, rfl, ?_, ?_, ?_⟩
      · cases fb <;> simp
      · intro hf
        subst hf
        simp
      · intro _
        simp only [List.length_cons, hlen]
        generalize det.2.1.toNat = t
        omega
    · rw [if_neg h0]
      simp only [calc_bcube_from_parts]
      refine ⟨_, rfl, ?_, ?_, ?_⟩
      · cases fb <;> simp
      · intro hf
        subst hf
        simp
      · intro h1
        exact absurd h1 h0

/-- An L-shaped house on the base `[0,10]³` with the draws `0, 0, 0, 0, 0, 0, 2`: the roof axes
are not forced and a garage is added; `force_dim[1]` is 0 and three parts get a roof. -/
theorem gen_house_force_dim_L_shape_witness :
    (script_ops []).in_range ∧ 0 < demo_house.mat.floor_spacing ∧
      0 < (⟨0, 10, 0, 10, 0, 10⟩ : cube_t).dz ∧
      ∃ h : house_parts (List Nat) (List Nat),
        gen_house_two_parts (demo_env 0 1 false) (script_ops []) demo_house
          ⟨0, 10, 0, 10, 0, 10⟩ 1 false false (3 / 2) [0, 0, 0, 0, 0, 0, 2] [] = some h ∧
        h.force_dim 2 = (demo_env 0 1 false).force_dim_oob ∧
        h.force_dim 0 = 2 ∧ h.force_dim 1 = 0 ∧
        h.b.parts.length - h.skip_last_roof.toNat = 3 :=
  have hfb : ((script_ops []).rand_bool (gen_house_part_draws (script_ops [])
      ⟨0, 10, 0, 10, 0, 10⟩ 1 ((script_ops []).rand_uniform (4 / 10) (6 / 10)
        ((script_ops []).rand_bool [0, 0, 0, 0, 0, 0, 2]).2).2 []).2.2.2.2.2.1).1 = false := by
    simp [gen_house_part_draws, script_ops]
  have hdt : ((script_ops []).rand ((script_ops []).rand_bool (gen_house_part_draws
      (script_ops []) ⟨0, 10, 0, 10, 0, 10⟩ 1 ((script_ops []).rand_uniform (4 / 10) (6 / 10)
        ((script_ops []).rand_bool [0, 0, 0, 0, 0, 0, 2]).2).2 []).2.2.2.2.2.1).2).1 % 3 ≠ 0 := by
    simp [gen_house_part_draws, script_ops]
  have hS : 0 < demo_house.mat.floor_spacing := by
    norm_num [demo_house, demo_building, demo_mat]
  have hdz : 0 < (⟨0, 10, 0, 10, 0, 10⟩ : cube_t).dz := by norm_num [cube_t.dz]
  ⟨script_ops_in_range [], hS, hdz,
    (gen_house_force_dim_L_shape (demo_env 0 1 false) (script_ops []) (script_ops_in_range [])
      demo_house ⟨0, 10, 0, 10, 0, 10⟩ false false (3 / 2) [0, 0, 0, 0, 0, 0, 2] [] hS hdz).elim
      (fun h hh => ⟨h, hh.1, hh.2.1, (hh.2.2.1 hfb).1, (hh.2.2.1 hfb).2.1, hh.2.2.2 hdt⟩)⟩

/-! ### C32: the rooms of the hallway layout -/

theorem min_add_min (hi a c : ℚ) (hc : 0 ≤ c) : min hi (min hi a + c) = min hi (a + c) := by
  rcases le_total hi a with h | h
  · rw [min_eq_left h, min_eq_left (by linarith), min_eq_left (by linarith)]
  · rw [min_eq_right h]

theorem length_flatMap_pair {α β : Type} (f g : α → β) (l : List α) :
    (l.flatMap (fun i => [f i, g i])).length = 2 * l.length := by
  induction l with
  | nil => rfl
  | cons a l ih =>
    rw [List.flatMap_cons, List.length_append, ih]
    simp only [List.length_cons, List.length_nil]
    omega

/-- The room loop of the hallway layout appends, for `i = 0 .. n-1`, the two rooms of the pair
`i`, which reach from `min hi (pos + i * room_len)` to `min hi (pos + (i+1) * room_len)`. -/
theorem gen_interior_hallway_rooms_eq (p : cube_t) (min_dim : Bool) (rl rw : ℚ) (hrl : 0 ≤ rl) :
    ∀ (n : Nat) (pos : ℚ) (rooms : List cube_t), pos ≤ p.d (!min_dim).toNat true →
      gen_interior_hallway_rooms p min_dim rl rw n pos rooms
        = rooms ++ (List.range n).flatMap (fun i =>
          [gen_interior_hallway_room p min_dim rw
              (min (p.d (!min_dim).toNat true) (pos + (i : ℚ) * rl))
              (min (p.d (!min_dim).toNat true) (pos + ((i : ℚ) + 1) * rl)) false,
            gen_interior_hallway_room p min_dim rw
              (min (p.d (!min_dim).toNat true) (pos + (i : ℚ) * rl))
              (min (p.d (!min_dim).toNat true) (pos + ((i : ℚ) + 1) * rl)) true]) := by
  intro n
  induction n with
  | zero => intro pos rooms _; simp [gen_interior_hallway_rooms]
  | succ n ih =>
    intro pos rooms hpos
    rw [gen_interior_hallway_rooms]
    rw [ih _ _ (min_le_left _ _), List.range_succ_eq_map, List.flatMap_cons, List.flatMap_map,
      List.append_assoc]
    congr 1
    have e0 : min (p.d (!min_dim).toNat true) (pos + ((0 : Nat) : ℚ) * rl) = pos := by
      rw [Nat.cast_zero, zero_mul, add_zero, min_eq_right hpos]
    have e1 : min (p.d (!min_dim).toNat true) (pos + (((0 : Nat) : ℚ) + 1) * rl)
        = min (p.d (!min_dim).toNat true) (pos + rl) := by
      rw [Nat.cast_zero, zero_add, one_mul]
    rw [e0, e1]
    congr 1
    apply List.flatMap_congr
    intro i _
    have k1 : min (p.d (!min_dim).toNat true)
        (min (p.d (!min_dim).toNat true) (pos + rl) + (i : ℚ) * rl)
        = min (p.d (!min_dim).toNat true) (pos + ((i.succ : Nat) : ℚ) * rl) := by
      rw [min_add_min _ _ _ (mul_nonneg (Nat.cast_nonneg i) hrl)]
      congr 1
      push_cast
      ring
    have k2 : min (p.d (!min_dim).toNat true)
        (min (p.d (!min_dim).toNat true) (pos + rl) + ((i : ℚ) + 1) * rl)
        = min (p.d (!min_dim).toNat true) (pos + (((i.succ : Nat) : ℚ) + 1) * rl) := by
      rw [min_add_min _ _ _ (mul_nonneg (by positivity) hrl)]
      congr 1
      push_cast
      ring
    rw [k1, k2]

/-- The number of rooms per row is the number of windows over the windows per room, rounded
up. -/
theorem hallway_num_rooms_spec (nw : ℤ) (hnw : 1 ≤ nw) :
    hallway_num_rooms nw = ⌈(nw : ℚ) / (hallway_windows_per_room nw : ℚ)⌉ ∧
      1 ≤ hallway_windows_per_room nw ∧ 1 ≤ hallway_num_rooms nw ∧
      (hallway_num_rooms nw - 1) * hallway_windows_per_room nw < nw ∧
      nw ≤ hallway_num_rooms nw * hallway_windows_per_room nw := by
  unfold hallway_num_rooms hallway_windows_per_room
  by_cases h5 : nw > 5
  · rw [if_pos h5, Int.tdiv_eq_ediv (by omega) (by norm_num)]
    have f1 : 2 * ((nw + 2 - 1) / 2) ≤ nw + 1 := by omega
    have f2 : nw ≤ 2 * ((nw + 2 - 1) / 2) := by omega
    refine ⟨?_, by norm_num, by omega, by omega, by omega⟩
    symm
    rw [Int.ceil_eq_iff]
    have g1 : (2 : ℚ) * (((nw + 2 - 1) / 2 : ℤ) : ℚ) ≤ (nw : ℚ) + 1 := by exact_mod_cast f1
    have g2 : (nw : ℚ) ≤ 2 * (((nw + 2 - 1) / 2 : ℤ) : ℚ) := by exact_mod_cast f2
    push_cast
    constructor
    · rw [lt_div_iff₀ (by norm_num)]
      linarith
    · rw [div_le_iff₀ (by norm_num)]
      linarith
  · rw [if_neg h5, Int.tdiv_eq_ediv (by omega) (by norm_num)]
    refine ⟨?_, by norm_num, by omega, by omega, by omega⟩
    simp

/-- The positions of the pairs of rooms: the first pair starts at the low end of the part, the
last one ends at its high end, and every pair has a positive length. -/
theorem hallway_room_pos_spec (p : cube_t) (min_dim : Bool) (nw : ℤ) (hnw : 1 ≤ nw)
    (hlen : p.d (!min_dim).toNat false < p.d (!min_dim).toNat true) :
    hallway_room_pos p min_dim (hallway_room_len p min_dim nw) 0 = p.d (!min_dim).toNat false ∧
      hallway_room_pos p min_dim (hallway_room_len p min_dim nw) (hallway_num_rooms nw).toNat
        = p.d (!min_dim).toNat true ∧
      ∀ i, i < (hallway_num_rooms nw).toNat →
        hallway_room_pos p min_dim (hallway_room_len p min_dim nw) i
          < hallway_room_pos p min_dim (hallway_room_len p min_dim nw) (i + 1) := by
  obtain ⟨-, hw1, hn1, hlt, hge⟩ := hallway_num_rooms_spec nw hnw
  have hnwq : (0 : ℚ) < (nw : ℚ) := by exact_mod_cast (by omega : (0 : ℤ) < nw)
  have hwq : (1 : ℚ) ≤ (hallway_windows_per_room nw : ℚ) := by exact_mod_cast hw1
  have hL : 0 < p.d (!min_dim).toNat true - p.d (!min_dim).toNat false := by linarith
  have hrl : hallway_room_len p min_dim nw
      = (p.d (!min_dim).toNat true - p.d (!min_dim).toNat false)
        * ((hallway_windows_per_room nw : ℚ) / (nw : ℚ)) := by
    unfold hallway_room_len
    rw [cube_t.get_size_get]
    field_simp
  have hratio : 0 < (hallway_windows_per_room nw : ℚ) / (nw : ℚ) := by positivity
  have hrl0 : 0 < hallway_room_len p min_dim nw := by
    rw [hrl]
    exact mul_pos hL hratio
  -- the cast of the number of rooms
  have hcast : (((hallway_num_rooms nw).toNat : ℕ) : ℤ) = hallway_num_rooms nw :=
    Int.toNat_of_nonneg (by omega)
  have hcastq : (((hallway_num_rooms nw).toNat : ℕ) : ℚ) = ((hallway_num_rooms nw : ℤ) : ℚ) := by
    exact_mod_cast hcast
  -- before the last pair the position is inside the part
  have inside : ∀ i : Nat, i < (hallway_num_rooms nw).toNat →
      (i : ℚ) * hallway_room_len p min_dim nw
        < p.d (!min_dim).toNat true - p.d (!min_dim).toNat false := by
    intro i hi
    have hi2 : (i : ℤ) ≤ hallway_num_rooms nw - 1 := by omega
    have hi3 : (i : ℤ) * hallway_windows_per_room nw < nw :=
      lt_of_le_of_lt (Int.mul_le_mul_of_nonneg_right hi2 (by omega)) hlt
    have hi4 : (i : ℚ) * (hallway_windows_per_room nw : ℚ) < (nw : ℚ) := by exact_mod_cast hi3
    have hi5 : (i : ℚ) * ((hallway_windows_per_room nw : ℚ) / (nw : ℚ)) < 1 := by
      rw [← mul_div_assoc, div_lt_one hnwq]
      exact hi4
    rw [hrl]
    calc (i : ℚ) * ((p.d (!min_dim).toNat true - p.d (!min_dim).toNat false)
          * ((hallway_windows_per_room nw : ℚ) / (nw : ℚ)))
        = (p.d (!min_dim).toNat true - p.d (!min_dim).toNat false)
          * ((i : ℚ) * ((hallway_windows_per_room nw : ℚ) / (nw : ℚ))) := by ring
      _ < (p.d (!min_dim).toNat true - p.d (!min_dim).toNat false) * 1 :=
          mul_lt_mul_of_pos_left hi5 hL
      _ = p.d (!min_dim).toNat true - p.d (!min_dim).toNat false := by ring
  refine ⟨?_, ?_, ?_⟩
  · unfold hallway_room_pos
    rw [Nat.cast_zero, zero_mul, add_zero, min_eq_right hlen.le]
  · unfold hallway_room_pos
    apply min_eq_left
    have hge2 : (nw : ℚ) ≤ ((hallway_num_rooms nw : ℤ) : ℚ) * (hallway_windows_per_room nw : ℚ) := by
      exact_mod_cast hge
    have h1 : 1 ≤ ((hallway_num_rooms nw : ℤ) : ℚ)
        * ((hallway_windows_per_room nw : ℚ) / (nw : ℚ)) := by
      rw [← mul_div_assoc, le_div_iff₀ hnwq, one_mul]
      exact hge2
    rw [hcastq, hrl]
    nlinarith [mul_le_mul_of_nonneg_left h1 hL.le]
  · intro i hi
    have h1 := inside i hi
    unfold hallway_room_pos
    rw [min_eq_right (by linarith)]
    apply lt_min
    · linarith
    · push_cast
      linarith

/-- C32 (the sanity check): a part `[0,1000] x [0,50] x [0,3]` has 2000 windows along the
hallway axis x (window scale 1), that is 1000 rooms per row: the `assert(... num_rooms < 1000)`
fails and no room is emitted. -/
theorem gen_interior_hallway_sanity_check :
    get_num_windows_on_side (demo_env 0 1 true) (demo_building ⟨0, 1000, 0, 50, 0, 3⟩)
        ((⟨0, 1000, 0, 50, 0, 3⟩ : cube_t).d (!true).toNat false)
        ((⟨0, 1000, 0, 50, 0, 3⟩ : cube_t).d (!true).toNat true) = some 2000 ∧
      hallway_num_rooms 2000 = 1000 ∧
      gen_interior_hallway (demo_env 0 1 true) (demo_building ⟨0, 1000, 0, 50, 0, 3⟩)
        (interior_dims.of (demo_env 0 1 true) (demo_building ⟨0, 1000, 0, 50, 0, 3⟩))
        ⟨0, 1000, 0, 50, 0, 3⟩ true (demo_interior_state []) = none := by
  have h1 : get_num_windows_on_side (demo_env 0 1 true) (demo_building ⟨0, 1000, 0, 50, 0, 3⟩)
      ((⟨0, 1000, 0, 50, 0, 3⟩ : cube_t).d (!true).toNat false)
      ((⟨0, 1000, 0, 50, 0, 3⟩ : cube_t).d (!true).toNat true) = some 2000 := by
    norm_num [get_num_windows_on_side, demo_env, demo_building, demo_mat, round_fp, cube_t.d]
  have h2 : get_num_windows_on_side (demo_env 0 1 true) (demo_building ⟨0, 1000, 0, 50, 0, 3⟩)
      ((⟨0, 1000, 0, 50, 0, 3⟩ : cube_t).d true.toNat false)
      ((⟨0, 1000, 0, 50, 0, 3⟩ : cube_t).d true.toNat true) = some 100 := by
    norm_num [get_num_windows_on_side, demo_env, demo_building, demo_mat, round_fp, cube_t.d]
  have hn : hallway_num_rooms 2000 = 1000 := by decide
  refine ⟨h1, hn, ?_⟩
  unfold gen_interior_hallway
  simp only []
  rw [h1, h2]
  simp only []
  rw [if_neg (by rw [hn]; norm_num)]

/-- C32: in the hallway layout of a part with `num_windows ≥ 1` windows along the hallway axis
and fewer than 1000 rooms per row, `gen_interior_hallway` returns, and it appends
`2 * num_rooms` rooms with `num_rooms = ⌈num_windows / windows_per_room⌉`: for
`i = 0 .. num_rooms-1` the room of the row 0 and the room of the row 1 from `pos i` to
`pos (i+1)` along the hallway axis. The positions start at the low end of the part, end at its
high end and increase strictly, so the consecutive rooms of a row abut without gap or overlap
and span the part. A room of the row 0 reaches from the low side of the part to
`hall_wall_pos[0]`, a room of the row 1 from `hall_wall_pos[1]` to the high side; both are
`room_width` wide, and the strip between the rows is `hall_width` wide, which is 1 (odd
orthogonal window count) or 2 (even) times the width of the part over that count. -/
theorem gen_interior_hallway_rows {R : Type} (env : Env) (b : building_t) (k : interior_dims)
    (p : cube_t) (min_dim : Bool) (st : interior_state R) (nw nwod : ℤ)
    (h1 : get_num_windows_on_side env b (p.d (!min_dim).toNat false) (p.d (!min_dim).toNat true)
      = some nw)
    (h2 : get_num_windows_on_side env b (p.d min_dim.toNat false) (p.d min_dim.toNat true)
      = some nwod)
    (hnw : 1 ≤ nw) (hnr : hallway_num_rooms nw < 1000) :
    ∃ st1, gen_interior_hallway env b k p min_dim st = some st1 ∧
      hallway_num_rooms nw = ⌈(nw : ℚ) / (hallway_windows_per_room nw : ℚ)⌉ ∧
      st1.interior.rooms = st.interior.rooms ++
        (List.range (hallway_num_rooms nw).toNat).flatMap (fun i =>
          [gen_interior_hallway_room p min_dim (hallway_room_width p min_dim nwod)
              (hallway_room_pos p min_dim (hallway_room_len p min_dim nw) i)
              (hallway_room_pos p min_dim (hallway_room_len p min_dim nw) (i + 1)) false,
            gen_interior_hallway_room p min_dim (hallway_room_width p min_dim nwod)
              (hallway_room_pos p min_dim (hallway_room_len p min_dim nw) i)
              (hallway_room_pos p min_dim (hallway_room_len p min_dim nw) (i + 1)) true]) ∧
      st1.interior.rooms.length
        = st.interior.rooms.length + 2 * (hallway_num_rooms nw).toNat ∧
      hallway_room_pos p min_dim (hallway_room_len p min_dim nw) 0
        = p.d (!min_dim).toNat false ∧
      hallway_room_pos p min_dim (hallway_room_len p min_dim nw) (hallway_num_rooms nw).toNat
        = p.d (!min_dim).toNat true ∧
      (∀ i, i < (hallway_num_rooms nw).toNat →
        hallway_room_pos p min_dim (hallway_room_len p min_dim nw) i
          < hallway_room_pos p min_dim (hallway_room_len p min_dim nw) (i + 1)) ∧
      (∀ (a c : ℚ) (d : Bool),
        (gen_interior_hallway_room p min_dim (hallway_room_width p min_dim nwod) a c d).d
            (!min_dim).toNat false = a ∧
        (gen_interior_hallway_room p min_dim (hallway_room_width p min_dim nwod) a c d).d
            (!min_dim).toNat true = c ∧
        (gen_interior_hallway_room p min_dim (hallway_room_width p min_dim nwod) a c d).d
            min_dim.toNat true
          - (gen_interior_hallway_room p min_dim (hallway_room_width p min_dim nwod) a c d).d
            min_dim.toNat false = hallway_room_width p min_dim nwod) ∧
      (∀ (a c : ℚ),
        (gen_interior_hallway_room p min_dim (hallway_room_width p min_dim nwod) a c false).d
            min_dim.toNat false = p.d min_dim.toNat false ∧
        (gen_interior_hallway_room p min_dim (hallway_room_width p min_dim nwod) a c true).d
            min_dim.toNat true = p.d min_dim.toNat true ∧
        (gen_interior_hallway_room p min_dim (hallway_room_width p min_dim nwod) a c true).d
            min_dim.toNat false
          - (gen_interior_hallway_room p min_dim (hallway_room_width p min_dim nwod) a c false).d
            min_dim.toNat true = hallway_hall_width p min_dim nwod) ∧
      hallway_hall_width p min_dim nwod
        = (if nwod % 2 = 1 then (1 : ℚ) else 2) * p.get_size.get min_dim.toNat / (nwod : ℚ) := by
  obtain ⟨hceil, hw1, hn1, hlt, hge⟩ := hallway_num_rooms_spec nw hnw
  have hlen : p.d (!min_dim).toNat false < p.d (!min_dim).toNat true := by
    unfold get_num_windows_on_side at h1
    by_contra hc
    rw [if_neg hc] at h1
    exact absurd h1 (by simp)
  obtain ⟨hp0, hpn, hpi⟩ := hallway_room_pos_spec p min_dim nw hnw hlen
  have hnwq : (0 : ℚ) < (nw : ℚ) := by exact_mod_cast (by omega : (0 : ℤ) < nw)
  have hwq : (0 : ℚ) < (hallway_windows_per_room nw : ℚ) := by
    exact_mod_cast (by omega : (0 : ℤ) < hallway_windows_per_room nw)
  have hrl0 : 0 ≤ hallway_room_len p min_dim nw := by
    unfold hallway_room_len
    rw [cube_t.get_size_get]
    have : 0 ≤ p.d (!min_dim).toNat true - p.d (!min_dim).toNat false := by linarith
    positivity
  have hrooms := gen_interior_hallway_rooms_eq p min_dim (hallway_room_len p min_dim nw)
    (hallway_room_width p min_dim nwod) hrl0 (hallway_num_rooms nw).toNat
    (p.d (!min_dim).toNat false) st.interior.rooms hlen.le
  have hpos : ∀ i : Nat, min (p.d (!min_dim).toNat true)
      (p.d (!min_dim).toNat false + ((i : ℚ) + 1) * hallway_room_len p min_dim nw)
      = hallway_room_pos p min_dim (hallway_room_len p min_dim nw) (i + 1) := by
    intro i
    unfold hallway_room_pos
    push_cast
    rfl
  simp only [hpos] at hrooms
  have hgeom : ∀ (a c : ℚ) (d : Bool),
      (gen_interior_hallway_room p min_dim (hallway_room_width p min_dim nwod) a c d).d
          (!min_dim).toNat false = a ∧
      (gen_interior_hallway_room p min_dim (hallway_room_width p min_dim nwod) a c d).d
          (!min_dim).toNat true = c ∧
      (gen_interior_hallway_room p min_dim (hallway_room_width p min_dim nwod) a c d).d
          min_dim.toNat true
        - (gen_interior_hallway_room p min_dim (hallway_room_width p min_dim nwod) a c d).d
          min_dim.toNat false = hallway_room_width p min_dim nwod := by
    intro a c d
    cases min_dim <;> cases d <;>
      simp [gen_interior_hallway_room, hall_wall_pos, cube_t.set, cube_t.d]
  have hstrip : ∀ (a c : ℚ),
      (gen_interior_hallway_room p min_dim (hallway_room_width p min_dim nwod) a c false).d
          min_dim.toNat false = p.d min_dim.toNat false ∧
      (gen_interior_hallway_room p min_dim (hallway_room_width p min_dim nwod) a c true).d
          min_dim.toNat true = p.d min_dim.toNat true ∧
      (gen_interior_hallway_room p min_dim (hallway_room_width p min_dim nwod) a c true).d
          min_dim.toNat false
        - (gen_interior_hallway_room p min_dim (hallway_room_width p min_dim nwod) a c false).d
          min_dim.toNat true = hallway_hall_width p min_dim nwod := by
    intro a c
    have hw : hallway_room_width p min_dim nwod
        = (1 / 2) * (p.d min_dim.toNat true - p.d min_dim.toNat false
          - hallway_hall_width p min_dim nwod) := by
      unfold hallway_room_width
      rw [cube_t.get_size_get]
    cases min_dim <;>
      simp [gen_interior_hallway_room, hall_wall_pos, cube_t.set, cube_t.d] <;>
      (simp [cube_t.d] at hw; rw [hw]; ring)
  unfold gen_interior_hallway
  simp only []
  rw [h1, h2]
  simp only []
  rw [if_pos ⟨by omega, hnr⟩]
  refine ⟨_, rfl, hceil, hrooms, ?_, hp0, hpn, hpi, hgeom, hstrip, rfl⟩
  show (gen_interior_hallway_rooms p min_dim (hallway_room_len p min_dim nw)
    (hallway_room_width p min_dim nwod) (hallway_num_rooms nw).toNat
    (p.d (!min_dim).toNat false) st.interior.rooms).length = _
  rw [hrooms, List.length_append, length_flatMap_pair, List.length_range]

/-- The part `[0,60] x [0,30] x [0,3]` with the hallway along x and window scale 1: 120 windows
along the hallway, 60 across, and 2 * 60 rooms. -/
theorem gen_interior_hallway_rows_witness :
    get_num_windows_on_side (demo_env 0 1 true) (demo_building ⟨0, 60, 0, 30, 0, 3⟩)
        ((⟨0, 60, 0, 30, 0, 3⟩ : cube_t).d (!true).toNat false)
        ((⟨0, 60, 0, 30, 0, 3⟩ : cube_t).d (!true).toNat true) = some 120 ∧
      (1 : ℤ) ≤ 120 ∧ hallway_num_rooms 120 < 1000 ∧
      ∃ st1, gen_interior_hallway (demo_env 0 1 true) (demo_building ⟨0, 60, 0, 30, 0, 3⟩)
          (interior_dims.of (demo_env 0 1 true) (demo_building ⟨0, 60, 0, 30, 0, 3⟩))
          ⟨0, 60, 0, 30, 0, 3⟩ true (demo_interior_state []) = some st1 ∧
        st1.interior.rooms.length
          = (demo_interior_state []).interior.rooms.length + 2 * (hallway_num_rooms 120).toNat :=
  have h1 : get_num_windows_on_side (demo_env 0 1 true) (demo_building ⟨0, 60, 0, 30, 0, 3⟩)
      ((⟨0, 60, 0, 30, 0, 3⟩ : cube_t).d (!true).toNat false)
      ((⟨0, 60, 0, 30, 0, 3⟩ : cube_t).d (!true).toNat true) = some 120 := by
    norm_num [get_num_windows_on_side, demo_env, demo_building, demo_mat, round_fp, cube_t.d]
  have h2 : get_num_windows_on_side (demo_env 0 1 true) (demo_building ⟨0, 60, 0, 30, 0, 3⟩)
      ((⟨0, 60, 0, 30, 0, 3⟩ : cube_t).d true.toNat false)
      ((⟨0, 60, 0, 30, 0, 3⟩ : cube_t).d true.toNat true) = some 60 := by
    norm_num [get_num_windows_on_side, demo_env, demo_building, demo_mat, round_fp, cube_t.d]
  ⟨h1, by norm_num, by decide,
    (gen_interior_hallway_rows (demo_env 0 1 true) (demo_building ⟨0, 60, 0, 30, 0, 3⟩)
      (interior_dims.of (demo_env 0 1 true) (demo_building ⟨0, 60, 0, 30, 0, 3⟩))
      ⟨0, 60, 0, 30, 0, 3⟩ true (demo_interior_state []) 120 60 h1 h2 (by norm_num)
      (by decide)).elim (fun st1 hh => ⟨st1, hh.1, hh.2.2.2.1⟩)⟩

end Building
